import Mathlib

/-!
# cable.js wire-format codec: shallow embedding and verification

This file embeds the binary codec of the cable.js repository
(src/index.js together with src/validation.js, src/cryptography.js and the
constants table) as executable Lean definitions, and proves or refutes the
frozen specification claims about it.

Modelling conventions:

* A buffer (b4a buffer / Uint8Array) is a `List Nat` of byte values.
  JS `buf.slice(a, b)` clamps its bounds, exactly like `List.take`/`List.drop`.
* JS strings passed to the codec are represented by their UTF-8 byte lists
  (the codec immediately converts every string argument with
  `b4a.from(s, "utf8")` and back with `b4a.toString(buf, "utf8")`, and it
  measures lengths on the byte buffers).
* A JS function that can `throw` is modelled with the `Outcome` type below;
  `Outcome.threw` is a thrown exception, `Outcome.retErr` is the distinct
  situation (present in this source) where the function RETURNS an `Error`
  object as its value instead of raising it, and `Outcome.ok` is a normal
  return.
* `varint.decode` results that are `undefined` in JS (the decodeVarintSlice
  helper runs out of windows) are modelled with `Option`; each use site
  mirrors what the JS code does with the `undefined` value at that site
  (documented inline).
* The sodium signature primitives are external to the repository; per the
  spec they are a black-box deterministic signature scheme.  They are
  modelled by the `SigScheme` structure whose fields are the interface the
  codec relies on.
-/

set_option maxRecDepth 10000
set_option linter.unusedVariables false

namespace Cable

/-! ## Constants (src/constants.js, the revision used by src/index.js) -/

namespace constants

def HASH_RESPONSE : Nat := 0
def POST_RESPONSE : Nat := 1
def CHANNEL_LIST_RESPONSE : Nat := 7
def POST_REQUEST : Nat := 2
def CANCEL_REQUEST : Nat := 3
def TIME_RANGE_REQUEST : Nat := 4
def CHANNEL_STATE_REQUEST : Nat := 5
def CHANNEL_LIST_REQUEST : Nat := 6
def MODERATION_STATE_REQUEST : Nat := 8

def TEXT_POST : Nat := 0
def DELETE_POST : Nat := 1
def INFO_POST : Nat := 2
def TOPIC_POST : Nat := 3
def JOIN_POST : Nat := 4
def LEAVE_POST : Nat := 5
def ROLE_POST : Nat := 6
def MODERATION_POST : Nat := 7
def BLOCK_POST : Nat := 8
def UNBLOCK_POST : Nat := 9

def ACTION_HIDE_USER : Nat := 0
def ACTION_UNHIDE_USER : Nat := 1
def ACTION_HIDE_POST : Nat := 2
def ACTION_UNHIDE_POST : Nat := 3
def ACTION_DROP_POST : Nat := 4
def ACTION_UNDROP_POST : Nat := 5
def ACTION_DROP_CHANNEL : Nat := 6
def ACTION_UNDROP_CHANNEL : Nat := 7

def MAX_VARINT_SIZE : Nat := 10

def REQID_SIZE : Nat := 4
def CIRCUITID_SIZE : Nat := 4
def HASH_SIZE : Nat := 32
def PUBLICKEY_SIZE : Nat := 32
def SECRETKEY_SIZE : Nat := 64
def SIGNATURE_SIZE : Nat := 64

def USER_NAME_MIN_CODEPOINTS : Nat := 1
def USER_NAME_MAX_CODEPOINTS : Nat := 32
def CHANNEL_NAME_MIN_CODEPOINTS : Nat := 1
def CHANNEL_NAME_MAX_CODEPOINTS : Nat := 64
def POST_TEXT_MAX_BYTES : Nat := 4096
def INFO_KEY_MIN_CODEPOINTS : Nat := 1
def INFO_KEY_MAX_CODEPOINTS : Nat := 128
def INFO_VALUE_MAX_BYTES : Nat := 4096
def TOPIC_MIN_CODEPOINTS : Nat := 0
def TOPIC_MAX_CODEPOINTS : Nat := 512
def REASON_MIN_CODEPOINTS : Nat := 0
def REASON_MAX_CODEPOINTS : Nat := 128
def RECIPIENT_COUNT_MIN : Nat := 1
def RECIPIENT_COUNT_MAX : Nat := 16

end constants

/-- The largest integer the varint npm package will encode:
JS `Number.MAX_SAFE_INTEGER`, 2^53 - 1.  `varint.encode` raises for larger
inputs, so no `create` call can ever embed a larger value. -/
def maxSafeInteger : Nat := 2 ^ 53 - 1

/-! ## Varint codec (the varint npm package, as used by src/index.js) -/

/-- LEB128 varint encoding, 7 data bits per byte, continuation bit on every
byte except the last, least significant group first (varint.encode for a
nonnegative integer within the safe range). -/
def veAux : Nat → Nat → List Nat
  | 0, _ => []
  | fuel + 1, n => if n < 128 then [n] else (n % 128 + 128) :: veAux fuel (n / 128)

/-- The loop runs at most once per remaining value of n, so n + 1 units of
fuel always suffice; the fuel only makes the recursion structural. -/
def varintEncode (n : Nat) : List Nat := veAux (n + 1) n

theorem veAux_eq (n : Nat) : ∀ f1 f2, n < f1 → n < f2 → veAux f1 n = veAux f2 n := by
  induction n using Nat.strong_induction_on with
  | _ n ih =>
    intro f1 f2 h1 h2
    match f1, f2 with
    | g1 + 1, g2 + 1 =>
      simp only [veAux]
      by_cases hn : n < 128
      · simp [hn]
      · simp only [if_neg hn]
        congr 1
        have hlt : n / 128 < n := Nat.div_lt_self (by omega) (by omega)
        exact ih (n / 128) hlt g1 g2 (by omega) (by omega)

/-- Core of varint.decode (the read function of the varint package):
consumes LEB128 bytes from the front of a list.  Fails (the package throws
RangeError) when the list ends before a byte with a clear continuation bit,
or when more than eight bytes would be read (the shift-greater-than-49
guard).  Returns the decoded value together with the number of bytes
consumed (the value the package exposes as varint.decode.bytes). -/
def vdecAux : Nat → List Nat → Option (Nat × Nat)
  | 0, _ => none
  | _ + 1, [] => none
  | fuel + 1, b :: rest =>
    if b < 128 then some (b, 1)
    else
      match vdecAux fuel rest with
      | some (v, k) => some (b % 128 + 128 * v, k + 1)
      | none => none

/-- varint.decode applied at the start of a list. -/
def varintDecode (l : List Nat) : Option (Nat × Nat) := vdecAux 8 l

/-- The window loop of decodeVarintSlice from src/index.js: attempt
varint.decode on the slices frame[offset .. offset+i) for i = 1 .. 9
(the loop bound is MAX_VARINT_SIZE = 10, exclusive), returning the first
success.  `j` counts the windows still to try; the window width attempted at
fuel `j + 1` is `10 - (j + 1)`. -/
def dvsAux (s : List Nat) : Nat → Option (Nat × Nat)
  | 0 => none
  | j + 1 =>
    match varintDecode (s.take (10 - (j + 1))) with
    | some r => some r
    | none => dvsAux s j

/-- decodeVarintSlice from src/index.js.  On total failure the JS function
returns `undefined` and leaves the varint.decode.bytes global at 0; this is
modelled by `none`, and every use site mirrors what the source subsequently
does with the undefined value. -/
def decodeVarintSlice (frame : List Nat) (offset : Nat) : Option (Nat × Nat) :=
  dvsAux (frame.drop offset) 9

/-! ## Basic varint lemmas -/

theorem varintEncode_small (n : Nat) (h : n < 128) : varintEncode n = [n] := by
  unfold varintEncode veAux
  simp [h]

theorem varintEncode_large (n : Nat) (h : ¬ n < 128) :
    varintEncode n = (n % 128 + 128) :: varintEncode (n / 128) := by
  have e1 : varintEncode n = (n % 128 + 128) :: veAux n (n / 128) := by
    show veAux (n + 1) n = _
    rw [veAux, if_neg h]
  rw [e1]
  have hlt : n / 128 < n := Nat.div_lt_self (by omega) (by omega)
  rw [veAux_eq (n / 128) n (n / 128 + 1) (by omega) (by omega)]
  rfl

theorem varintEncode_length_pos (n : Nat) : 0 < (varintEncode n).length := by
  unfold varintEncode veAux
  by_cases h : n < 128 <;> simp [h]

theorem varintEncode_length_le (k : Nat) :
    ∀ n : Nat, n < 2 ^ (7 * k + 7) → (varintEncode n).length ≤ k + 1 := by
  induction k with
  | zero =>
    intro n h
    rw [varintEncode_small n (by norm_num at h; omega)]
    simp
  | succ k ih =>
    intro n h
    by_cases hs : n < 128
    · rw [varintEncode_small n hs]; simp
    · rw [varintEncode_large n hs]
      simp only [List.length_cons]
      have hd : n / 128 < 2 ^ (7 * k + 7) := by
        have h7 : (2 : Nat) ^ (7 * (k + 1) + 7) = 2 ^ (7 * k + 7) * 128 := by
          have he : 7 * (k + 1) + 7 = (7 * k + 7) + 7 := by ring
          rw [he, pow_add]; norm_num
        rw [h7] at h
        exact Nat.div_lt_of_lt_mul (by omega)
      have := ih (n / 128) hd
      omega

theorem vdecAux_enc (fuel : Nat) :
    ∀ (n : Nat) (rest : List Nat), (varintEncode n).length ≤ fuel →
      vdecAux fuel (varintEncode n ++ rest) = some (n, (varintEncode n).length) := by
  induction fuel with
  | zero =>
    intro n rest h
    have := varintEncode_length_pos n
    omega
  | succ fuel ih =>
    intro n rest h
    by_cases hs : n < 128
    · rw [varintEncode_small n hs]
      simp [vdecAux, hs]
    · rw [varintEncode_large n hs] at h ⊢
      simp only [List.length_cons] at h
      have hrec := ih (n / 128) rest (by omega)
      have hb : ¬ (n % 128 + 128 < 128) := by omega
      simp only [List.cons_append, vdecAux, if_neg hb]
      simp only [List.append_eq]
      rw [hrec]
      have hv : n % 128 + 128 * (n / 128) = n := Nat.mod_add_div n 128
      have hm : (n % 128 + 128) % 128 = n % 128 := by omega
      simp [hm, hv]

/-- Successful varint decode consumes between 1 and `fuel` bytes, and no more
bytes than the list holds. -/
theorem vdecAux_bounds (fuel : Nat) :
    ∀ (s : List Nat) (v k : Nat), vdecAux fuel s = some (v, k) →
      1 ≤ k ∧ k ≤ fuel ∧ k ≤ s.length := by
  induction fuel with
  | zero => intro s v k h; simp [vdecAux] at h
  | succ fuel ih =>
    intro s v k h
    match s with
    | [] => simp [vdecAux] at h
    | b :: rest =>
      simp only [vdecAux] at h
      by_cases hb : b < 128
      · simp [hb] at h
        simp [← h.2]
      · simp only [if_neg hb] at h
        match hrec : vdecAux fuel rest with
        | some (v', k') =>
          rw [hrec] at h
          simp at h
          have := ih rest v' k' hrec
          simp [← h.2]
          omega
        | none => rw [hrec] at h; simp at h

/-- Decoding is unchanged by truncating the list anywhere at or past the
consumed bytes. -/
theorem vdecAux_take_ge (fuel : Nat) :
    ∀ (s : List Nat) (v k n : Nat), vdecAux fuel s = some (v, k) → k ≤ n →
      vdecAux fuel (s.take n) = some (v, k) := by
  induction fuel with
  | zero => intro s v k n h _; simp [vdecAux] at h
  | succ fuel ih =>
    intro s v k n h hk
    match s with
    | [] => simp [vdecAux] at h
    | b :: rest =>
      have hn : 1 ≤ n := by
        have := vdecAux_bounds (fuel + 1) (b :: rest) v k h
        omega
      obtain ⟨m, rfl⟩ : ∃ m, n = m + 1 := ⟨n - 1, by omega⟩
      simp only [List.take_succ_cons]
      simp only [vdecAux] at h ⊢
      by_cases hb : b < 128
      · simp [hb] at h ⊢; exact h
      · simp only [if_neg hb] at h ⊢
        match hrec : vdecAux fuel rest with
        | some (v', k') =>
          rw [hrec] at h
          simp at h
          rw [ih rest v' k' m hrec (by omega)]
          simp [h.1, h.2]
        | none => rw [hrec] at h; simp at h

/-- Truncating strictly inside the consumed bytes makes decoding fail. -/
theorem vdecAux_take_lt (fuel : Nat) :
    ∀ (s : List Nat) (v k n : Nat), vdecAux fuel s = some (v, k) → n < k →
      vdecAux fuel (s.take n) = none := by
  induction fuel with
  | zero => intro s v k n h _; simp [vdecAux] at h
  | succ fuel ih =>
    intro s v k n h hn
    match s with
    | [] => simp [vdecAux] at h
    | b :: rest =>
      match n with
      | 0 => simp [vdecAux]
      | m + 1 =>
        simp only [List.take_succ_cons]
        simp only [vdecAux] at h ⊢
        by_cases hb : b < 128
        · simp [hb] at h; omega
        · simp only [if_neg hb] at h ⊢
          match hrec : vdecAux fuel rest with
          | some (v', k') =>
            rw [hrec] at h
            simp at h
            rw [ih rest v' k' m hrec (by omega)]
          | none => rw [hrec] at h; simp at h

/-- A failed decode also fails on every truncation. -/
theorem vdecAux_take_none (fuel : Nat) :
    ∀ (s : List Nat) (n : Nat), vdecAux fuel s = none →
      vdecAux fuel (s.take n) = none := by
  induction fuel with
  | zero => intro s n _; simp [vdecAux]
  | succ fuel ih =>
    intro s n h
    match s with
    | [] => simp [vdecAux]
    | b :: rest =>
      match n with
      | 0 => simp [vdecAux]
      | m + 1 =>
        simp only [List.take_succ_cons]
        simp only [vdecAux] at h ⊢
        by_cases hb : b < 128
        · simp [hb] at h
        · simp only [if_neg hb] at h ⊢
          match hrec : vdecAux fuel rest with
          | some (v', k') => rw [hrec] at h; simp at h
          | none => rw [hrec] at h; rw [ih rest m hrec]

/-- The window loop, given enough windows, computes exactly varint.decode on
the rest of the frame. -/
theorem dvsAux_some (s : List Nat) (v k : Nat) (h : varintDecode s = some (v, k)) :
    ∀ j : Nat, 10 ≤ k + j → j ≤ 9 → dvsAux s j = some (v, k) := by
  have hb := vdecAux_bounds 8 s v k h
  intro j
  induction j with
  | zero => intro h10 _; omega
  | succ j ih =>
    intro h10 hj
    simp only [dvsAux]
    by_cases hw : k ≤ 10 - (j + 1)
    · rw [show varintDecode (s.take (10 - (j + 1))) = some (v, k) from
        vdecAux_take_ge 8 s v k _ h hw]
    · rw [show varintDecode (s.take (10 - (j + 1))) = none from
        vdecAux_take_lt 8 s v k _ h (by omega)]
      exact ih (by omega) (by omega)

theorem dvsAux_none (s : List Nat) (h : varintDecode s = none) :
    ∀ j : Nat, dvsAux s j = none := by
  intro j
  induction j with
  | zero => simp [dvsAux]
  | succ j ih =>
    simp only [dvsAux]
    rw [show varintDecode (s.take (10 - (j + 1))) = none from vdecAux_take_none 8 s _ h]
    exact ih

/-- decodeVarintSlice agrees with plain varint.decode on the dropped frame. -/
theorem decodeVarintSlice_eq (frame : List Nat) (offset : Nat) :
    decodeVarintSlice frame offset = varintDecode (frame.drop offset) := by
  unfold decodeVarintSlice
  match h : varintDecode (frame.drop offset) with
  | some (v, k) =>
    have hb := vdecAux_bounds 8 _ v k h
    exact dvsAux_some _ v k h 9 (by omega) (by omega)
  | none => exact dvsAux_none _ h 9

/-- Decoding at the front of an encoded value followed by anything returns
that value, for every value the varint package can produce (even the largest
safe integer fits in eight bytes). -/
theorem varintDecode_enc (n : Nat) (rest : List Nat) (h : n < 2 ^ 56) :
    varintDecode (varintEncode n ++ rest) = some (n, (varintEncode n).length) :=
  vdecAux_enc 8 n rest (varintEncode_length_le 7 n (by norm_num at h ⊢; omega))

theorem decodeVarintSlice_at (buf : List Nat) (off n : Nat) (tail : List Nat)
    (hdrop : buf.drop off = varintEncode n ++ tail) (h : n < 2 ^ 56) :
    decodeVarintSlice buf off = some (n, (varintEncode n).length) := by
  rw [decodeVarintSlice_eq, hdrop]
  exact varintDecode_enc n tail h

/-! ## JS buffer slices and the write model -/

/-- JS `buf.slice(s, e)` for nonnegative in-range-or-clamped indices. -/
def jsSlice (b : List Nat) (s e : Nat) : List Nat := (b.take e).drop s

theorem jsSlice_eq_drop_take (b : List Nat) (s l : Nat) :
    jsSlice b s (s + l) = (b.drop s).take l := by
  unfold jsSlice
  rw [List.drop_take]
  congr 1
  omega

theorem jsSlice_at (buf : List Nat) (off : Nat) (mid tail : List Nat)
    (hdrop : buf.drop off = mid ++ tail) :
    jsSlice buf off (off + mid.length) = mid := by
  rw [jsSlice_eq_drop_take, hdrop]
  simp

theorem drop_at (buf : List Nat) (off : Nat) (mid tail : List Nat)
    (hdrop : buf.drop off = mid ++ tail) :
    buf.drop (off + mid.length) = tail := by
  rw [← List.drop_drop, hdrop, List.drop_left]

/-- b4a.copy(src, dst, off): write `src` into `dst` starting at `off`,
truncating whatever does not fit; the destination keeps its length. -/
def b4aCopy (src dst : List Nat) (off : Nat) : List Nat :=
  dst.take off ++ src.take (dst.length - off) ++ dst.drop (off + src.length)

/-- The byte count b4a.copy reports back (how much was actually copied). -/
def b4aCopyRet (src dst : List Nat) (off : Nat) : Nat :=
  min src.length (dst.length - off)

/-- One buffer-write step of a create method: a b4a.copy of raw bytes, a
writeVarint, or an offset advance with no write (the signature slot).
writeVarint advances the offset by varint.encode.bytes, i.e. by the full
encoded length; b4a.copy advances by the number of bytes actually copied. -/
inductive WOp where
  | cp (src : List Nat)
  | wv (n : Nat)
  | skip (n : Nat)

def opSize : WOp → Nat
  | .cp src => src.length
  | .wv n => (varintEncode n).length
  | .skip n => n

/-- The bytes a write op leaves in its region of a freshly zero-allocated
buffer: copied bytes, the encoded varint, or untouched zeroes. -/
def opChunk : WOp → List Nat
  | .cp src => src
  | .wv n => varintEncode n
  | .skip n => List.replicate n 0

def totalSize (ops : List WOp) : Nat := (ops.map opSize).sum

/-- The sequential offset-advancing writes every create method performs on
its one allocated buffer. -/
def runWrites : List WOp → List Nat → Nat → List Nat
  | [], dst, _ => dst
  | .cp src :: rest, dst, off =>
      runWrites rest (b4aCopy src dst off) (off + b4aCopyRet src dst off)
  | .wv n :: rest, dst, off =>
      runWrites rest (b4aCopy (varintEncode n) dst off) (off + (varintEncode n).length)
  | .skip n :: rest, dst, off => runWrites rest dst (off + n)

/-- Exact-fit evaluation of the write sequence: when the zero-filled
allocation is exactly the writes plus `e` spare bytes, the writes lay the
chunks down back to back and the spare tail stays zero. -/
theorem runWrites_exact (ops : List WOp) :
    ∀ (pre : List Nat) (e : Nat),
      runWrites ops (pre ++ List.replicate (totalSize ops + e) 0) pre.length =
        pre ++ (ops.map opChunk).flatten ++ List.replicate e 0 := by
  induction ops with
  | nil => intro pre e; simp [runWrites, totalSize]
  | cons op rest ih =>
    intro pre e
    have hT : totalSize (op :: rest) = opSize op + totalSize rest := by
      simp [totalSize]
    match op with
    | .cp src =>
      have hlen : (pre ++ List.replicate (totalSize (WOp.cp src :: rest) + e) 0).length
          = pre.length + (src.length + (totalSize rest + e)) := by
        simp [hT, opSize]; omega
      have hcopy : b4aCopy src (pre ++ List.replicate (totalSize (WOp.cp src :: rest) + e) 0) pre.length
          = (pre ++ src) ++ List.replicate (totalSize rest + e) 0 := by
        unfold b4aCopy
        rw [hlen]
        have h1 : (pre ++ List.replicate (totalSize (WOp.cp src :: rest) + e) 0).take pre.length = pre := by
          simp
        have h2 : src.take (pre.length + (src.length + (totalSize rest + e)) - pre.length) = src := by
          rw [List.take_of_length_le]; omega
        have h3 : (pre ++ List.replicate (totalSize (WOp.cp src :: rest) + e) 0).drop (pre.length + src.length)
            = List.replicate (totalSize rest + e) 0 := by
          rw [List.drop_append, List.drop_replicate]
          congr 1
          rw [hT]
          simp only [opSize]
          omega
        rw [h1, h2, h3]
      have hret : b4aCopyRet src (pre ++ List.replicate (totalSize (WOp.cp src :: rest) + e) 0) pre.length
          = src.length := by
        unfold b4aCopyRet
        rw [hlen]
        omega
      simp only [runWrites, hcopy, hret]
      have := ih (pre ++ src) e
      rw [show pre.length + src.length = (pre ++ src).length by simp] at *
      rw [this]
      simp [opChunk]
    | .wv n =>
      have hlen : (pre ++ List.replicate (totalSize (WOp.wv n :: rest) + e) 0).length
          = pre.length + ((varintEncode n).length + (totalSize rest + e)) := by
        simp [hT, opSize]; omega
      have hcopy : b4aCopy (varintEncode n) (pre ++ List.replicate (totalSize (WOp.wv n :: rest) + e) 0) pre.length
          = (pre ++ varintEncode n) ++ List.replicate (totalSize rest + e) 0 := by
        unfold b4aCopy
        rw [hlen]
        have h1 : (pre ++ List.replicate (totalSize (WOp.wv n :: rest) + e) 0).take pre.length = pre := by
          simp
        have h2 : (varintEncode n).take (pre.length + ((varintEncode n).length + (totalSize rest + e)) - pre.length)
            = varintEncode n := by
          rw [List.take_of_length_le]; omega
        have h3 : (pre ++ List.replicate (totalSize (WOp.wv n :: rest) + e) 0).drop (pre.length + (varintEncode n).length)
            = List.replicate (totalSize rest + e) 0 := by
          rw [List.drop_append, List.drop_replicate]
          congr 1
          rw [hT]
          simp only [opSize]
          omega
        rw [h1, h2, h3]
      simp only [runWrites, hcopy]
      have := ih (pre ++ varintEncode n) e
      rw [show pre.length + (varintEncode n).length = (pre ++ varintEncode n).length by simp] at *
      rw [this]
      simp [opChunk]
    | .skip n =>
      have hsplit : pre ++ List.replicate (totalSize (WOp.skip n :: rest) + e) 0
          = (pre ++ List.replicate n 0) ++ List.replicate (totalSize rest + e) 0 := by
        rw [List.append_assoc, ← List.replicate_add]
        congr 2
        simp [hT, opSize]
        omega
      simp only [runWrites, hsplit]
      have := ih (pre ++ List.replicate n 0) e
      rw [show pre.length + n = (pre ++ List.replicate n 0).length by simp] at *
      rw [this]
      simp [opChunk]

/-- The common case: zero spare bytes. -/
theorem runWrites_exact0 (ops : List WOp) (h : Nat) (hh : h = totalSize ops) :
    runWrites ops (List.replicate h 0) 0 = (ops.map opChunk).flatten := by
  have := runWrites_exact ops [] 0
  simp at this
  rw [hh]
  simpa using this

/-- Exact fit with `e` spare zero bytes at the end (the role slot that
ROLE_POST.create reserves but never writes). -/
theorem runWrites_exact0e (ops : List WOp) (h e : Nat) (hh : h = totalSize ops + e) :
    runWrites ops (List.replicate h 0) 0 = (ops.map opChunk).flatten ++ List.replicate e 0 := by
  have := runWrites_exact ops [] e
  simp at this
  rw [hh]
  simpa using this

/-! ## Errors and outcomes -/

/-- The distinct error identities raised or returned by the codec.  Each
constructor corresponds to one Error construction site family in the
source. -/
inductive Err where
  | bufferExpected (param : String)
  | hashesExpected
  | linksExpected
  | stringsExpected
  | arrayKeysExpected
  | arrayPostsExpected
  | emptyRecipientsExpected
  | postsBufferExpected
  | ttlRangeExpected
  | msgTypeMismatch
  | postTypeMismatch
  | codepointRangeExpected (param : String)
  | badSignature
  | recipientsLengthMax
  | recipientsLengthMin
  | futureValueExpected
  | infoTerminatorNotZero
  | ttlNegative
  | unknownType
  | referenceError (name : String)
deriving Repr, DecidableEq

/-- Result of calling a JS codec function: it can throw, it can return an
Error object as a value (several toJSON type-tag branches do this instead of
throwing), or it can return normally. -/
inductive Outcome (A : Type) where
  | threw (e : Err)
  | retErr (e : Err)
  | ok (v : A)
deriving Repr, DecidableEq

def Outcome.isOk {A : Type} : Outcome A → Bool
  | .ok _ => true
  | _ => false

/-! ## Argument predicates from src/index.js -/

/-- isBufferSize from src/index.js (the argument is a buffer by type). -/
def isBufferSize (b : List Nat) (size : Nat) : Bool := b.length == size

/-- isBufferSize applied to a JS value that can be undefined: the length
comparison with undefined is always false. -/
def isBufferSizeJ (b : List Nat) (size : Option Nat) : Bool :=
  match size with
  | some v => b.length == v
  | none => false

/-- ttlRangeCorrect: 0 <= ttl <= 16 (the lower bound is automatic for Nat;
decoded varints are never negative). -/
def ttlRangeCorrect (ttl : Nat) : Bool := ttl ≤ 16

/-- ttlRangeCorrect on a decoded value that can be undefined:
undefined >= 0 is false in JS, so the check fails. -/
def ttlRangeCorrectJ (ttl : Option Nat) : Bool :=
  match ttl with
  | some t => ttlRangeCorrect t
  | none => false

def isArrayHashes (arr : List (List Nat)) : Bool :=
  arr.all fun h => isBufferSize h constants.HASH_SIZE

def isArrayPublicKeys (arr : List (List Nat)) : Bool :=
  arr.all fun h => isBufferSize h constants.PUBLICKEY_SIZE

/-- isArrayData only checks that each entry is a buffer, which the type of
the model already guarantees. -/
def isArrayData (_ : List (List Nat)) : Bool := true

/-! ## Validation rules (src/validation.js, the revision with moderation) -/

namespace validation

/-- A validation rule either passes (`none`) or throws (`some e`). -/
def checkChannelName (channelBuf : List Nat) : Option Err :=
  if constants.CHANNEL_NAME_MIN_CODEPOINTS ≤ channelBuf.length ∧
      channelBuf.length ≤ constants.CHANNEL_NAME_MAX_CODEPOINTS then none
  else some (.codepointRangeExpected "channel")

def checkReason (reasonBuf : List Nat) : Option Err :=
  if constants.REASON_MIN_CODEPOINTS ≤ reasonBuf.length ∧
      reasonBuf.length ≤ constants.REASON_MAX_CODEPOINTS then none
  else some (.codepointRangeExpected "REASON")

def checkTopic (topicBuf : List Nat) : Option Err :=
  if constants.TOPIC_MIN_CODEPOINTS ≤ topicBuf.length ∧
      topicBuf.length ≤ constants.TOPIC_MAX_CODEPOINTS then none
  else some (.codepointRangeExpected "topic")

def checkUsername (valueBuf : List Nat) : Option Err :=
  if constants.USER_NAME_MIN_CODEPOINTS ≤ valueBuf.length ∧
      valueBuf.length ≤ constants.USER_NAME_MAX_CODEPOINTS then none
  else some (.codepointRangeExpected "name")

/-- checkInfoValue: on violation the source evaluates
`new bufferExpectedMax(...)`, but bufferExpectedMax is not defined in
validation.js (and the expression also reads an unbound textBuf), so the
violation path raises a ReferenceError rather than the intended error.
Either way it throws. -/
def checkInfoValue (valueBuf : List Nat) : Option Err :=
  if valueBuf.length ≤ constants.INFO_VALUE_MAX_BYTES then none
  else some (.referenceError "bufferExpectedMax")

def checkInfoKey (keyBuf : List Nat) : Option Err :=
  if constants.INFO_KEY_MIN_CODEPOINTS ≤ keyBuf.length ∧
      keyBuf.length ≤ constants.INFO_KEY_MAX_CODEPOINTS then none
  else some (.codepointRangeExpected "key")

/-- checkPostText: same unbound bufferExpectedMax situation as
checkInfoValue. -/
def checkPostText (textBuf : List Nat) : Option Err :=
  if textBuf.length ≤ constants.POST_TEXT_MAX_BYTES then none
  else some (.referenceError "bufferExpectedMax")

def checkRecipientsLength (recipients : List (List Nat)) : Option Err :=
  if recipients.length > constants.RECIPIENT_COUNT_MAX then some .recipientsLengthMax
  else if recipients.length < constants.RECIPIENT_COUNT_MIN then some .recipientsLengthMin
  else none

/-- checkFuture from src/validation.js: accepts exactly the values 0 and 1.
Note: grep shows no call site anywhere in the repository. -/
def checkFuture (value : Nat) : Option Err :=
  if value = 0 ∨ value = 1 then none else some .futureValueExpected

end validation

/-! ## Crypto adapter (src/cryptography.js over sodium, which is external).

The spec places the signature primitive out of scope and assumes a
deterministic public-key signature scheme with 32-byte public keys,
64-byte secret keys and 64-byte signatures.  `SigScheme` is that assumed
interface: `sigbytes` is the detached signature sodium.crypto_sign places
in front of the message, `pk` derives the public key belonging to a secret
key, `verifies` is sodium.crypto_sign_open, and `correct` is the
correctness law of any signature scheme (a freshly produced signature
verifies under the matching public key). -/

structure SigScheme where
  sigbytes : List Nat → List Nat → List Nat
  pk : List Nat → List Nat
  verifies : List Nat → List Nat → List Nat → Bool
  siglen : ∀ sk p, (sigbytes sk p).length = constants.SIGNATURE_SIZE
  correct : ∀ sk p, verifies (pk sk) (sigbytes sk p) p = true

/-- crypto.sign(buf, secretKey): sodium.crypto_sign writes
signature-then-message into the subarray starting after the public key,
where the message is the subarray after the signature slot; the net effect
on the buffer is to fill bytes [32, 96) with the signature over the
payload bytes [96, end). -/
def cryptoSign (s : SigScheme) (buf secretKey : List Nat) : List Nat :=
  buf.take constants.PUBLICKEY_SIZE ++
    s.sigbytes secretKey (buf.drop (constants.PUBLICKEY_SIZE + constants.SIGNATURE_SIZE)) ++
    buf.drop (constants.PUBLICKEY_SIZE + constants.SIGNATURE_SIZE)

/-- crypto.verify(buf, publicKey): sodium.crypto_sign_open checks that
bytes [32, 96) are a valid signature of bytes [96, end) under publicKey. -/
def cryptoVerify (s : SigScheme) (buf publicKey : List Nat) : Bool :=
  s.verifies publicKey
    (jsSlice buf constants.PUBLICKEY_SIZE (constants.PUBLICKEY_SIZE + constants.SIGNATURE_SIZE))
    (buf.drop (constants.PUBLICKEY_SIZE + constants.SIGNATURE_SIZE))

/-- validation.checkSignature: throws the bad-signature error when
crypto.verify rejects. -/
def checkSignature (s : SigScheme) (message publicKey : List Nat) : Option Err :=
  if cryptoVerify s message publicKey then none else some .badSignature

/-! ## Buffer size planner (determineBufferSize from src/index.js) -/

/-- One manifest entry: b raw byte count, v varint-encoded integer,
s length-prefixed string of known byte length, h counted list of hash-sized
entries. -/
inductive SizeRep where
  | b (n : Nat)
  | v (n : Nat)
  | s (n : Nat)
  | h (n : Nat)

def repSize : SizeRep → Nat
  | .b n => n
  | .v n => (varintEncode n).length
  | .h n => n * constants.HASH_SIZE + (varintEncode n).length
  | .s n => n + (varintEncode n).length

def determineBufferSize (inputs : List SizeRep) : Nat := (inputs.map repSize).sum

/-- countPostsBytes from src/index.js. -/
def countPostsBytes (posts : List (List Nat)) : Nat :=
  posts.foldl (fun acc p => acc + (p.length + (varintEncode p.length).length)) 0

/-- countChannelsBytes from src/index.js (channels are already byte lists
in the model). -/
def countChannelsBytes (channels : List (List Nat)) : Nat :=
  channels.foldl (fun acc c => acc + (c.length + (varintEncode c.length).length)) 0

/-- prependMsgLen from src/index.js. -/
def prependMsgLen (buf : List Nat) : List Nat := varintEncode buf.length ++ buf

/-- EMPTY_CIRCUIT_ID: four zero bytes. -/
def EMPTY_CIRCUIT_ID : List Nat := List.replicate 4 0

/-! ## Decoded-message records (the JSON objects toJSON returns).

Fields that the decoder checks before returning (msgLen against the buffer
length, msgType against the expected tag, ttl against [0,16]) are plain
`Nat`; fields the decoder returns without inspecting are `Option Nat`
because a malformed buffer can leave them undefined in JS. -/

structure HashResponseJSON where
  msgLen : Nat
  msgType : Nat
  reqid : List Nat
  hashes : List (List Nat)
deriving Repr, DecidableEq

structure PostResponseJSON where
  msgLen : Nat
  msgType : Nat
  reqid : List Nat
  posts : List (List Nat)
deriving Repr, DecidableEq

structure PostRequestJSON where
  msgLen : Nat
  msgType : Nat
  reqid : List Nat
  ttl : Nat
  hashes : List (List Nat)
deriving Repr, DecidableEq

structure CancelRequestJSON where
  msgLen : Nat
  msgType : Nat
  reqid : List Nat
  ttl : Nat
  cancelid : List Nat
deriving Repr, DecidableEq

structure TimeRangeRequestJSON where
  msgLen : Nat
  msgType : Nat
  reqid : List Nat
  ttl : Nat
  channel : List Nat
  timeStart : Option Nat
  timeEnd : Option Nat
  limit : Option Nat
deriving Repr, DecidableEq

structure ChannelStateRequestJSON where
  msgLen : Nat
  msgType : Nat
  reqid : List Nat
  ttl : Nat
  channel : List Nat
  future : Option Nat
deriving Repr, DecidableEq

structure ChannelListRequestJSON where
  msgLen : Nat
  msgType : Nat
  reqid : List Nat
  ttl : Nat
  offset : Option Nat
  limit : Option Nat
deriving Repr, DecidableEq

structure ChannelListResponseJSON where
  msgLen : Nat
  msgType : Nat
  reqid : List Nat
  channels : List (List Nat)
deriving Repr, DecidableEq

structure ModerationStateRequestJSON where
  msgLen : Nat
  msgType : Nat
  reqid : List Nat
  channels : List (List Nat)
  future : Option Nat
  oldest : Option Nat
deriving Repr, DecidableEq

/-- Projections of a decodeVarintSlice result as the JS code sees them:
the decoded value (undefined on failure) and varint.decode.bytes (left at 0
by a failed decode). -/
def vval : Option (Nat × Nat) → Option Nat
  | none => none
  | some (v, _) => some v

def vbytes : Option (Nat × Nat) → Nat
  | none => 0
  | some (_, k) => k

/-- The hash-reading for loop shared by several decoders: `count` slices of
HASH_SIZE bytes starting at `offset`. -/
def hashSlices (buf : List Nat) (offset : Nat) : Nat → List (List Nat)
  | 0 => []
  | c + 1 =>
    jsSlice buf offset (offset + constants.HASH_SIZE) ::
      hashSlices buf (offset + constants.HASH_SIZE) c

/-- The sentinel-terminated posts loop of POST_RESPONSE.toJSON.  The JS
loop runs while `msgLen - offset + msgLenBytes > 0`; each continuing
iteration consumes at least two bytes of the buffer, so a fuel of
`buf.length + 1` is always sufficient on the buffers any theorem below
touches.  When a postLen fails to decode, the JS code pushes
`buf.slice(offset, offset + undefined)` (an empty slice, since the NaN end
coerces to 0) and the NaN offset then ends the loop. -/
def readPostsLoop (buf : List Nat) (msgLen msgLenBytes : Nat) :
    Nat → Nat → List (List Nat) → List (List Nat)
  | 0, _, acc => acc
  | fuel + 1, offset, acc =>
    if (msgLen : Int) - offset + msgLenBytes > 0 then
      match decodeVarintSlice buf offset with
      | none => acc ++ [[]]
      | some (postLen, k) =>
        if postLen = 0 then acc
        else
          readPostsLoop buf msgLen msgLenBytes fuel (offset + k + postLen)
            (acc ++ [jsSlice buf (offset + k) (offset + k + postLen)])
    else acc

/-- The sentinel-terminated channels loop shared by
CHANNEL_LIST_RESPONSE.toJSON and MODERATION_STATE_REQUEST.toJSON; it can
throw through checkChannelName and otherwise returns the channels read so
far together with the offset after the loop.  When a channelLen fails to
decode, the sliced channel is empty (NaN end coerces to 0) and
checkChannelName throws on it, since the minimum channel length is 1. -/
def readChannelsLoop (buf : List Nat) (msgLen msgLenBytes : Nat) :
    Nat → Nat → List (List Nat) → Outcome (List (List Nat) × Nat)
  | 0, offset, acc => .ok (acc, offset)
  | fuel + 1, offset, acc =>
    if (msgLen : Int) - offset + msgLenBytes > 0 then
      match decodeVarintSlice buf offset with
      | none => .threw (.codepointRangeExpected "channel")
      | some (channelLen, k) =>
        if channelLen = 0 then .ok (acc, offset + k)
        else
          let channelBuf := jsSlice buf (offset + k) (offset + k + channelLen)
          match validation.checkChannelName channelBuf with
          | some e => .threw e
          | none =>
            readChannelsLoop buf msgLen msgLenBytes fuel (offset + k + channelLen)
              (acc ++ [channelBuf])
    else .ok (acc, offset)

/-- First validation error over a list of channels, in list order (the
create methods validate each channel inside their write loop). -/
def firstChannelErr (channels : List (List Nat)) : Option Err :=
  channels.findSome? validation.checkChannelName

/-! ## Message codec: create and toJSON for the nine envelope classes.

Every create follows the source shape: argument checks in source order,
determineBufferSize over the exact manifest the source passes, the exact
write sequence into the zero allocation, then prependMsgLen.  The dynamic
typeof/arity checks of the source are statically satisfied by the model
types and are therefore omitted. -/

def HASH_RESPONSE.create (reqid : List Nat) (hashes : List (List Nat)) :
    Outcome (List Nat) :=
  if ¬ isBufferSize reqid constants.REQID_SIZE then .threw (.bufferExpected "reqid")
  else if ¬ isArrayHashes hashes then .threw .hashesExpected
  else
    let size := determineBufferSize
      [.v constants.HASH_RESPONSE, .b constants.CIRCUITID_SIZE,
       .b constants.REQID_SIZE, .h hashes.length]
    let frame := runWrites
      ([.wv constants.HASH_RESPONSE, .cp EMPTY_CIRCUIT_ID, .cp reqid,
        .wv hashes.length] ++ hashes.map WOp.cp)
      (List.replicate size 0) 0
    .ok (prependMsgLen frame)

def HASH_RESPONSE.toJSON (buf : List Nat) : Outcome HashResponseJSON :=
  match decodeVarintSlice buf 0 with
  | none =>
    -- msgLen is undefined; isBufferSize(buf.slice(0), undefined) is false
    .threw (.bufferExpected "remaining buf")
  | some (msgLen, k) =>
    let offset := k
    if ¬ isBufferSizeJ (buf.drop offset) (some msgLen) then .threw (.bufferExpected "remaining buf")
    else
      let r1 := decodeVarintSlice buf offset
      let offset := offset + vbytes r1
      -- undefined !== constants.HASH_RESPONSE also lands in the mismatch branch
      if vval r1 ≠ some constants.HASH_RESPONSE then .threw .msgTypeMismatch
      else
        let offset := offset + constants.CIRCUITID_SIZE
        let reqid := jsSlice buf offset (offset + constants.REQID_SIZE)
        if ¬ isBufferSize reqid constants.REQID_SIZE then .threw (.bufferExpected "reqid")
        else
          let offset := offset + constants.REQID_SIZE
          match decodeVarintSlice buf offset with
          | none =>
            -- hashCount is undefined: the for loop body never runs
            .ok ⟨msgLen, constants.HASH_RESPONSE, reqid, []⟩
          | some (hashCount, k2) =>
            let offset := offset + k2
            let hashes := hashSlices buf offset hashCount
            if ¬ isArrayHashes hashes then .threw .hashesExpected
            else .ok ⟨msgLen, constants.HASH_RESPONSE, reqid, hashes⟩

def POST_RESPONSE.create (reqid : List Nat) (posts : List (List Nat)) :
    Outcome (List Nat) :=
  if ¬ isBufferSize reqid constants.REQID_SIZE then .threw (.bufferExpected "reqid")
  else if ¬ isArrayData posts then .threw .postsBufferExpected
  else
    -- the source manifest really says constants.POST_REQUEST here; both tags
    -- are one varint byte so the allocation size is unaffected
    let size := determineBufferSize
      [.v constants.POST_REQUEST, .b constants.CIRCUITID_SIZE,
       .b constants.REQID_SIZE, .b (countPostsBytes posts), .v 0]
    let frame := runWrites
      ([.wv constants.POST_RESPONSE, .cp EMPTY_CIRCUIT_ID, .cp reqid] ++
        (posts.map (fun p => [WOp.wv p.length, WOp.cp p])).flatten ++ [.wv 0])
      (List.replicate size 0) 0
    .ok (prependMsgLen frame)

def POST_RESPONSE.toJSON (buf : List Nat) : Outcome PostResponseJSON :=
  match decodeVarintSlice buf 0 with
  | none => .threw (.bufferExpected "remaining buf")
  | some (msgLen, k) =>
    let offset := k
    if ¬ isBufferSizeJ (buf.drop offset) (some msgLen) then .threw (.bufferExpected "remaining buf")
    else
      let r1 := decodeVarintSlice buf offset
      let offset := offset + vbytes r1
      if vval r1 ≠ some constants.POST_RESPONSE then .threw .msgTypeMismatch
      else
        let offset := offset + constants.CIRCUITID_SIZE
        let reqid := jsSlice buf offset (offset + constants.REQID_SIZE)
        if ¬ isBufferSize reqid constants.REQID_SIZE then .threw (.bufferExpected "reqid")
        else
          let offset := offset + constants.REQID_SIZE
          let posts := readPostsLoop buf msgLen k (buf.length + 1) offset []
          .ok ⟨msgLen, constants.POST_RESPONSE, reqid, posts⟩

def POST_REQUEST.create (reqid : List Nat) (ttl : Nat) (hashes : List (List Nat)) :
    Outcome (List Nat) :=
  if ¬ isBufferSize reqid constants.REQID_SIZE then .threw (.bufferExpected "reqid")
  else if ¬ ttlRangeCorrect ttl then .threw .ttlRangeExpected
  else if ¬ isArrayHashes hashes then .threw .hashesExpected
  else
    let size := determineBufferSize
      [.v constants.POST_REQUEST, .b constants.CIRCUITID_SIZE,
       .b constants.REQID_SIZE, .v ttl, .h hashes.length]
    let frame := runWrites
      ([.wv constants.POST_REQUEST, .cp EMPTY_CIRCUIT_ID, .cp reqid,
        .wv ttl, .wv hashes.length] ++ hashes.map WOp.cp)
      (List.replicate size 0) 0
    .ok (prependMsgLen frame)

def POST_REQUEST.toJSON (buf : List Nat) : Outcome PostRequestJSON :=
  match decodeVarintSlice buf 0 with
  | none => .threw (.bufferExpected "remaining buf")
  | some (msgLen, k) =>
    let offset := k
    if ¬ isBufferSizeJ (buf.drop offset) (some msgLen) then .threw (.bufferExpected "remaining buf")
    else
      let r1 := decodeVarintSlice buf offset
      let offset := offset + vbytes r1
      if vval r1 ≠ some constants.POST_REQUEST then .threw .msgTypeMismatch
      else
        let offset := offset + constants.CIRCUITID_SIZE
        let reqid := jsSlice buf offset (offset + constants.REQID_SIZE)
        if ¬ isBufferSize reqid constants.REQID_SIZE then .threw (.bufferExpected "reqid")
        else
          let offset := offset + constants.REQID_SIZE
          let r2 := decodeVarintSlice buf offset
          let offset := offset + vbytes r2
          if ¬ ttlRangeCorrectJ (vval r2) then .threw .ttlRangeExpected
          else
            match r2, decodeVarintSlice buf offset with
            | some (ttl, _), none => .ok ⟨msgLen, constants.POST_REQUEST, reqid, ttl, []⟩
            | some (ttl, _), some (hashCount, k2) =>
              let offset := offset + k2
              let hashes := hashSlices buf offset hashCount
              if ¬ isArrayHashes hashes then .threw .hashesExpected
              else .ok ⟨msgLen, constants.POST_REQUEST, reqid, ttl, hashes⟩
            | none, _ => .threw .ttlRangeExpected

def CANCEL_REQUEST.create (reqid : List Nat) (ttl : Nat) (cancelid : List Nat) :
    Outcome (List Nat) :=
  if ¬ isBufferSize reqid constants.REQID_SIZE then .threw (.bufferExpected "reqid")
  else if ¬ ttlRangeCorrect ttl then .threw .ttlRangeExpected
  else if ¬ isBufferSize cancelid constants.REQID_SIZE then .threw (.bufferExpected "cancelid")
  else
    let size := determineBufferSize
      [.v constants.CANCEL_REQUEST, .b constants.CIRCUITID_SIZE,
       .b constants.REQID_SIZE, .v ttl, .b constants.REQID_SIZE]
    let frame := runWrites
      [.wv constants.CANCEL_REQUEST, .cp EMPTY_CIRCUIT_ID, .cp reqid,
       .wv ttl, .cp cancelid]
      (List.replicate size 0) 0
    .ok (prependMsgLen frame)

def CANCEL_REQUEST.toJSON (buf : List Nat) : Outcome CancelRequestJSON :=
  match decodeVarintSlice buf 0 with
  | none => .threw (.bufferExpected "remaining buf")
  | some (msgLen, k) =>
    let offset := k
    if ¬ isBufferSizeJ (buf.drop offset) (some msgLen) then .threw (.bufferExpected "remaining buf")
    else
      let r1 := decodeVarintSlice buf offset
      let offset := offset + vbytes r1
      if vval r1 ≠ some constants.CANCEL_REQUEST then .threw .msgTypeMismatch
      else
        let offset := offset + constants.CIRCUITID_SIZE
        let reqid := jsSlice buf offset (offset + constants.REQID_SIZE)
        let offset := offset + constants.REQID_SIZE
        let r2 := decodeVarintSlice buf offset
        let offset := offset + vbytes r2
        if ¬ ttlRangeCorrectJ (vval r2) then .threw .ttlRangeExpected
        else
          match r2 with
          | some (ttl, _) =>
            let cancelid := jsSlice buf offset (offset + constants.REQID_SIZE)
            .ok ⟨msgLen, constants.CANCEL_REQUEST, reqid, ttl, cancelid⟩
          | none => .threw .ttlRangeExpected

def TIME_RANGE_REQUEST.create (reqid : List Nat) (ttl : Nat) (channel : List Nat)
    (timeStart timeEnd limit : Nat) : Outcome (List Nat) :=
  if ¬ isBufferSize reqid constants.REQID_SIZE then .threw (.bufferExpected "reqid")
  else if ¬ ttlRangeCorrect ttl then .threw .ttlRangeExpected
  else
    match validation.checkChannelName channel with
    | some e => .threw e
    | none =>
      let size := determineBufferSize
        [.v constants.TIME_RANGE_REQUEST, .b constants.CIRCUITID_SIZE,
         .b constants.REQID_SIZE, .v ttl, .s channel.length,
         .v timeStart, .v timeEnd, .v limit]
      let frame := runWrites
        [.wv constants.TIME_RANGE_REQUEST, .cp EMPTY_CIRCUIT_ID, .cp reqid,
         .wv ttl, .wv channel.length, .cp channel,
         .wv timeStart, .wv timeEnd, .wv limit]
        (List.replicate size 0) 0
      .ok (prependMsgLen frame)

def TIME_RANGE_REQUEST.toJSON (buf : List Nat) : Outcome TimeRangeRequestJSON :=
  match decodeVarintSlice buf 0 with
  | none => .threw (.bufferExpected "remaining buf")
  | some (msgLen, k) =>
    let offset := k
    if ¬ isBufferSizeJ (buf.drop offset) (some msgLen) then .threw (.bufferExpected "remaining buf")
    else
      let r1 := decodeVarintSlice buf offset
      let offset := offset + vbytes r1
      -- note: on mismatch this decoder RETURNS the Error object
      if vval r1 ≠ some constants.TIME_RANGE_REQUEST then .retErr .msgTypeMismatch
      else
        let offset := offset + constants.CIRCUITID_SIZE
        let reqid := jsSlice buf offset (offset + constants.REQID_SIZE)
        let offset := offset + constants.REQID_SIZE
        let r2 := decodeVarintSlice buf offset
        let offset := offset + vbytes r2
        if ¬ ttlRangeCorrectJ (vval r2) then .threw .ttlRangeExpected
        else
          match r2, decodeVarintSlice buf offset with
          | some (ttl, _), none =>
            -- channelLen is undefined: the sliced channel is empty and
            -- checkChannelName throws (minimum length is 1)
            .threw (.codepointRangeExpected "channel")
          | some (ttl, _), some (channelLen, k2) =>
            let offset := offset + k2
            let channelBuf := jsSlice buf offset (offset + channelLen)
            let offset := offset + channelLen
            match validation.checkChannelName channelBuf with
            | some e => .threw e
            | none =>
              let r3 := decodeVarintSlice buf offset
              let offset := offset + vbytes r3
              let r4 := decodeVarintSlice buf offset
              let offset := offset + vbytes r4
              let r5 := decodeVarintSlice buf offset
              .ok ⟨msgLen, constants.TIME_RANGE_REQUEST, reqid, ttl, channelBuf,
                   vval r3, vval r4, vval r5⟩
          | none, _ => .threw .ttlRangeExpected

def CHANNEL_STATE_REQUEST.create (reqid : List Nat) (ttl : Nat) (channel : List Nat)
    (future : Nat) : Outcome (List Nat) :=
  if ¬ isBufferSize reqid constants.REQID_SIZE then .threw (.bufferExpected "reqid")
  else if ¬ ttlRangeCorrect ttl then .threw .ttlRangeExpected
  else
    match validation.checkChannelName channel with
    | some e => .threw e
    | none =>
      let size := determineBufferSize
        [.v constants.CHANNEL_STATE_REQUEST, .b constants.CIRCUITID_SIZE,
         .b constants.REQID_SIZE, .v ttl, .s channel.length, .v future]
      let frame := runWrites
        [.wv constants.CHANNEL_STATE_REQUEST, .cp EMPTY_CIRCUIT_ID, .cp reqid,
         .wv ttl, .wv channel.length, .cp channel, .wv future]
        (List.replicate size 0) 0
      .ok (prependMsgLen frame)

def CHANNEL_STATE_REQUEST.toJSON (buf : List Nat) : Outcome ChannelStateRequestJSON :=
  match decodeVarintSlice buf 0 with
  | none => .threw (.bufferExpected "remaining buf")
  | some (msgLen, k) =>
    let offset := k
    if ¬ isBufferSizeJ (buf.drop offset) (some msgLen) then .threw (.bufferExpected "remaining buf")
    else
      let r1 := decodeVarintSlice buf offset
      let offset := offset + vbytes r1
      if vval r1 ≠ some constants.CHANNEL_STATE_REQUEST then .retErr .msgTypeMismatch
      else
        let offset := offset + constants.CIRCUITID_SIZE
        let reqid := jsSlice buf offset (offset + constants.REQID_SIZE)
        let offset := offset + constants.REQID_SIZE
        if ¬ isBufferSize reqid constants.REQID_SIZE then .threw (.bufferExpected "reqid")
        else
          let r2 := decodeVarintSlice buf offset
          let offset := offset + vbytes r2
          if ¬ ttlRangeCorrectJ (vval r2) then .threw .ttlRangeExpected
          else
            match r2, decodeVarintSlice buf offset with
            | some (ttl, _), none => .threw (.codepointRangeExpected "channel")
            | some (ttl, _), some (channelLen, k2) =>
              let offset := offset + k2
              let channelBuf := jsSlice buf offset (offset + channelLen)
              let offset := offset + channelLen
              match validation.checkChannelName channelBuf with
              | some e => .threw e
              | none =>
                let r3 := decodeVarintSlice buf offset
                .ok ⟨msgLen, constants.CHANNEL_STATE_REQUEST, reqid, ttl, channelBuf,
                     vval r3⟩
            | none, _ => .threw .ttlRangeExpected

def CHANNEL_LIST_REQUEST.create (reqid : List Nat) (ttl : Nat)
    (argOffset limit : Nat) : Outcome (List Nat) :=
  if ¬ isBufferSize reqid constants.REQID_SIZE then .threw (.bufferExpected "reqid")
  else if ¬ ttlRangeCorrect ttl then .threw .ttlRangeExpected
  else
    let size := determineBufferSize
      [.v constants.CHANNEL_LIST_REQUEST, .b constants.CIRCUITID_SIZE,
       .b constants.REQID_SIZE, .v ttl, .v argOffset, .v limit]
    let frame := runWrites
      [.wv constants.CHANNEL_LIST_REQUEST, .cp EMPTY_CIRCUIT_ID, .cp reqid,
       .wv ttl, .wv argOffset, .wv limit]
      (List.replicate size 0) 0
    .ok (prependMsgLen frame)

def CHANNEL_LIST_REQUEST.toJSON (buf : List Nat) : Outcome ChannelListRequestJSON :=
  match decodeVarintSlice buf 0 with
  | none => .threw (.bufferExpected "remaining buf")
  | some (msgLen, k) =>
    let offset := k
    if ¬ isBufferSizeJ (buf.drop offset) (some msgLen) then .threw (.bufferExpected "remaining buf")
    else
      let r1 := decodeVarintSlice buf offset
      let offset := offset + vbytes r1
      if vval r1 ≠ some constants.CHANNEL_LIST_REQUEST then .retErr .msgTypeMismatch
      else
        let offset := offset + constants.CIRCUITID_SIZE
        let reqid := jsSlice buf offset (offset + constants.REQID_SIZE)
        let offset := offset + constants.REQID_SIZE
        if ¬ isBufferSize reqid constants.REQID_SIZE then .threw (.bufferExpected "reqid")
        else
          let r2 := decodeVarintSlice buf offset
          let offset := offset + vbytes r2
          if ¬ ttlRangeCorrectJ (vval r2) then .threw .ttlRangeExpected
          else
            match r2 with
            | some (ttl, _) =>
              let r3 := decodeVarintSlice buf offset
              let offset := offset + vbytes r3
              let r4 := decodeVarintSlice buf offset
              .ok ⟨msgLen, constants.CHANNEL_LIST_REQUEST, reqid, ttl, vval r3, vval r4⟩
            | none => .threw .ttlRangeExpected

def CHANNEL_LIST_RESPONSE.create (reqid : List Nat) (channels : List (List Nat)) :
    Outcome (List Nat) :=
  if ¬ isBufferSize reqid constants.REQID_SIZE then .threw (.bufferExpected "reqid")
  else
    let size := determineBufferSize
      [.v constants.CHANNEL_LIST_RESPONSE, .b constants.CIRCUITID_SIZE,
       .b constants.REQID_SIZE, .b (countChannelsBytes channels), .v 0]
    -- each channel is validated inside the write loop; the first violation
    -- throws before create returns anything
    match firstChannelErr channels with
    | some e => .threw e
    | none =>
      let frame := runWrites
        ([.wv constants.CHANNEL_LIST_RESPONSE, .cp EMPTY_CIRCUIT_ID, .cp reqid] ++
          (channels.map (fun c => [WOp.wv c.length, WOp.cp c])).flatten ++ [.wv 0])
        (List.replicate size 0) 0
      .ok (prependMsgLen frame)

def CHANNEL_LIST_RESPONSE.toJSON (buf : List Nat) : Outcome ChannelListResponseJSON :=
  match decodeVarintSlice buf 0 with
  | none => .threw (.bufferExpected "remaining buf")
  | some (msgLen, k) =>
    let offset := k
    if ¬ isBufferSizeJ (buf.drop offset) (some msgLen) then .threw (.bufferExpected "remaining buf")
    else
      let r1 := decodeVarintSlice buf offset
      let offset := offset + vbytes r1
      if vval r1 ≠ some constants.CHANNEL_LIST_RESPONSE then .retErr .msgTypeMismatch
      else
        let offset := offset + constants.CIRCUITID_SIZE
        let reqid := jsSlice buf offset (offset + constants.REQID_SIZE)
        let offset := offset + constants.REQID_SIZE
        if ¬ isBufferSize reqid constants.REQID_SIZE then .threw (.bufferExpected "reqid")
        else
          match readChannelsLoop buf msgLen k (buf.length + 1) offset [] with
          | .threw e => .threw e
          | .retErr e => .retErr e
          | .ok (channels, _) =>
            .ok ⟨msgLen, constants.CHANNEL_LIST_RESPONSE, reqid, channels⟩

def MODERATION_STATE_REQUEST.create (reqid : List Nat) (channels : List (List Nat))
    (future oldest : Nat) : Outcome (List Nat) :=
  if ¬ isBufferSize reqid constants.REQID_SIZE then .threw (.bufferExpected "reqid")
  else
    let size := determineBufferSize
      [.v constants.MODERATION_STATE_REQUEST, .b constants.CIRCUITID_SIZE,
       .b constants.REQID_SIZE, .b (countChannelsBytes channels), .v 0,
       .v future, .v oldest]
    match firstChannelErr channels with
    | some e => .threw e
    | none =>
      let frame := runWrites
        ([.wv constants.MODERATION_STATE_REQUEST, .cp EMPTY_CIRCUIT_ID, .cp reqid] ++
          (channels.map (fun c => [WOp.wv c.length, WOp.cp c])).flatten ++
          [.wv 0, .wv future, .wv oldest])
        (List.replicate size 0) 0
      .ok (prependMsgLen frame)

def MODERATION_STATE_REQUEST.toJSON (buf : List Nat) :
    Outcome ModerationStateRequestJSON :=
  match decodeVarintSlice buf 0 with
  | none => .threw (.bufferExpected "remaining buf")
  | some (msgLen, k) =>
    let offset := k
    if ¬ isBufferSizeJ (buf.drop offset) (some msgLen) then .threw (.bufferExpected "remaining buf")
    else
      let r1 := decodeVarintSlice buf offset
      let offset := offset + vbytes r1
      if vval r1 ≠ some constants.MODERATION_STATE_REQUEST then .retErr .msgTypeMismatch
      else
        let offset := offset + constants.CIRCUITID_SIZE
        let reqid := jsSlice buf offset (offset + constants.REQID_SIZE)
        let offset := offset + constants.REQID_SIZE
        if ¬ isBufferSize reqid constants.REQID_SIZE then .threw (.bufferExpected "reqid")
        else
          match readChannelsLoop buf msgLen k (buf.length + 1) offset [] with
          | .threw e => .threw e
          | .retErr e => .retErr e
          | .ok (channels, offset) =>
            let r2 := decodeVarintSlice buf offset
            let offset := offset + vbytes r2
            let r3 := decodeVarintSlice buf offset
            .ok ⟨msgLen, constants.MODERATION_STATE_REQUEST, reqid, channels,
                 vval r2, vval r3⟩

/-! ## Peek, dispatch and the TTL transform -/

/-- peekMessage: decode and discard msgLen, then decode and return the
message type (undefined when either decode fails). -/
def peekMessage (buf : List Nat) : Option Nat :=
  let r0 := decodeVarintSlice buf 0
  vval (decodeVarintSlice buf (vbytes r0))

/-- peekReqid from src/index.js. -/
def peekReqid (buf : List Nat) : List Nat :=
  let r0 := decodeVarintSlice buf 0
  let offset := vbytes r0
  let r1 := decodeVarintSlice buf offset
  let offset := offset + vbytes r1 + constants.CIRCUITID_SIZE
  jsSlice buf offset (offset + constants.REQID_SIZE)

/-- peekPost: skip public key and signature, read numLinks, skip the links,
read the post type.  When numLinks fails to decode the JS offset becomes
NaN and the final decode also fails, so the peek is undefined. -/
def peekPost (buf : List Nat) : Option Nat :=
  let offset := constants.PUBLICKEY_SIZE + constants.SIGNATURE_SIZE
  match decodeVarintSlice buf offset with
  | none => none
  | some (numLinks, k) =>
    vval (decodeVarintSlice buf (offset + k + numLinks * constants.HASH_SIZE))

/-- A decoded message, for parseMessage dispatch. -/
inductive MessageJSON where
  | hashRes (r : HashResponseJSON)
  | postRes (r : PostResponseJSON)
  | postReq (r : PostRequestJSON)
  | cancelReq (r : CancelRequestJSON)
  | timeRangeReq (r : TimeRangeRequestJSON)
  | channelStateReq (r : ChannelStateRequestJSON)
  | channelListReq (r : ChannelListRequestJSON)
  | channelListRes (r : ChannelListResponseJSON)
deriving Repr, DecidableEq

def Outcome.map {A B : Type} (f : A → B) : Outcome A → Outcome B
  | .threw e => .threw e
  | .retErr e => .retErr e
  | .ok v => .ok (f v)

/-- parseMessage from src/index.js.  The default branch evaluates a template
literal over the unbound identifier postType, so an unknown message type
raises a ReferenceError rather than the intended Error. -/
def parseMessage (buf : List Nat) : Outcome MessageJSON :=
  match peekMessage buf with
  | some t =>
    if t = constants.HASH_RESPONSE then (HASH_RESPONSE.toJSON buf).map .hashRes
    else if t = constants.POST_RESPONSE then (POST_RESPONSE.toJSON buf).map .postRes
    else if t = constants.POST_REQUEST then (POST_REQUEST.toJSON buf).map .postReq
    else if t = constants.CANCEL_REQUEST then (CANCEL_REQUEST.toJSON buf).map .cancelReq
    else if t = constants.TIME_RANGE_REQUEST then (TIME_RANGE_REQUEST.toJSON buf).map .timeRangeReq
    else if t = constants.CHANNEL_STATE_REQUEST then (CHANNEL_STATE_REQUEST.toJSON buf).map .channelStateReq
    else if t = constants.CHANNEL_LIST_REQUEST then (CHANNEL_LIST_REQUEST.toJSON buf).map .channelListReq
    else if t = constants.CHANNEL_LIST_RESPONSE then (CHANNEL_LIST_RESPONSE.toJSON buf).map .channelListRes
    else .threw (.referenceError "postType")
  | none => .threw (.referenceError "postType")

/-- insertNewTTL from src/index.js. -/
def insertNewTTL (buf : List Nat) (expectedType : Nat) : Outcome (List Nat) :=
  let r0 := decodeVarintSlice buf 0
  let offset := vbytes r0
  let msgLenOffset := offset
  let r1 := decodeVarintSlice buf offset
  let offset := offset + vbytes r1
  if vval r1 ≠ some expectedType then .threw .msgTypeMismatch
  else
    let offset := offset + constants.CIRCUITID_SIZE + constants.REQID_SIZE
    let beforeTTL := jsSlice buf msgLenOffset offset
    match decodeVarintSlice buf offset with
    | none =>
      -- undefined - 1 is NaN; NaN < 0 is false, and varint.encode(NaN)
      -- produces the single byte 0 (NaN bit-ops coerce to 0)
      .ok (prependMsgLen (beforeTTL ++ [0] ++ buf.drop offset))
    | some (ttl, k) =>
      let afterTTL := buf.drop (offset + k)
      if ttl = 0 then .threw .ttlNegative
      else .ok (prependMsgLen (beforeTTL ++ varintEncode (ttl - 1) ++ afterTTL))

def POST_REQUEST.decrementTTL (buf : List Nat) : Outcome (List Nat) :=
  insertNewTTL buf constants.POST_REQUEST

def TIME_RANGE_REQUEST.decrementTTL (buf : List Nat) : Outcome (List Nat) :=
  insertNewTTL buf constants.TIME_RANGE_REQUEST

def CHANNEL_STATE_REQUEST.decrementTTL (buf : List Nat) : Outcome (List Nat) :=
  insertNewTTL buf constants.CHANNEL_STATE_REQUEST

def CHANNEL_LIST_REQUEST.decrementTTL (buf : List Nat) : Outcome (List Nat) :=
  insertNewTTL buf constants.CHANNEL_LIST_REQUEST

/-! ## Decoded-post records -/

structure TextPostJSON where
  publicKey : List Nat
  signature : List Nat
  links : List (List Nat)
  postType : Nat
  channel : List Nat
  timestamp : Option Nat
  text : List Nat
deriving Repr, DecidableEq

structure DeletePostJSON where
  publicKey : List Nat
  signature : List Nat
  links : List (List Nat)
  postType : Nat
  timestamp : Option Nat
  hashes : List (List Nat)
deriving Repr, DecidableEq

structure InfoPostJSON where
  publicKey : List Nat
  signature : List Nat
  links : List (List Nat)
  postType : Nat
  timestamp : Option Nat
  key : List Nat
  value : List Nat
deriving Repr, DecidableEq

structure TopicPostJSON where
  publicKey : List Nat
  signature : List Nat
  links : List (List Nat)
  postType : Nat
  channel : List Nat
  timestamp : Option Nat
  topic : List Nat
deriving Repr, DecidableEq

structure JoinPostJSON where
  publicKey : List Nat
  signature : List Nat
  links : List (List Nat)
  postType : Nat
  channel : List Nat
  timestamp : Option Nat
deriving Repr, DecidableEq

structure LeavePostJSON where
  publicKey : List Nat
  signature : List Nat
  links : List (List Nat)
  postType : Nat
  channel : List Nat
  timestamp : Option Nat
deriving Repr, DecidableEq

/-- The recipient-reading loop of BLOCK/UNBLOCK decoders (PUBLICKEY_SIZE
slices; the byte width is the same as HASH_SIZE but the source names the
other constant). -/
def keySlices (buf : List Nat) (offset : Nat) : Nat → List (List Nat)
  | 0 => []
  | c + 1 =>
    jsSlice buf offset (offset + constants.PUBLICKEY_SIZE) ::
      keySlices buf (offset + constants.PUBLICKEY_SIZE) c

/-! ## Post codec.

Every create: argument checks in source order, validation of the converted
string fields, exact-size allocation, the header writes (public key, a
64-byte gap for the signature, the links list, the post type tag, the
timestamp), the type-specific writes, then crypto.sign over the payload and
a checkSignature self-check. -/

def TEXT_POST.create (s : SigScheme) (publicKey secretKey : List Nat)
    (links : List (List Nat)) (channel : List Nat) (timestamp : Nat)
    (text : List Nat) : Outcome (List Nat) :=
  if ¬ isBufferSize publicKey constants.PUBLICKEY_SIZE then .threw (.bufferExpected "publicKey")
  else if ¬ isBufferSize secretKey constants.SECRETKEY_SIZE then .threw (.bufferExpected "secretKey")
  else if ¬ isArrayHashes links then .threw .linksExpected
  else
    match validation.checkChannelName channel with
    | some e => .threw e
    | none =>
      match validation.checkPostText text with
      | some e => .threw e
      | none =>
        let size := determineBufferSize
          [.b constants.PUBLICKEY_SIZE, .b constants.SIGNATURE_SIZE,
           .h links.length, .v constants.TEXT_POST, .v timestamp,
           .s channel.length, .s text.length]
        let buf := runWrites
          ([.cp publicKey, .skip constants.SIGNATURE_SIZE, .wv links.length] ++
            links.map WOp.cp ++
            [.wv constants.TEXT_POST, .wv timestamp,
             .wv channel.length, .cp channel, .wv text.length, .cp text])
          (List.replicate size 0) 0
        let buf := cryptoSign s buf secretKey
        match checkSignature s buf publicKey with
        | some e => .threw e
        | none => .ok buf

def TEXT_POST.toJSON (s : SigScheme) (buf : List Nat) : Outcome TextPostJSON :=
  let publicKey := jsSlice buf 0 constants.PUBLICKEY_SIZE
  let signature := jsSlice buf constants.PUBLICKEY_SIZE
    (constants.PUBLICKEY_SIZE + constants.SIGNATURE_SIZE)
  match checkSignature s buf publicKey with
  | some e => .threw e
  | none =>
    let offset := constants.PUBLICKEY_SIZE + constants.SIGNATURE_SIZE
    match decodeVarintSlice buf offset with
    | none =>
      -- numLinks undefined: the links loop never runs and the postType
      -- decode at the unchanged offset fails identically, so the
      -- undefined-tag mismatch branch RETURNS the Error object
      .retErr .postTypeMismatch
    | some (numLinks, k) =>
      let offset := offset + k
      let links := hashSlices buf offset numLinks
      let offset := offset + numLinks * constants.HASH_SIZE
      if ¬ isArrayHashes links then .threw .linksExpected
      else
        let r1 := decodeVarintSlice buf offset
        let offset := offset + vbytes r1
        if vval r1 ≠ some constants.TEXT_POST then .retErr .postTypeMismatch
        else
          let r2 := decodeVarintSlice buf offset
          let offset := offset + vbytes r2
          match decodeVarintSlice buf offset with
          | none =>
            -- channelLen undefined: the empty channel slice fails the
            -- minimum-1 channel bound
            .threw (.codepointRangeExpected "channel")
          | some (channelLen, k2) =>
            let offset := offset + k2
            let channelBuf := jsSlice buf offset (offset + channelLen)
            let offset := offset + channelLen
            match validation.checkChannelName channelBuf with
            | some e => .threw e
            | none =>
              match decodeVarintSlice buf offset with
              | none =>
                -- textLen undefined: the text slice is empty and the
                -- max-only text bound passes
                .ok ⟨publicKey, signature, links, constants.TEXT_POST,
                     channelBuf, vval r2, []⟩
              | some (textLen, k3) =>
                let offset := offset + k3
                let textBuf := jsSlice buf offset (offset + textLen)
                match validation.checkPostText textBuf with
                | some e => .threw e
                | none =>
                  .ok ⟨publicKey, signature, links, constants.TEXT_POST,
                       channelBuf, vval r2, textBuf⟩

def DELETE_POST.create (s : SigScheme) (publicKey secretKey : List Nat)
    (links : List (List Nat)) (timestamp : Nat) (hashes : List (List Nat)) :
    Outcome (List Nat) :=
  if ¬ isBufferSize publicKey constants.PUBLICKEY_SIZE then .threw (.bufferExpected "publicKey")
  else if ¬ isBufferSize secretKey constants.SECRETKEY_SIZE then .threw (.bufferExpected "secretKey")
  else if ¬ isArrayHashes links then .threw .linksExpected
  else if ¬ isArrayHashes hashes then .threw .hashesExpected
  else
    let size := determineBufferSize
      [.b constants.PUBLICKEY_SIZE, .b constants.SIGNATURE_SIZE,
       .h links.length, .v constants.DELETE_POST, .v timestamp,
       .h hashes.length]
    let buf := runWrites
      ([.cp publicKey, .skip constants.SIGNATURE_SIZE, .wv links.length] ++
        links.map WOp.cp ++
        [.wv constants.DELETE_POST, .wv timestamp, .wv hashes.length] ++
        hashes.map WOp.cp)
      (List.replicate size 0) 0
    let buf := cryptoSign s buf secretKey
    match checkSignature s buf publicKey with
    | some e => .threw e
    | none => .ok buf

def DELETE_POST.toJSON (s : SigScheme) (buf : List Nat) : Outcome DeletePostJSON :=
  let publicKey := jsSlice buf 0 constants.PUBLICKEY_SIZE
  let signature := jsSlice buf constants.PUBLICKEY_SIZE
    (constants.PUBLICKEY_SIZE + constants.SIGNATURE_SIZE)
  match checkSignature s buf publicKey with
  | some e => .threw e
  | none =>
    let offset := constants.PUBLICKEY_SIZE + constants.SIGNATURE_SIZE
    match decodeVarintSlice buf offset with
    | none => .retErr .postTypeMismatch
    | some (numLinks, k) =>
      let offset := offset + k
      let links := hashSlices buf offset numLinks
      let offset := offset + numLinks * constants.HASH_SIZE
      if ¬ isArrayHashes links then .threw .linksExpected
      else
        let r1 := decodeVarintSlice buf offset
        let offset := offset + vbytes r1
        if vval r1 ≠ some constants.DELETE_POST then .retErr .postTypeMismatch
        else
          let r2 := decodeVarintSlice buf offset
          let offset := offset + vbytes r2
          match decodeVarintSlice buf offset with
          | none =>
            -- numDeletions undefined: the hash loop never runs
            .ok ⟨publicKey, signature, links, constants.DELETE_POST, vval r2, []⟩
          | some (numDeletions, k2) =>
            let offset := offset + k2
            let hashes := hashSlices buf offset numDeletions
            if ¬ isArrayHashes hashes then .threw .hashesExpected
            else .ok ⟨publicKey, signature, links, constants.DELETE_POST, vval r2, hashes⟩

/-- The reserved info key "name" as UTF-8 bytes. -/
def nameKeyBytes : List Nat := [110, 97, 109, 101]

def INFO_POST.create (s : SigScheme) (publicKey secretKey : List Nat)
    (links : List (List Nat)) (timestamp : Nat) (key value : List Nat) :
    Outcome (List Nat) :=
  if ¬ isBufferSize publicKey constants.PUBLICKEY_SIZE then .threw (.bufferExpected "publicKey")
  else if ¬ isBufferSize secretKey constants.SECRETKEY_SIZE then .threw (.bufferExpected "secretKey")
  else if ¬ isArrayHashes links then .threw .linksExpected
  else
    match validation.checkInfoKey key with
    | some e => .threw e
    | none =>
      match validation.checkInfoValue value with
      | some e => .threw e
      | none =>
        match (if key = nameKeyBytes then validation.checkUsername value else none) with
        | some e => .threw e
        | none =>
          let size := determineBufferSize
            [.b constants.PUBLICKEY_SIZE, .b constants.SIGNATURE_SIZE,
             .h links.length, .v constants.INFO_POST, .v timestamp,
             .s key.length, .s value.length, .v 0]
          let buf := runWrites
            ([.cp publicKey, .skip constants.SIGNATURE_SIZE, .wv links.length] ++
              links.map WOp.cp ++
              [.wv constants.INFO_POST, .wv timestamp,
               .wv key.length, .cp key, .wv value.length, .cp value, .wv 0])
            (List.replicate size 0) 0
          let buf := cryptoSign s buf secretKey
          match checkSignature s buf publicKey with
          | some e => .threw e
          | none => .ok buf

def INFO_POST.toJSON (s : SigScheme) (buf : List Nat) : Outcome InfoPostJSON :=
  let publicKey := jsSlice buf 0 constants.PUBLICKEY_SIZE
  let signature := jsSlice buf constants.PUBLICKEY_SIZE
    (constants.PUBLICKEY_SIZE + constants.SIGNATURE_SIZE)
  match checkSignature s buf publicKey with
  | some e => .threw e
  | none =>
    let offset := constants.PUBLICKEY_SIZE + constants.SIGNATURE_SIZE
    match decodeVarintSlice buf offset with
    | none => .retErr .postTypeMismatch
    | some (numLinks, k) =>
      let offset := offset + k
      let links := hashSlices buf offset numLinks
      let offset := offset + numLinks * constants.HASH_SIZE
      if ¬ isArrayHashes links then .threw .linksExpected
      else
        let r1 := decodeVarintSlice buf offset
        let offset := offset + vbytes r1
        if vval r1 ≠ some constants.INFO_POST then .retErr .postTypeMismatch
        else
          let r2 := decodeVarintSlice buf offset
          let offset := offset + vbytes r2
          match decodeVarintSlice buf offset with
          | none =>
            -- keyLen undefined: the empty key fails the minimum-1 key bound
            .threw (.codepointRangeExpected "key")
          | some (keyLen, k2) =>
            let offset := offset + k2
            let keyBuf := jsSlice buf offset (offset + keyLen)
            let offset := offset + keyLen
            match validation.checkInfoKey keyBuf with
            | some e => .threw e
            | none =>
              match decodeVarintSlice buf offset with
              | none =>
                -- valueLen undefined: the empty value passes the max-only
                -- bound, but for key "name" the username minimum fails;
                -- otherwise the NaN offset makes the terminator undefined
                -- and the decoder RETURNS the terminator Error object
                if keyBuf = nameKeyBytes then .threw (.codepointRangeExpected "name")
                else .retErr .infoTerminatorNotZero
              | some (valueLen, k3) =>
                let offset := offset + k3
                let valueBuf := jsSlice buf offset (offset + valueLen)
                let offset := offset + valueLen
                match validation.checkInfoValue valueBuf with
                | some e => .threw e
                | none =>
                  match (if keyBuf = nameKeyBytes then validation.checkUsername valueBuf else none) with
                  | some e => .threw e
                  | none =>
                    match decodeVarintSlice buf offset with
                    | none => .retErr .infoTerminatorNotZero
                    | some (finalValueLen, _) =>
                      if finalValueLen ≠ 0 then .retErr .infoTerminatorNotZero
                      else
                        .ok ⟨publicKey, signature, links, constants.INFO_POST,
                             vval r2, keyBuf, valueBuf⟩

def TOPIC_POST.create (s : SigScheme) (publicKey secretKey : List Nat)
    (links : List (List Nat)) (channel : List Nat) (timestamp : Nat)
    (topic : List Nat) : Outcome (List Nat) :=
  if ¬ isBufferSize publicKey constants.PUBLICKEY_SIZE then .threw (.bufferExpected "publicKey")
  else if ¬ isBufferSize secretKey constants.SECRETKEY_SIZE then .threw (.bufferExpected "secretKey")
  else if ¬ isArrayHashes links then .threw .linksExpected
  else
    match validation.checkChannelName channel with
    | some e => .threw e
    | none =>
      match validation.checkTopic topic with
      | some e => .threw e
      | none =>
        let size := determineBufferSize
          [.b constants.PUBLICKEY_SIZE, .b constants.SIGNATURE_SIZE,
           .h links.length, .v constants.TOPIC_POST, .v timestamp,
           .s channel.length, .s topic.length]
        let buf := runWrites
          ([.cp publicKey, .skip constants.SIGNATURE_SIZE, .wv links.length] ++
            links.map WOp.cp ++
            [.wv constants.TOPIC_POST, .wv timestamp,
             .wv channel.length, .cp channel, .wv topic.length, .cp topic])
          (List.replicate size 0) 0
        let buf := cryptoSign s buf secretKey
        match checkSignature s buf publicKey with
        | some e => .threw e
        | none => .ok buf

def TOPIC_POST.toJSON (s : SigScheme) (buf : List Nat) : Outcome TopicPostJSON :=
  let publicKey := jsSlice buf 0 constants.PUBLICKEY_SIZE
  let signature := jsSlice buf constants.PUBLICKEY_SIZE
    (constants.PUBLICKEY_SIZE + constants.SIGNATURE_SIZE)
  match checkSignature s buf publicKey with
  | some e => .threw e
  | none =>
    let offset := constants.PUBLICKEY_SIZE + constants.SIGNATURE_SIZE
    match decodeVarintSlice buf offset with
    | none => .retErr .postTypeMismatch
    | some (numLinks, k) =>
      let offset := offset + k
      let links := hashSlices buf offset numLinks
      let offset := offset + numLinks * constants.HASH_SIZE
      if ¬ isArrayHashes links then .threw .linksExpected
      else
        let r1 := decodeVarintSlice buf offset
        let offset := offset + vbytes r1
        if vval r1 ≠ some constants.TOPIC_POST then .retErr .postTypeMismatch
        else
          let r2 := decodeVarintSlice buf offset
          let offset := offset + vbytes r2
          match decodeVarintSlice buf offset with
          | none => .threw (.codepointRangeExpected "channel")
          | some (channelLen, k2) =>
            let offset := offset + k2
            let channelBuf := jsSlice buf offset (offset + channelLen)
            let offset := offset + channelLen
            match validation.checkChannelName channelBuf with
            | some e => .threw e
            | none =>
              match decodeVarintSlice buf offset with
              | none =>
                -- topicLen undefined: the empty topic passes the
                -- minimum-0 topic bound and is returned
                .ok ⟨publicKey, signature, links, constants.TOPIC_POST,
                     channelBuf, vval r2, []⟩
              | some (topicLen, k3) =>
                let offset := offset + k3
                let topicBuf := jsSlice buf offset (offset + topicLen)
                match validation.checkTopic topicBuf with
                | some e => .threw e
                | none =>
                  .ok ⟨publicKey, signature, links, constants.TOPIC_POST,
                       channelBuf, vval r2, topicBuf⟩

def JOIN_POST.create (s : SigScheme) (publicKey secretKey : List Nat)
    (links : List (List Nat)) (channel : List Nat) (timestamp : Nat) :
    Outcome (List Nat) :=
  if ¬ isBufferSize publicKey constants.PUBLICKEY_SIZE then .threw (.bufferExpected "publicKey")
  else if ¬ isBufferSize secretKey constants.SECRETKEY_SIZE then .threw (.bufferExpected "secretKey")
  else if ¬ isArrayHashes links then .threw .linksExpected
  else
    match validation.checkChannelName channel with
    | some e => .threw e
    | none =>
      let size := determineBufferSize
        [.b constants.PUBLICKEY_SIZE, .b constants.SIGNATURE_SIZE,
         .h links.length, .v constants.JOIN_POST, .v timestamp,
         .s channel.length]
      let buf := runWrites
        ([.cp publicKey, .skip constants.SIGNATURE_SIZE, .wv links.length] ++
          links.map WOp.cp ++
          [.wv constants.JOIN_POST, .wv timestamp,
           .wv channel.length, .cp channel])
        (List.replicate size 0) 0
      let buf := cryptoSign s buf secretKey
      match checkSignature s buf publicKey with
      | some e => .threw e
      | none => .ok buf

def JOIN_POST.toJSON (s : SigScheme) (buf : List Nat) : Outcome JoinPostJSON :=
  let publicKey := jsSlice buf 0 constants.PUBLICKEY_SIZE
  let signature := jsSlice buf constants.PUBLICKEY_SIZE
    (constants.PUBLICKEY_SIZE + constants.SIGNATURE_SIZE)
  match checkSignature s buf publicKey with
  | some e => .threw e
  | none =>
    let offset := constants.PUBLICKEY_SIZE + constants.SIGNATURE_SIZE
    match decodeVarintSlice buf offset with
    | none => .retErr .postTypeMismatch
    | some (numLinks, k) =>
      let offset := offset + k
      let links := hashSlices buf offset numLinks
      let offset := offset + numLinks * constants.HASH_SIZE
      if ¬ isArrayHashes links then .threw .linksExpected
      else
        let r1 := decodeVarintSlice buf offset
        let offset := offset + vbytes r1
        if vval r1 ≠ some constants.JOIN_POST then .retErr .postTypeMismatch
        else
          let r2 := decodeVarintSlice buf offset
          let offset := offset + vbytes r2
          match decodeVarintSlice buf offset with
          | none => .threw (.codepointRangeExpected "channel")
          | some (channelLen, k2) =>
            let offset := offset + k2
            let channelBuf := jsSlice buf offset (offset + channelLen)
            match validation.checkChannelName channelBuf with
            | some e => .threw e
            | none =>
              .ok ⟨publicKey, signature, links, constants.JOIN_POST,
                   channelBuf, vval r2⟩

def LEAVE_POST.create (s : SigScheme) (publicKey secretKey : List Nat)
    (links : List (List Nat)) (channel : List Nat) (timestamp : Nat) :
    Outcome (List Nat) :=
  if ¬ isBufferSize publicKey constants.PUBLICKEY_SIZE then .threw (.bufferExpected "publicKey")
  else if ¬ isBufferSize secretKey constants.SECRETKEY_SIZE then .threw (.bufferExpected "secretKey")
  else if ¬ isArrayHashes links then .threw .linksExpected
  else
    match validation.checkChannelName channel with
    | some e => .threw e
    | none =>
      let size := determineBufferSize
        [.b constants.PUBLICKEY_SIZE, .b constants.SIGNATURE_SIZE,
         .h links.length, .v constants.LEAVE_POST, .v timestamp,
         .s channel.length]
      let buf := runWrites
        ([.cp publicKey, .skip constants.SIGNATURE_SIZE, .wv links.length] ++
          links.map WOp.cp ++
          [.wv constants.LEAVE_POST, .wv timestamp,
           .wv channel.length, .cp channel])
        (List.replicate size 0) 0
      let buf := cryptoSign s buf secretKey
      match checkSignature s buf publicKey with
      | some e => .threw e
      | none => .ok buf

def LEAVE_POST.toJSON (s : SigScheme) (buf : List Nat) : Outcome LeavePostJSON :=
  let publicKey := jsSlice buf 0 constants.PUBLICKEY_SIZE
  let signature := jsSlice buf constants.PUBLICKEY_SIZE
    (constants.PUBLICKEY_SIZE + constants.SIGNATURE_SIZE)
  match checkSignature s buf publicKey with
  | some e => .threw e
  | none =>
    let offset := constants.PUBLICKEY_SIZE + constants.SIGNATURE_SIZE
    match decodeVarintSlice buf offset with
    | none => .retErr .postTypeMismatch
    | some (numLinks, k) =>
      let offset := offset + k
      let links := hashSlices buf offset numLinks
      let offset := offset + numLinks * constants.HASH_SIZE
      if ¬ isArrayHashes links then .threw .linksExpected
      else
        let r1 := decodeVarintSlice buf offset
        let offset := offset + vbytes r1
        if vval r1 ≠ some constants.LEAVE_POST then .retErr .postTypeMismatch
        else
          let r2 := decodeVarintSlice buf offset
          let offset := offset + vbytes r2
          match decodeVarintSlice buf offset with
          | none => .threw (.codepointRangeExpected "channel")
          | some (channelLen, k2) =>
            let offset := offset + k2
            let channelBuf := jsSlice buf offset (offset + channelLen)
            match validation.checkChannelName channelBuf with
            | some e => .threw e
            | none =>
              .ok ⟨publicKey, signature, links, constants.LEAVE_POST,
                   channelBuf, vval r2⟩

def ROLE_POST.create (s : SigScheme) (publicKey secretKey : List Nat)
    (links : List (List Nat)) (channel : List Nat) (timestamp : Nat)
    (recipient : List Nat) (role : Nat) (reason : List Nat) (privacy : Nat) :
    Outcome (List Nat) :=
  if ¬ isBufferSize publicKey constants.PUBLICKEY_SIZE then .threw (.bufferExpected "publicKey")
  else if ¬ isBufferSize secretKey constants.SECRETKEY_SIZE then .threw (.bufferExpected "secretKey")
  else if ¬ isBufferSize recipient constants.PUBLICKEY_SIZE then .threw (.bufferExpected "recipient")
  else if ¬ isArrayHashes links then .threw .linksExpected
  else
    match validation.checkChannelName channel with
    | some e => .threw e
    | none =>
      match validation.checkReason reason with
      | some e => .threw e
      | none =>
        -- the manifest reserves a varint slot for role, but the write
        -- sequence stops after the recipient key: role is never written and
        -- its slot stays zero-filled in the signed buffer
        let size := determineBufferSize
          [.b constants.PUBLICKEY_SIZE, .b constants.SIGNATURE_SIZE,
           .h links.length, .v constants.ROLE_POST, .v timestamp,
           .s reason.length, .v privacy, .s channel.length,
           .b constants.PUBLICKEY_SIZE, .v role]
        let buf := runWrites
          ([.cp publicKey, .skip constants.SIGNATURE_SIZE, .wv links.length] ++
            links.map WOp.cp ++
            [.wv constants.ROLE_POST, .wv timestamp,
             .wv reason.length, .cp reason, .wv privacy,
             .wv channel.length, .cp channel, .cp recipient])
          (List.replicate size 0) 0
        let buf := cryptoSign s buf secretKey
        match checkSignature s buf publicKey with
        | some e => .threw e
        | none => .ok buf

def ROLE_POST.toJSON (s : SigScheme) (buf : List Nat) : Outcome Unit :=
  let publicKey := jsSlice buf 0 constants.PUBLICKEY_SIZE
  match checkSignature s buf publicKey with
  | some e => .threw e
  | none =>
    let offset := constants.PUBLICKEY_SIZE + constants.SIGNATURE_SIZE
    match decodeVarintSlice buf offset with
    | none => .retErr .postTypeMismatch
    | some (numLinks, k) =>
      let offset := offset + k
      let links := hashSlices buf offset numLinks
      let offset := offset + numLinks * constants.HASH_SIZE
      if ¬ isArrayHashes links then .threw .linksExpected
      else
        let r1 := decodeVarintSlice buf offset
        let offset := offset + vbytes r1
        if vval r1 ≠ some constants.ROLE_POST then .retErr .postTypeMismatch
        else
          let r2 := decodeVarintSlice buf offset
          let offset := offset + vbytes r2
          match decodeVarintSlice buf offset with
          | none =>
            -- reasonLen undefined: the empty reason passes the minimum-0
            -- bound, the NaN offset leaves privacy and channelLen
            -- undefined, and the empty channel then fails the minimum-1
            -- channel bound
            .threw (.codepointRangeExpected "channel")
          | some (reasonLen, k2) =>
            let offset := offset + k2
            let reasonBuf := jsSlice buf offset (offset + reasonLen)
            let offset := offset + reasonLen
            match validation.checkReason reasonBuf with
            | some e => .threw e
            | none =>
              let r3 := decodeVarintSlice buf offset
              let offset := offset + vbytes r3
              match decodeVarintSlice buf offset with
              | none => .threw (.codepointRangeExpected "channel")
              | some (channelLen, k3) =>
                let offset := offset + k3
                let channelBuf := jsSlice buf offset (offset + channelLen)
                let offset := offset + channelLen
                match validation.checkChannelName channelBuf with
                | some e => .threw e
                | none =>
                  -- the source slices buf.slice(offset, PUBLICKEY_SIZE)
                  -- (an absolute end bound) and then returns an object
                  -- literal naming secretKey and role, which are unbound
                  -- in this scope: the return raises a ReferenceError
                  .threw (.referenceError "secretKey")

def MODERATION_POST.create (s : SigScheme) (publicKey secretKey : List Nat)
    (links : List (List Nat)) (channel : List Nat) (timestamp : Nat)
    (recipients : List (List Nat)) (action : Nat) (reason : List Nat)
    (privacy : Nat) : Outcome (List Nat) :=
  if ¬ isBufferSize publicKey constants.PUBLICKEY_SIZE then .threw (.bufferExpected "publicKey")
  else if ¬ isBufferSize secretKey constants.SECRETKEY_SIZE then .threw (.bufferExpected "secretKey")
  else if ¬ isArrayHashes links then .threw .linksExpected
  else if (action = constants.ACTION_HIDE_POST ∨ action = constants.ACTION_UNHIDE_POST ∨
      action = constants.ACTION_DROP_POST ∨ action = constants.ACTION_UNDROP_POST) ∧
      ¬ isArrayHashes recipients then .threw .arrayPostsExpected
  else if (action = constants.ACTION_HIDE_USER ∨ action = constants.ACTION_UNHIDE_USER) ∧
      ¬ isArrayPublicKeys recipients then .threw .arrayKeysExpected
  else if (action = constants.ACTION_DROP_CHANNEL ∨ action = constants.ACTION_UNDROP_CHANNEL) ∧
      recipients.length > 0 then .threw .emptyRecipientsExpected
  else
    match validation.checkChannelName channel with
    | some e => .threw e
    | none =>
      match validation.checkReason reason with
      | some e => .threw e
      | none =>
        match validation.checkRecipientsLength recipients with
        | some e => .threw e
        | none =>
          let size := determineBufferSize
            [.b constants.PUBLICKEY_SIZE, .b constants.SIGNATURE_SIZE,
             .h links.length, .v constants.MODERATION_POST, .v timestamp,
             .s reason.length, .v privacy, .s channel.length,
             .h recipients.length, .v action]
          -- the write path serializes constants.ROLE_POST as the post type
          -- while the size manifest said constants.MODERATION_POST; both
          -- tags are one byte, so only the written tag differs
          let buf := runWrites
            ([.cp publicKey, .skip constants.SIGNATURE_SIZE, .wv links.length] ++
              links.map WOp.cp ++
              [.wv constants.ROLE_POST, .wv timestamp,
               .wv reason.length, .cp reason, .wv privacy,
               .wv channel.length, .cp channel, .wv recipients.length] ++
              recipients.map WOp.cp ++ [.wv action])
            (List.replicate size 0) 0
          let buf := cryptoSign s buf secretKey
          match checkSignature s buf publicKey with
          | some e => .threw e
          | none => .ok buf

def MODERATION_POST.toJSON (s : SigScheme) (buf : List Nat) : Outcome Unit :=
  let publicKey := jsSlice buf 0 constants.PUBLICKEY_SIZE
  match checkSignature s buf publicKey with
  | some e => .threw e
  | none =>
    let offset := constants.PUBLICKEY_SIZE + constants.SIGNATURE_SIZE
    match decodeVarintSlice buf offset with
    | none => .retErr .postTypeMismatch
    | some (numLinks, k) =>
      let offset := offset + k
      let links := hashSlices buf offset numLinks
      let offset := offset + numLinks * constants.HASH_SIZE
      if ¬ isArrayHashes links then .threw .linksExpected
      else
        let r1 := decodeVarintSlice buf offset
        let offset := offset + vbytes r1
        -- the expected tag here is constants.ROLE_POST, not MODERATION_POST
        if vval r1 ≠ some constants.ROLE_POST then .retErr .postTypeMismatch
        else
          let r2 := decodeVarintSlice buf offset
          let offset := offset + vbytes r2
          match decodeVarintSlice buf offset with
          | none => .threw (.codepointRangeExpected "channel")
          | some (reasonLen, k2) =>
            let offset := offset + k2
            let reasonBuf := jsSlice buf offset (offset + reasonLen)
            let offset := offset + reasonLen
            match validation.checkReason reasonBuf with
            | some e => .threw e
            | none =>
              let r3 := decodeVarintSlice buf offset
              let offset := offset + vbytes r3
              match decodeVarintSlice buf offset with
              | none => .threw (.codepointRangeExpected "channel")
              | some (channelLen, k3) =>
                let offset := offset + k3
                let channelBuf := jsSlice buf offset (offset + channelLen)
                let offset := offset + channelLen
                match validation.checkChannelName channelBuf with
                | some e => .threw e
                | none =>
                  match decodeVarintSlice buf offset with
                  | none =>
                    -- recipientCount undefined: the loop never runs and the
                    -- empty recipients list fails the minimum-1 bound
                    .threw .recipientsLengthMin
                  | some (recipientCount, k4) =>
                    let offset := offset + k4
                    let recipients := hashSlices buf offset recipientCount
                    let offset := offset + recipientCount * constants.HASH_SIZE
                    match validation.checkRecipientsLength recipients with
                    | some e => .threw e
                    | none =>
                      let r5 := decodeVarintSlice buf offset
                      if (vval r5 = some constants.ACTION_HIDE_POST ∨
                          vval r5 = some constants.ACTION_UNHIDE_POST ∨
                          vval r5 = some constants.ACTION_DROP_POST ∨
                          vval r5 = some constants.ACTION_UNDROP_POST) ∧
                          ¬ isArrayHashes recipients then .threw .arrayPostsExpected
                      else if (vval r5 = some constants.ACTION_HIDE_USER ∨
                          vval r5 = some constants.ACTION_UNHIDE_USER) ∧
                          ¬ isArrayPublicKeys recipients then .threw .arrayKeysExpected
                      else if (vval r5 = some constants.ACTION_DROP_CHANNEL ∨
                          vval r5 = some constants.ACTION_UNDROP_CHANNEL) ∧
                          recipients.length > 0 then .threw .emptyRecipientsExpected
                      else
                        -- return { publicKey, secretKey, ... }: secretKey
                        -- is unbound in this scope, so the return raises a
                        -- ReferenceError
                        .threw (.referenceError "secretKey")

def BLOCK_POST.create (s : SigScheme) (publicKey secretKey : List Nat)
    (links : List (List Nat)) (timestamp : Nat) (recipients : List (List Nat))
    (drop notify : Nat) (reason : List Nat) (privacy : Nat) :
    Outcome (List Nat) :=
  if ¬ isBufferSize publicKey constants.PUBLICKEY_SIZE then .threw (.bufferExpected "publicKey")
  else if ¬ isBufferSize secretKey constants.SECRETKEY_SIZE then .threw (.bufferExpected "secretKey")
  else if ¬ isArrayHashes links then .threw .linksExpected
  else if ¬ isArrayPublicKeys recipients then .threw .arrayKeysExpected
  else
    match validation.checkReason reason with
    | some e => .threw e
    | none =>
      match validation.checkRecipientsLength recipients with
      | some e => .threw e
      | none =>
        let size := determineBufferSize
          [.b constants.PUBLICKEY_SIZE, .b constants.SIGNATURE_SIZE,
           .h links.length, .v constants.BLOCK_POST, .v timestamp,
           .s reason.length, .v privacy, .h recipients.length,
           .v drop, .v notify]
        let buf := runWrites
          ([.cp publicKey, .skip constants.SIGNATURE_SIZE, .wv links.length] ++
            links.map WOp.cp ++
            [.wv constants.BLOCK_POST, .wv timestamp,
             .wv reason.length, .cp reason, .wv privacy,
             .wv recipients.length] ++
            recipients.map WOp.cp ++ [.wv drop, .wv notify])
          (List.replicate size 0) 0
        let buf := cryptoSign s buf secretKey
        match checkSignature s buf publicKey with
        | some e => .threw e
        | none => .ok buf

def BLOCK_POST.toJSON (s : SigScheme) (buf : List Nat) : Outcome Unit :=
  let publicKey := jsSlice buf 0 constants.PUBLICKEY_SIZE
  match checkSignature s buf publicKey with
  | some e => .threw e
  | none =>
    let offset := constants.PUBLICKEY_SIZE + constants.SIGNATURE_SIZE
    match decodeVarintSlice buf offset with
    | none => .retErr .postTypeMismatch
    | some (numLinks, k) =>
      let offset := offset + k
      let links := hashSlices buf offset numLinks
      let offset := offset + numLinks * constants.HASH_SIZE
      if ¬ isArrayHashes links then .threw .linksExpected
      else
        let r1 := decodeVarintSlice buf offset
        let offset := offset + vbytes r1
        if vval r1 ≠ some constants.BLOCK_POST then .retErr .postTypeMismatch
        else
          let r2 := decodeVarintSlice buf offset
          let offset := offset + vbytes r2
          match decodeVarintSlice buf offset with
          | none =>
            -- reasonLen undefined: the empty reason passes, the NaN offset
            -- leaves privacy and recipientCount undefined, the loop never
            -- runs and the empty recipients list fails the minimum-1 bound
            .threw .recipientsLengthMin
          | some (reasonLen, k2) =>
            let offset := offset + k2
            let reasonBuf := jsSlice buf offset (offset + reasonLen)
            let offset := offset + reasonLen
            match validation.checkReason reasonBuf with
            | some e => .threw e
            | none =>
              let r3 := decodeVarintSlice buf offset
              let offset := offset + vbytes r3
              match decodeVarintSlice buf offset with
              | none => .threw .recipientsLengthMin
              | some (recipientCount, k3) =>
                let offset := offset + k3
                let recipients := keySlices buf offset recipientCount
                let offset := offset + recipientCount * constants.PUBLICKEY_SIZE
                if ¬ isArrayPublicKeys recipients then .threw .arrayKeysExpected
                else
                  match validation.checkRecipientsLength recipients with
                  | some e => .threw e
                  | none =>
                    let r4 := decodeVarintSlice buf offset
                    let offset := offset + vbytes r4
                    let r5 := decodeVarintSlice buf offset
                    -- return { publicKey, secretKey, ... }: secretKey is
                    -- unbound in this scope, so the return raises a
                    -- ReferenceError
                    .threw (.referenceError "secretKey")

/-- UNBLOCK_POST.create declares eight parameters but requires
arguments.length === 9, so the declared-arity call throws the
wrong-number-of-arguments error, and a nine-argument call that passes the
arity gate reaches isInteger(notify) where notify is unbound:
ReferenceError.  Modelled here is the nine-argument flow, which runs the
checks that precede the unbound identifier, in source order; no call ever
produces a buffer. -/
def UNBLOCK_POST.create (publicKey secretKey : List Nat)
    (links : List (List Nat)) (recipients : List (List Nat)) : Outcome (List Nat) :=
  if ¬ isBufferSize publicKey constants.PUBLICKEY_SIZE then .threw (.bufferExpected "publicKey")
  else if ¬ isBufferSize secretKey constants.SECRETKEY_SIZE then .threw (.bufferExpected "secretKey")
  else if ¬ isArrayHashes links then .threw .linksExpected
  else if ¬ isArrayPublicKeys recipients then .threw .arrayKeysExpected
  else .threw (.referenceError "notify")

def UNBLOCK_POST.toJSON (s : SigScheme) (buf : List Nat) : Outcome Unit :=
  let publicKey := jsSlice buf 0 constants.PUBLICKEY_SIZE
  match checkSignature s buf publicKey with
  | some e => .threw e
  | none =>
    let offset := constants.PUBLICKEY_SIZE + constants.SIGNATURE_SIZE
    match decodeVarintSlice buf offset with
    | none => .retErr .postTypeMismatch
    | some (numLinks, k) =>
      let offset := offset + k
      let links := hashSlices buf offset numLinks
      let offset := offset + numLinks * constants.HASH_SIZE
      if ¬ isArrayHashes links then .threw .linksExpected
      else
        let r1 := decodeVarintSlice buf offset
        let offset := offset + vbytes r1
        if vval r1 ≠ some constants.UNBLOCK_POST then .retErr .postTypeMismatch
        else
          let r2 := decodeVarintSlice buf offset
          let offset := offset + vbytes r2
          match decodeVarintSlice buf offset with
          | none => .threw .recipientsLengthMin
          | some (reasonLen, k2) =>
            let offset := offset + k2
            let reasonBuf := jsSlice buf offset (offset + reasonLen)
            let offset := offset + reasonLen
            match validation.checkReason reasonBuf with
            | some e => .threw e
            | none =>
              let r3 := decodeVarintSlice buf offset
              let offset := offset + vbytes r3
              match decodeVarintSlice buf offset with
              | none => .threw .recipientsLengthMin
              | some (recipientCount, k3) =>
                let offset := offset + k3
                let recipients := keySlices buf offset recipientCount
                let offset := offset + recipientCount * constants.PUBLICKEY_SIZE
                if ¬ isArrayPublicKeys recipients then .threw .arrayKeysExpected
                else
                  match validation.checkRecipientsLength recipients with
                  | some e => .threw e
                  | none =>
                    let r4 := decodeVarintSlice buf offset
                    -- return { publicKey, secretKey, ... }: secretKey is
                    -- unbound in this scope, so the return raises a
                    -- ReferenceError
                    .threw (.referenceError "secretKey")

/-- A decoded post, for parsePost dispatch. -/
inductive PostJSON where
  | text (r : TextPostJSON)
  | del (r : DeletePostJSON)
  | info (r : InfoPostJSON)
  | topic (r : TopicPostJSON)
  | join (r : JoinPostJSON)
  | leave (r : LeavePostJSON)
deriving Repr, DecidableEq

/-- parsePost from src/index.js: dispatch on peekPost over the six
dispatchable post types; anything else throws the unknown-post-type
error. -/
def parsePost (s : SigScheme) (buf : List Nat) : Outcome PostJSON :=
  match peekPost buf with
  | some t =>
    if t = constants.TEXT_POST then (TEXT_POST.toJSON s buf).map .text
    else if t = constants.DELETE_POST then (DELETE_POST.toJSON s buf).map .del
    else if t = constants.INFO_POST then (INFO_POST.toJSON s buf).map .info
    else if t = constants.TOPIC_POST then (TOPIC_POST.toJSON s buf).map .topic
    else if t = constants.JOIN_POST then (JOIN_POST.toJSON s buf).map .join
    else if t = constants.LEAVE_POST then (LEAVE_POST.toJSON s buf).map .leave
    else .threw .unknownType
  | none => .threw .unknownType

/-! ## Generic evaluation helpers for the write model -/

theorem totalSize_append (a b : List WOp) :
    totalSize (a ++ b) = totalSize a + totalSize b := by
  simp [totalSize]

theorem chunks_append (a b : List WOp) :
    (((a ++ b).map opChunk)).flatten = (a.map opChunk).flatten ++ (b.map opChunk).flatten := by
  simp

theorem totalSize_map_cp (l : List (List Nat)) (k : Nat) (h : ∀ x ∈ l, x.length = k) :
    totalSize (l.map WOp.cp) = l.length * k := by
  induction l with
  | nil => simp [totalSize]
  | cons x xs ih =>
    have hx := h x (by simp)
    have := ih (fun y hy => h y (by simp [hy]))
    simp [totalSize, opSize] at this ⊢
    rw [hx, this]
    ring

theorem chunks_map_cp (l : List (List Nat)) :
    ((l.map WOp.cp).map opChunk).flatten = l.flatten := by
  induction l with
  | nil => simp
  | cons x xs ih => simp [opChunk] at ih ⊢; exact ih

theorem flatten_length_const (l : List (List Nat)) (k : Nat) (h : ∀ x ∈ l, x.length = k) :
    l.flatten.length = l.length * k := by
  induction l with
  | nil => simp
  | cons x xs ih =>
    have hx := h x (by simp)
    have := ih (fun y hy => h y (by simp [hy]))
    simp [hx, this]
    ring

/-- The per-post write pair used by POST_RESPONSE.create. -/
def postSeg (p : List Nat) : List Nat := varintEncode p.length ++ p

theorem totalSize_postOps (posts : List (List Nat)) :
    totalSize ((posts.map (fun p => [WOp.wv p.length, WOp.cp p])).flatten)
      = countPostsBytes posts := by
  have gen : ∀ (l : List (List Nat)) (acc : Nat),
      l.foldl (fun acc p => acc + (p.length + (varintEncode p.length).length)) acc
        = acc + totalSize ((l.map (fun p => [WOp.wv p.length, WOp.cp p])).flatten) := by
    intro l
    induction l with
    | nil => intro acc; simp [totalSize]
    | cons x xs ih =>
      intro acc
      simp only [List.foldl_cons, List.map_cons, List.flatten_cons]
      rw [ih]
      rw [totalSize_append]
      simp [totalSize, opSize]
      omega
  unfold countPostsBytes
  rw [gen posts 0]
  omega

theorem chunks_postOps (posts : List (List Nat)) :
    (((posts.map (fun p => [WOp.wv p.length, WOp.cp p])).flatten).map opChunk).flatten
      = (posts.map postSeg).flatten := by
  induction posts with
  | nil => simp
  | cons x xs ih =>
    simp only [List.map_cons, List.flatten_cons, chunks_append, ih]
    simp [opChunk, postSeg]

theorem countChannelsBytes_eq (channels : List (List Nat)) :
    countChannelsBytes channels = countPostsBytes channels := rfl

/-- Reconstructing a list of fixed-size entries by repeated slicing. -/
theorem hashSlices_eval (hs : List (List Nat)) :
    ∀ (buf : List Nat) (off : Nat) (tail : List Nat),
      buf.drop off = hs.flatten ++ tail →
      (∀ x ∈ hs, x.length = constants.HASH_SIZE) →
      hashSlices buf off hs.length = hs := by
  induction hs with
  | nil => intro buf off tail _ _; simp [hashSlices]
  | cons x xs ih =>
    intro buf off tail hdrop hsz
    have hx := hsz x (by simp)
    have hdrop2 : buf.drop off = x ++ (xs.flatten ++ tail) := by
      simpa using hdrop
    simp only [List.length_cons, hashSlices]
    have hslice : jsSlice buf off (off + constants.HASH_SIZE) = x := by
      have := jsSlice_at buf off x (xs.flatten ++ tail) hdrop2
      rwa [hx] at this
    have hnext : buf.drop (off + constants.HASH_SIZE) = xs.flatten ++ tail := by
      have := drop_at buf off x (xs.flatten ++ tail) hdrop2
      rwa [hx] at this
    rw [hslice, ih buf (off + constants.HASH_SIZE) tail hnext
      (fun y hy => hsz y (by simp [hy]))]

theorem keySlices_eval (hs : List (List Nat)) :
    ∀ (buf : List Nat) (off : Nat) (tail : List Nat),
      buf.drop off = hs.flatten ++ tail →
      (∀ x ∈ hs, x.length = constants.PUBLICKEY_SIZE) →
      keySlices buf off hs.length = hs := by
  induction hs with
  | nil => intro buf off tail _ _; simp [keySlices]
  | cons x xs ih =>
    intro buf off tail hdrop hsz
    have hx := hsz x (by simp)
    have hdrop2 : buf.drop off = x ++ (xs.flatten ++ tail) := by
      simpa using hdrop
    simp only [List.length_cons, keySlices]
    have hslice : jsSlice buf off (off + constants.PUBLICKEY_SIZE) = x := by
      have := jsSlice_at buf off x (xs.flatten ++ tail) hdrop2
      rwa [hx] at this
    have hnext : buf.drop (off + constants.PUBLICKEY_SIZE) = xs.flatten ++ tail := by
      have := drop_at buf off x (xs.flatten ++ tail) hdrop2
      rwa [hx] at this
    rw [hslice, ih buf (off + constants.PUBLICKEY_SIZE) tail hnext
      (fun y hy => hsz y (by simp [hy]))]

/-! ## Shared message-frame lemmas.

Every message create builds `prependMsgLen (msgFrame tag reqid rest)` and
every message toJSON parses that shape back: msgLen varint, one tag byte
(all nine tags are below 128), four circuit bytes, four reqid bytes, then
the type-specific rest. -/

def msgFrame (tag : Nat) (reqid rest : List Nat) : List Nat :=
  varintEncode tag ++ (EMPTY_CIRCUIT_ID ++ (reqid ++ rest))

theorem msgFrame_length (tag : Nat) (reqid rest : List Nat) (htag : tag < 128)
    (h1 : reqid.length = constants.REQID_SIZE) :
    (msgFrame tag reqid rest).length = 9 + rest.length := by
  simp [msgFrame, varintEncode_small tag htag, EMPTY_CIRCUIT_ID, h1, constants.REQID_SIZE]
  omega

theorem msg_dvs0 (tag : Nat) (reqid rest : List Nat)
    (hlt : (msgFrame tag reqid rest).length < 2 ^ 56) :
    decodeVarintSlice (prependMsgLen (msgFrame tag reqid rest)) 0 =
      some ((msgFrame tag reqid rest).length,
        (varintEncode (msgFrame tag reqid rest).length).length) := by
  apply decodeVarintSlice_at _ 0 _ (msgFrame tag reqid rest) _ hlt
  simp [prependMsgLen]

theorem msg_drop_mlen (tag : Nat) (reqid rest : List Nat) :
    (prependMsgLen (msgFrame tag reqid rest)).drop
      ((varintEncode (msgFrame tag reqid rest).length).length) =
      msgFrame tag reqid rest := by
  have := drop_at (prependMsgLen (msgFrame tag reqid rest)) 0
    (varintEncode (msgFrame tag reqid rest).length) (msgFrame tag reqid rest)
    (by simp [prependMsgLen])
  simpa using this

theorem msg_dvs_tag (tag : Nat) (reqid rest : List Nat) (htag : tag < 128) :
    decodeVarintSlice (prependMsgLen (msgFrame tag reqid rest))
      ((varintEncode (msgFrame tag reqid rest).length).length) = some (tag, 1) := by
  have hd : (prependMsgLen (msgFrame tag reqid rest)).drop
      ((varintEncode (msgFrame tag reqid rest).length).length) =
      varintEncode tag ++ (EMPTY_CIRCUIT_ID ++ (reqid ++ rest)) := msg_drop_mlen tag reqid rest
  have := decodeVarintSlice_at _ _ tag _ hd (by omega)
  rwa [varintEncode_small tag htag] at this

theorem msg_drop_circ (tag : Nat) (reqid rest : List Nat) (htag : tag < 128) :
    (prependMsgLen (msgFrame tag reqid rest)).drop
      ((varintEncode (msgFrame tag reqid rest).length).length + 1 + 4) =
      reqid ++ rest := by
  have hd : (prependMsgLen (msgFrame tag reqid rest)).drop
      ((varintEncode (msgFrame tag reqid rest).length).length) =
      varintEncode tag ++ (EMPTY_CIRCUIT_ID ++ (reqid ++ rest)) := msg_drop_mlen tag reqid rest
  have h1 := drop_at _ _ _ _ hd
  rw [varintEncode_small tag htag] at h1
  simp only [List.length_cons, List.length_nil] at h1
  have h2 := drop_at _ _ _ _ h1
  simpa [EMPTY_CIRCUIT_ID] using h2

theorem msg_reqid (tag : Nat) (reqid rest : List Nat) (htag : tag < 128)
    (h1 : reqid.length = constants.REQID_SIZE) :
    jsSlice (prependMsgLen (msgFrame tag reqid rest))
      ((varintEncode (msgFrame tag reqid rest).length).length + 1 + 4)
      ((varintEncode (msgFrame tag reqid rest).length).length + 1 + 4 + 4) = reqid := by
  have := jsSlice_at _ _ reqid rest (msg_drop_circ tag reqid rest htag)
  rwa [show reqid.length = 4 from h1] at this

theorem msg_drop_hdr (tag : Nat) (reqid rest : List Nat) (htag : tag < 128)
    (h1 : reqid.length = constants.REQID_SIZE) :
    (prependMsgLen (msgFrame tag reqid rest)).drop
      ((varintEncode (msgFrame tag reqid rest).length).length + 1 + 4 + 4) = rest := by
  have := drop_at _ _ reqid rest (msg_drop_circ tag reqid rest htag)
  rwa [show reqid.length = 4 from h1] at this

/-! ## HASH_RESPONSE: create shape and decode evaluation -/

theorem HASH_RESPONSE_create_eq (reqid : List Nat) (hashes : List (List Nat))
    (h1 : reqid.length = constants.REQID_SIZE)
    (h2 : ∀ x ∈ hashes, x.length = constants.HASH_SIZE) :
    HASH_RESPONSE.create reqid hashes = .ok (prependMsgLen
      (msgFrame constants.HASH_RESPONSE reqid
        (varintEncode hashes.length ++ hashes.flatten))) := by
  have hbs : isBufferSize reqid constants.REQID_SIZE = true := by
    simp [isBufferSize, h1]
  have hah : isArrayHashes hashes = true := by
    simp only [isArrayHashes, List.all_eq_true]
    intro x hx
    simp [isBufferSize, h2 x hx]
  unfold HASH_RESPONSE.create
  rw [hbs, hah]
  simp only [Bool.not_true, Bool.false_eq_true, if_false, ite_false]
  have hsize : determineBufferSize
      [.v constants.HASH_RESPONSE, .b constants.CIRCUITID_SIZE,
       .b constants.REQID_SIZE, .h hashes.length] =
      totalSize ([.wv constants.HASH_RESPONSE, .cp EMPTY_CIRCUIT_ID, .cp reqid,
        .wv hashes.length] ++ hashes.map WOp.cp) := by
    rw [totalSize_append, totalSize_map_cp hashes constants.HASH_SIZE h2]
    simp [determineBufferSize, repSize, totalSize, opSize, h1, EMPTY_CIRCUIT_ID,
      constants.REQID_SIZE, constants.CIRCUITID_SIZE]
    ring
  rw [runWrites_exact0 _ _ hsize]
  have hmap : List.map (opChunk ∘ WOp.cp) hashes = hashes := by
    have hco : (opChunk ∘ WOp.cp) = fun x : List Nat => x := by
      funext x
      simp [Function.comp, opChunk]
    rw [hco]
    simp
  simp [chunks_append, chunks_map_cp, opChunk, List.append_assoc, hmap, msgFrame]

theorem HASH_RESPONSE_toJSON_eval (reqid : List Nat) (hashes : List (List Nat))
    (h1 : reqid.length = constants.REQID_SIZE)
    (h2 : ∀ x ∈ hashes, x.length = constants.HASH_SIZE)
    (hc : hashes.length < 2 ^ 32) :
    HASH_RESPONSE.toJSON (prependMsgLen
      (msgFrame constants.HASH_RESPONSE reqid
        (varintEncode hashes.length ++ hashes.flatten))) =
      .ok ⟨(msgFrame constants.HASH_RESPONSE reqid
              (varintEncode hashes.length ++ hashes.flatten)).length,
           constants.HASH_RESPONSE, reqid, hashes⟩ := by
  set rest := varintEncode hashes.length ++ hashes.flatten with hrest
  set F := msgFrame constants.HASH_RESPONSE reqid rest with hFdef
  set B := prependMsgLen F with hBdef
  have htag : constants.HASH_RESPONSE < 128 := by norm_num [constants.HASH_RESPONSE]
  have hflat : hashes.flatten.length = hashes.length * constants.HASH_SIZE :=
    flatten_length_const hashes _ h2
  have hencc : (varintEncode hashes.length).length ≤ 8 :=
    varintEncode_length_le 7 hashes.length (by norm_num at hc ⊢; omega)
  have hFlt : F.length < 2 ^ 56 := by
    rw [hFdef, msgFrame_length _ _ _ htag h1]
    have h32 : hashes.flatten.length = hashes.length * 32 := by
      simpa [constants.HASH_SIZE] using hflat
    have hpow : (2 : Nat) ^ 32 = 4294967296 := by norm_num
    have hpow2 : (2 : Nat) ^ 56 = 72057594037927936 := by norm_num
    rw [hpow] at hc
    rw [hpow2]
    simp only [hrest, List.length_append, h32]
    omega
  set km := (varintEncode F.length).length with hkm
  have dvs0 : decodeVarintSlice B 0 = some (F.length, km) := msg_dvs0 _ _ _ hFlt
  have hd1 : B.drop km = F := msg_drop_mlen _ _ _
  have dvs1 : decodeVarintSlice B km = some (constants.HASH_RESPONSE, 1) :=
    msg_dvs_tag _ _ _ htag
  have hreqid : jsSlice B (km + 1 + 4) (km + 1 + 4 + 4) = reqid :=
    msg_reqid _ _ _ htag h1
  have hd4 : B.drop (km + 1 + 4 + 4) = rest := msg_drop_hdr _ _ _ htag h1
  have dvs2 : decodeVarintSlice B (km + 1 + 4 + 4) =
      some (hashes.length, (varintEncode hashes.length).length) :=
    decodeVarintSlice_at B _ hashes.length hashes.flatten hd4 (by norm_num at hc ⊢; omega)
  have hd5 : B.drop (km + 1 + 4 + 4 + (varintEncode hashes.length).length) =
      hashes.flatten ++ [] := by
    have := drop_at B _ (varintEncode hashes.length) hashes.flatten hd4
    simpa using this
  have hslices : hashSlices B (km + 1 + 4 + 4 + (varintEncode hashes.length).length)
      hashes.length = hashes :=
    hashSlices_eval hashes B _ [] hd5 h2
  have hah : isArrayHashes hashes = true := by
    simp only [isArrayHashes, List.all_eq_true]
    intro x hx
    simp [isBufferSize, h2 x hx]
  have hbs : isBufferSize reqid constants.REQID_SIZE = true := by
    simp [isBufferSize, h1]
  unfold HASH_RESPONSE.toJSON
  rw [dvs0]
  simp only [← hkm]
  rw [hd1]
  simp only [isBufferSizeJ, beq_self_eq_true, Bool.not_true, Bool.false_eq_true, if_false,
    ite_false, vval, vbytes]
  rw [dvs1]
  simp only [vval, vbytes, ne_eq, Option.some.injEq, not_true_eq_false, if_false, ite_false,
    constants.CIRCUITID_SIZE, constants.REQID_SIZE]
  rw [hreqid]
  rw [show isBufferSize reqid 4 = true from hbs]
  simp only [Bool.not_true, Bool.false_eq_true, if_false, ite_false]
  rw [dvs2]
  simp [hslices, hah]

/-! ## Sentinel-loop evaluation lemmas -/

theorem sum_ge_length (l : List (List Nat)) (f : List Nat → Nat)
    (h : ∀ x ∈ l, 1 ≤ f x) : l.length ≤ (l.map f).sum := by
  induction l with
  | nil => simp
  | cons x xs ih =>
    have hx := h x (by simp)
    have := ih (fun y hy => h y (by simp [hy]))
    simp only [List.map_cons, List.sum_cons, List.length_cons]
    omega

/-- The measure of one length-prefixed segment. -/
def segLen (p : List Nat) : Nat := (varintEncode p.length).length + p.length

theorem postSeg_length (p : List Nat) : (postSeg p).length = segLen p := by
  simp [postSeg, segLen]

theorem readPostsLoop_eval (B : List Nat) (m km : Nat) :
    ∀ (ps : List (List Nat)) (fuel off : Nat) (acc : List (List Nat)) (after : List Nat),
      B.drop off = (ps.map postSeg).flatten ++ (varintEncode 0 ++ after) →
      off + ((ps.map segLen).sum + 1 + after.length) = km + m →
      (∀ p ∈ ps, p ≠ [] ∧ p.length < 2 ^ 56) →
      ps.length < fuel →
      readPostsLoop B m km fuel off acc = acc ++ ps := by
  intro ps
  induction ps with
  | nil =>
    intro fuel off acc after hdrop hpos hps hfuel
    match fuel with
    | f + 1 =>
      simp only [List.map_nil, List.flatten_nil, List.nil_append, List.sum_nil] at hdrop hpos
      have hcond : ((m : Int) - off + km > 0) := by omega
      have hdvs : decodeVarintSlice B off = some (0, 1) := by
        have := decodeVarintSlice_at B off 0 after (by
          rwa [varintEncode_small 0 (by norm_num)] at hdrop ⊢) (by norm_num)
        rwa [varintEncode_small 0 (by norm_num)] at this
      simp only [readPostsLoop, if_pos hcond, hdvs]
      simp
  | cons p ps ih =>
    intro fuel off acc after hdrop hpos hps hfuel
    match fuel with
    | f + 1 =>
      have hp := hps p (by simp)
      simp only [List.map_cons, List.flatten_cons, List.sum_cons, List.append_assoc] at hdrop hpos
      have hdrop2 : B.drop off = varintEncode p.length ++
          (p ++ ((ps.map postSeg).flatten ++ (varintEncode 0 ++ after))) := by
        simpa [postSeg, List.append_assoc] using hdrop
      have hcond : ((m : Int) - off + km > 0) := by
        simp only [segLen] at hpos
        omega
      have hdvs : decodeVarintSlice B off = some (p.length, (varintEncode p.length).length) :=
        decodeVarintSlice_at B off p.length _ hdrop2 hp.2
      have hdp : B.drop (off + (varintEncode p.length).length) =
          p ++ ((ps.map postSeg).flatten ++ (varintEncode 0 ++ after)) :=
        drop_at B off _ _ hdrop2
      have hslice : jsSlice B (off + (varintEncode p.length).length)
          (off + (varintEncode p.length).length + p.length) = p :=
        jsSlice_at B _ p _ hdp
      have hdnext : B.drop (off + (varintEncode p.length).length + p.length) =
          (ps.map postSeg).flatten ++ (varintEncode 0 ++ after) :=
        drop_at B _ p _ hdp
      have hlen0 : p.length ≠ 0 := by
        intro h0
        exact hp.1 (List.eq_nil_of_length_eq_zero h0)
      simp only [readPostsLoop, if_pos hcond, hdvs, hslice]
      rw [if_neg hlen0]
      rw [ih f (off + (varintEncode p.length).length + p.length) (acc ++ [p]) after hdnext
        (by simp only [segLen] at hpos ⊢; omega)
        (fun q hq => hps q (by simp [hq])) (by simpa using hfuel)]
      simp

theorem readChannelsLoop_eval (B : List Nat) (m km : Nat) :
    ∀ (cs : List (List Nat)) (fuel off : Nat) (acc : List (List Nat)) (after : List Nat),
      B.drop off = (cs.map postSeg).flatten ++ (varintEncode 0 ++ after) →
      off + ((cs.map segLen).sum + 1 + after.length) = km + m →
      (∀ c ∈ cs, constants.CHANNEL_NAME_MIN_CODEPOINTS ≤ c.length ∧
        c.length ≤ constants.CHANNEL_NAME_MAX_CODEPOINTS) →
      cs.length < fuel →
      readChannelsLoop B m km fuel off acc =
        .ok (acc ++ cs, off + ((cs.map segLen).sum + 1)) := by
  intro cs
  induction cs with
  | nil =>
    intro fuel off acc after hdrop hpos hcs hfuel
    match fuel with
    | f + 1 =>
      simp only [List.map_nil, List.flatten_nil, List.nil_append, List.sum_nil] at hdrop hpos
      have hcond : ((m : Int) - off + km > 0) := by omega
      have hdvs : decodeVarintSlice B off = some (0, 1) := by
        have := decodeVarintSlice_at B off 0 after (by
          rwa [varintEncode_small 0 (by norm_num)] at hdrop ⊢) (by norm_num)
        rwa [varintEncode_small 0 (by norm_num)] at this
      simp only [readChannelsLoop, if_pos hcond, hdvs]
      simp
  | cons c cs ih =>
    intro fuel off acc after hdrop hpos hcs hfuel
    match fuel with
    | f + 1 =>
      have hc := hcs c (by simp)
      simp only [List.map_cons, List.flatten_cons, List.sum_cons, List.append_assoc] at hdrop hpos
      have hdrop2 : B.drop off = varintEncode c.length ++
          (c ++ ((cs.map postSeg).flatten ++ (varintEncode 0 ++ after))) := by
        simpa [postSeg, List.append_assoc] using hdrop
      have hcond : ((m : Int) - off + km > 0) := by
        simp only [segLen] at hpos
        omega
      have hclt : c.length < 2 ^ 56 := by
        have := hc.2
        simp [constants.CHANNEL_NAME_MAX_CODEPOINTS] at this
        omega
      have hdvs : decodeVarintSlice B off = some (c.length, (varintEncode c.length).length) :=
        decodeVarintSlice_at B off c.length _ hdrop2 hclt
      have hdp : B.drop (off + (varintEncode c.length).length) =
          c ++ ((cs.map postSeg).flatten ++ (varintEncode 0 ++ after)) :=
        drop_at B off _ _ hdrop2
      have hslice : jsSlice B (off + (varintEncode c.length).length)
          (off + (varintEncode c.length).length + c.length) = c :=
        jsSlice_at B _ c _ hdp
      have hdnext : B.drop (off + (varintEncode c.length).length + c.length) =
          (cs.map postSeg).flatten ++ (varintEncode 0 ++ after) :=
        drop_at B _ c _ hdp
      have hlen0 : c.length ≠ 0 := by
        have := hc.1
        simp [constants.CHANNEL_NAME_MIN_CODEPOINTS] at this
        omega
      have hok : validation.checkChannelName c = none := by
        simp [validation.checkChannelName, hc.1, hc.2]
      simp only [readChannelsLoop, if_pos hcond, hdvs, hslice]
      rw [if_neg hlen0]
      rw [hok]
      rw [ih f (off + (varintEncode c.length).length + c.length) (acc ++ [c]) after hdnext
        (by simp only [segLen] at hpos ⊢; omega)
        (fun q hq => hcs q (by simp [hq])) (by simpa using hfuel)]
      simp [segLen]
      omega

/-! ## create shapes for the remaining message types -/

theorem firstChannelErr_none (channels : List (List Nat))
    (h : ∀ c ∈ channels, constants.CHANNEL_NAME_MIN_CODEPOINTS ≤ c.length ∧
      c.length ≤ constants.CHANNEL_NAME_MAX_CODEPOINTS) :
    firstChannelErr channels = none := by
  induction channels with
  | nil => simp [firstChannelErr]
  | cons c cs ih =>
    have hc := h c (by simp)
    have hok : validation.checkChannelName c = none := by
      simp [validation.checkChannelName, hc.1, hc.2]
    simp only [firstChannelErr, List.findSome?_cons, hok]
    exact ih (fun y hy => h y (by simp [hy]))

theorem POST_RESPONSE_create_eq (reqid : List Nat) (posts : List (List Nat))
    (h1 : reqid.length = constants.REQID_SIZE) :
    POST_RESPONSE.create reqid posts = .ok (prependMsgLen
      (msgFrame constants.POST_RESPONSE reqid
        ((posts.map postSeg).flatten ++ varintEncode 0))) := by
  have hbs : isBufferSize reqid constants.REQID_SIZE = true := by
    simp [isBufferSize, h1]
  unfold POST_RESPONSE.create
  rw [hbs]
  simp only [isArrayData, Bool.not_true, Bool.false_eq_true, if_false, ite_false]
  have hsize : determineBufferSize
      [.v constants.POST_REQUEST, .b constants.CIRCUITID_SIZE,
       .b constants.REQID_SIZE, .b (countPostsBytes posts), .v 0] =
      totalSize ([.wv constants.POST_RESPONSE, .cp EMPTY_CIRCUIT_ID, .cp reqid] ++
        (posts.map (fun p => [WOp.wv p.length, WOp.cp p])).flatten ++ [.wv 0]) := by
    rw [totalSize_append, totalSize_append, totalSize_postOps]
    simp [determineBufferSize, repSize, totalSize, opSize, h1, EMPTY_CIRCUIT_ID,
      constants.REQID_SIZE, constants.CIRCUITID_SIZE,
      varintEncode_small constants.POST_REQUEST (by norm_num [constants.POST_REQUEST]),
      varintEncode_small constants.POST_RESPONSE (by norm_num [constants.POST_RESPONSE])]
    omega
  rw [runWrites_exact0 _ _ hsize]
  simp only [chunks_append, chunks_postOps]
  simp [opChunk, List.append_assoc, msgFrame]

theorem POST_REQUEST_create_eq (reqid : List Nat) (ttl : Nat) (hashes : List (List Nat))
    (h1 : reqid.length = constants.REQID_SIZE) (httl : ttl ≤ 16)
    (h2 : ∀ x ∈ hashes, x.length = constants.HASH_SIZE) :
    POST_REQUEST.create reqid ttl hashes = .ok (prependMsgLen
      (msgFrame constants.POST_REQUEST reqid
        (varintEncode ttl ++ (varintEncode hashes.length ++ hashes.flatten)))) := by
  have hbs : isBufferSize reqid constants.REQID_SIZE = true := by
    simp [isBufferSize, h1]
  have hah : isArrayHashes hashes = true := by
    simp only [isArrayHashes, List.all_eq_true]
    intro x hx
    simp [isBufferSize, h2 x hx]
  have httl2 : ttlRangeCorrect ttl = true := by simp [ttlRangeCorrect, httl]
  unfold POST_REQUEST.create
  rw [hbs, hah, httl2]
  simp only [Bool.not_true, Bool.false_eq_true, if_false, ite_false]
  have hsize : determineBufferSize
      [.v constants.POST_REQUEST, .b constants.CIRCUITID_SIZE,
       .b constants.REQID_SIZE, .v ttl, .h hashes.length] =
      totalSize ([.wv constants.POST_REQUEST, .cp EMPTY_CIRCUIT_ID, .cp reqid,
        .wv ttl, .wv hashes.length] ++ hashes.map WOp.cp) := by
    rw [totalSize_append, totalSize_map_cp hashes constants.HASH_SIZE h2]
    simp [determineBufferSize, repSize, totalSize, opSize, h1, EMPTY_CIRCUIT_ID,
      constants.REQID_SIZE, constants.CIRCUITID_SIZE]
    ring
  rw [runWrites_exact0 _ _ hsize]
  have hmap : List.map (opChunk ∘ WOp.cp) hashes = hashes := by
    have hco : (opChunk ∘ WOp.cp) = fun x : List Nat => x := by
      funext x
      simp [Function.comp, opChunk]
    rw [hco]
    simp
  simp [chunks_append, chunks_map_cp, opChunk, List.append_assoc, hmap, msgFrame]

theorem CANCEL_REQUEST_create_eq (reqid : List Nat) (ttl : Nat) (cancelid : List Nat)
    (h1 : reqid.length = constants.REQID_SIZE) (httl : ttl ≤ 16)
    (h2 : cancelid.length = constants.REQID_SIZE) :
    CANCEL_REQUEST.create reqid ttl cancelid = .ok (prependMsgLen
      (msgFrame constants.CANCEL_REQUEST reqid
        (varintEncode ttl ++ cancelid))) := by
  have hbs : isBufferSize reqid constants.REQID_SIZE = true := by
    simp [isBufferSize, h1]
  have hbs2 : isBufferSize cancelid constants.REQID_SIZE = true := by
    simp [isBufferSize, h2]
  have httl2 : ttlRangeCorrect ttl = true := by simp [ttlRangeCorrect, httl]
  unfold CANCEL_REQUEST.create
  rw [hbs, hbs2, httl2]
  simp only [Bool.not_true, Bool.false_eq_true, if_false, ite_false]
  have hsize : determineBufferSize
      [.v constants.CANCEL_REQUEST, .b constants.CIRCUITID_SIZE,
       .b constants.REQID_SIZE, .v ttl, .b constants.REQID_SIZE] =
      totalSize [.wv constants.CANCEL_REQUEST, .cp EMPTY_CIRCUIT_ID, .cp reqid,
        .wv ttl, .cp cancelid] := by
    simp [determineBufferSize, repSize, totalSize, opSize, h1, h2, EMPTY_CIRCUIT_ID,
      constants.REQID_SIZE, constants.CIRCUITID_SIZE]
  rw [runWrites_exact0 _ _ hsize]
  simp [opChunk, List.append_assoc, msgFrame]

theorem TIME_RANGE_REQUEST_create_eq (reqid : List Nat) (ttl : Nat) (channel : List Nat)
    (timeStart timeEnd limit : Nat)
    (h1 : reqid.length = constants.REQID_SIZE) (httl : ttl ≤ 16)
    (hch : constants.CHANNEL_NAME_MIN_CODEPOINTS ≤ channel.length ∧
      channel.length ≤ constants.CHANNEL_NAME_MAX_CODEPOINTS) :
    TIME_RANGE_REQUEST.create reqid ttl channel timeStart timeEnd limit =
      .ok (prependMsgLen (msgFrame constants.TIME_RANGE_REQUEST reqid
        (varintEncode ttl ++ (varintEncode channel.length ++ (channel ++
         (varintEncode timeStart ++ (varintEncode timeEnd ++ varintEncode limit))))))) := by
  have hbs : isBufferSize reqid constants.REQID_SIZE = true := by
    simp [isBufferSize, h1]
  have httl2 : ttlRangeCorrect ttl = true := by simp [ttlRangeCorrect, httl]
  have hok : validation.checkChannelName channel = none := by
    simp [validation.checkChannelName, hch.1, hch.2]
  unfold TIME_RANGE_REQUEST.create
  rw [hbs, httl2]
  simp only [Bool.not_true, Bool.false_eq_true, if_false, ite_false]
  rw [hok]
  have hsize : determineBufferSize
      [.v constants.TIME_RANGE_REQUEST, .b constants.CIRCUITID_SIZE,
       .b constants.REQID_SIZE, .v ttl, .s channel.length,
       .v timeStart, .v timeEnd, .v limit] =
      totalSize [.wv constants.TIME_RANGE_REQUEST, .cp EMPTY_CIRCUIT_ID, .cp reqid,
        .wv ttl, .wv channel.length, .cp channel,
        .wv timeStart, .wv timeEnd, .wv limit] := by
    simp [determineBufferSize, repSize, totalSize, opSize, h1, EMPTY_CIRCUIT_ID,
      constants.REQID_SIZE, constants.CIRCUITID_SIZE]
    ring
  rw [runWrites_exact0 _ _ hsize]
  simp [opChunk, List.append_assoc, msgFrame]

theorem CHANNEL_STATE_REQUEST_create_eq (reqid : List Nat) (ttl : Nat)
    (channel : List Nat) (future : Nat)
    (h1 : reqid.length = constants.REQID_SIZE) (httl : ttl ≤ 16)
    (hch : constants.CHANNEL_NAME_MIN_CODEPOINTS ≤ channel.length ∧
      channel.length ≤ constants.CHANNEL_NAME_MAX_CODEPOINTS) :
    CHANNEL_STATE_REQUEST.create reqid ttl channel future =
      .ok (prependMsgLen (msgFrame constants.CHANNEL_STATE_REQUEST reqid
        (varintEncode ttl ++ (varintEncode channel.length ++ (channel ++
         varintEncode future))))) := by
  have hbs : isBufferSize reqid constants.REQID_SIZE = true := by
    simp [isBufferSize, h1]
  have httl2 : ttlRangeCorrect ttl = true := by simp [ttlRangeCorrect, httl]
  have hok : validation.checkChannelName channel = none := by
    simp [validation.checkChannelName, hch.1, hch.2]
  unfold CHANNEL_STATE_REQUEST.create
  rw [hbs, httl2]
  simp only [Bool.not_true, Bool.false_eq_true, if_false, ite_false]
  rw [hok]
  have hsize : determineBufferSize
      [.v constants.CHANNEL_STATE_REQUEST, .b constants.CIRCUITID_SIZE,
       .b constants.REQID_SIZE, .v ttl, .s channel.length, .v future] =
      totalSize [.wv constants.CHANNEL_STATE_REQUEST, .cp EMPTY_CIRCUIT_ID, .cp reqid,
        .wv ttl, .wv channel.length, .cp channel, .wv future] := by
    simp [determineBufferSize, repSize, totalSize, opSize, h1, EMPTY_CIRCUIT_ID,
      constants.REQID_SIZE, constants.CIRCUITID_SIZE]
    ring
  rw [runWrites_exact0 _ _ hsize]
  simp [opChunk, List.append_assoc, msgFrame]

theorem CHANNEL_LIST_REQUEST_create_eq (reqid : List Nat) (ttl argOffset limit : Nat)
    (h1 : reqid.length = constants.REQID_SIZE) (httl : ttl ≤ 16) :
    CHANNEL_LIST_REQUEST.create reqid ttl argOffset limit =
      .ok (prependMsgLen (msgFrame constants.CHANNEL_LIST_REQUEST reqid
        (varintEncode ttl ++ (varintEncode argOffset ++ varintEncode limit)))) := by
  have hbs : isBufferSize reqid constants.REQID_SIZE = true := by
    simp [isBufferSize, h1]
  have httl2 : ttlRangeCorrect ttl = true := by simp [ttlRangeCorrect, httl]
  unfold CHANNEL_LIST_REQUEST.create
  rw [hbs, httl2]
  simp only [Bool.not_true, Bool.false_eq_true, if_false, ite_false]
  have hsize : determineBufferSize
      [.v constants.CHANNEL_LIST_REQUEST, .b constants.CIRCUITID_SIZE,
       .b constants.REQID_SIZE, .v ttl, .v argOffset, .v limit] =
      totalSize [.wv constants.CHANNEL_LIST_REQUEST, .cp EMPTY_CIRCUIT_ID, .cp reqid,
        .wv ttl, .wv argOffset, .wv limit] := by
    simp [determineBufferSize, repSize, totalSize, opSize, h1, EMPTY_CIRCUIT_ID,
      constants.REQID_SIZE, constants.CIRCUITID_SIZE]
  rw [runWrites_exact0 _ _ hsize]
  simp [opChunk, List.append_assoc, msgFrame]

theorem CHANNEL_LIST_RESPONSE_create_eq (reqid : List Nat) (channels : List (List Nat))
    (h1 : reqid.length = constants.REQID_SIZE)
    (hch : ∀ c ∈ channels, constants.CHANNEL_NAME_MIN_CODEPOINTS ≤ c.length ∧
      c.length ≤ constants.CHANNEL_NAME_MAX_CODEPOINTS) :
    CHANNEL_LIST_RESPONSE.create reqid channels = .ok (prependMsgLen
      (msgFrame constants.CHANNEL_LIST_RESPONSE reqid
        ((channels.map postSeg).flatten ++ varintEncode 0))) := by
  have hbs : isBufferSize reqid constants.REQID_SIZE = true := by
    simp [isBufferSize, h1]
  unfold CHANNEL_LIST_RESPONSE.create
  rw [hbs]
  simp only [Bool.not_true, Bool.false_eq_true, if_false, ite_false]
  rw [firstChannelErr_none channels hch]
  have hsize : determineBufferSize
      [.v constants.CHANNEL_LIST_RESPONSE, .b constants.CIRCUITID_SIZE,
       .b constants.REQID_SIZE, .b (countChannelsBytes channels), .v 0] =
      totalSize ([.wv constants.CHANNEL_LIST_RESPONSE, .cp EMPTY_CIRCUIT_ID, .cp reqid] ++
        (channels.map (fun c => [WOp.wv c.length, WOp.cp c])).flatten ++ [.wv 0]) := by
    rw [totalSize_append, totalSize_append, totalSize_postOps, countChannelsBytes_eq]
    simp [determineBufferSize, repSize, totalSize, opSize, h1, EMPTY_CIRCUIT_ID,
      constants.REQID_SIZE, constants.CIRCUITID_SIZE]
    omega
  rw [runWrites_exact0 _ _ hsize]
  simp only [chunks_append, chunks_postOps]
  simp [opChunk, List.append_assoc, msgFrame]

theorem MODERATION_STATE_REQUEST_create_eq (reqid : List Nat)
    (channels : List (List Nat)) (future oldest : Nat)
    (h1 : reqid.length = constants.REQID_SIZE)
    (hch : ∀ c ∈ channels, constants.CHANNEL_NAME_MIN_CODEPOINTS ≤ c.length ∧
      c.length ≤ constants.CHANNEL_NAME_MAX_CODEPOINTS) :
    MODERATION_STATE_REQUEST.create reqid channels future oldest = .ok (prependMsgLen
      (msgFrame constants.MODERATION_STATE_REQUEST reqid
        ((channels.map postSeg).flatten ++ (varintEncode 0 ++
          (varintEncode future ++ varintEncode oldest))))) := by
  have hbs : isBufferSize reqid constants.REQID_SIZE = true := by
    simp [isBufferSize, h1]
  unfold MODERATION_STATE_REQUEST.create
  rw [hbs]
  simp only [Bool.not_true, Bool.false_eq_true, if_false, ite_false]
  rw [firstChannelErr_none channels hch]
  have hsize : determineBufferSize
      [.v constants.MODERATION_STATE_REQUEST, .b constants.CIRCUITID_SIZE,
       .b constants.REQID_SIZE, .b (countChannelsBytes channels), .v 0,
       .v future, .v oldest] =
      totalSize ([.wv constants.MODERATION_STATE_REQUEST, .cp EMPTY_CIRCUIT_ID, .cp reqid] ++
        (channels.map (fun c => [WOp.wv c.length, WOp.cp c])).flatten ++
        [.wv 0, .wv future, .wv oldest]) := by
    rw [totalSize_append, totalSize_append, totalSize_postOps, countChannelsBytes_eq]
    simp [determineBufferSize, repSize, totalSize, opSize, h1, EMPTY_CIRCUIT_ID,
      constants.REQID_SIZE, constants.CIRCUITID_SIZE]
    ring
  rw [runWrites_exact0 _ _ hsize]
  simp only [chunks_append, chunks_postOps]
  simp [opChunk, List.append_assoc, msgFrame]

/-! ## Decode evaluation for the scalar message types -/

theorem countPostsBytes_sum (posts : List (List Nat)) :
    countPostsBytes posts = (posts.map segLen).sum := by
  have gen : ∀ (l : List (List Nat)) (acc : Nat),
      List.foldl (fun acc p => acc + (p.length + (varintEncode p.length).length)) acc l =
        acc + (l.map segLen).sum := by
    intro l
    induction l with
    | nil => intro acc; simp
    | cons x xs ih =>
      intro acc
      simp only [List.foldl_cons, List.map_cons, List.sum_cons]
      rw [ih]
      simp [segLen]
      omega
  unfold countPostsBytes
  rw [gen]
  omega

theorem flatten_postSeg_length (l : List (List Nat)) :
    ((l.map postSeg).flatten).length = (l.map segLen).sum := by
  induction l with
  | nil => simp
  | cons x xs ih =>
    simp only [List.map_cons, List.flatten_cons, List.length_append, List.sum_cons, ih]
    simp [postSeg, segLen]

theorem POST_REQUEST_toJSON_eval (reqid : List Nat) (ttl : Nat) (hashes : List (List Nat))
    (h1 : reqid.length = constants.REQID_SIZE) (httl : ttl ≤ 16)
    (h2 : ∀ x ∈ hashes, x.length = constants.HASH_SIZE)
    (hc : hashes.length < 2 ^ 32) :
    POST_REQUEST.toJSON (prependMsgLen
      (msgFrame constants.POST_REQUEST reqid
        (varintEncode ttl ++ (varintEncode hashes.length ++ hashes.flatten)))) =
      .ok ⟨(msgFrame constants.POST_REQUEST reqid
              (varintEncode ttl ++ (varintEncode hashes.length ++ hashes.flatten))).length,
           constants.POST_REQUEST, reqid, ttl, hashes⟩ := by
  set rest := varintEncode ttl ++ (varintEncode hashes.length ++ hashes.flatten) with hrest
  set F := msgFrame constants.POST_REQUEST reqid rest with hFdef
  set B := prependMsgLen F with hBdef
  have htag : constants.POST_REQUEST < 128 := by norm_num [constants.POST_REQUEST]
  have hflat : hashes.flatten.length = hashes.length * constants.HASH_SIZE :=
    flatten_length_const hashes _ h2
  have henct : varintEncode ttl = [ttl] := varintEncode_small ttl (by omega)
  have hencc : (varintEncode hashes.length).length ≤ 8 :=
    varintEncode_length_le 7 hashes.length (by norm_num at hc ⊢; omega)
  have hFlt : F.length < 2 ^ 56 := by
    rw [hFdef, msgFrame_length _ _ _ htag h1]
    have h32 : hashes.flatten.length = hashes.length * 32 := by
      simpa [constants.HASH_SIZE] using hflat
    have hpow : (2 : Nat) ^ 32 = 4294967296 := by norm_num
    have hpow2 : (2 : Nat) ^ 56 = 72057594037927936 := by norm_num
    rw [hpow] at hc
    rw [hpow2]
    simp only [hrest, List.length_append, h32, henct, List.length_cons, List.length_nil]
    omega
  set km := (varintEncode F.length).length with hkm
  have dvs0 : decodeVarintSlice B 0 = some (F.length, km) := msg_dvs0 _ _ _ hFlt
  have hd1 : B.drop km = F := msg_drop_mlen _ _ _
  have dvs1 : decodeVarintSlice B km = some (constants.POST_REQUEST, 1) :=
    msg_dvs_tag _ _ _ htag
  have hreqid : jsSlice B (km + 1 + 4) (km + 1 + 4 + 4) = reqid :=
    msg_reqid _ _ _ htag h1
  have hd4 : B.drop (km + 1 + 4 + 4) = rest := msg_drop_hdr _ _ _ htag h1
  have dvsT : decodeVarintSlice B (km + 1 + 4 + 4) = some (ttl, 1) := by
    have := decodeVarintSlice_at B (km + 1 + 4 + 4) ttl _ hd4 (by omega)
    rwa [henct] at this
  have hd5 : B.drop (km + 1 + 4 + 4 + 1) = varintEncode hashes.length ++ hashes.flatten := by
    have := drop_at B (km + 1 + 4 + 4) (varintEncode ttl) _ hd4
    rwa [henct] at this
  have dvsC : decodeVarintSlice B (km + 1 + 4 + 4 + 1) =
      some (hashes.length, (varintEncode hashes.length).length) :=
    decodeVarintSlice_at B _ hashes.length hashes.flatten hd5 (by norm_num at hc ⊢; omega)
  have hd6 : B.drop (km + 1 + 4 + 4 + 1 + (varintEncode hashes.length).length) =
      hashes.flatten ++ [] := by
    have := drop_at B _ (varintEncode hashes.length) hashes.flatten hd5
    simpa using this
  have hslices : hashSlices B (km + 1 + 4 + 4 + 1 + (varintEncode hashes.length).length)
      hashes.length = hashes :=
    hashSlices_eval hashes B _ [] hd6 h2
  have hah : isArrayHashes hashes = true := by
    simp only [isArrayHashes, List.all_eq_true]
    intro x hx
    simp [isBufferSize, h2 x hx]
  have hbs : isBufferSize reqid constants.REQID_SIZE = true := by
    simp [isBufferSize, h1]
  unfold POST_REQUEST.toJSON
  rw [dvs0]
  simp only [← hkm]
  rw [hd1]
  simp only [isBufferSizeJ, beq_self_eq_true, Bool.not_true, Bool.false_eq_true, if_false,
    ite_false, vval, vbytes]
  rw [dvs1]
  simp only [vval, vbytes, ne_eq, Option.some.injEq, not_true_eq_false, if_false, ite_false,
    constants.CIRCUITID_SIZE, constants.REQID_SIZE]
  rw [hreqid]
  rw [show isBufferSize reqid 4 = true from hbs]
  simp only [Bool.not_true, Bool.false_eq_true, if_false, ite_false]
  rw [dvsT]
  have httlJ : ttlRangeCorrectJ (some ttl) = true := by
    simp [ttlRangeCorrectJ, ttlRangeCorrect, httl]
  simp only [vval, vbytes, httlJ, Bool.not_true, Bool.false_eq_true, if_false, ite_false]
  rw [dvsC]
  simp [hslices, hah]

theorem CANCEL_REQUEST_toJSON_eval (reqid : List Nat) (ttl : Nat) (cancelid : List Nat)
    (h1 : reqid.length = constants.REQID_SIZE) (httl : ttl ≤ 16)
    (h2 : cancelid.length = constants.REQID_SIZE) :
    CANCEL_REQUEST.toJSON (prependMsgLen
      (msgFrame constants.CANCEL_REQUEST reqid (varintEncode ttl ++ cancelid))) =
      .ok ⟨(msgFrame constants.CANCEL_REQUEST reqid (varintEncode ttl ++ cancelid)).length,
           constants.CANCEL_REQUEST, reqid, ttl, cancelid⟩ := by
  set rest := varintEncode ttl ++ cancelid with hrest
  set F := msgFrame constants.CANCEL_REQUEST reqid rest with hFdef
  set B := prependMsgLen F with hBdef
  have htag : constants.CANCEL_REQUEST < 128 := by norm_num [constants.CANCEL_REQUEST]
  have henct : varintEncode ttl = [ttl] := varintEncode_small ttl (by omega)
  have hFlt : F.length < 2 ^ 56 := by
    rw [hFdef, msgFrame_length _ _ _ htag h1]
    simp only [hrest, List.length_append, henct, List.length_cons, List.length_nil, h2]
    norm_num [constants.REQID_SIZE]
  set km := (varintEncode F.length).length with hkm
  have dvs0 : decodeVarintSlice B 0 = some (F.length, km) := msg_dvs0 _ _ _ hFlt
  have hd1 : B.drop km = F := msg_drop_mlen _ _ _
  have dvs1 : decodeVarintSlice B km = some (constants.CANCEL_REQUEST, 1) :=
    msg_dvs_tag _ _ _ htag
  have hreqid : jsSlice B (km + 1 + 4) (km + 1 + 4 + 4) = reqid :=
    msg_reqid _ _ _ htag h1
  have hd4 : B.drop (km + 1 + 4 + 4) = rest := msg_drop_hdr _ _ _ htag h1
  have dvsT : decodeVarintSlice B (km + 1 + 4 + 4) = some (ttl, 1) := by
    have := decodeVarintSlice_at B (km + 1 + 4 + 4) ttl _ hd4 (by omega)
    rwa [henct] at this
  have hd5 : B.drop (km + 1 + 4 + 4 + 1) = cancelid := by
    have := drop_at B (km + 1 + 4 + 4) (varintEncode ttl) _ hd4
    rwa [henct] at this
  have hcid : jsSlice B (km + 1 + 4 + 4 + 1) (km + 1 + 4 + 4 + 1 + 4) = cancelid := by
    have := jsSlice_at B (km + 1 + 4 + 4 + 1) cancelid [] (by simpa using hd5)
    rwa [show cancelid.length = 4 from h2] at this
  unfold CANCEL_REQUEST.toJSON
  rw [dvs0]
  simp only [← hkm]
  rw [hd1]
  simp only [isBufferSizeJ, beq_self_eq_true, Bool.not_true, Bool.false_eq_true, if_false,
    ite_false, vval, vbytes]
  rw [dvs1]
  simp only [vval, vbytes, ne_eq, Option.some.injEq, not_true_eq_false, if_false, ite_false,
    constants.CIRCUITID_SIZE, constants.REQID_SIZE]
  rw [hreqid]
  rw [dvsT]
  have httlJ : ttlRangeCorrectJ (some ttl) = true := by
    simp [ttlRangeCorrectJ, ttlRangeCorrect, httl]
  simp only [vval, vbytes, httlJ, Bool.not_true, Bool.false_eq_true, if_false, ite_false]
  rw [hcid]
  simp

theorem CHANNEL_LIST_REQUEST_toJSON_eval (reqid : List Nat) (ttl argOffset limit : Nat)
    (h1 : reqid.length = constants.REQID_SIZE) (httl : ttl ≤ 16)
    (ho : argOffset < 2 ^ 53) (hl : limit < 2 ^ 53) :
    CHANNEL_LIST_REQUEST.toJSON (prependMsgLen
      (msgFrame constants.CHANNEL_LIST_REQUEST reqid
        (varintEncode ttl ++ (varintEncode argOffset ++ varintEncode limit)))) =
      .ok ⟨(msgFrame constants.CHANNEL_LIST_REQUEST reqid
              (varintEncode ttl ++ (varintEncode argOffset ++ varintEncode limit))).length,
           constants.CHANNEL_LIST_REQUEST, reqid, ttl, some argOffset, some limit⟩ := by
  set rest := varintEncode ttl ++ (varintEncode argOffset ++ varintEncode limit) with hrest
  set F := msgFrame constants.CHANNEL_LIST_REQUEST reqid rest with hFdef
  set B := prependMsgLen F with hBdef
  have htag : constants.CHANNEL_LIST_REQUEST < 128 := by
    norm_num [constants.CHANNEL_LIST_REQUEST]
  have henct : varintEncode ttl = [ttl] := varintEncode_small ttl (by omega)
  have ho8 : (varintEncode argOffset).length ≤ 8 :=
    varintEncode_length_le 7 argOffset (by norm_num at ho ⊢; omega)
  have hl8 : (varintEncode limit).length ≤ 8 :=
    varintEncode_length_le 7 limit (by norm_num at hl ⊢; omega)
  have hFlt : F.length < 2 ^ 56 := by
    rw [hFdef, msgFrame_length _ _ _ htag h1]
    have hpow2 : (2 : Nat) ^ 56 = 72057594037927936 := by norm_num
    rw [hpow2]
    simp only [hrest, List.length_append, henct, List.length_cons, List.length_nil]
    omega
  set km := (varintEncode F.length).length with hkm
  have dvs0 : decodeVarintSlice B 0 = some (F.length, km) := msg_dvs0 _ _ _ hFlt
  have hd1 : B.drop km = F := msg_drop_mlen _ _ _
  have dvs1 : decodeVarintSlice B km = some (constants.CHANNEL_LIST_REQUEST, 1) :=
    msg_dvs_tag _ _ _ htag
  have hreqid : jsSlice B (km + 1 + 4) (km + 1 + 4 + 4) = reqid :=
    msg_reqid _ _ _ htag h1
  have hd4 : B.drop (km + 1 + 4 + 4) = rest := msg_drop_hdr _ _ _ htag h1
  have dvsT : decodeVarintSlice B (km + 1 + 4 + 4) = some (ttl, 1) := by
    have := decodeVarintSlice_at B (km + 1 + 4 + 4) ttl _ hd4 (by omega)
    rwa [henct] at this
  have hd5 : B.drop (km + 1 + 4 + 4 + 1) = varintEncode argOffset ++ varintEncode limit := by
    have := drop_at B (km + 1 + 4 + 4) (varintEncode ttl) _ hd4
    rwa [henct] at this
  have dvsO : decodeVarintSlice B (km + 1 + 4 + 4 + 1) =
      some (argOffset, (varintEncode argOffset).length) :=
    decodeVarintSlice_at B _ argOffset _ hd5 (by norm_num at ho ⊢; omega)
  have hd6 : B.drop (km + 1 + 4 + 4 + 1 + (varintEncode argOffset).length) =
      varintEncode limit ++ [] := by
    have := drop_at B _ (varintEncode argOffset) (varintEncode limit) hd5
    simpa using this
  have dvsL : decodeVarintSlice B (km + 1 + 4 + 4 + 1 + (varintEncode argOffset).length) =
      some (limit, (varintEncode limit).length) :=
    decodeVarintSlice_at B _ limit [] hd6 (by norm_num at hl ⊢; omega)
  have hbs : isBufferSize reqid constants.REQID_SIZE = true := by
    simp [isBufferSize, h1]
  clear_value rest F B km
  unfold CHANNEL_LIST_REQUEST.toJSON
  rw [dvs0]
  simp only [← hkm]
  rw [hd1]
  rw [show isBufferSizeJ F (some F.length) = true from beq_self_eq_true F.length]
  rw [dvs1]
  simp only [vval, vbytes, ne_eq, Option.some.injEq, not_true_eq_false, if_false, ite_false,
    constants.CIRCUITID_SIZE, constants.REQID_SIZE]
  rw [hreqid]
  rw [show isBufferSize reqid 4 = true from hbs]
  simp only [Bool.not_true, Bool.false_eq_true, if_false, ite_false]
  rw [dvsT]
  have httlJ : ttlRangeCorrectJ (some ttl) = true := by
    simp [ttlRangeCorrectJ, ttlRangeCorrect, httl]
  simp only [vval, vbytes, httlJ, Bool.not_true, Bool.false_eq_true, if_false, ite_false]
  rw [dvsO]
  simp only [vval, vbytes]
  rw [dvsL]
  simp [vval]

theorem TIME_RANGE_REQUEST_toJSON_eval (reqid : List Nat) (ttl : Nat) (channel : List Nat)
    (timeStart timeEnd limit : Nat)
    (h1 : reqid.length = constants.REQID_SIZE) (httl : ttl ≤ 16)
    (hch : constants.CHANNEL_NAME_MIN_CODEPOINTS ≤ channel.length ∧
      channel.length ≤ constants.CHANNEL_NAME_MAX_CODEPOINTS)
    (ht1 : timeStart < 2 ^ 53) (ht2 : timeEnd < 2 ^ 53) (hl : limit < 2 ^ 53) :
    TIME_RANGE_REQUEST.toJSON (prependMsgLen
      (msgFrame constants.TIME_RANGE_REQUEST reqid
        (varintEncode ttl ++ (varintEncode channel.length ++ (channel ++
         (varintEncode timeStart ++ (varintEncode timeEnd ++ varintEncode limit))))))) =
      .ok ⟨(msgFrame constants.TIME_RANGE_REQUEST reqid
              (varintEncode ttl ++ (varintEncode channel.length ++ (channel ++
               (varintEncode timeStart ++ (varintEncode timeEnd ++ varintEncode limit)))))).length,
           constants.TIME_RANGE_REQUEST, reqid, ttl, channel,
           some timeStart, some timeEnd, some limit⟩ := by
  set rest := varintEncode ttl ++ (varintEncode channel.length ++ (channel ++
    (varintEncode timeStart ++ (varintEncode timeEnd ++ varintEncode limit)))) with hrest
  set F := msgFrame constants.TIME_RANGE_REQUEST reqid rest with hFdef
  set B := prependMsgLen F with hBdef
  have htag : constants.TIME_RANGE_REQUEST < 128 := by
    norm_num [constants.TIME_RANGE_REQUEST]
  have henct : varintEncode ttl = [ttl] := varintEncode_small ttl (by omega)
  have hcl : channel.length ≤ 64 := by
    have := hch.2
    simpa [constants.CHANNEL_NAME_MAX_CODEPOINTS] using this
  have hencl : varintEncode channel.length = [channel.length] :=
    varintEncode_small channel.length (by omega)
  have ht18 : (varintEncode timeStart).length ≤ 8 :=
    varintEncode_length_le 7 timeStart (by norm_num at ht1 ⊢; omega)
  have ht28 : (varintEncode timeEnd).length ≤ 8 :=
    varintEncode_length_le 7 timeEnd (by norm_num at ht2 ⊢; omega)
  have hl8 : (varintEncode limit).length ≤ 8 :=
    varintEncode_length_le 7 limit (by norm_num at hl ⊢; omega)
  have hFlt : F.length < 2 ^ 56 := by
    rw [hFdef, msgFrame_length _ _ _ htag h1]
    have hpow2 : (2 : Nat) ^ 56 = 72057594037927936 := by norm_num
    rw [hpow2]
    simp only [hrest, List.length_append, henct, hencl, List.length_cons, List.length_nil]
    omega
  set km := (varintEncode F.length).length with hkm
  have dvs0 : decodeVarintSlice B 0 = some (F.length, km) := msg_dvs0 _ _ _ hFlt
  have hd1 : B.drop km = F := msg_drop_mlen _ _ _
  have dvs1 : decodeVarintSlice B km = some (constants.TIME_RANGE_REQUEST, 1) :=
    msg_dvs_tag _ _ _ htag
  have hreqid : jsSlice B (km + 1 + 4) (km + 1 + 4 + 4) = reqid :=
    msg_reqid _ _ _ htag h1
  have hd4 : B.drop (km + 1 + 4 + 4) = rest := msg_drop_hdr _ _ _ htag h1
  have dvsT : decodeVarintSlice B (km + 1 + 4 + 4) = some (ttl, 1) := by
    have := decodeVarintSlice_at B (km + 1 + 4 + 4) ttl _ hd4 (by omega)
    rwa [henct] at this
  have hd5 : B.drop (km + 1 + 4 + 4 + 1) = varintEncode channel.length ++ (channel ++
      (varintEncode timeStart ++ (varintEncode timeEnd ++ varintEncode limit))) := by
    have := drop_at B (km + 1 + 4 + 4) (varintEncode ttl) _ hd4
    rwa [henct] at this
  have dvsCL : decodeVarintSlice B (km + 1 + 4 + 4 + 1) = some (channel.length, 1) := by
    have := decodeVarintSlice_at B _ channel.length _ hd5 (by omega)
    rwa [hencl] at this
  have hd6 : B.drop (km + 1 + 4 + 4 + 1 + 1) = channel ++
      (varintEncode timeStart ++ (varintEncode timeEnd ++ varintEncode limit)) := by
    have := drop_at B _ (varintEncode channel.length) _ hd5
    rwa [hencl] at this
  have hchan : jsSlice B (km + 1 + 4 + 4 + 1 + 1) (km + 1 + 4 + 4 + 1 + 1 + channel.length) =
      channel := jsSlice_at B _ channel _ hd6
  have hd7 : B.drop (km + 1 + 4 + 4 + 1 + 1 + channel.length) =
      varintEncode timeStart ++ (varintEncode timeEnd ++ varintEncode limit) :=
    drop_at B _ channel _ hd6
  have dvsT1 : decodeVarintSlice B (km + 1 + 4 + 4 + 1 + 1 + channel.length) =
      some (timeStart, (varintEncode timeStart).length) :=
    decodeVarintSlice_at B _ timeStart _ hd7 (by norm_num at ht1 ⊢; omega)
  have hd8 : B.drop (km + 1 + 4 + 4 + 1 + 1 + channel.length + (varintEncode timeStart).length) =
      varintEncode timeEnd ++ varintEncode limit :=
    drop_at B _ (varintEncode timeStart) _ hd7
  have dvsT2 : decodeVarintSlice B
      (km + 1 + 4 + 4 + 1 + 1 + channel.length + (varintEncode timeStart).length) =
      some (timeEnd, (varintEncode timeEnd).length) :=
    decodeVarintSlice_at B _ timeEnd _ hd8 (by norm_num at ht2 ⊢; omega)
  have hd9 : B.drop (km + 1 + 4 + 4 + 1 + 1 + channel.length + (varintEncode timeStart).length +
      (varintEncode timeEnd).length) = varintEncode limit ++ [] := by
    have := drop_at B _ (varintEncode timeEnd) (varintEncode limit) hd8
    simpa using this
  have dvsL : decodeVarintSlice B (km + 1 + 4 + 4 + 1 + 1 + channel.length +
      (varintEncode timeStart).length + (varintEncode timeEnd).length) =
      some (limit, (varintEncode limit).length) :=
    decodeVarintSlice_at B _ limit [] hd9 (by norm_num at hl ⊢; omega)
  have hok : validation.checkChannelName channel = none := by
    simp [validation.checkChannelName, hch.1, hch.2]
  unfold TIME_RANGE_REQUEST.toJSON
  rw [dvs0]
  simp only [← hkm]
  rw [hd1]
  simp only [isBufferSizeJ, beq_self_eq_true, Bool.not_true, Bool.false_eq_true, if_false,
    ite_false, vval, vbytes]
  rw [dvs1]
  simp only [vval, vbytes, ne_eq, Option.some.injEq, not_true_eq_false, if_false, ite_false,
    constants.CIRCUITID_SIZE, constants.REQID_SIZE]
  rw [hreqid]
  rw [dvsT]
  have httlJ : ttlRangeCorrectJ (some ttl) = true := by
    simp [ttlRangeCorrectJ, ttlRangeCorrect, httl]
  simp only [vval, vbytes, httlJ, Bool.not_true, Bool.false_eq_true, if_false, ite_false]
  rw [dvsCL]
  simp only [vval, vbytes]
  rw [hchan]
  rw [hok]
  rw [dvsT1]
  simp only [vval, vbytes]
  rw [dvsT2]
  simp only [vval, vbytes]
  rw [dvsL]
  simp [vval]

theorem CHANNEL_STATE_REQUEST_toJSON_eval (reqid : List Nat) (ttl : Nat)
    (channel : List Nat) (future : Nat)
    (h1 : reqid.length = constants.REQID_SIZE) (httl : ttl ≤ 16)
    (hch : constants.CHANNEL_NAME_MIN_CODEPOINTS ≤ channel.length ∧
      channel.length ≤ constants.CHANNEL_NAME_MAX_CODEPOINTS)
    (hf : future < 2 ^ 53) :
    CHANNEL_STATE_REQUEST.toJSON (prependMsgLen
      (msgFrame constants.CHANNEL_STATE_REQUEST reqid
        (varintEncode ttl ++ (varintEncode channel.length ++ (channel ++
         varintEncode future))))) =
      .ok ⟨(msgFrame constants.CHANNEL_STATE_REQUEST reqid
              (varintEncode ttl ++ (varintEncode channel.length ++ (channel ++
               varintEncode future)))).length,
           constants.CHANNEL_STATE_REQUEST, reqid, ttl, channel, some future⟩ := by
  set rest := varintEncode ttl ++ (varintEncode channel.length ++ (channel ++
    varintEncode future)) with hrest
  set F := msgFrame constants.CHANNEL_STATE_REQUEST reqid rest with hFdef
  set B := prependMsgLen F with hBdef
  have htag : constants.CHANNEL_STATE_REQUEST < 128 := by
    norm_num [constants.CHANNEL_STATE_REQUEST]
  have henct : varintEncode ttl = [ttl] := varintEncode_small ttl (by omega)
  have hcl : channel.length ≤ 64 := by
    have := hch.2
    simpa [constants.CHANNEL_NAME_MAX_CODEPOINTS] using this
  have hencl : varintEncode channel.length = [channel.length] :=
    varintEncode_small channel.length (by omega)
  have hf8 : (varintEncode future).length ≤ 8 :=
    varintEncode_length_le 7 future (by norm_num at hf ⊢; omega)
  have hFlt : F.length < 2 ^ 56 := by
    rw [hFdef, msgFrame_length _ _ _ htag h1]
    have hpow2 : (2 : Nat) ^ 56 = 72057594037927936 := by norm_num
    rw [hpow2]
    simp only [hrest, List.length_append, henct, hencl, List.length_cons, List.length_nil]
    omega
  set km := (varintEncode F.length).length with hkm
  have dvs0 : decodeVarintSlice B 0 = some (F.length, km) := msg_dvs0 _ _ _ hFlt
  have hd1 : B.drop km = F := msg_drop_mlen _ _ _
  have dvs1 : decodeVarintSlice B km = some (constants.CHANNEL_STATE_REQUEST, 1) :=
    msg_dvs_tag _ _ _ htag
  have hreqid : jsSlice B (km + 1 + 4) (km + 1 + 4 + 4) = reqid :=
    msg_reqid _ _ _ htag h1
  have hd4 : B.drop (km + 1 + 4 + 4) = rest := msg_drop_hdr _ _ _ htag h1
  have dvsT : decodeVarintSlice B (km + 1 + 4 + 4) = some (ttl, 1) := by
    have := decodeVarintSlice_at B (km + 1 + 4 + 4) ttl _ hd4 (by omega)
    rwa [henct] at this
  have hd5 : B.drop (km + 1 + 4 + 4 + 1) = varintEncode channel.length ++ (channel ++
      varintEncode future) := by
    have := drop_at B (km + 1 + 4 + 4) (varintEncode ttl) _ hd4
    rwa [henct] at this
  have dvsCL : decodeVarintSlice B (km + 1 + 4 + 4 + 1) = some (channel.length, 1) := by
    have := decodeVarintSlice_at B _ channel.length _ hd5 (by omega)
    rwa [hencl] at this
  have hd6 : B.drop (km + 1 + 4 + 4 + 1 + 1) = channel ++ varintEncode future := by
    have := drop_at B _ (varintEncode channel.length) _ hd5
    rwa [hencl] at this
  have hchan : jsSlice B (km + 1 + 4 + 4 + 1 + 1) (km + 1 + 4 + 4 + 1 + 1 + channel.length) =
      channel := jsSlice_at B _ channel _ hd6
  have hd7 : B.drop (km + 1 + 4 + 4 + 1 + 1 + channel.length) = varintEncode future :=
    drop_at B _ channel _ hd6
  have dvsF : decodeVarintSlice B (km + 1 + 4 + 4 + 1 + 1 + channel.length) =
      some (future, (varintEncode future).length) := by
    apply decodeVarintSlice_at B _ future []
    · simpa using hd7
    · norm_num at hf ⊢; omega
  have hok : validation.checkChannelName channel = none := by
    simp [validation.checkChannelName, hch.1, hch.2]
  have hbs : isBufferSize reqid constants.REQID_SIZE = true := by
    simp [isBufferSize, h1]
  unfold CHANNEL_STATE_REQUEST.toJSON
  rw [dvs0]
  simp only [← hkm]
  rw [hd1]
  simp only [isBufferSizeJ, beq_self_eq_true, Bool.not_true, Bool.false_eq_true, if_false,
    ite_false, vval, vbytes]
  rw [dvs1]
  simp only [vval, vbytes, ne_eq, Option.some.injEq, not_true_eq_false, if_false, ite_false,
    constants.CIRCUITID_SIZE, constants.REQID_SIZE]
  rw [hreqid]
  rw [show isBufferSize reqid 4 = true from hbs]
  simp only [Bool.not_true, Bool.false_eq_true, if_false, ite_false]
  rw [dvsT]
  have httlJ : ttlRangeCorrectJ (some ttl) = true := by
    simp [ttlRangeCorrectJ, ttlRangeCorrect, httl]
  simp only [vval, vbytes, httlJ, Bool.not_true, Bool.false_eq_true, if_false, ite_false]
  rw [dvsCL]
  simp only [vval, vbytes]
  rw [hchan]
  rw [hok]
  rw [dvsF]
  simp [vval]

theorem prependMsgLen_length (F : List Nat) :
    (prependMsgLen F).length = (varintEncode F.length).length + F.length := by
  simp [prependMsgLen]

theorem sum_le_card_mul (cs : List (List Nat)) (k : Nat) (h : ∀ c ∈ cs, segLen c ≤ k) :
    (cs.map segLen).sum ≤ cs.length * k := by
  induction cs with
  | nil => simp
  | cons x xs ih =>
    have hx := h x (by simp)
    have := ih (fun y hy => h y (by simp [hy]))
    simp only [List.map_cons, List.sum_cons, List.length_cons]
    calc segLen x + (List.map segLen xs).sum ≤ k + xs.length * k := by omega
      _ = (xs.length + 1) * k := by ring

theorem POST_RESPONSE_toJSON_eval (reqid : List Nat) (posts : List (List Nat))
    (h1 : reqid.length = constants.REQID_SIZE)
    (hp : ∀ p ∈ posts, p ≠ [])
    (hbytes : countPostsBytes posts < 2 ^ 50) :
    POST_RESPONSE.toJSON (prependMsgLen
      (msgFrame constants.POST_RESPONSE reqid
        ((posts.map postSeg).flatten ++ varintEncode 0))) =
      .ok ⟨(msgFrame constants.POST_RESPONSE reqid
              ((posts.map postSeg).flatten ++ varintEncode 0)).length,
           constants.POST_RESPONSE, reqid, posts⟩ := by
  set rest := (posts.map postSeg).flatten ++ varintEncode 0 with hrest
  set F := msgFrame constants.POST_RESPONSE reqid rest with hFdef
  set B := prependMsgLen F with hBdef
  have htag : constants.POST_RESPONSE < 128 := by norm_num [constants.POST_RESPONSE]
  have henc0 : varintEncode 0 = [0] := varintEncode_small 0 (by norm_num)
  have hsum : countPostsBytes posts = (posts.map segLen).sum := countPostsBytes_sum posts
  have hrlen : rest.length = (posts.map segLen).sum + 1 := by
    simp only [hrest, List.length_append, flatten_postSeg_length, henc0]
    simp
  have hm : F.length = 9 + ((posts.map segLen).sum + 1) := by
    rw [hFdef, msgFrame_length _ _ _ htag h1, hrlen]
  have hFlt : F.length < 2 ^ 56 := by
    rw [hm]
    have hpow : (2 : Nat) ^ 50 = 1125899906842624 := by norm_num
    have hpow2 : (2 : Nat) ^ 56 = 72057594037927936 := by norm_num
    rw [hpow] at hbytes
    rw [hpow2]
    rw [hsum] at hbytes
    omega
  set km := (varintEncode F.length).length with hkm
  have dvs0 : decodeVarintSlice B 0 = some (F.length, km) := msg_dvs0 _ _ _ hFlt
  have hd1 : B.drop km = F := msg_drop_mlen _ _ _
  have dvs1 : decodeVarintSlice B km = some (constants.POST_RESPONSE, 1) :=
    msg_dvs_tag _ _ _ htag
  have hreqid : jsSlice B (km + 1 + 4) (km + 1 + 4 + 4) = reqid :=
    msg_reqid _ _ _ htag h1
  have hd4 : B.drop (km + 1 + 4 + 4) = rest := msg_drop_hdr _ _ _ htag h1
  have hBlen : B.length = km + F.length := prependMsgLen_length F
  have heach : ∀ p ∈ posts, p ≠ [] ∧ p.length < 2 ^ 56 := by
    intro p hpmem
    refine ⟨hp p hpmem, ?_⟩
    have hmem : segLen p ∈ posts.map segLen := List.mem_map_of_mem _ hpmem
    have hle : segLen p ≤ (posts.map segLen).sum :=
      List.single_le_sum (fun _ _ => Nat.zero_le _) _ hmem
    have : p.length ≤ segLen p := by simp [segLen]
    have hpow : (2 : Nat) ^ 50 = 1125899906842624 := by norm_num
    have hpow2 : (2 : Nat) ^ 56 = 72057594037927936 := by norm_num
    rw [hpow] at hbytes
    rw [hpow2]
    rw [hsum] at hbytes
    omega
  have hfuel : posts.length < B.length + 1 := by
    have h1' : posts.length ≤ (posts.map segLen).sum :=
      sum_ge_length posts segLen (by
        intro x _
        have := varintEncode_length_pos x.length
        simp [segLen]
        omega)
    omega
  have hloop : readPostsLoop B F.length km (B.length + 1) (km + 1 + 4 + 4) [] = [] ++ posts := by
    apply readPostsLoop_eval B F.length km posts (B.length + 1) (km + 1 + 4 + 4) [] []
    · rw [hd4, hrest]
      simp
    · simp only [List.length_nil]
      omega
    · exact heach
    · exact hfuel
  unfold POST_RESPONSE.toJSON
  rw [dvs0]
  simp only [← hkm]
  rw [hd1]
  simp only [isBufferSizeJ, beq_self_eq_true, Bool.not_true, Bool.false_eq_true, if_false,
    ite_false, vval, vbytes]
  rw [dvs1]
  simp only [vval, vbytes, ne_eq, Option.some.injEq, not_true_eq_false, if_false, ite_false,
    constants.CIRCUITID_SIZE, constants.REQID_SIZE]
  rw [hreqid]
  rw [show isBufferSize reqid 4 = true from (by simp [isBufferSize, h1, constants.REQID_SIZE])]
  simp only [Bool.not_true, Bool.false_eq_true, if_false, ite_false]
  rw [hloop]
  simp [constants.REQID_SIZE]

theorem CHANNEL_LIST_RESPONSE_toJSON_eval (reqid : List Nat) (channels : List (List Nat))
    (h1 : reqid.length = constants.REQID_SIZE)
    (hch : ∀ c ∈ channels, constants.CHANNEL_NAME_MIN_CODEPOINTS ≤ c.length ∧
      c.length ≤ constants.CHANNEL_NAME_MAX_CODEPOINTS)
    (hcount : channels.length < 2 ^ 32) :
    CHANNEL_LIST_RESPONSE.toJSON (prependMsgLen
      (msgFrame constants.CHANNEL_LIST_RESPONSE reqid
        ((channels.map postSeg).flatten ++ varintEncode 0))) =
      .ok ⟨(msgFrame constants.CHANNEL_LIST_RESPONSE reqid
              ((channels.map postSeg).flatten ++ varintEncode 0)).length,
           constants.CHANNEL_LIST_RESPONSE, reqid, channels⟩ := by
  set rest := (channels.map postSeg).flatten ++ varintEncode 0 with hrest
  set F := msgFrame constants.CHANNEL_LIST_RESPONSE reqid rest with hFdef
  set B := prependMsgLen F with hBdef
  have htag : constants.CHANNEL_LIST_RESPONSE < 128 := by
    norm_num [constants.CHANNEL_LIST_RESPONSE]
  have henc0 : varintEncode 0 = [0] := varintEncode_small 0 (by norm_num)
  have hsegbound : ∀ c ∈ channels, segLen c ≤ 65 := by
    intro c hc
    have h64 : c.length ≤ 64 := by
      have := (hch c hc).2
      simpa [constants.CHANNEL_NAME_MAX_CODEPOINTS] using this
    have : varintEncode c.length = [c.length] := varintEncode_small c.length (by omega)
    simp [segLen, this]
    omega
  have hsumle : (channels.map segLen).sum ≤ channels.length * 65 :=
    sum_le_card_mul channels 65 hsegbound
  have hrlen : rest.length = (channels.map segLen).sum + 1 := by
    simp only [hrest, List.length_append, flatten_postSeg_length, henc0]
    simp
  have hm : F.length = 9 + ((channels.map segLen).sum + 1) := by
    rw [hFdef, msgFrame_length _ _ _ htag h1, hrlen]
  have hFlt : F.length < 2 ^ 56 := by
    rw [hm]
    have hb : channels.length * 65 < 2 ^ 32 * 65 := by
      exact Nat.mul_lt_mul_of_lt_of_le hcount (le_refl 65) (by norm_num)
    have hpow : (2 : Nat) ^ 32 * 65 = 279172874240 := by norm_num
    have hpow2 : (2 : Nat) ^ 56 = 72057594037927936 := by norm_num
    rw [hpow] at hb
    rw [hpow2]
    omega
  set km := (varintEncode F.length).length with hkm
  have dvs0 : decodeVarintSlice B 0 = some (F.length, km) := msg_dvs0 _ _ _ hFlt
  have hd1 : B.drop km = F := msg_drop_mlen _ _ _
  have dvs1 : decodeVarintSlice B km = some (constants.CHANNEL_LIST_RESPONSE, 1) :=
    msg_dvs_tag _ _ _ htag
  have hreqid : jsSlice B (km + 1 + 4) (km + 1 + 4 + 4) = reqid :=
    msg_reqid _ _ _ htag h1
  have hd4 : B.drop (km + 1 + 4 + 4) = rest := msg_drop_hdr _ _ _ htag h1
  have hBlen : B.length = km + F.length := prependMsgLen_length F
  have hfuel : channels.length < B.length + 1 := by
    have h1' : channels.length ≤ (channels.map segLen).sum :=
      sum_ge_length channels segLen (by
        intro x _
        have := varintEncode_length_pos x.length
        simp [segLen]
        omega)
    omega
  have hloop : readChannelsLoop B F.length km (B.length + 1) (km + 1 + 4 + 4) [] =
      .ok ([] ++ channels, (km + 1 + 4 + 4) + ((channels.map segLen).sum + 1)) := by
    apply readChannelsLoop_eval B F.length km channels (B.length + 1) (km + 1 + 4 + 4) [] []
    · rw [hd4, hrest]
      simp
    · simp only [List.length_nil]
      omega
    · exact hch
    · exact hfuel
  unfold CHANNEL_LIST_RESPONSE.toJSON
  rw [dvs0]
  simp only [← hkm]
  rw [hd1]
  simp only [isBufferSizeJ, beq_self_eq_true, Bool.not_true, Bool.false_eq_true, if_false,
    ite_false, vval, vbytes]
  rw [dvs1]
  simp only [vval, vbytes, ne_eq, Option.some.injEq, not_true_eq_false, if_false, ite_false,
    constants.CIRCUITID_SIZE, constants.REQID_SIZE]
  rw [hreqid]
  rw [show isBufferSize reqid 4 = true from (by simp [isBufferSize, h1, constants.REQID_SIZE])]
  simp only [Bool.not_true, Bool.false_eq_true, if_false, ite_false]
  rw [hloop]
  simp [constants.REQID_SIZE]

theorem MODERATION_STATE_REQUEST_toJSON_eval (reqid : List Nat)
    (channels : List (List Nat)) (future oldest : Nat)
    (h1 : reqid.length = constants.REQID_SIZE)
    (hch : ∀ c ∈ channels, constants.CHANNEL_NAME_MIN_CODEPOINTS ≤ c.length ∧
      c.length ≤ constants.CHANNEL_NAME_MAX_CODEPOINTS)
    (hcount : channels.length < 2 ^ 32)
    (hf : future < 2 ^ 53) (ho : oldest < 2 ^ 53) :
    MODERATION_STATE_REQUEST.toJSON (prependMsgLen
      (msgFrame constants.MODERATION_STATE_REQUEST reqid
        ((channels.map postSeg).flatten ++ (varintEncode 0 ++
          (varintEncode future ++ varintEncode oldest))))) =
      .ok ⟨(msgFrame constants.MODERATION_STATE_REQUEST reqid
              ((channels.map postSeg).flatten ++ (varintEncode 0 ++
                (varintEncode future ++ varintEncode oldest)))).length,
           constants.MODERATION_STATE_REQUEST, reqid, channels,
           some future, some oldest⟩ := by
  set after := varintEncode future ++ varintEncode oldest with hafter
  set rest := (channels.map postSeg).flatten ++ (varintEncode 0 ++ after) with hrest
  set F := msgFrame constants.MODERATION_STATE_REQUEST reqid rest with hFdef
  set B := prependMsgLen F with hBdef
  have htag : constants.MODERATION_STATE_REQUEST < 128 := by
    norm_num [constants.MODERATION_STATE_REQUEST]
  have henc0 : varintEncode 0 = [0] := varintEncode_small 0 (by norm_num)
  have hf8 : (varintEncode future).length ≤ 8 :=
    varintEncode_length_le 7 future (by norm_num at hf ⊢; omega)
  have ho8 : (varintEncode oldest).length ≤ 8 :=
    varintEncode_length_le 7 oldest (by norm_num at ho ⊢; omega)
  have hsegbound : ∀ c ∈ channels, segLen c ≤ 65 := by
    intro c hc
    have h64 : c.length ≤ 64 := by
      have := (hch c hc).2
      simpa [constants.CHANNEL_NAME_MAX_CODEPOINTS] using this
    have : varintEncode c.length = [c.length] := varintEncode_small c.length (by omega)
    simp [segLen, this]
    omega
  have hsumle : (channels.map segLen).sum ≤ channels.length * 65 :=
    sum_le_card_mul channels 65 hsegbound
  have hrlen : rest.length = (channels.map segLen).sum + (1 + after.length) := by
    simp only [hrest, List.length_append, flatten_postSeg_length, henc0]
    simp
  have hm : F.length = 9 + ((channels.map segLen).sum + (1 + after.length)) := by
    rw [hFdef, msgFrame_length _ _ _ htag h1, hrlen]
  have haflen : after.length ≤ 16 := by
    simp only [hafter, List.length_append]
    omega
  have hFlt : F.length < 2 ^ 56 := by
    rw [hm]
    have hb : channels.length * 65 < 2 ^ 32 * 65 := by
      exact Nat.mul_lt_mul_of_lt_of_le hcount (le_refl 65) (by norm_num)
    have hpow : (2 : Nat) ^ 32 * 65 = 279172874240 := by norm_num
    have hpow2 : (2 : Nat) ^ 56 = 72057594037927936 := by norm_num
    rw [hpow] at hb
    rw [hpow2]
    omega
  set km := (varintEncode F.length).length with hkm
  have dvs0 : decodeVarintSlice B 0 = some (F.length, km) := msg_dvs0 _ _ _ hFlt
  have hd1 : B.drop km = F := msg_drop_mlen _ _ _
  have dvs1 : decodeVarintSlice B km = some (constants.MODERATION_STATE_REQUEST, 1) :=
    msg_dvs_tag _ _ _ htag
  have hreqid : jsSlice B (km + 1 + 4) (km + 1 + 4 + 4) = reqid :=
    msg_reqid _ _ _ htag h1
  have hd4 : B.drop (km + 1 + 4 + 4) = rest := msg_drop_hdr _ _ _ htag h1
  have hBlen : B.length = km + F.length := prependMsgLen_length F
  have hfuel : channels.length < B.length + 1 := by
    have h1' : channels.length ≤ (channels.map segLen).sum :=
      sum_ge_length channels segLen (by
        intro x _
        have := varintEncode_length_pos x.length
        simp [segLen]
        omega)
    omega
  have hloop : readChannelsLoop B F.length km (B.length + 1) (km + 1 + 4 + 4) [] =
      .ok ([] ++ channels, (km + 1 + 4 + 4) + ((channels.map segLen).sum + 1)) := by
    apply readChannelsLoop_eval B F.length km channels (B.length + 1) (km + 1 + 4 + 4) [] after
    · rw [hd4, hrest]
    · omega
    · exact hch
    · exact hfuel
  have hdflat : B.drop (km + 1 + 4 + 4 + (channels.map segLen).sum) =
      varintEncode 0 ++ after := by
    have := drop_at B (km + 1 + 4 + 4) ((channels.map postSeg).flatten) (varintEncode 0 ++ after)
      (by rw [hd4, hrest])
    rwa [flatten_postSeg_length] at this
  have hdafter : B.drop (km + 1 + 4 + 4 + (channels.map segLen).sum + 1) = after := by
    have := drop_at B (km + 1 + 4 + 4 + (channels.map segLen).sum) (varintEncode 0) after hdflat
    rwa [henc0] at this
  have hdafter2 : B.drop ((km + 1 + 4 + 4) + ((channels.map segLen).sum + 1)) = after := by
    rw [show (km + 1 + 4 + 4) + ((channels.map segLen).sum + 1) =
      km + 1 + 4 + 4 + (channels.map segLen).sum + 1 by omega]
    exact hdafter
  have dvsF : decodeVarintSlice B ((km + 1 + 4 + 4) + ((channels.map segLen).sum + 1)) =
      some (future, (varintEncode future).length) := by
    apply decodeVarintSlice_at B _ future (varintEncode oldest)
    · rw [hdafter2, hafter]
    · norm_num at hf ⊢; omega
  have hdold : B.drop ((km + 1 + 4 + 4) + ((channels.map segLen).sum + 1) +
      (varintEncode future).length) = varintEncode oldest ++ [] := by
    have := drop_at B ((km + 1 + 4 + 4) + ((channels.map segLen).sum + 1))
      (varintEncode future) (varintEncode oldest) (by rw [hdafter2, hafter])
    simpa using this
  have dvsO : decodeVarintSlice B ((km + 1 + 4 + 4) + ((channels.map segLen).sum + 1) +
      (varintEncode future).length) = some (oldest, (varintEncode oldest).length) := by
    apply decodeVarintSlice_at B _ oldest [] hdold
    norm_num at ho ⊢; omega
  unfold MODERATION_STATE_REQUEST.toJSON
  rw [dvs0]
  simp only [← hkm]
  rw [hd1]
  simp only [isBufferSizeJ, beq_self_eq_true, Bool.not_true, Bool.false_eq_true, if_false,
    ite_false, vval, vbytes]
  rw [dvs1]
  simp only [vval, vbytes, ne_eq, Option.some.injEq, not_true_eq_false, if_false, ite_false,
    constants.CIRCUITID_SIZE, constants.REQID_SIZE]
  rw [hreqid]
  rw [show isBufferSize reqid 4 = true from (by simp [isBufferSize, h1, constants.REQID_SIZE])]
  simp only [Bool.not_true, Bool.false_eq_true, if_false, ite_false]
  rw [hloop]
  simp only [List.nil_append]
  rw [dvsF]
  simp only [vval, vbytes]
  rw [dvsO]
  simp [vval]

/-! ## Shared post-frame lemmas -/

/-- The payload a post create lays out after the public key and the
signature slot: links count, links, post type tag, timestamp, then the
type-specific fields. -/
def postPayload (tag : Nat) (links : List (List Nat)) (timestamp : Nat)
    (rest : List Nat) : List Nat :=
  varintEncode links.length ++ (links.flatten ++ (varintEncode tag ++
    (varintEncode timestamp ++ rest)))

theorem cryptoSign_eval (s : SigScheme) (sk pk payload : List Nat)
    (hpk : pk.length = constants.PUBLICKEY_SIZE) :
    cryptoSign s (pk ++ (List.replicate constants.SIGNATURE_SIZE 0 ++ payload)) sk =
      pk ++ (s.sigbytes sk payload ++ payload) := by
  have hd1 : (pk ++ (List.replicate constants.SIGNATURE_SIZE 0 ++ payload)).drop
      constants.PUBLICKEY_SIZE = List.replicate constants.SIGNATURE_SIZE 0 ++ payload := by
    have := drop_at (pk ++ (List.replicate constants.SIGNATURE_SIZE 0 ++ payload)) 0 pk
      (List.replicate constants.SIGNATURE_SIZE 0 ++ payload) (by simp)
    rw [hpk] at this
    simpa using this
  have hd2 : (pk ++ (List.replicate constants.SIGNATURE_SIZE 0 ++ payload)).drop
      (constants.PUBLICKEY_SIZE + constants.SIGNATURE_SIZE) = payload := by
    have := drop_at _ constants.PUBLICKEY_SIZE
      (List.replicate constants.SIGNATURE_SIZE 0) payload hd1
    simpa using this
  unfold cryptoSign
  rw [hd2, List.take_left' hpk, List.append_assoc]

theorem signedPost_drop_payload (pk sig payload : List Nat)
    (hpk : pk.length = constants.PUBLICKEY_SIZE)
    (hsig : sig.length = constants.SIGNATURE_SIZE) :
    (pk ++ (sig ++ payload)).drop
      (constants.PUBLICKEY_SIZE + constants.SIGNATURE_SIZE) = payload := by
  have hd1 : (pk ++ (sig ++ payload)).drop constants.PUBLICKEY_SIZE = sig ++ payload := by
    have := drop_at (pk ++ (sig ++ payload)) 0 pk (sig ++ payload) (by simp)
    rw [hpk] at this
    simpa using this
  have := drop_at _ constants.PUBLICKEY_SIZE sig payload hd1
  rwa [hsig] at this

theorem signedPost_pk_slice (pk rest : List Nat)
    (hpk : pk.length = constants.PUBLICKEY_SIZE) :
    jsSlice (pk ++ rest) 0 constants.PUBLICKEY_SIZE = pk := by
  unfold jsSlice
  rw [List.take_left' hpk]
  simp

theorem signedPost_sig_slice (pk sig payload : List Nat)
    (hpk : pk.length = constants.PUBLICKEY_SIZE)
    (hsig : sig.length = constants.SIGNATURE_SIZE) :
    jsSlice (pk ++ (sig ++ payload)) constants.PUBLICKEY_SIZE
      (constants.PUBLICKEY_SIZE + constants.SIGNATURE_SIZE) = sig := by
  have hd1 : (pk ++ (sig ++ payload)).drop constants.PUBLICKEY_SIZE = sig ++ payload := by
    have := drop_at (pk ++ (sig ++ payload)) 0 pk (sig ++ payload) (by simp)
    rw [hpk] at this
    simpa using this
  have := jsSlice_at (pk ++ (sig ++ payload)) constants.PUBLICKEY_SIZE sig payload hd1
  rwa [hsig] at this

theorem checkSignature_signedPost (s : SigScheme) (sk payload : List Nat) :
    checkSignature s (s.pk sk ++ (s.sigbytes sk payload ++ payload)) (s.pk sk) = none ∨
    (s.pk sk).length ≠ constants.PUBLICKEY_SIZE := by
  by_cases hpk : (s.pk sk).length = constants.PUBLICKEY_SIZE
  · left
    unfold checkSignature cryptoVerify
    rw [signedPost_sig_slice _ _ _ hpk (s.siglen sk payload),
      signedPost_drop_payload _ _ _ hpk (s.siglen sk payload), s.correct]
    simp
  · right
    exact hpk

/-- checkSignature accepts a correctly signed post (stated for a public key
of the right size, which every create checks first). -/
theorem checkSignature_ok (s : SigScheme) (sk payload : List Nat)
    (hpk : (s.pk sk).length = constants.PUBLICKEY_SIZE) :
    checkSignature s (s.pk sk ++ (s.sigbytes sk payload ++ payload)) (s.pk sk) = none := by
  unfold checkSignature cryptoVerify
  rw [signedPost_sig_slice _ _ _ hpk (s.siglen sk payload),
    signedPost_drop_payload _ _ _ hpk (s.siglen sk payload), s.correct]
  simp

/-! ## TEXT_POST: create shape and decode evaluation -/

theorem TEXT_POST_create_eq (s : SigScheme) (publicKey secretKey : List Nat)
    (links : List (List Nat)) (channel : List Nat) (timestamp : Nat) (text : List Nat)
    (hpk : publicKey.length = constants.PUBLICKEY_SIZE)
    (hsk : secretKey.length = constants.SECRETKEY_SIZE)
    (hl : ∀ x ∈ links, x.length = constants.HASH_SIZE)
    (hch : constants.CHANNEL_NAME_MIN_CODEPOINTS ≤ channel.length ∧
      channel.length ≤ constants.CHANNEL_NAME_MAX_CODEPOINTS)
    (htx : text.length ≤ constants.POST_TEXT_MAX_BYTES)
    (hkey : publicKey = s.pk secretKey) :
    TEXT_POST.create s publicKey secretKey links channel timestamp text =
      .ok (publicKey ++ (s.sigbytes secretKey
        (postPayload constants.TEXT_POST links timestamp
          (varintEncode channel.length ++ (channel ++
           (varintEncode text.length ++ text)))) ++
        postPayload constants.TEXT_POST links timestamp
          (varintEncode channel.length ++ (channel ++
           (varintEncode text.length ++ text))))) := by
  have hbs1 : isBufferSize publicKey constants.PUBLICKEY_SIZE = true := by
    simp [isBufferSize, hpk]
  have hbs2 : isBufferSize secretKey constants.SECRETKEY_SIZE = true := by
    simp [isBufferSize, hsk]
  have hah : isArrayHashes links = true := by
    simp only [isArrayHashes, List.all_eq_true]
    intro x hx
    simp [isBufferSize, hl x hx]
  have hokc : validation.checkChannelName channel = none := by
    simp [validation.checkChannelName, hch.1, hch.2]
  have hokt : validation.checkPostText text = none := by
    simp [validation.checkPostText, htx]
  unfold TEXT_POST.create
  rw [hbs1, hbs2, hah]
  simp only [Bool.not_true, Bool.false_eq_true, if_false, ite_false]
  rw [hokc, hokt]
  have hsize : determineBufferSize
      [.b constants.PUBLICKEY_SIZE, .b constants.SIGNATURE_SIZE,
       .h links.length, .v constants.TEXT_POST, .v timestamp,
       .s channel.length, .s text.length] =
      totalSize ([.cp publicKey, .skip constants.SIGNATURE_SIZE, .wv links.length] ++
        links.map WOp.cp ++
        [.wv constants.TEXT_POST, .wv timestamp,
         .wv channel.length, .cp channel, .wv text.length, .cp text]) := by
    rw [totalSize_append, totalSize_append, totalSize_map_cp links constants.HASH_SIZE hl]
    simp [determineBufferSize, repSize, totalSize, opSize, hpk,
      constants.PUBLICKEY_SIZE, constants.SIGNATURE_SIZE]
    ring
  rw [runWrites_exact0 _ _ hsize]
  have hmap : List.map (opChunk ∘ WOp.cp) links = links := by
    have hco : (opChunk ∘ WOp.cp) = fun x : List Nat => x := by
      funext x
      simp [Function.comp, opChunk]
    rw [hco]
    simp
  have hflatten : (([WOp.cp publicKey, WOp.skip constants.SIGNATURE_SIZE,
      WOp.wv links.length] ++ links.map WOp.cp ++
      [WOp.wv constants.TEXT_POST, WOp.wv timestamp,
       WOp.wv channel.length, WOp.cp channel, WOp.wv text.length,
       WOp.cp text]).map opChunk).flatten =
      publicKey ++ (List.replicate constants.SIGNATURE_SIZE 0 ++
        postPayload constants.TEXT_POST links timestamp
          (varintEncode channel.length ++ (channel ++
           (varintEncode text.length ++ text)))) := by
    simp [chunks_append, chunks_map_cp, opChunk, List.append_assoc, hmap, postPayload]
  rw [hflatten, cryptoSign_eval s secretKey publicKey _ hpk]
  rw [hkey]
  rw [checkSignature_ok s secretKey _ (by rw [← hkey]; exact hpk)]
  simp

theorem TEXT_POST_toJSON_eval (s : SigScheme) (publicKey secretKey : List Nat)
    (links : List (List Nat)) (channel : List Nat) (timestamp : Nat) (text : List Nat)
    (hpk : publicKey.length = constants.PUBLICKEY_SIZE)
    (hl : ∀ x ∈ links, x.length = constants.HASH_SIZE)
    (hlc : links.length < 2 ^ 32)
    (hch : constants.CHANNEL_NAME_MIN_CODEPOINTS ≤ channel.length ∧
      channel.length ≤ constants.CHANNEL_NAME_MAX_CODEPOINTS)
    (htx : text.length ≤ constants.POST_TEXT_MAX_BYTES)
    (hts : timestamp < 2 ^ 53)
    (hkey : publicKey = s.pk secretKey) :
    TEXT_POST.toJSON s (publicKey ++ (s.sigbytes secretKey
        (postPayload constants.TEXT_POST links timestamp
          (varintEncode channel.length ++ (channel ++
           (varintEncode text.length ++ text)))) ++
        postPayload constants.TEXT_POST links timestamp
          (varintEncode channel.length ++ (channel ++
           (varintEncode text.length ++ text))))) =
      .ok ⟨publicKey,
           s.sigbytes secretKey (postPayload constants.TEXT_POST links timestamp
             (varintEncode channel.length ++ (channel ++
              (varintEncode text.length ++ text)))),
           links, constants.TEXT_POST, channel, some timestamp, text⟩ := by
  set rest := varintEncode channel.length ++ (channel ++
    (varintEncode text.length ++ text)) with hrest
  set payload := postPayload constants.TEXT_POST links timestamp rest with hpay
  set sig := s.sigbytes secretKey payload with hsig
  set B := publicKey ++ (sig ++ payload) with hBdef
  have hsiglen : sig.length = constants.SIGNATURE_SIZE := s.siglen secretKey payload
  have hpkS : jsSlice B 0 constants.PUBLICKEY_SIZE = publicKey :=
    signedPost_pk_slice publicKey _ hpk
  have hchk : checkSignature s B publicKey = none := by
    rw [hBdef, hsig, hpay, hkey]
    exact checkSignature_ok s secretKey _ (by rw [← hkey]; exact hpk)
  have hsigS : jsSlice B 32 (32 + 64) = sig := by
    have := signedPost_sig_slice publicKey sig payload hpk hsiglen
    simpa [constants.PUBLICKEY_SIZE, constants.SIGNATURE_SIZE] using this
  have hd96 : B.drop (32 + 64) = varintEncode links.length ++ (links.flatten ++
      (varintEncode constants.TEXT_POST ++ (varintEncode timestamp ++ rest))) := by
    have := signedPost_drop_payload publicKey sig payload hpk hsiglen
    simp only [constants.PUBLICKEY_SIZE, constants.SIGNATURE_SIZE] at this
    rw [this, hpay, postPayload]
  have dvsL : decodeVarintSlice B (32 + 64) =
      some (links.length, (varintEncode links.length).length) :=
    decodeVarintSlice_at B _ links.length _ hd96 (by norm_num at hlc ⊢; omega)
  set kc := (varintEncode links.length).length with hkc
  have hd97 : B.drop (32 + 64 + kc) = links.flatten ++
      (varintEncode constants.TEXT_POST ++ (varintEncode timestamp ++ rest)) :=
    drop_at B (32 + 64) _ _ hd96
  have hslices : hashSlices B (32 + 64 + kc) links.length = links :=
    hashSlices_eval links B (32 + 64 + kc) _ hd97 hl
  have hflatlen : links.flatten.length = links.length * 32 := by
    have := flatten_length_const links _ hl
    simpa [constants.HASH_SIZE] using this
  have hd98 : B.drop (32 + 64 + kc + links.length * 32) =
      varintEncode constants.TEXT_POST ++ (varintEncode timestamp ++ rest) := by
    have := drop_at B (32 + 64 + kc) links.flatten _ hd97
    rwa [hflatlen] at this
  have htagenc : varintEncode constants.TEXT_POST = [constants.TEXT_POST] :=
    varintEncode_small constants.TEXT_POST (by norm_num [constants.TEXT_POST])
  have dvsTag : decodeVarintSlice B (32 + 64 + kc + links.length * 32) =
      some (constants.TEXT_POST, 1) := by
    have := decodeVarintSlice_at B _ constants.TEXT_POST _ hd98
      (by norm_num [constants.TEXT_POST])
    rwa [htagenc] at this
  have hd99 : B.drop (32 + 64 + kc + links.length * 32 + 1) =
      varintEncode timestamp ++ rest := by
    have := drop_at B (32 + 64 + kc + links.length * 32)
      (varintEncode constants.TEXT_POST) _ hd98
    rwa [htagenc] at this
  have dvsTs : decodeVarintSlice B (32 + 64 + kc + links.length * 32 + 1) =
      some (timestamp, (varintEncode timestamp).length) :=
    decodeVarintSlice_at B _ timestamp _ hd99 (by norm_num at hts ⊢; omega)
  set kt := (varintEncode timestamp).length with hkt
  have hd100 : B.drop (32 + 64 + kc + links.length * 32 + 1 + kt) = rest :=
    drop_at B _ (varintEncode timestamp) _ hd99
  have h64 : channel.length ≤ 64 := by
    have := hch.2
    simpa [constants.CHANNEL_NAME_MAX_CODEPOINTS] using this
  have hencCL : varintEncode channel.length = [channel.length] :=
    varintEncode_small channel.length (by omega)
  have hd101 : B.drop (32 + 64 + kc + links.length * 32 + 1 + kt) =
      varintEncode channel.length ++ (channel ++ (varintEncode text.length ++ text)) := by
    rw [hd100, hrest]
  have dvsCL : decodeVarintSlice B (32 + 64 + kc + links.length * 32 + 1 + kt) =
      some (channel.length, 1) := by
    have := decodeVarintSlice_at B _ channel.length _ hd101 (by omega)
    rwa [hencCL] at this
  have hd102 : B.drop (32 + 64 + kc + links.length * 32 + 1 + kt + 1) =
      channel ++ (varintEncode text.length ++ text) := by
    have := drop_at B (32 + 64 + kc + links.length * 32 + 1 + kt)
      (varintEncode channel.length) _ hd101
    rwa [hencCL] at this
  have hchan : jsSlice B (32 + 64 + kc + links.length * 32 + 1 + kt + 1)
      (32 + 64 + kc + links.length * 32 + 1 + kt + 1 + channel.length) = channel :=
    jsSlice_at B _ channel _ hd102
  have hd103 : B.drop (32 + 64 + kc + links.length * 32 + 1 + kt + 1 + channel.length) =
      varintEncode text.length ++ text :=
    drop_at B (32 + 64 + kc + links.length * 32 + 1 + kt + 1) channel _ hd102
  have dvsTL : decodeVarintSlice B
      (32 + 64 + kc + links.length * 32 + 1 + kt + 1 + channel.length) =
      some (text.length, (varintEncode text.length).length) := by
    apply decodeVarintSlice_at B _ text.length text hd103
    have h4096 : text.length ≤ 4096 := by
      simpa [constants.POST_TEXT_MAX_BYTES] using htx
    norm_num
    omega
  set ktl := (varintEncode text.length).length with hktl
  have hd104 : B.drop
      (32 + 64 + kc + links.length * 32 + 1 + kt + 1 + channel.length + ktl) = text :=
    drop_at B (32 + 64 + kc + links.length * 32 + 1 + kt + 1 + channel.length)
      (varintEncode text.length) text hd103
  have htext : jsSlice B
      (32 + 64 + kc + links.length * 32 + 1 + kt + 1 + channel.length + ktl)
      (32 + 64 + kc + links.length * 32 + 1 + kt + 1 + channel.length + ktl + text.length) =
      text := by
    have := jsSlice_at B
      (32 + 64 + kc + links.length * 32 + 1 + kt + 1 + channel.length + ktl) text []
      (by simpa using hd104)
    exact this
  have hokc : validation.checkChannelName channel = none := by
    simp [validation.checkChannelName, hch.1, hch.2]
  have hokt : validation.checkPostText text = none := by
    simp [validation.checkPostText, htx]
  have hah : isArrayHashes links = true := by
    simp only [isArrayHashes, List.all_eq_true]
    intro x hx
    simp [isBufferSize, hl x hx]
  unfold TEXT_POST.toJSON
  dsimp only
  rw [hpkS, hchk]
  simp only [constants.PUBLICKEY_SIZE, constants.SIGNATURE_SIZE, constants.HASH_SIZE]
  rw [dvsL]
  simp only [← hkc]
  rw [hslices, hah]
  simp only [not_true_eq_false, if_false, ite_false]
  rw [dvsTag]
  simp only [vval, vbytes, ne_eq, Option.some.injEq, not_true_eq_false, if_false, ite_false]
  rw [dvsTs]
  simp only [vval, vbytes, ← hkt]
  rw [dvsCL]
  simp only [vval, vbytes]
  rw [hchan, hokc]
  rw [dvsTL]
  simp only [vval, vbytes, ← hktl]
  rw [htext, hokt, hsigS]

/-! ## DELETE_POST: create shape and decode evaluation -/

theorem DELETE_POST_create_eq (s : SigScheme) (publicKey secretKey : List Nat)
    (links : List (List Nat)) (timestamp : Nat) (hashes : List (List Nat))
    (hpk : publicKey.length = constants.PUBLICKEY_SIZE)
    (hsk : secretKey.length = constants.SECRETKEY_SIZE)
    (hl : ∀ x ∈ links, x.length = constants.HASH_SIZE)
    (hh : ∀ x ∈ hashes, x.length = constants.HASH_SIZE)
    (hkey : publicKey = s.pk secretKey) :
    DELETE_POST.create s publicKey secretKey links timestamp hashes =
      .ok (publicKey ++ (s.sigbytes secretKey
        (postPayload constants.DELETE_POST links timestamp
          (varintEncode hashes.length ++ hashes.flatten)) ++
        postPayload constants.DELETE_POST links timestamp
          (varintEncode hashes.length ++ hashes.flatten))) := by
  have hbs1 : isBufferSize publicKey constants.PUBLICKEY_SIZE = true := by
    simp [isBufferSize, hpk]
  have hbs2 : isBufferSize secretKey constants.SECRETKEY_SIZE = true := by
    simp [isBufferSize, hsk]
  have hahL : isArrayHashes links = true := by
    simp only [isArrayHashes, List.all_eq_true]
    intro x hx
    simp [isBufferSize, hl x hx]
  have hahH : isArrayHashes hashes = true := by
    simp only [isArrayHashes, List.all_eq_true]
    intro x hx
    simp [isBufferSize, hh x hx]
  unfold DELETE_POST.create
  rw [hbs1, hbs2, hahL, hahH]
  simp only [not_true_eq_false, if_false, ite_false]
  have hsize : determineBufferSize
      [.b constants.PUBLICKEY_SIZE, .b constants.SIGNATURE_SIZE,
       .h links.length, .v constants.DELETE_POST, .v timestamp,
       .h hashes.length] =
      totalSize ([.cp publicKey, .skip constants.SIGNATURE_SIZE, .wv links.length] ++
        links.map WOp.cp ++
        [.wv constants.DELETE_POST, .wv timestamp, .wv hashes.length] ++
        hashes.map WOp.cp) := by
    rw [totalSize_append, totalSize_append, totalSize_append,
      totalSize_map_cp links constants.HASH_SIZE hl,
      totalSize_map_cp hashes constants.HASH_SIZE hh]
    simp [determineBufferSize, repSize, totalSize, opSize, hpk,
      constants.PUBLICKEY_SIZE, constants.SIGNATURE_SIZE]
    ring
  rw [runWrites_exact0 _ _ hsize]
  have hmapL : List.map (opChunk ∘ WOp.cp) links = links := by
    have hco : (opChunk ∘ WOp.cp) = fun x : List Nat => x := by
      funext x
      simp [Function.comp, opChunk]
    rw [hco]
    simp
  have hmapH : List.map (opChunk ∘ WOp.cp) hashes = hashes := by
    have hco : (opChunk ∘ WOp.cp) = fun x : List Nat => x := by
      funext x
      simp [Function.comp, opChunk]
    rw [hco]
    simp
  have hflatten : (([WOp.cp publicKey, WOp.skip constants.SIGNATURE_SIZE,
      WOp.wv links.length] ++ links.map WOp.cp ++
      [WOp.wv constants.DELETE_POST, WOp.wv timestamp, WOp.wv hashes.length] ++
      hashes.map WOp.cp).map opChunk).flatten =
      publicKey ++ (List.replicate constants.SIGNATURE_SIZE 0 ++
        postPayload constants.DELETE_POST links timestamp
          (varintEncode hashes.length ++ hashes.flatten)) := by
    simp [chunks_append, chunks_map_cp, opChunk, List.append_assoc, hmapL, hmapH,
      postPayload]
  rw [hflatten, cryptoSign_eval s secretKey publicKey _ hpk]
  rw [hkey]
  rw [checkSignature_ok s secretKey _ (by rw [← hkey]; exact hpk)]

theorem DELETE_POST_toJSON_eval (s : SigScheme) (publicKey secretKey : List Nat)
    (links : List (List Nat)) (timestamp : Nat) (hashes : List (List Nat))
    (hpk : publicKey.length = constants.PUBLICKEY_SIZE)
    (hl : ∀ x ∈ links, x.length = constants.HASH_SIZE)
    (hlc : links.length < 2 ^ 32)
    (hh : ∀ x ∈ hashes, x.length = constants.HASH_SIZE)
    (hhc : hashes.length < 2 ^ 32)
    (hts : timestamp < 2 ^ 53)
    (hkey : publicKey = s.pk secretKey) :
    DELETE_POST.toJSON s (publicKey ++ (s.sigbytes secretKey
        (postPayload constants.DELETE_POST links timestamp
          (varintEncode hashes.length ++ hashes.flatten)) ++
        postPayload constants.DELETE_POST links timestamp
          (varintEncode hashes.length ++ hashes.flatten))) =
      .ok ⟨publicKey,
           s.sigbytes secretKey (postPayload constants.DELETE_POST links timestamp
             (varintEncode hashes.length ++ hashes.flatten)),
           links, constants.DELETE_POST, some timestamp, hashes⟩ := by
  set rest := varintEncode hashes.length ++ hashes.flatten with hrest
  set payload := postPayload constants.DELETE_POST links timestamp rest with hpay
  set sig := s.sigbytes secretKey payload with hsig
  set B := publicKey ++ (sig ++ payload) with hBdef
  have hsiglen : sig.length = constants.SIGNATURE_SIZE := s.siglen secretKey payload
  have hpkS : jsSlice B 0 constants.PUBLICKEY_SIZE = publicKey :=
    signedPost_pk_slice publicKey _ hpk
  have hchk : checkSignature s B publicKey = none := by
    rw [hBdef, hsig, hpay, hkey]
    exact checkSignature_ok s secretKey _ (by rw [← hkey]; exact hpk)
  have hsigS : jsSlice B 32 (32 + 64) = sig := by
    have := signedPost_sig_slice publicKey sig payload hpk hsiglen
    simpa [constants.PUBLICKEY_SIZE, constants.SIGNATURE_SIZE] using this
  have hd96 : B.drop (32 + 64) = varintEncode links.length ++ (links.flatten ++
      (varintEncode constants.DELETE_POST ++ (varintEncode timestamp ++ rest))) := by
    have := signedPost_drop_payload publicKey sig payload hpk hsiglen
    simp only [constants.PUBLICKEY_SIZE, constants.SIGNATURE_SIZE] at this
    rw [this, hpay, postPayload]
  have dvsL : decodeVarintSlice B (32 + 64) =
      some (links.length, (varintEncode links.length).length) :=
    decodeVarintSlice_at B _ links.length _ hd96 (by norm_num at hlc ⊢; omega)
  set kc := (varintEncode links.length).length with hkc
  have hd97 : B.drop (32 + 64 + kc) = links.flatten ++
      (varintEncode constants.DELETE_POST ++ (varintEncode timestamp ++ rest)) :=
    drop_at B (32 + 64) _ _ hd96
  have hslices : hashSlices B (32 + 64 + kc) links.length = links :=
    hashSlices_eval links B (32 + 64 + kc) _ hd97 hl
  have hflatlen : links.flatten.length = links.length * 32 := by
    have := flatten_length_const links _ hl
    simpa [constants.HASH_SIZE] using this
  have hd98 : B.drop (32 + 64 + kc + links.length * 32) =
      varintEncode constants.DELETE_POST ++ (varintEncode timestamp ++ rest) := by
    have := drop_at B (32 + 64 + kc) links.flatten _ hd97
    rwa [hflatlen] at this
  have htagenc : varintEncode constants.DELETE_POST = [constants.DELETE_POST] :=
    varintEncode_small constants.DELETE_POST (by norm_num [constants.DELETE_POST])
  have dvsTag : decodeVarintSlice B (32 + 64 + kc + links.length * 32) =
      some (constants.DELETE_POST, 1) := by
    have := decodeVarintSlice_at B _ constants.DELETE_POST _ hd98
      (by norm_num [constants.DELETE_POST])
    rwa [htagenc] at this
  have hd99 : B.drop (32 + 64 + kc + links.length * 32 + 1) =
      varintEncode timestamp ++ rest := by
    have := drop_at B (32 + 64 + kc + links.length * 32)
      (varintEncode constants.DELETE_POST) _ hd98
    rwa [htagenc] at this
  have dvsTs : decodeVarintSlice B (32 + 64 + kc + links.length * 32 + 1) =
      some (timestamp, (varintEncode timestamp).length) :=
    decodeVarintSlice_at B _ timestamp _ hd99 (by norm_num at hts ⊢; omega)
  set kt := (varintEncode timestamp).length with hkt
  have hd100 : B.drop (32 + 64 + kc + links.length * 32 + 1 + kt) = rest :=
    drop_at B _ (varintEncode timestamp) _ hd99
  have hd101 : B.drop (32 + 64 + kc + links.length * 32 + 1 + kt) =
      varintEncode hashes.length ++ hashes.flatten := by
    rw [hd100, hrest]
  have dvsND : decodeVarintSlice B (32 + 64 + kc + links.length * 32 + 1 + kt) =
      some (hashes.length, (varintEncode hashes.length).length) :=
    decodeVarintSlice_at B _ hashes.length _ hd101 (by norm_num at hhc ⊢; omega)
  set kd := (varintEncode hashes.length).length with hkd
  have hd102 : B.drop (32 + 64 + kc + links.length * 32 + 1 + kt + kd) =
      hashes.flatten ++ [] := by
    have := drop_at B (32 + 64 + kc + links.length * 32 + 1 + kt)
      (varintEncode hashes.length) _ hd101
    simpa using this
  have hslicesH : hashSlices B (32 + 64 + kc + links.length * 32 + 1 + kt + kd)
      hashes.length = hashes :=
    hashSlices_eval hashes B _ [] hd102 hh
  have hahL : isArrayHashes links = true := by
    simp only [isArrayHashes, List.all_eq_true]
    intro x hx
    simp [isBufferSize, hl x hx]
  have hahH : isArrayHashes hashes = true := by
    simp only [isArrayHashes, List.all_eq_true]
    intro x hx
    simp [isBufferSize, hh x hx]
  unfold DELETE_POST.toJSON
  dsimp only
  rw [hpkS, hchk]
  simp only [constants.PUBLICKEY_SIZE, constants.SIGNATURE_SIZE, constants.HASH_SIZE]
  rw [dvsL]
  simp only [← hkc]
  rw [hslices, hahL]
  simp only [not_true_eq_false, if_false, ite_false]
  rw [dvsTag]
  simp only [vval, vbytes, ne_eq, Option.some.injEq, not_true_eq_false, if_false, ite_false]
  rw [dvsTs]
  simp only [vval, vbytes, ← hkt]
  rw [dvsND]
  simp only [← hkd]
  rw [hslicesH, hahH]
  simp only [not_true_eq_false, if_false, ite_false]
  rw [hsigS]

/-! ## TOPIC_POST: create shape and decode evaluation -/

theorem TOPIC_POST_create_eq (s : SigScheme) (publicKey secretKey : List Nat)
    (links : List (List Nat)) (channel : List Nat) (timestamp : Nat) (topic : List Nat)
    (hpk : publicKey.length = constants.PUBLICKEY_SIZE)
    (hsk : secretKey.length = constants.SECRETKEY_SIZE)
    (hl : ∀ x ∈ links, x.length = constants.HASH_SIZE)
    (hch : constants.CHANNEL_NAME_MIN_CODEPOINTS ≤ channel.length ∧
      channel.length ≤ constants.CHANNEL_NAME_MAX_CODEPOINTS)
    (htp : topic.length ≤ constants.TOPIC_MAX_CODEPOINTS)
    (hkey : publicKey = s.pk secretKey) :
    TOPIC_POST.create s publicKey secretKey links channel timestamp topic =
      .ok (publicKey ++ (s.sigbytes secretKey
        (postPayload constants.TOPIC_POST links timestamp
          (varintEncode channel.length ++ (channel ++
           (varintEncode topic.length ++ topic)))) ++
        postPayload constants.TOPIC_POST links timestamp
          (varintEncode channel.length ++ (channel ++
           (varintEncode topic.length ++ topic))))) := by
  have hbs1 : isBufferSize publicKey constants.PUBLICKEY_SIZE = true := by
    simp [isBufferSize, hpk]
  have hbs2 : isBufferSize secretKey constants.SECRETKEY_SIZE = true := by
    simp [isBufferSize, hsk]
  have hah : isArrayHashes links = true := by
    simp only [isArrayHashes, List.all_eq_true]
    intro x hx
    simp [isBufferSize, hl x hx]
  have hokc : validation.checkChannelName channel = none := by
    simp [validation.checkChannelName, hch.1, hch.2]
  have hokt : validation.checkTopic topic = none := by
    simp [validation.checkTopic, constants.TOPIC_MIN_CODEPOINTS, htp]
  unfold TOPIC_POST.create
  rw [hbs1, hbs2, hah]
  simp only [not_true_eq_false, if_false, ite_false]
  rw [hokc, hokt]
  have hsize : determineBufferSize
      [.b constants.PUBLICKEY_SIZE, .b constants.SIGNATURE_SIZE,
       .h links.length, .v constants.TOPIC_POST, .v timestamp,
       .s channel.length, .s topic.length] =
      totalSize ([.cp publicKey, .skip constants.SIGNATURE_SIZE, .wv links.length] ++
        links.map WOp.cp ++
        [.wv constants.TOPIC_POST, .wv timestamp,
         .wv channel.length, .cp channel, .wv topic.length, .cp topic]) := by
    rw [totalSize_append, totalSize_append, totalSize_map_cp links constants.HASH_SIZE hl]
    simp [determineBufferSize, repSize, totalSize, opSize, hpk,
      constants.PUBLICKEY_SIZE, constants.SIGNATURE_SIZE]
    ring
  rw [runWrites_exact0 _ _ hsize]
  have hmap : List.map (opChunk ∘ WOp.cp) links = links := by
    have hco : (opChunk ∘ WOp.cp) = fun x : List Nat => x := by
      funext x
      simp [Function.comp, opChunk]
    rw [hco]
    simp
  have hflatten : (([WOp.cp publicKey, WOp.skip constants.SIGNATURE_SIZE,
      WOp.wv links.length] ++ links.map WOp.cp ++
      [WOp.wv constants.TOPIC_POST, WOp.wv timestamp,
       WOp.wv channel.length, WOp.cp channel, WOp.wv topic.length,
       WOp.cp topic]).map opChunk).flatten =
      publicKey ++ (List.replicate constants.SIGNATURE_SIZE 0 ++
        postPayload constants.TOPIC_POST links timestamp
          (varintEncode channel.length ++ (channel ++
           (varintEncode topic.length ++ topic)))) := by
    simp [chunks_append, chunks_map_cp, opChunk, List.append_assoc, hmap, postPayload]
  rw [hflatten, cryptoSign_eval s secretKey publicKey _ hpk]
  rw [hkey]
  rw [checkSignature_ok s secretKey _ (by rw [← hkey]; exact hpk)]

theorem TOPIC_POST_toJSON_eval (s : SigScheme) (publicKey secretKey : List Nat)
    (links : List (List Nat)) (channel : List Nat) (timestamp : Nat) (topic : List Nat)
    (hpk : publicKey.length = constants.PUBLICKEY_SIZE)
    (hl : ∀ x ∈ links, x.length = constants.HASH_SIZE)
    (hlc : links.length < 2 ^ 32)
    (hch : constants.CHANNEL_NAME_MIN_CODEPOINTS ≤ channel.length ∧
      channel.length ≤ constants.CHANNEL_NAME_MAX_CODEPOINTS)
    (htp : topic.length ≤ constants.TOPIC_MAX_CODEPOINTS)
    (hts : timestamp < 2 ^ 53)
    (hkey : publicKey = s.pk secretKey) :
    TOPIC_POST.toJSON s (publicKey ++ (s.sigbytes secretKey
        (postPayload constants.TOPIC_POST links timestamp
          (varintEncode channel.length ++ (channel ++
           (varintEncode topic.length ++ topic)))) ++
        postPayload constants.TOPIC_POST links timestamp
          (varintEncode channel.length ++ (channel ++
           (varintEncode topic.length ++ topic))))) =
      .ok ⟨publicKey,
           s.sigbytes secretKey (postPayload constants.TOPIC_POST links timestamp
             (varintEncode channel.length ++ (channel ++
              (varintEncode topic.length ++ topic)))),
           links, constants.TOPIC_POST, channel, some timestamp, topic⟩ := by
  set rest := varintEncode channel.length ++ (channel ++
    (varintEncode topic.length ++ topic)) with hrest
  set payload := postPayload constants.TOPIC_POST links timestamp rest with hpay
  set sig := s.sigbytes secretKey payload with hsig
  set B := publicKey ++ (sig ++ payload) with hBdef
  have hsiglen : sig.length = constants.SIGNATURE_SIZE := s.siglen secretKey payload
  have hpkS : jsSlice B 0 constants.PUBLICKEY_SIZE = publicKey :=
    signedPost_pk_slice publicKey _ hpk
  have hchk : checkSignature s B publicKey = none := by
    rw [hBdef, hsig, hpay, hkey]
    exact checkSignature_ok s secretKey _ (by rw [← hkey]; exact hpk)
  have hsigS : jsSlice B 32 (32 + 64) = sig := by
    have := signedPost_sig_slice publicKey sig payload hpk hsiglen
    simpa [constants.PUBLICKEY_SIZE, constants.SIGNATURE_SIZE] using this
  have hd96 : B.drop (32 + 64) = varintEncode links.length ++ (links.flatten ++
      (varintEncode constants.TOPIC_POST ++ (varintEncode timestamp ++ rest))) := by
    have := signedPost_drop_payload publicKey sig payload hpk hsiglen
    simp only [constants.PUBLICKEY_SIZE, constants.SIGNATURE_SIZE] at this
    rw [this, hpay, postPayload]
  have dvsL : decodeVarintSlice B (32 + 64) =
      some (links.length, (varintEncode links.length).length) :=
    decodeVarintSlice_at B _ links.length _ hd96 (by norm_num at hlc ⊢; omega)
  set kc := (varintEncode links.length).length with hkc
  have hd97 : B.drop (32 + 64 + kc) = links.flatten ++
      (varintEncode constants.TOPIC_POST ++ (varintEncode timestamp ++ rest)) :=
    drop_at B (32 + 64) _ _ hd96
  have hslices : hashSlices B (32 + 64 + kc) links.length = links :=
    hashSlices_eval links B (32 + 64 + kc) _ hd97 hl
  have hflatlen : links.flatten.length = links.length * 32 := by
    have := flatten_length_const links _ hl
    simpa [constants.HASH_SIZE] using this
  have hd98 : B.drop (32 + 64 + kc + links.length * 32) =
      varintEncode constants.TOPIC_POST ++ (varintEncode timestamp ++ rest) := by
    have := drop_at B (32 + 64 + kc) links.flatten _ hd97
    rwa [hflatlen] at this
  have htagenc : varintEncode constants.TOPIC_POST = [constants.TOPIC_POST] :=
    varintEncode_small constants.TOPIC_POST (by norm_num [constants.TOPIC_POST])
  have dvsTag : decodeVarintSlice B (32 + 64 + kc + links.length * 32) =
      some (constants.TOPIC_POST, 1) := by
    have := decodeVarintSlice_at B _ constants.TOPIC_POST _ hd98
      (by norm_num [constants.TOPIC_POST])
    rwa [htagenc] at this
  have hd99 : B.drop (32 + 64 + kc + links.length * 32 + 1) =
      varintEncode timestamp ++ rest := by
    have := drop_at B (32 + 64 + kc + links.length * 32)
      (varintEncode constants.TOPIC_POST) _ hd98
    rwa [htagenc] at this
  have dvsTs : decodeVarintSlice B (32 + 64 + kc + links.length * 32 + 1) =
      some (timestamp, (varintEncode timestamp).length) :=
    decodeVarintSlice_at B _ timestamp _ hd99 (by norm_num at hts ⊢; omega)
  set kt := (varintEncode timestamp).length with hkt
  have hd100 : B.drop (32 + 64 + kc + links.length * 32 + 1 + kt) = rest :=
    drop_at B _ (varintEncode timestamp) _ hd99
  have h64 : channel.length ≤ 64 := by
    have := hch.2
    simpa [constants.CHANNEL_NAME_MAX_CODEPOINTS] using this
  have hencCL : varintEncode channel.length = [channel.length] :=
    varintEncode_small channel.length (by omega)
  have hd101 : B.drop (32 + 64 + kc + links.length * 32 + 1 + kt) =
      varintEncode channel.length ++ (channel ++ (varintEncode topic.length ++ topic)) := by
    rw [hd100, hrest]
  have dvsCL : decodeVarintSlice B (32 + 64 + kc + links.length * 32 + 1 + kt) =
      some (channel.length, 1) := by
    have := decodeVarintSlice_at B _ channel.length _ hd101 (by omega)
    rwa [hencCL] at this
  have hd102 : B.drop (32 + 64 + kc + links.length * 32 + 1 + kt + 1) =
      channel ++ (varintEncode topic.length ++ topic) := by
    have := drop_at B (32 + 64 + kc + links.length * 32 + 1 + kt)
      (varintEncode channel.length) _ hd101
    rwa [hencCL] at this
  have hchan : jsSlice B (32 + 64 + kc + links.length * 32 + 1 + kt + 1)
      (32 + 64 + kc + links.length * 32 + 1 + kt + 1 + channel.length) = channel :=
    jsSlice_at B _ channel _ hd102
  have hd103 : B.drop (32 + 64 + kc + links.length * 32 + 1 + kt + 1 + channel.length) =
      varintEncode topic.length ++ topic :=
    drop_at B (32 + 64 + kc + links.length * 32 + 1 + kt + 1) channel _ hd102
  have dvsTL : decodeVarintSlice B
      (32 + 64 + kc + links.length * 32 + 1 + kt + 1 + channel.length) =
      some (topic.length, (varintEncode topic.length).length) := by
    apply decodeVarintSlice_at B _ topic.length topic hd103
    have h512 : topic.length ≤ 512 := by
      simpa [constants.TOPIC_MAX_CODEPOINTS] using htp
    norm_num
    omega
  set ktl := (varintEncode topic.length).length with hktl
  have hd104 : B.drop
      (32 + 64 + kc + links.length * 32 + 1 + kt + 1 + channel.length + ktl) = topic :=
    drop_at B (32 + 64 + kc + links.length * 32 + 1 + kt + 1 + channel.length)
      (varintEncode topic.length) topic hd103
  have htopic : jsSlice B
      (32 + 64 + kc + links.length * 32 + 1 + kt + 1 + channel.length + ktl)
      (32 + 64 + kc + links.length * 32 + 1 + kt + 1 + channel.length + ktl + topic.length) =
      topic := by
    have := jsSlice_at B
      (32 + 64 + kc + links.length * 32 + 1 + kt + 1 + channel.length + ktl) topic []
      (by simpa using hd104)
    exact this
  have hokc : validation.checkChannelName channel = none := by
    simp [validation.checkChannelName, hch.1, hch.2]
  have hokt : validation.checkTopic topic = none := by
    simp [validation.checkTopic, constants.TOPIC_MIN_CODEPOINTS, htp]
  have hah : isArrayHashes links = true := by
    simp only [isArrayHashes, List.all_eq_true]
    intro x hx
    simp [isBufferSize, hl x hx]
  unfold TOPIC_POST.toJSON
  dsimp only
  rw [hpkS, hchk]
  simp only [constants.PUBLICKEY_SIZE, constants.SIGNATURE_SIZE, constants.HASH_SIZE]
  rw [dvsL]
  simp only [← hkc]
  rw [hslices, hah]
  simp only [not_true_eq_false, if_false, ite_false]
  rw [dvsTag]
  simp only [vval, vbytes, ne_eq, Option.some.injEq, not_true_eq_false, if_false, ite_false]
  rw [dvsTs]
  simp only [vval, vbytes, ← hkt]
  rw [dvsCL]
  simp only [vval, vbytes]
  rw [hchan, hokc]
  rw [dvsTL]
  simp only [vval, vbytes, ← hktl]
  rw [htopic, hokt, hsigS]

/-! ## JOIN_POST: create shape and decode evaluation -/

theorem JOIN_POST_create_eq (s : SigScheme) (publicKey secretKey : List Nat)
    (links : List (List Nat)) (channel : List Nat) (timestamp : Nat)
    (hpk : publicKey.length = constants.PUBLICKEY_SIZE)
    (hsk : secretKey.length = constants.SECRETKEY_SIZE)
    (hl : ∀ x ∈ links, x.length = constants.HASH_SIZE)
    (hch : constants.CHANNEL_NAME_MIN_CODEPOINTS ≤ channel.length ∧
      channel.length ≤ constants.CHANNEL_NAME_MAX_CODEPOINTS)
    (hkey : publicKey = s.pk secretKey) :
    JOIN_POST.create s publicKey secretKey links channel timestamp =
      .ok (publicKey ++ (s.sigbytes secretKey
        (postPayload constants.JOIN_POST links timestamp
          (varintEncode channel.length ++ channel)) ++
        postPayload constants.JOIN_POST links timestamp
          (varintEncode channel.length ++ channel))) := by
  have hbs1 : isBufferSize publicKey constants.PUBLICKEY_SIZE = true := by
    simp [isBufferSize, hpk]
  have hbs2 : isBufferSize secretKey constants.SECRETKEY_SIZE = true := by
    simp [isBufferSize, hsk]
  have hah : isArrayHashes links = true := by
    simp only [isArrayHashes, List.all_eq_true]
    intro x hx
    simp [isBufferSize, hl x hx]
  have hokc : validation.checkChannelName channel = none := by
    simp [validation.checkChannelName, hch.1, hch.2]
  unfold JOIN_POST.create
  rw [hbs1, hbs2, hah]
  simp only [not_true_eq_false, if_false, ite_false]
  rw [hokc]
  have hsize : determineBufferSize
      [.b constants.PUBLICKEY_SIZE, .b constants.SIGNATURE_SIZE,
       .h links.length, .v constants.JOIN_POST, .v timestamp,
       .s channel.length] =
      totalSize ([.cp publicKey, .skip constants.SIGNATURE_SIZE, .wv links.length] ++
        links.map WOp.cp ++
        [.wv constants.JOIN_POST, .wv timestamp,
         .wv channel.length, .cp channel]) := by
    rw [totalSize_append, totalSize_append, totalSize_map_cp links constants.HASH_SIZE hl]
    simp [determineBufferSize, repSize, totalSize, opSize, hpk,
      constants.PUBLICKEY_SIZE, constants.SIGNATURE_SIZE]
    ring
  rw [runWrites_exact0 _ _ hsize]
  have hmap : List.map (opChunk ∘ WOp.cp) links = links := by
    have hco : (opChunk ∘ WOp.cp) = fun x : List Nat => x := by
      funext x
      simp [Function.comp, opChunk]
    rw [hco]
    simp
  have hflatten : (([WOp.cp publicKey, WOp.skip constants.SIGNATURE_SIZE,
      WOp.wv links.length] ++ links.map WOp.cp ++
      [WOp.wv constants.JOIN_POST, WOp.wv timestamp,
       WOp.wv channel.length, WOp.cp channel]).map opChunk).flatten =
      publicKey ++ (List.replicate constants.SIGNATURE_SIZE 0 ++
        postPayload constants.JOIN_POST links timestamp
          (varintEncode channel.length ++ channel)) := by
    simp [chunks_append, chunks_map_cp, opChunk, List.append_assoc, hmap, postPayload]
  rw [hflatten, cryptoSign_eval s secretKey publicKey _ hpk]
  rw [hkey]
  rw [checkSignature_ok s secretKey _ (by rw [← hkey]; exact hpk)]

theorem JOIN_POST_toJSON_eval (s : SigScheme) (publicKey secretKey : List Nat)
    (links : List (List Nat)) (channel : List Nat) (timestamp : Nat)
    (hpk : publicKey.length = constants.PUBLICKEY_SIZE)
    (hl : ∀ x ∈ links, x.length = constants.HASH_SIZE)
    (hlc : links.length < 2 ^ 32)
    (hch : constants.CHANNEL_NAME_MIN_CODEPOINTS ≤ channel.length ∧
      channel.length ≤ constants.CHANNEL_NAME_MAX_CODEPOINTS)
    (hts : timestamp < 2 ^ 53)
    (hkey : publicKey = s.pk secretKey) :
    JOIN_POST.toJSON s (publicKey ++ (s.sigbytes secretKey
        (postPayload constants.JOIN_POST links timestamp
          (varintEncode channel.length ++ channel)) ++
        postPayload constants.JOIN_POST links timestamp
          (varintEncode channel.length ++ channel))) =
      .ok ⟨publicKey,
           s.sigbytes secretKey (postPayload constants.JOIN_POST links timestamp
             (varintEncode channel.length ++ channel)),
           links, constants.JOIN_POST, channel, some timestamp⟩ := by
  set rest := varintEncode channel.length ++ channel with hrest
  set payload := postPayload constants.JOIN_POST links timestamp rest with hpay
  set sig := s.sigbytes secretKey payload with hsig
  set B := publicKey ++ (sig ++ payload) with hBdef
  have hsiglen : sig.length = constants.SIGNATURE_SIZE := s.siglen secretKey payload
  have hpkS : jsSlice B 0 constants.PUBLICKEY_SIZE = publicKey :=
    signedPost_pk_slice publicKey _ hpk
  have hchk : checkSignature s B publicKey = none := by
    rw [hBdef, hsig, hpay, hkey]
    exact checkSignature_ok s secretKey _ (by rw [← hkey]; exact hpk)
  have hsigS : jsSlice B 32 (32 + 64) = sig := by
    have := signedPost_sig_slice publicKey sig payload hpk hsiglen
    simpa [constants.PUBLICKEY_SIZE, constants.SIGNATURE_SIZE] using this
  have hd96 : B.drop (32 + 64) = varintEncode links.length ++ (links.flatten ++
      (varintEncode constants.JOIN_POST ++ (varintEncode timestamp ++ rest))) := by
    have := signedPost_drop_payload publicKey sig payload hpk hsiglen
    simp only [constants.PUBLICKEY_SIZE, constants.SIGNATURE_SIZE] at this
    rw [this, hpay, postPayload]
  have dvsL : decodeVarintSlice B (32 + 64) =
      some (links.length, (varintEncode links.length).length) :=
    decodeVarintSlice_at B _ links.length _ hd96 (by norm_num at hlc ⊢; omega)
  set kc := (varintEncode links.length).length with hkc
  have hd97 : B.drop (32 + 64 + kc) = links.flatten ++
      (varintEncode constants.JOIN_POST ++ (varintEncode timestamp ++ rest)) :=
    drop_at B (32 + 64) _ _ hd96
  have hslices : hashSlices B (32 + 64 + kc) links.length = links :=
    hashSlices_eval links B (32 + 64 + kc) _ hd97 hl
  have hflatlen : links.flatten.length = links.length * 32 := by
    have := flatten_length_const links _ hl
    simpa [constants.HASH_SIZE] using this
  have hd98 : B.drop (32 + 64 + kc + links.length * 32) =
      varintEncode constants.JOIN_POST ++ (varintEncode timestamp ++ rest) := by
    have := drop_at B (32 + 64 + kc) links.flatten _ hd97
    rwa [hflatlen] at this
  have htagenc : varintEncode constants.JOIN_POST = [constants.JOIN_POST] :=
    varintEncode_small constants.JOIN_POST (by norm_num [constants.JOIN_POST])
  have dvsTag : decodeVarintSlice B (32 + 64 + kc + links.length * 32) =
      some (constants.JOIN_POST, 1) := by
    have := decodeVarintSlice_at B _ constants.JOIN_POST _ hd98
      (by norm_num [constants.JOIN_POST])
    rwa [htagenc] at this
  have hd99 : B.drop (32 + 64 + kc + links.length * 32 + 1) =
      varintEncode timestamp ++ rest := by
    have := drop_at B (32 + 64 + kc + links.length * 32)
      (varintEncode constants.JOIN_POST) _ hd98
    rwa [htagenc] at this
  have dvsTs : decodeVarintSlice B (32 + 64 + kc + links.length * 32 + 1) =
      some (timestamp, (varintEncode timestamp).length) :=
    decodeVarintSlice_at B _ timestamp _ hd99 (by norm_num at hts ⊢; omega)
  set kt := (varintEncode timestamp).length with hkt
  have hd100 : B.drop (32 + 64 + kc + links.length * 32 + 1 + kt) = rest :=
    drop_at B _ (varintEncode timestamp) _ hd99
  have h64 : channel.length ≤ 64 := by
    have := hch.2
    simpa [constants.CHANNEL_NAME_MAX_CODEPOINTS] using this
  have hencCL : varintEncode channel.length = [channel.length] :=
    varintEncode_small channel.length (by omega)
  have hd101 : B.drop (32 + 64 + kc + links.length * 32 + 1 + kt) =
      varintEncode channel.length ++ channel := by
    rw [hd100, hrest]
  have dvsCL : decodeVarintSlice B (32 + 64 + kc + links.length * 32 + 1 + kt) =
      some (channel.length, 1) := by
    have := decodeVarintSlice_at B _ channel.length _ hd101 (by omega)
    rwa [hencCL] at this
  have hd102 : B.drop (32 + 64 + kc + links.length * 32 + 1 + kt + 1) = channel := by
    have := drop_at B (32 + 64 + kc + links.length * 32 + 1 + kt)
      (varintEncode channel.length) _ hd101
    rwa [hencCL] at this
  have hchan : jsSlice B (32 + 64 + kc + links.length * 32 + 1 + kt + 1)
      (32 + 64 + kc + links.length * 32 + 1 + kt + 1 + channel.length) = channel := by
    have := jsSlice_at B (32 + 64 + kc + links.length * 32 + 1 + kt + 1) channel []
      (by simpa using hd102)
    exact this
  have hokc : validation.checkChannelName channel = none := by
    simp [validation.checkChannelName, hch.1, hch.2]
  have hah : isArrayHashes links = true := by
    simp only [isArrayHashes, List.all_eq_true]
    intro x hx
    simp [isBufferSize, hl x hx]
  unfold JOIN_POST.toJSON
  dsimp only
  rw [hpkS, hchk]
  simp only [constants.PUBLICKEY_SIZE, constants.SIGNATURE_SIZE, constants.HASH_SIZE]
  rw [dvsL]
  simp only [← hkc]
  rw [hslices, hah]
  simp only [not_true_eq_false, if_false, ite_false]
  rw [dvsTag]
  simp only [vval, vbytes, ne_eq, Option.some.injEq, not_true_eq_false, if_false, ite_false]
  rw [dvsTs]
  simp only [vval, vbytes, ← hkt]
  rw [dvsCL]
  simp only [vval, vbytes]
  rw [hchan, hokc, hsigS]

/-! ## LEAVE_POST: create shape and decode evaluation -/

theorem LEAVE_POST_create_eq (s : SigScheme) (publicKey secretKey : List Nat)
    (links : List (List Nat)) (channel : List Nat) (timestamp : Nat)
    (hpk : publicKey.length = constants.PUBLICKEY_SIZE)
    (hsk : secretKey.length = constants.SECRETKEY_SIZE)
    (hl : ∀ x ∈ links, x.length = constants.HASH_SIZE)
    (hch : constants.CHANNEL_NAME_MIN_CODEPOINTS ≤ channel.length ∧
      channel.length ≤ constants.CHANNEL_NAME_MAX_CODEPOINTS)
    (hkey : publicKey = s.pk secretKey) :
    LEAVE_POST.create s publicKey secretKey links channel timestamp =
      .ok (publicKey ++ (s.sigbytes secretKey
        (postPayload constants.LEAVE_POST links timestamp
          (varintEncode channel.length ++ channel)) ++
        postPayload constants.LEAVE_POST links timestamp
          (varintEncode channel.length ++ channel))) := by
  have hbs1 : isBufferSize publicKey constants.PUBLICKEY_SIZE = true := by
    simp [isBufferSize, hpk]
  have hbs2 : isBufferSize secretKey constants.SECRETKEY_SIZE = true := by
    simp [isBufferSize, hsk]
  have hah : isArrayHashes links = true := by
    simp only [isArrayHashes, List.all_eq_true]
    intro x hx
    simp [isBufferSize, hl x hx]
  have hokc : validation.checkChannelName channel = none := by
    simp [validation.checkChannelName, hch.1, hch.2]
  unfold LEAVE_POST.create
  rw [hbs1, hbs2, hah]
  simp only [not_true_eq_false, if_false, ite_false]
  rw [hokc]
  have hsize : determineBufferSize
      [.b constants.PUBLICKEY_SIZE, .b constants.SIGNATURE_SIZE,
       .h links.length, .v constants.LEAVE_POST, .v timestamp,
       .s channel.length] =
      totalSize ([.cp publicKey, .skip constants.SIGNATURE_SIZE, .wv links.length] ++
        links.map WOp.cp ++
        [.wv constants.LEAVE_POST, .wv timestamp,
         .wv channel.length, .cp channel]) := by
    rw [totalSize_append, totalSize_append, totalSize_map_cp links constants.HASH_SIZE hl]
    simp [determineBufferSize, repSize, totalSize, opSize, hpk,
      constants.PUBLICKEY_SIZE, constants.SIGNATURE_SIZE]
    ring
  rw [runWrites_exact0 _ _ hsize]
  have hmap : List.map (opChunk ∘ WOp.cp) links = links := by
    have hco : (opChunk ∘ WOp.cp) = fun x : List Nat => x := by
      funext x
      simp [Function.comp, opChunk]
    rw [hco]
    simp
  have hflatten : (([WOp.cp publicKey, WOp.skip constants.SIGNATURE_SIZE,
      WOp.wv links.length] ++ links.map WOp.cp ++
      [WOp.wv constants.LEAVE_POST, WOp.wv timestamp,
       WOp.wv channel.length, WOp.cp channel]).map opChunk).flatten =
      publicKey ++ (List.replicate constants.SIGNATURE_SIZE 0 ++
        postPayload constants.LEAVE_POST links timestamp
          (varintEncode channel.length ++ channel)) := by
    simp [chunks_append, chunks_map_cp, opChunk, List.append_assoc, hmap, postPayload]
  rw [hflatten, cryptoSign_eval s secretKey publicKey _ hpk]
  rw [hkey]
  rw [checkSignature_ok s secretKey _ (by rw [← hkey]; exact hpk)]

theorem LEAVE_POST_toJSON_eval (s : SigScheme) (publicKey secretKey : List Nat)
    (links : List (List Nat)) (channel : List Nat) (timestamp : Nat)
    (hpk : publicKey.length = constants.PUBLICKEY_SIZE)
    (hl : ∀ x ∈ links, x.length = constants.HASH_SIZE)
    (hlc : links.length < 2 ^ 32)
    (hch : constants.CHANNEL_NAME_MIN_CODEPOINTS ≤ channel.length ∧
      channel.length ≤ constants.CHANNEL_NAME_MAX_CODEPOINTS)
    (hts : timestamp < 2 ^ 53)
    (hkey : publicKey = s.pk secretKey) :
    LEAVE_POST.toJSON s (publicKey ++ (s.sigbytes secretKey
        (postPayload constants.LEAVE_POST links timestamp
          (varintEncode channel.length ++ channel)) ++
        postPayload constants.LEAVE_POST links timestamp
          (varintEncode channel.length ++ channel))) =
      .ok ⟨publicKey,
           s.sigbytes secretKey (postPayload constants.LEAVE_POST links timestamp
             (varintEncode channel.length ++ channel)),
           links, constants.LEAVE_POST, channel, some timestamp⟩ := by
  set rest := varintEncode channel.length ++ channel with hrest
  set payload := postPayload constants.LEAVE_POST links timestamp rest with hpay
  set sig := s.sigbytes secretKey payload with hsig
  set B := publicKey ++ (sig ++ payload) with hBdef
  have hsiglen : sig.length = constants.SIGNATURE_SIZE := s.siglen secretKey payload
  have hpkS : jsSlice B 0 constants.PUBLICKEY_SIZE = publicKey :=
    signedPost_pk_slice publicKey _ hpk
  have hchk : checkSignature s B publicKey = none := by
    rw [hBdef, hsig, hpay, hkey]
    exact checkSignature_ok s secretKey _ (by rw [← hkey]; exact hpk)
  have hsigS : jsSlice B 32 (32 + 64) = sig := by
    have := signedPost_sig_slice publicKey sig payload hpk hsiglen
    simpa [constants.PUBLICKEY_SIZE, constants.SIGNATURE_SIZE] using this
  have hd96 : B.drop (32 + 64) = varintEncode links.length ++ (links.flatten ++
      (varintEncode constants.LEAVE_POST ++ (varintEncode timestamp ++ rest))) := by
    have := signedPost_drop_payload publicKey sig payload hpk hsiglen
    simp only [constants.PUBLICKEY_SIZE, constants.SIGNATURE_SIZE] at this
    rw [this, hpay, postPayload]
  have dvsL : decodeVarintSlice B (32 + 64) =
      some (links.length, (varintEncode links.length).length) :=
    decodeVarintSlice_at B _ links.length _ hd96 (by norm_num at hlc ⊢; omega)
  set kc := (varintEncode links.length).length with hkc
  have hd97 : B.drop (32 + 64 + kc) = links.flatten ++
      (varintEncode constants.LEAVE_POST ++ (varintEncode timestamp ++ rest)) :=
    drop_at B (32 + 64) _ _ hd96
  have hslices : hashSlices B (32 + 64 + kc) links.length = links :=
    hashSlices_eval links B (32 + 64 + kc) _ hd97 hl
  have hflatlen : links.flatten.length = links.length * 32 := by
    have := flatten_length_const links _ hl
    simpa [constants.HASH_SIZE] using this
  have hd98 : B.drop (32 + 64 + kc + links.length * 32) =
      varintEncode constants.LEAVE_POST ++ (varintEncode timestamp ++ rest) := by
    have := drop_at B (32 + 64 + kc) links.flatten _ hd97
    rwa [hflatlen] at this
  have htagenc : varintEncode constants.LEAVE_POST = [constants.LEAVE_POST] :=
    varintEncode_small constants.LEAVE_POST (by norm_num [constants.LEAVE_POST])
  have dvsTag : decodeVarintSlice B (32 + 64 + kc + links.length * 32) =
      some (constants.LEAVE_POST, 1) := by
    have := decodeVarintSlice_at B _ constants.LEAVE_POST _ hd98
      (by norm_num [constants.LEAVE_POST])
    rwa [htagenc] at this
  have hd99 : B.drop (32 + 64 + kc + links.length * 32 + 1) =
      varintEncode timestamp ++ rest := by
    have := drop_at B (32 + 64 + kc + links.length * 32)
      (varintEncode constants.LEAVE_POST) _ hd98
    rwa [htagenc] at this
  have dvsTs : decodeVarintSlice B (32 + 64 + kc + links.length * 32 + 1) =
      some (timestamp, (varintEncode timestamp).length) :=
    decodeVarintSlice_at B _ timestamp _ hd99 (by norm_num at hts ⊢; omega)
  set kt := (varintEncode timestamp).length with hkt
  have hd100 : B.drop (32 + 64 + kc + links.length * 32 + 1 + kt) = rest :=
    drop_at B _ (varintEncode timestamp) _ hd99
  have h64 : channel.length ≤ 64 := by
    have := hch.2
    simpa [constants.CHANNEL_NAME_MAX_CODEPOINTS] using this
  have hencCL : varintEncode channel.length = [channel.length] :=
    varintEncode_small channel.length (by omega)
  have hd101 : B.drop (32 + 64 + kc + links.length * 32 + 1 + kt) =
      varintEncode channel.length ++ channel := by
    rw [hd100, hrest]
  have dvsCL : decodeVarintSlice B (32 + 64 + kc + links.length * 32 + 1 + kt) =
      some (channel.length, 1) := by
    have := decodeVarintSlice_at B _ channel.length _ hd101 (by omega)
    rwa [hencCL] at this
  have hd102 : B.drop (32 + 64 + kc + links.length * 32 + 1 + kt + 1) = channel := by
    have := drop_at B (32 + 64 + kc + links.length * 32 + 1 + kt)
      (varintEncode channel.length) _ hd101
    rwa [hencCL] at this
  have hchan : jsSlice B (32 + 64 + kc + links.length * 32 + 1 + kt + 1)
      (32 + 64 + kc + links.length * 32 + 1 + kt + 1 + channel.length) = channel := by
    have := jsSlice_at B (32 + 64 + kc + links.length * 32 + 1 + kt + 1) channel []
      (by simpa using hd102)
    exact this
  have hokc : validation.checkChannelName channel = none := by
    simp [validation.checkChannelName, hch.1, hch.2]
  have hah : isArrayHashes links = true := by
    simp only [isArrayHashes, List.all_eq_true]
    intro x hx
    simp [isBufferSize, hl x hx]
  unfold LEAVE_POST.toJSON
  dsimp only
  rw [hpkS, hchk]
  simp only [constants.PUBLICKEY_SIZE, constants.SIGNATURE_SIZE, constants.HASH_SIZE]
  rw [dvsL]
  simp only [← hkc]
  rw [hslices, hah]
  simp only [not_true_eq_false, if_false, ite_false]
  rw [dvsTag]
  simp only [vval, vbytes, ne_eq, Option.some.injEq, not_true_eq_false, if_false, ite_false]
  rw [dvsTs]
  simp only [vval, vbytes, ← hkt]
  rw [dvsCL]
  simp only [vval, vbytes]
  rw [hchan, hokc, hsigS]

/-! ## INFO_POST: create shape and decode evaluation -/

theorem INFO_POST_create_eq (s : SigScheme) (publicKey secretKey : List Nat)
    (links : List (List Nat)) (timestamp : Nat) (key value : List Nat)
    (hpk : publicKey.length = constants.PUBLICKEY_SIZE)
    (hsk : secretKey.length = constants.SECRETKEY_SIZE)
    (hl : ∀ x ∈ links, x.length = constants.HASH_SIZE)
    (hk : constants.INFO_KEY_MIN_CODEPOINTS ≤ key.length ∧
      key.length ≤ constants.INFO_KEY_MAX_CODEPOINTS)
    (hv : value.length ≤ constants.INFO_VALUE_MAX_BYTES)
    (hname : (if key = nameKeyBytes then validation.checkUsername value else none) = none)
    (hkey : publicKey = s.pk secretKey) :
    INFO_POST.create s publicKey secretKey links timestamp key value =
      .ok (publicKey ++ (s.sigbytes secretKey
        (postPayload constants.INFO_POST links timestamp
          (varintEncode key.length ++ (key ++
           (varintEncode value.length ++ (value ++ varintEncode 0))))) ++
        postPayload constants.INFO_POST links timestamp
          (varintEncode key.length ++ (key ++
           (varintEncode value.length ++ (value ++ varintEncode 0)))))) := by
  have hbs1 : isBufferSize publicKey constants.PUBLICKEY_SIZE = true := by
    simp [isBufferSize, hpk]
  have hbs2 : isBufferSize secretKey constants.SECRETKEY_SIZE = true := by
    simp [isBufferSize, hsk]
  have hah : isArrayHashes links = true := by
    simp only [isArrayHashes, List.all_eq_true]
    intro x hx
    simp [isBufferSize, hl x hx]
  have hokk : validation.checkInfoKey key = none := by
    simp [validation.checkInfoKey, hk.1, hk.2]
  have hokv : validation.checkInfoValue value = none := by
    simp [validation.checkInfoValue, hv]
  unfold INFO_POST.create
  rw [hbs1, hbs2, hah]
  simp only [not_true_eq_false, if_false, ite_false]
  rw [hokk, hokv, hname]
  have hsize : determineBufferSize
      [.b constants.PUBLICKEY_SIZE, .b constants.SIGNATURE_SIZE,
       .h links.length, .v constants.INFO_POST, .v timestamp,
       .s key.length, .s value.length, .v 0] =
      totalSize ([.cp publicKey, .skip constants.SIGNATURE_SIZE, .wv links.length] ++
        links.map WOp.cp ++
        [.wv constants.INFO_POST, .wv timestamp,
         .wv key.length, .cp key, .wv value.length, .cp value, .wv 0]) := by
    rw [totalSize_append, totalSize_append, totalSize_map_cp links constants.HASH_SIZE hl]
    simp [determineBufferSize, repSize, totalSize, opSize, hpk,
      constants.PUBLICKEY_SIZE, constants.SIGNATURE_SIZE]
    ring
  rw [runWrites_exact0 _ _ hsize]
  have hmap : List.map (opChunk ∘ WOp.cp) links = links := by
    have hco : (opChunk ∘ WOp.cp) = fun x : List Nat => x := by
      funext x
      simp [Function.comp, opChunk]
    rw [hco]
    simp
  have hflatten : (([WOp.cp publicKey, WOp.skip constants.SIGNATURE_SIZE,
      WOp.wv links.length] ++ links.map WOp.cp ++
      [WOp.wv constants.INFO_POST, WOp.wv timestamp,
       WOp.wv key.length, WOp.cp key, WOp.wv value.length, WOp.cp value,
       WOp.wv 0]).map opChunk).flatten =
      publicKey ++ (List.replicate constants.SIGNATURE_SIZE 0 ++
        postPayload constants.INFO_POST links timestamp
          (varintEncode key.length ++ (key ++
           (varintEncode value.length ++ (value ++ varintEncode 0))))) := by
    simp [chunks_append, chunks_map_cp, opChunk, List.append_assoc, hmap, postPayload]
  rw [hflatten, cryptoSign_eval s secretKey publicKey _ hpk]
  rw [hkey]
  rw [checkSignature_ok s secretKey _ (by rw [← hkey]; exact hpk)]

theorem INFO_POST_toJSON_eval (s : SigScheme) (publicKey secretKey : List Nat)
    (links : List (List Nat)) (timestamp : Nat) (key value : List Nat)
    (hpk : publicKey.length = constants.PUBLICKEY_SIZE)
    (hl : ∀ x ∈ links, x.length = constants.HASH_SIZE)
    (hlc : links.length < 2 ^ 32)
    (hk : constants.INFO_KEY_MIN_CODEPOINTS ≤ key.length ∧
      key.length ≤ constants.INFO_KEY_MAX_CODEPOINTS)
    (hv : value.length ≤ constants.INFO_VALUE_MAX_BYTES)
    (hname : (if key = nameKeyBytes then validation.checkUsername value else none) = none)
    (hts : timestamp < 2 ^ 53)
    (hkey : publicKey = s.pk secretKey) :
    INFO_POST.toJSON s (publicKey ++ (s.sigbytes secretKey
        (postPayload constants.INFO_POST links timestamp
          (varintEncode key.length ++ (key ++
           (varintEncode value.length ++ (value ++ varintEncode 0))))) ++
        postPayload constants.INFO_POST links timestamp
          (varintEncode key.length ++ (key ++
           (varintEncode value.length ++ (value ++ varintEncode 0)))))) =
      .ok ⟨publicKey,
           s.sigbytes secretKey (postPayload constants.INFO_POST links timestamp
             (varintEncode key.length ++ (key ++
              (varintEncode value.length ++ (value ++ varintEncode 0))))),
           links, constants.INFO_POST, some timestamp, key, value⟩ := by
  set rest := varintEncode key.length ++ (key ++
    (varintEncode value.length ++ (value ++ varintEncode 0))) with hrest
  set payload := postPayload constants.INFO_POST links timestamp rest with hpay
  set sig := s.sigbytes secretKey payload with hsig
  set B := publicKey ++ (sig ++ payload) with hBdef
  have hsiglen : sig.length = constants.SIGNATURE_SIZE := s.siglen secretKey payload
  have hpkS : jsSlice B 0 constants.PUBLICKEY_SIZE = publicKey :=
    signedPost_pk_slice publicKey _ hpk
  have hchk : checkSignature s B publicKey = none := by
    rw [hBdef, hsig, hpay, hkey]
    exact checkSignature_ok s secretKey _ (by rw [← hkey]; exact hpk)
  have hsigS : jsSlice B 32 (32 + 64) = sig := by
    have := signedPost_sig_slice publicKey sig payload hpk hsiglen
    simpa [constants.PUBLICKEY_SIZE, constants.SIGNATURE_SIZE] using this
  have hd96 : B.drop (32 + 64) = varintEncode links.length ++ (links.flatten ++
      (varintEncode constants.INFO_POST ++ (varintEncode timestamp ++ rest))) := by
    have := signedPost_drop_payload publicKey sig payload hpk hsiglen
    simp only [constants.PUBLICKEY_SIZE, constants.SIGNATURE_SIZE] at this
    rw [this, hpay, postPayload]
  have dvsL : decodeVarintSlice B (32 + 64) =
      some (links.length, (varintEncode links.length).length) :=
    decodeVarintSlice_at B _ links.length _ hd96 (by norm_num at hlc ⊢; omega)
  set kc := (varintEncode links.length).length with hkc
  have hd97 : B.drop (32 + 64 + kc) = links.flatten ++
      (varintEncode constants.INFO_POST ++ (varintEncode timestamp ++ rest)) :=
    drop_at B (32 + 64) _ _ hd96
  have hslices : hashSlices B (32 + 64 + kc) links.length = links :=
    hashSlices_eval links B (32 + 64 + kc) _ hd97 hl
  have hflatlen : links.flatten.length = links.length * 32 := by
    have := flatten_length_const links _ hl
    simpa [constants.HASH_SIZE] using this
  have hd98 : B.drop (32 + 64 + kc + links.length * 32) =
      varintEncode constants.INFO_POST ++ (varintEncode timestamp ++ rest) := by
    have := drop_at B (32 + 64 + kc) links.flatten _ hd97
    rwa [hflatlen] at this
  have htagenc : varintEncode constants.INFO_POST = [constants.INFO_POST] :=
    varintEncode_small constants.INFO_POST (by norm_num [constants.INFO_POST])
  have dvsTag : decodeVarintSlice B (32 + 64 + kc + links.length * 32) =
      some (constants.INFO_POST, 1) := by
    have := decodeVarintSlice_at B _ constants.INFO_POST _ hd98
      (by norm_num [constants.INFO_POST])
    rwa [htagenc] at this
  have hd99 : B.drop (32 + 64 + kc + links.length * 32 + 1) =
      varintEncode timestamp ++ rest := by
    have := drop_at B (32 + 64 + kc + links.length * 32)
      (varintEncode constants.INFO_POST) _ hd98
    rwa [htagenc] at this
  have dvsTs : decodeVarintSlice B (32 + 64 + kc + links.length * 32 + 1) =
      some (timestamp, (varintEncode timestamp).length) :=
    decodeVarintSlice_at B _ timestamp _ hd99 (by norm_num at hts ⊢; omega)
  set kt := (varintEncode timestamp).length with hkt
  have hd100 : B.drop (32 + 64 + kc + links.length * 32 + 1 + kt) = rest :=
    drop_at B _ (varintEncode timestamp) _ hd99
  have hd101 : B.drop (32 + 64 + kc + links.length * 32 + 1 + kt) =
      varintEncode key.length ++ (key ++
        (varintEncode value.length ++ (value ++ varintEncode 0))) := by
    rw [hd100, hrest]
  have h128 : key.length ≤ 128 := by
    have := hk.2
    simpa [constants.INFO_KEY_MAX_CODEPOINTS] using this
  have dvsKL : decodeVarintSlice B (32 + 64 + kc + links.length * 32 + 1 + kt) =
      some (key.length, (varintEncode key.length).length) := by
    apply decodeVarintSlice_at B _ key.length _ hd101
    norm_num
    omega
  set kk := (varintEncode key.length).length with hkk
  have hd102 : B.drop (32 + 64 + kc + links.length * 32 + 1 + kt + kk) =
      key ++ (varintEncode value.length ++ (value ++ varintEncode 0)) :=
    drop_at B (32 + 64 + kc + links.length * 32 + 1 + kt)
      (varintEncode key.length) _ hd101
  have hkeyS : jsSlice B (32 + 64 + kc + links.length * 32 + 1 + kt + kk)
      (32 + 64 + kc + links.length * 32 + 1 + kt + kk + key.length) = key :=
    jsSlice_at B _ key _ hd102
  have hd103 : B.drop (32 + 64 + kc + links.length * 32 + 1 + kt + kk + key.length) =
      varintEncode value.length ++ (value ++ varintEncode 0) :=
    drop_at B (32 + 64 + kc + links.length * 32 + 1 + kt + kk) key _ hd102
  have h4096 : value.length ≤ 4096 := by
    simpa [constants.INFO_VALUE_MAX_BYTES] using hv
  have dvsVL : decodeVarintSlice B
      (32 + 64 + kc + links.length * 32 + 1 + kt + kk + key.length) =
      some (value.length, (varintEncode value.length).length) := by
    apply decodeVarintSlice_at B _ value.length _ hd103
    norm_num
    omega
  set kv := (varintEncode value.length).length with hkv
  have hd104 : B.drop
      (32 + 64 + kc + links.length * 32 + 1 + kt + kk + key.length + kv) =
      value ++ varintEncode 0 :=
    drop_at B (32 + 64 + kc + links.length * 32 + 1 + kt + kk + key.length)
      (varintEncode value.length) _ hd103
  have hvalS : jsSlice B
      (32 + 64 + kc + links.length * 32 + 1 + kt + kk + key.length + kv)
      (32 + 64 + kc + links.length * 32 + 1 + kt + kk + key.length + kv + value.length) =
      value :=
    jsSlice_at B _ value _ hd104
  have hd105 : B.drop
      (32 + 64 + kc + links.length * 32 + 1 + kt + kk + key.length + kv + value.length) =
      varintEncode 0 ++ [] := by
    have := drop_at B
      (32 + 64 + kc + links.length * 32 + 1 + kt + kk + key.length + kv) value _ hd104
    simpa using this
  have dvsF : decodeVarintSlice B
      (32 + 64 + kc + links.length * 32 + 1 + kt + kk + key.length + kv + value.length) =
      some (0, 1) := by
    have := decodeVarintSlice_at B _ 0 [] hd105 (by norm_num)
    rwa [varintEncode_small 0 (by norm_num)] at this
  have hokk : validation.checkInfoKey key = none := by
    simp [validation.checkInfoKey, hk.1, hk.2]
  have hokv : validation.checkInfoValue value = none := by
    simp [validation.checkInfoValue, hv]
  have hah : isArrayHashes links = true := by
    simp only [isArrayHashes, List.all_eq_true]
    intro x hx
    simp [isBufferSize, hl x hx]
  unfold INFO_POST.toJSON
  dsimp only
  rw [hpkS, hchk]
  simp only [constants.PUBLICKEY_SIZE, constants.SIGNATURE_SIZE, constants.HASH_SIZE]
  simp only [dvsL, ← hkc, hslices, hah, not_true_eq_false, if_false, ite_false]
  simp only [dvsTag, vval, vbytes, ne_eq, Option.some.injEq, not_true_eq_false, if_false,
    ite_false]
  simp only [dvsTs, vval, vbytes, ← hkt]
  simp only [dvsKL, ← hkk]
  simp only [hkeyS, hokk]
  simp only [dvsVL, ← hkv]
  simp only [hvalS, hokv, hname]
  simp only [dvsF, ne_eq, not_true_eq_false, if_false, ite_false]
  simp only [hsigS]

/-! ## ROLE_POST: create shape (the role slot stays zero-filled) -/

theorem ROLE_POST_create_eq (s : SigScheme) (publicKey secretKey : List Nat)
    (links : List (List Nat)) (channel : List Nat) (timestamp : Nat)
    (recipient : List Nat) (role : Nat) (reason : List Nat) (privacy : Nat)
    (hpk : publicKey.length = constants.PUBLICKEY_SIZE)
    (hsk : secretKey.length = constants.SECRETKEY_SIZE)
    (hrcp : recipient.length = constants.PUBLICKEY_SIZE)
    (hl : ∀ x ∈ links, x.length = constants.HASH_SIZE)
    (hch : constants.CHANNEL_NAME_MIN_CODEPOINTS ≤ channel.length ∧
      channel.length ≤ constants.CHANNEL_NAME_MAX_CODEPOINTS)
    (hrs : reason.length ≤ constants.REASON_MAX_CODEPOINTS)
    (hkey : publicKey = s.pk secretKey) :
    ROLE_POST.create s publicKey secretKey links channel timestamp recipient
        role reason privacy =
      .ok (publicKey ++ (s.sigbytes secretKey
        (postPayload constants.ROLE_POST links timestamp
          (varintEncode reason.length ++ (reason ++ (varintEncode privacy ++
           (varintEncode channel.length ++ (channel ++ (recipient ++
            List.replicate (varintEncode role).length 0))))))) ++
        postPayload constants.ROLE_POST links timestamp
          (varintEncode reason.length ++ (reason ++ (varintEncode privacy ++
           (varintEncode channel.length ++ (channel ++ (recipient ++
            List.replicate (varintEncode role).length 0)))))))) := by
  have hbs1 : isBufferSize publicKey constants.PUBLICKEY_SIZE = true := by
    simp [isBufferSize, hpk]
  have hbs2 : isBufferSize secretKey constants.SECRETKEY_SIZE = true := by
    simp [isBufferSize, hsk]
  have hbs3 : isBufferSize recipient constants.PUBLICKEY_SIZE = true := by
    simp [isBufferSize, hrcp]
  have hah : isArrayHashes links = true := by
    simp only [isArrayHashes, List.all_eq_true]
    intro x hx
    simp [isBufferSize, hl x hx]
  have hokc : validation.checkChannelName channel = none := by
    simp [validation.checkChannelName, hch.1, hch.2]
  have hokr : validation.checkReason reason = none := by
    simp [validation.checkReason, constants.REASON_MIN_CODEPOINTS, hrs]
  unfold ROLE_POST.create
  rw [hbs1, hbs2, hbs3, hah]
  simp only [not_true_eq_false, if_false, ite_false]
  rw [hokc, hokr]
  have hsize : determineBufferSize
      [.b constants.PUBLICKEY_SIZE, .b constants.SIGNATURE_SIZE,
       .h links.length, .v constants.ROLE_POST, .v timestamp,
       .s reason.length, .v privacy, .s channel.length,
       .b constants.PUBLICKEY_SIZE, .v role] =
      totalSize ([.cp publicKey, .skip constants.SIGNATURE_SIZE, .wv links.length] ++
        links.map WOp.cp ++
        [.wv constants.ROLE_POST, .wv timestamp,
         .wv reason.length, .cp reason, .wv privacy,
         .wv channel.length, .cp channel, .cp recipient]) +
        (varintEncode role).length := by
    rw [totalSize_append, totalSize_append, totalSize_map_cp links constants.HASH_SIZE hl]
    simp [determineBufferSize, repSize, totalSize, opSize, hpk, hrcp,
      constants.PUBLICKEY_SIZE, constants.SIGNATURE_SIZE]
    ring
  rw [runWrites_exact0e _ _ _ hsize]
  have hmap : List.map (opChunk ∘ WOp.cp) links = links := by
    have hco : (opChunk ∘ WOp.cp) = fun x : List Nat => x := by
      funext x
      simp [Function.comp, opChunk]
    rw [hco]
    simp
  have hflatten : (([WOp.cp publicKey, WOp.skip constants.SIGNATURE_SIZE,
      WOp.wv links.length] ++ links.map WOp.cp ++
      [WOp.wv constants.ROLE_POST, WOp.wv timestamp,
       WOp.wv reason.length, WOp.cp reason, WOp.wv privacy,
       WOp.wv channel.length, WOp.cp channel,
       WOp.cp recipient]).map opChunk).flatten ++
      List.replicate (varintEncode role).length 0 =
      publicKey ++ (List.replicate constants.SIGNATURE_SIZE 0 ++
        postPayload constants.ROLE_POST links timestamp
          (varintEncode reason.length ++ (reason ++ (varintEncode privacy ++
           (varintEncode channel.length ++ (channel ++ (recipient ++
            List.replicate (varintEncode role).length 0))))))) := by
    simp [chunks_append, chunks_map_cp, opChunk, List.append_assoc, hmap, postPayload]
  rw [hflatten, cryptoSign_eval s secretKey publicKey _ hpk]
  rw [hkey]
  rw [checkSignature_ok s secretKey _ (by rw [← hkey]; exact hpk)]

/-! ## MODERATION_POST: create shape (the written tag is ROLE_POST) -/

theorem MODERATION_POST_create_eq (s : SigScheme) (publicKey secretKey : List Nat)
    (links : List (List Nat)) (channel : List Nat) (timestamp : Nat)
    (recipients : List (List Nat)) (action : Nat) (reason : List Nat) (privacy : Nat)
    (hpk : publicKey.length = constants.PUBLICKEY_SIZE)
    (hsk : secretKey.length = constants.SECRETKEY_SIZE)
    (hl : ∀ x ∈ links, x.length = constants.HASH_SIZE)
    (hrcp : ∀ x ∈ recipients, x.length = constants.PUBLICKEY_SIZE)
    (hact3 : action ≠ constants.ACTION_DROP_CHANNEL ∧
      action ≠ constants.ACTION_UNDROP_CHANNEL)
    (hch : constants.CHANNEL_NAME_MIN_CODEPOINTS ≤ channel.length ∧
      channel.length ≤ constants.CHANNEL_NAME_MAX_CODEPOINTS)
    (hrs : reason.length ≤ constants.REASON_MAX_CODEPOINTS)
    (hrl : constants.RECIPIENT_COUNT_MIN ≤ recipients.length ∧
      recipients.length ≤ constants.RECIPIENT_COUNT_MAX)
    (hkey : publicKey = s.pk secretKey) :
    MODERATION_POST.create s publicKey secretKey links channel timestamp
        recipients action reason privacy =
      .ok (publicKey ++ (s.sigbytes secretKey
        (postPayload constants.ROLE_POST links timestamp
          (varintEncode reason.length ++ (reason ++ (varintEncode privacy ++
           (varintEncode channel.length ++ (channel ++
            (varintEncode recipients.length ++ (recipients.flatten ++
             varintEncode action)))))))) ++
        postPayload constants.ROLE_POST links timestamp
          (varintEncode reason.length ++ (reason ++ (varintEncode privacy ++
           (varintEncode channel.length ++ (channel ++
            (varintEncode recipients.length ++ (recipients.flatten ++
             varintEncode action))))))))) := by
  have hbs1 : isBufferSize publicKey constants.PUBLICKEY_SIZE = true := by
    simp [isBufferSize, hpk]
  have hbs2 : isBufferSize secretKey constants.SECRETKEY_SIZE = true := by
    simp [isBufferSize, hsk]
  have hah : isArrayHashes links = true := by
    simp only [isArrayHashes, List.all_eq_true]
    intro x hx
    simp [isBufferSize, hl x hx]
  have hapk : isArrayPublicKeys recipients = true := by
    simp only [isArrayPublicKeys, List.all_eq_true]
    intro x hx
    simp [isBufferSize, hrcp x hx]
  have hahr : isArrayHashes recipients = true := by
    simp only [isArrayHashes, List.all_eq_true]
    intro x hx
    simp [isBufferSize, hrcp x hx, constants.PUBLICKEY_SIZE, constants.HASH_SIZE]
  have hg1 : ¬ ((action = constants.ACTION_HIDE_POST ∨
      action = constants.ACTION_UNHIDE_POST ∨
      action = constants.ACTION_DROP_POST ∨
      action = constants.ACTION_UNDROP_POST) ∧
      ¬ isArrayHashes recipients = true) := by
    simp [hahr]
  have hg2 : ¬ ((action = constants.ACTION_HIDE_USER ∨
      action = constants.ACTION_UNHIDE_USER) ∧
      ¬ isArrayPublicKeys recipients = true) := by
    simp [hapk]
  have hg3 : ¬ ((action = constants.ACTION_DROP_CHANNEL ∨
      action = constants.ACTION_UNDROP_CHANNEL) ∧
      recipients.length > 0) := by
    rintro ⟨h | h, _⟩
    · exact hact3.1 h
    · exact hact3.2 h
  have hokc : validation.checkChannelName channel = none := by
    simp [validation.checkChannelName, hch.1, hch.2]
  have hokr : validation.checkReason reason = none := by
    simp [validation.checkReason, constants.REASON_MIN_CODEPOINTS, hrs]
  have hokrl : validation.checkRecipientsLength recipients = none := by
    have h1 : 1 ≤ recipients.length := by
      have := hrl.1
      simpa [constants.RECIPIENT_COUNT_MIN] using this
    have h2 : recipients.length ≤ 16 := by
      have := hrl.2
      simpa [constants.RECIPIENT_COUNT_MAX] using this
    have hn1 : ¬ (recipients.length > constants.RECIPIENT_COUNT_MAX) := by
      simp only [constants.RECIPIENT_COUNT_MAX]
      omega
    have hn2 : ¬ (recipients.length < constants.RECIPIENT_COUNT_MIN) := by
      simp only [constants.RECIPIENT_COUNT_MIN]
      omega
    simp only [validation.checkRecipientsLength, if_neg hn1, if_neg hn2]
  unfold MODERATION_POST.create
  rw [hbs1, hbs2, hah]
  simp only [not_true_eq_false, if_false, ite_false]
  rw [if_neg hg1, if_neg hg2, if_neg hg3]
  rw [hokc, hokr, hokrl]
  have e6 : (varintEncode constants.ROLE_POST).length = 1 := by
    rw [varintEncode_small constants.ROLE_POST (by norm_num [constants.ROLE_POST])]
    rfl
  have e7 : (varintEncode constants.MODERATION_POST).length = 1 := by
    rw [varintEncode_small constants.MODERATION_POST
      (by norm_num [constants.MODERATION_POST])]
    rfl
  have hsize : determineBufferSize
      [.b constants.PUBLICKEY_SIZE, .b constants.SIGNATURE_SIZE,
       .h links.length, .v constants.MODERATION_POST, .v timestamp,
       .s reason.length, .v privacy, .s channel.length,
       .h recipients.length, .v action] =
      totalSize ([.cp publicKey, .skip constants.SIGNATURE_SIZE, .wv links.length] ++
        links.map WOp.cp ++
        [.wv constants.ROLE_POST, .wv timestamp,
         .wv reason.length, .cp reason, .wv privacy,
         .wv channel.length, .cp channel, .wv recipients.length] ++
        recipients.map WOp.cp ++ [.wv action]) := by
    rw [totalSize_append, totalSize_append, totalSize_append, totalSize_append,
      totalSize_map_cp links constants.HASH_SIZE hl,
      totalSize_map_cp recipients constants.PUBLICKEY_SIZE hrcp]
    simp [determineBufferSize, repSize, totalSize, opSize, hpk, e6, e7,
      constants.PUBLICKEY_SIZE, constants.SIGNATURE_SIZE, constants.HASH_SIZE]
    ring
  rw [runWrites_exact0 _ _ hsize]
  have hmap : List.map (opChunk ∘ WOp.cp) links = links := by
    have hco : (opChunk ∘ WOp.cp) = fun x : List Nat => x := by
      funext x
      simp [Function.comp, opChunk]
    rw [hco]
    simp
  have hmapR : List.map (opChunk ∘ WOp.cp) recipients = recipients := by
    have hco : (opChunk ∘ WOp.cp) = fun x : List Nat => x := by
      funext x
      simp [Function.comp, opChunk]
    rw [hco]
    simp
  have hflatten : (([WOp.cp publicKey, WOp.skip constants.SIGNATURE_SIZE,
      WOp.wv links.length] ++ links.map WOp.cp ++
      [WOp.wv constants.ROLE_POST, WOp.wv timestamp,
       WOp.wv reason.length, WOp.cp reason, WOp.wv privacy,
       WOp.wv channel.length, WOp.cp channel, WOp.wv recipients.length] ++
      recipients.map WOp.cp ++ [WOp.wv action]).map opChunk).flatten =
      publicKey ++ (List.replicate constants.SIGNATURE_SIZE 0 ++
        postPayload constants.ROLE_POST links timestamp
          (varintEncode reason.length ++ (reason ++ (varintEncode privacy ++
           (varintEncode channel.length ++ (channel ++
            (varintEncode recipients.length ++ (recipients.flatten ++
             varintEncode action)))))))) := by
    simp [chunks_append, chunks_map_cp, opChunk, List.append_assoc, hmap, hmapR,
      postPayload]
  rw [hflatten, cryptoSign_eval s secretKey publicKey _ hpk]
  rw [hkey]
  rw [checkSignature_ok s secretKey _ (by rw [← hkey]; exact hpk)]

/-! ## BLOCK_POST: create shape -/

theorem BLOCK_POST_create_eq (s : SigScheme) (publicKey secretKey : List Nat)
    (links : List (List Nat)) (timestamp : Nat) (recipients : List (List Nat))
    (drop notify : Nat) (reason : List Nat) (privacy : Nat)
    (hpk : publicKey.length = constants.PUBLICKEY_SIZE)
    (hsk : secretKey.length = constants.SECRETKEY_SIZE)
    (hl : ∀ x ∈ links, x.length = constants.HASH_SIZE)
    (hrcp : ∀ x ∈ recipients, x.length = constants.PUBLICKEY_SIZE)
    (hrs : reason.length ≤ constants.REASON_MAX_CODEPOINTS)
    (hrl : constants.RECIPIENT_COUNT_MIN ≤ recipients.length ∧
      recipients.length ≤ constants.RECIPIENT_COUNT_MAX)
    (hkey : publicKey = s.pk secretKey) :
    BLOCK_POST.create s publicKey secretKey links timestamp recipients
        drop notify reason privacy =
      .ok (publicKey ++ (s.sigbytes secretKey
        (postPayload constants.BLOCK_POST links timestamp
          (varintEncode reason.length ++ (reason ++ (varintEncode privacy ++
           (varintEncode recipients.length ++ (recipients.flatten ++
            (varintEncode drop ++ varintEncode notify))))))) ++
        postPayload constants.BLOCK_POST links timestamp
          (varintEncode reason.length ++ (reason ++ (varintEncode privacy ++
           (varintEncode recipients.length ++ (recipients.flatten ++
            (varintEncode drop ++ varintEncode notify)))))))) := by
  have hbs1 : isBufferSize publicKey constants.PUBLICKEY_SIZE = true := by
    simp [isBufferSize, hpk]
  have hbs2 : isBufferSize secretKey constants.SECRETKEY_SIZE = true := by
    simp [isBufferSize, hsk]
  have hah : isArrayHashes links = true := by
    simp only [isArrayHashes, List.all_eq_true]
    intro x hx
    simp [isBufferSize, hl x hx]
  have hapk : isArrayPublicKeys recipients = true := by
    simp only [isArrayPublicKeys, List.all_eq_true]
    intro x hx
    simp [isBufferSize, hrcp x hx]
  have hokr : validation.checkReason reason = none := by
    simp [validation.checkReason, constants.REASON_MIN_CODEPOINTS, hrs]
  have hokrl : validation.checkRecipientsLength recipients = none := by
    have h1 : 1 ≤ recipients.length := by
      have := hrl.1
      simpa [constants.RECIPIENT_COUNT_MIN] using this
    have h2 : recipients.length ≤ 16 := by
      have := hrl.2
      simpa [constants.RECIPIENT_COUNT_MAX] using this
    have hn1 : ¬ (recipients.length > constants.RECIPIENT_COUNT_MAX) := by
      simp only [constants.RECIPIENT_COUNT_MAX]
      omega
    have hn2 : ¬ (recipients.length < constants.RECIPIENT_COUNT_MIN) := by
      simp only [constants.RECIPIENT_COUNT_MIN]
      omega
    simp only [validation.checkRecipientsLength, if_neg hn1, if_neg hn2]
  unfold BLOCK_POST.create
  rw [hbs1, hbs2, hah, hapk]
  simp only [not_true_eq_false, if_false, ite_false]
  rw [hokr, hokrl]
  have hsize : determineBufferSize
      [.b constants.PUBLICKEY_SIZE, .b constants.SIGNATURE_SIZE,
       .h links.length, .v constants.BLOCK_POST, .v timestamp,
       .s reason.length, .v privacy, .h recipients.length,
       .v drop, .v notify] =
      totalSize ([.cp publicKey, .skip constants.SIGNATURE_SIZE, .wv links.length] ++
        links.map WOp.cp ++
        [.wv constants.BLOCK_POST, .wv timestamp,
         .wv reason.length, .cp reason, .wv privacy,
         .wv recipients.length] ++
        recipients.map WOp.cp ++ [.wv drop, .wv notify]) := by
    rw [totalSize_append, totalSize_append, totalSize_append, totalSize_append,
      totalSize_map_cp links constants.HASH_SIZE hl,
      totalSize_map_cp recipients constants.PUBLICKEY_SIZE hrcp]
    simp [determineBufferSize, repSize, totalSize, opSize, hpk,
      constants.PUBLICKEY_SIZE, constants.SIGNATURE_SIZE, constants.HASH_SIZE]
    ring
  rw [runWrites_exact0 _ _ hsize]
  have hmap : List.map (opChunk ∘ WOp.cp) links = links := by
    have hco : (opChunk ∘ WOp.cp) = fun x : List Nat => x := by
      funext x
      simp [Function.comp, opChunk]
    rw [hco]
    simp
  have hmapR : List.map (opChunk ∘ WOp.cp) recipients = recipients := by
    have hco : (opChunk ∘ WOp.cp) = fun x : List Nat => x := by
      funext x
      simp [Function.comp, opChunk]
    rw [hco]
    simp
  have hflatten : (([WOp.cp publicKey, WOp.skip constants.SIGNATURE_SIZE,
      WOp.wv links.length] ++ links.map WOp.cp ++
      [WOp.wv constants.BLOCK_POST, WOp.wv timestamp,
       WOp.wv reason.length, WOp.cp reason, WOp.wv privacy,
       WOp.wv recipients.length] ++
      recipients.map WOp.cp ++ [WOp.wv drop, WOp.wv notify]).map opChunk).flatten =
      publicKey ++ (List.replicate constants.SIGNATURE_SIZE 0 ++
        postPayload constants.BLOCK_POST links timestamp
          (varintEncode reason.length ++ (reason ++ (varintEncode privacy ++
           (varintEncode recipients.length ++ (recipients.flatten ++
            (varintEncode drop ++ varintEncode notify))))))) := by
    simp [chunks_append, chunks_map_cp, opChunk, List.append_assoc, hmap, hmapR,
      postPayload]
  rw [hflatten, cryptoSign_eval s secretKey publicKey _ hpk]
  rw [hkey]
  rw [checkSignature_ok s secretKey _ (by rw [← hkey]; exact hpk)]

/-! ## Claim-level infrastructure -/

/-- A concrete witness scheme satisfying the SigScheme interface: the
"signature" is the first 64 bytes of the zero-padded message and
verification recomputes it.  Used only to instantiate theorems at
concrete inputs; the codec theorems hold for every SigScheme. -/
def witScheme : SigScheme where
  sigbytes := fun _ p => (p ++ List.replicate constants.SIGNATURE_SIZE 0).take
    constants.SIGNATURE_SIZE
  pk := fun sk => sk.take constants.PUBLICKEY_SIZE
  verifies := fun _ sig msg =>
    sig == (msg ++ List.replicate constants.SIGNATURE_SIZE 0).take constants.SIGNATURE_SIZE
  siglen := by
    intro sk p
    rw [List.length_take]
    simp [constants.SIGNATURE_SIZE]
  correct := by
    intro sk p
    simp

/-- Every message create, together with the validity side conditions of its
arguments; `messageCreateOutput B` says B was returned by one of the nine
message creates on valid arguments. -/
def messageCreateOutput (B : List Nat) : Prop :=
  (∃ reqid hashes, reqid.length = constants.REQID_SIZE ∧
    (∀ x ∈ hashes, x.length = constants.HASH_SIZE) ∧ hashes.length < 2 ^ 32 ∧
    HASH_RESPONSE.create reqid hashes = .ok B) ∨
  (∃ reqid posts, reqid.length = constants.REQID_SIZE ∧
    countPostsBytes posts < 2 ^ 50 ∧
    POST_RESPONSE.create reqid posts = .ok B) ∨
  (∃ reqid ttl hashes, reqid.length = constants.REQID_SIZE ∧ ttl ≤ 16 ∧
    (∀ x ∈ hashes, x.length = constants.HASH_SIZE) ∧ hashes.length < 2 ^ 32 ∧
    POST_REQUEST.create reqid ttl hashes = .ok B) ∨
  (∃ reqid ttl cancelid, reqid.length = constants.REQID_SIZE ∧ ttl ≤ 16 ∧
    cancelid.length = constants.REQID_SIZE ∧
    CANCEL_REQUEST.create reqid ttl cancelid = .ok B) ∨
  (∃ reqid ttl channel timeStart timeEnd limit,
    reqid.length = constants.REQID_SIZE ∧ ttl ≤ 16 ∧
    (constants.CHANNEL_NAME_MIN_CODEPOINTS ≤ channel.length ∧
      channel.length ≤ constants.CHANNEL_NAME_MAX_CODEPOINTS) ∧
    timeStart < 2 ^ 53 ∧ timeEnd < 2 ^ 53 ∧ limit < 2 ^ 53 ∧
    TIME_RANGE_REQUEST.create reqid ttl channel timeStart timeEnd limit = .ok B) ∨
  (∃ reqid ttl channel future, reqid.length = constants.REQID_SIZE ∧ ttl ≤ 16 ∧
    (constants.CHANNEL_NAME_MIN_CODEPOINTS ≤ channel.length ∧
      channel.length ≤ constants.CHANNEL_NAME_MAX_CODEPOINTS) ∧
    future < 2 ^ 53 ∧
    CHANNEL_STATE_REQUEST.create reqid ttl channel future = .ok B) ∨
  (∃ reqid ttl argOffset limit, reqid.length = constants.REQID_SIZE ∧ ttl ≤ 16 ∧
    argOffset < 2 ^ 53 ∧ limit < 2 ^ 53 ∧
    CHANNEL_LIST_REQUEST.create reqid ttl argOffset limit = .ok B) ∨
  (∃ reqid channels, reqid.length = constants.REQID_SIZE ∧
    (∀ c ∈ channels, constants.CHANNEL_NAME_MIN_CODEPOINTS ≤ c.length ∧
      c.length ≤ constants.CHANNEL_NAME_MAX_CODEPOINTS) ∧
    channels.length < 2 ^ 32 ∧
    CHANNEL_LIST_RESPONSE.create reqid channels = .ok B) ∨
  (∃ reqid channels future oldest, reqid.length = constants.REQID_SIZE ∧
    (∀ c ∈ channels, constants.CHANNEL_NAME_MIN_CODEPOINTS ≤ c.length ∧
      c.length ≤ constants.CHANNEL_NAME_MAX_CODEPOINTS) ∧
    channels.length < 2 ^ 32 ∧ future < 2 ^ 53 ∧ oldest < 2 ^ 53 ∧
    MODERATION_STATE_REQUEST.create reqid channels future oldest = .ok B)

theorem segLen_le_65 (c : List Nat) (h : c.length ≤ 64) : segLen c ≤ 65 := by
  unfold segLen
  rw [varintEncode_small c.length (by omega)]
  simp
  omega

theorem channels_sum_le (channels : List (List Nat))
    (hch : ∀ c ∈ channels, constants.CHANNEL_NAME_MIN_CODEPOINTS ≤ c.length ∧
      c.length ≤ constants.CHANNEL_NAME_MAX_CODEPOINTS) :
    (channels.map segLen).sum ≤ channels.length * 65 := by
  apply sum_le_card_mul
  intro c hc
  apply segLen_le_65
  have := (hch c hc).2
  simpa [constants.CHANNEL_NAME_MAX_CODEPOINTS] using this

/-- Every valid message create output is a msgLen-prefixed frame whose
length the varint package can decode. -/
theorem messageCreateOutput_shape (B : List Nat) (h : messageCreateOutput B) :
    ∃ F, B = prependMsgLen F ∧ F.length < 2 ^ 56 := by
  have hp56 : (2 : Nat) ^ 56 = 72057594037927936 := by norm_num
  have hp53 : (2 : Nat) ^ 53 = 9007199254740992 := by norm_num
  have hp50 : (2 : Nat) ^ 50 = 1125899906842624 := by norm_num
  have hp32 : (2 : Nat) ^ 32 = 4294967296 := by norm_num
  rcases h with ⟨reqid, hashes, h1, h2, hc, hcr⟩ |
    ⟨reqid, posts, h1, hb, hcr⟩ |
    ⟨reqid, ttl, hashes, h1, httl, h2, hc, hcr⟩ |
    ⟨reqid, ttl, cancelid, h1, httl, h2, hcr⟩ |
    ⟨reqid, ttl, channel, timeStart, timeEnd, limit, h1, httl, hch, ht1, ht2, hl, hcr⟩ |
    ⟨reqid, ttl, channel, future, h1, httl, hch, hf, hcr⟩ |
    ⟨reqid, ttl, argOffset, limit, h1, httl, ho, hl, hcr⟩ |
    ⟨reqid, channels, h1, hch, hcount, hcr⟩ |
    ⟨reqid, channels, future, oldest, h1, hch, hcount, hf, ho, hcr⟩
  · rw [HASH_RESPONSE_create_eq reqid hashes h1 h2] at hcr
    injection hcr with hB
    refine ⟨_, hB.symm, ?_⟩
    rw [msgFrame_length _ _ _ (by norm_num [constants.HASH_RESPONSE]) h1]
    have hfl : hashes.flatten.length = hashes.length * 32 := by
      have := flatten_length_const hashes _ h2
      simpa [constants.HASH_SIZE] using this
    have he : (varintEncode hashes.length).length ≤ 8 :=
      varintEncode_length_le 7 hashes.length (by rw [hp32] at hc; norm_num; omega)
    rw [hp56]
    simp only [List.length_append, hfl]
    rw [hp32] at hc
    have : hashes.length * 32 ≤ 4294967296 * 32 := by
      apply Nat.mul_le_mul_right
      omega
    omega
  · rw [POST_RESPONSE_create_eq reqid posts h1] at hcr
    injection hcr with hB
    refine ⟨_, hB.symm, ?_⟩
    rw [msgFrame_length _ _ _ (by norm_num [constants.POST_RESPONSE]) h1]
    have hfl : ((posts.map postSeg).flatten).length = countPostsBytes posts := by
      rw [flatten_postSeg_length, countPostsBytes_sum]
    rw [hp56]
    simp only [List.length_append, hfl]
    rw [hp50] at hb
    have h0 : (varintEncode 0).length = 1 := by
      rw [varintEncode_small 0 (by norm_num)]
      rfl
    rw [h0]
    omega
  · rw [POST_REQUEST_create_eq reqid ttl hashes h1 httl h2] at hcr
    injection hcr with hB
    refine ⟨_, hB.symm, ?_⟩
    rw [msgFrame_length _ _ _ (by norm_num [constants.POST_REQUEST]) h1]
    have hfl : hashes.flatten.length = hashes.length * 32 := by
      have := flatten_length_const hashes _ h2
      simpa [constants.HASH_SIZE] using this
    have he : (varintEncode hashes.length).length ≤ 8 :=
      varintEncode_length_le 7 hashes.length (by rw [hp32] at hc; norm_num; omega)
    have ht : (varintEncode ttl).length = 1 := by
      rw [varintEncode_small ttl (by omega)]
      rfl
    rw [hp56]
    simp only [List.length_append, hfl, ht]
    rw [hp32] at hc
    have : hashes.length * 32 ≤ 4294967296 * 32 := by
      apply Nat.mul_le_mul_right
      omega
    omega
  · rw [CANCEL_REQUEST_create_eq reqid ttl cancelid h1 httl h2] at hcr
    injection hcr with hB
    refine ⟨_, hB.symm, ?_⟩
    rw [msgFrame_length _ _ _ (by norm_num [constants.CANCEL_REQUEST]) h1]
    have ht : (varintEncode ttl).length = 1 := by
      rw [varintEncode_small ttl (by omega)]
      rfl
    rw [hp56]
    simp only [List.length_append, ht, h2]
    simp [constants.REQID_SIZE]
  · rw [TIME_RANGE_REQUEST_create_eq reqid ttl channel timeStart timeEnd limit
      h1 httl hch] at hcr
    injection hcr with hB
    refine ⟨_, hB.symm, ?_⟩
    rw [msgFrame_length _ _ _ (by norm_num [constants.TIME_RANGE_REQUEST]) h1]
    have h64 : channel.length ≤ 64 := by
      have := hch.2
      simpa [constants.CHANNEL_NAME_MAX_CODEPOINTS] using this
    have ht : (varintEncode ttl).length = 1 := by
      rw [varintEncode_small ttl (by omega)]
      rfl
    have hcl : (varintEncode channel.length).length = 1 := by
      rw [varintEncode_small channel.length (by omega)]
      rfl
    have he1 : (varintEncode timeStart).length ≤ 8 :=
      varintEncode_length_le 7 timeStart (by rw [hp53] at ht1; norm_num; omega)
    have he2 : (varintEncode timeEnd).length ≤ 8 :=
      varintEncode_length_le 7 timeEnd (by rw [hp53] at ht2; norm_num; omega)
    have he3 : (varintEncode limit).length ≤ 8 :=
      varintEncode_length_le 7 limit (by rw [hp53] at hl; norm_num; omega)
    rw [hp56]
    simp only [List.length_append, ht, hcl]
    omega
  · rw [CHANNEL_STATE_REQUEST_create_eq reqid ttl channel future h1 httl hch] at hcr
    injection hcr with hB
    refine ⟨_, hB.symm, ?_⟩
    rw [msgFrame_length _ _ _ (by norm_num [constants.CHANNEL_STATE_REQUEST]) h1]
    have h64 : channel.length ≤ 64 := by
      have := hch.2
      simpa [constants.CHANNEL_NAME_MAX_CODEPOINTS] using this
    have ht : (varintEncode ttl).length = 1 := by
      rw [varintEncode_small ttl (by omega)]
      rfl
    have hcl : (varintEncode channel.length).length = 1 := by
      rw [varintEncode_small channel.length (by omega)]
      rfl
    have he1 : (varintEncode future).length ≤ 8 :=
      varintEncode_length_le 7 future (by rw [hp53] at hf; norm_num; omega)
    rw [hp56]
    simp only [List.length_append, ht, hcl]
    omega
  · rw [CHANNEL_LIST_REQUEST_create_eq reqid ttl argOffset limit h1 httl] at hcr
    injection hcr with hB
    refine ⟨_, hB.symm, ?_⟩
    rw [msgFrame_length _ _ _ (by norm_num [constants.CHANNEL_LIST_REQUEST]) h1]
    have ht : (varintEncode ttl).length = 1 := by
      rw [varintEncode_small ttl (by omega)]
      rfl
    have he1 : (varintEncode argOffset).length ≤ 8 :=
      varintEncode_length_le 7 argOffset (by rw [hp53] at ho; norm_num; omega)
    have he2 : (varintEncode limit).length ≤ 8 :=
      varintEncode_length_le 7 limit (by rw [hp53] at hl; norm_num; omega)
    rw [hp56]
    simp only [List.length_append, ht]
    omega
  · rw [CHANNEL_LIST_RESPONSE_create_eq reqid channels h1 hch] at hcr
    injection hcr with hB
    refine ⟨_, hB.symm, ?_⟩
    rw [msgFrame_length _ _ _ (by norm_num [constants.CHANNEL_LIST_RESPONSE]) h1]
    have hfl : ((channels.map postSeg).flatten).length = (channels.map segLen).sum :=
      flatten_postSeg_length channels
    have hsum := channels_sum_le channels hch
    have h0 : (varintEncode 0).length = 1 := by
      rw [varintEncode_small 0 (by norm_num)]
      rfl
    rw [hp56]
    simp only [List.length_append, hfl, h0]
    rw [hp32] at hcount
    have : channels.length * 65 ≤ 4294967296 * 65 := by
      apply Nat.mul_le_mul_right
      omega
    omega
  · rw [ MODERATION_STATE_REQUEST_create_eq reqid channels future oldest h1 hch] at hcr
    injection hcr with hB
    refine ⟨_, hB.symm, ?_⟩
    rw [msgFrame_length _ _ _ (by norm_num [constants.MODERATION_STATE_REQUEST]) h1]
    have hfl : ((channels.map postSeg).flatten).length = (channels.map segLen).sum :=
      flatten_postSeg_length channels
    have hsum := channels_sum_le channels hch
    have h0 : (varintEncode 0).length = 1 := by
      rw [varintEncode_small 0 (by norm_num)]
      rfl
    have he1 : (varintEncode future).length ≤ 8 :=
      varintEncode_length_le 7 future (by rw [hp53] at hf; norm_num; omega)
    have he2 : (varintEncode oldest).length ≤ 8 :=
      varintEncode_length_le 7 oldest (by rw [hp53] at ho; norm_num; omega)
    rw [hp56]
    simp only [List.length_append, hfl, h0]
    rw [hp32] at hcount
    have : channels.length * 65 ≤ 4294967296 * 65 := by
      apply Nat.mul_le_mul_right
      omega
    omega

/-- On every proper prefix of a msgLen-framed buffer, the window decode at
offset 0 either fails outright (the cut is inside the msgLen varint) or
decodes the original frame length, which the remaining-buffer size gate
then rejects. -/
theorem prefix_facts (F : List Nat) (hF : F.length < 2 ^ 56) (j : Nat)
    (hj : j < (prependMsgLen F).length) :
    decodeVarintSlice ((prependMsgLen F).take j) 0 = none ∨
    ∃ k, decodeVarintSlice ((prependMsgLen F).take j) 0 = some (F.length, k) ∧
      isBufferSizeJ (((prependMsgLen F).take j).drop k) (some F.length) = false := by
  have henc : vdecAux 8 (varintEncode F.length ++ F) =
      some (F.length, (varintEncode F.length).length) := varintDecode_enc _ _ hF
  have hBlen : (prependMsgLen F).length = (varintEncode F.length).length + F.length :=
    prependMsgLen_length F
  by_cases hcase : j < (varintEncode F.length).length
  · left
    rw [decodeVarintSlice_eq]
    rw [List.drop_zero]
    have : vdecAux 8 ((varintEncode F.length ++ F).take j) = none :=
      vdecAux_take_lt 8 _ _ _ _ henc hcase
    unfold prependMsgLen
    exact this
  · right
    refine ⟨(varintEncode F.length).length, ?_, ?_⟩
    · rw [decodeVarintSlice_eq]
      rw [List.drop_zero]
      have : vdecAux 8 ((varintEncode F.length ++ F).take j) =
          some (F.length, (varintEncode F.length).length) :=
        vdecAux_take_ge 8 _ _ _ j henc (by omega)
      unfold prependMsgLen
      exact this
    · have hlen : (((prependMsgLen F).take j).drop
          ((varintEncode F.length).length)).length =
          j - (varintEncode F.length).length := by
        simp only [List.length_drop, List.length_take]
        omega
      simp only [isBufferSizeJ, hlen]
      have hne : j - (varintEncode F.length).length ≠ F.length := by omega
      simp [hne]

theorem HASH_RESPONSE_toJSON_prefix_throw (F : List Nat) (hF : F.length < 2 ^ 56) (j : Nat)
    (hj : j < (prependMsgLen F).length) :
    HASH_RESPONSE.toJSON ((prependMsgLen F).take j) = .threw (.bufferExpected "remaining buf") := by
  rcases prefix_facts F hF j hj with hnone | ⟨k, hsome, hgate⟩
  · unfold HASH_RESPONSE.toJSON
    rw [hnone]
  · unfold HASH_RESPONSE.toJSON
    rw [hsome]
    dsimp only
    simp [hgate]

theorem POST_RESPONSE_toJSON_prefix_throw (F : List Nat) (hF : F.length < 2 ^ 56) (j : Nat)
    (hj : j < (prependMsgLen F).length) :
    POST_RESPONSE.toJSON ((prependMsgLen F).take j) = .threw (.bufferExpected "remaining buf") := by
  rcases prefix_facts F hF j hj with hnone | ⟨k, hsome, hgate⟩
  · unfold POST_RESPONSE.toJSON
    rw [hnone]
  · unfold POST_RESPONSE.toJSON
    rw [hsome]
    dsimp only
    simp [hgate]

theorem POST_REQUEST_toJSON_prefix_throw (F : List Nat) (hF : F.length < 2 ^ 56) (j : Nat)
    (hj : j < (prependMsgLen F).length) :
    POST_REQUEST.toJSON ((prependMsgLen F).take j) = .threw (.bufferExpected "remaining buf") := by
  rcases prefix_facts F hF j hj with hnone | ⟨k, hsome, hgate⟩
  · unfold POST_REQUEST.toJSON
    rw [hnone]
  · unfold POST_REQUEST.toJSON
    rw [hsome]
    dsimp only
    simp [hgate]

theorem CANCEL_REQUEST_toJSON_prefix_throw (F : List Nat) (hF : F.length < 2 ^ 56) (j : Nat)
    (hj : j < (prependMsgLen F).length) :
    CANCEL_REQUEST.toJSON ((prependMsgLen F).take j) = .threw (.bufferExpected "remaining buf") := by
  rcases prefix_facts F hF j hj with hnone | ⟨k, hsome, hgate⟩
  · unfold CANCEL_REQUEST.toJSON
    rw [hnone]
  · unfold CANCEL_REQUEST.toJSON
    rw [hsome]
    dsimp only
    simp [hgate]

theorem TIME_RANGE_REQUEST_toJSON_prefix_throw (F : List Nat) (hF : F.length < 2 ^ 56) (j : Nat)
    (hj : j < (prependMsgLen F).length) :
    TIME_RANGE_REQUEST.toJSON ((prependMsgLen F).take j) = .threw (.bufferExpected "remaining buf") := by
  rcases prefix_facts F hF j hj with hnone | ⟨k, hsome, hgate⟩
  · unfold TIME_RANGE_REQUEST.toJSON
    rw [hnone]
  · unfold TIME_RANGE_REQUEST.toJSON
    rw [hsome]
    dsimp only
    simp [hgate]

theorem CHANNEL_STATE_REQUEST_toJSON_prefix_throw (F : List Nat) (hF : F.length < 2 ^ 56) (j : Nat)
    (hj : j < (prependMsgLen F).length) :
    CHANNEL_STATE_REQUEST.toJSON ((prependMsgLen F).take j) = .threw (.bufferExpected "remaining buf") := by
  rcases prefix_facts F hF j hj with hnone | ⟨k, hsome, hgate⟩
  · unfold CHANNEL_STATE_REQUEST.toJSON
    rw [hnone]
  · unfold CHANNEL_STATE_REQUEST.toJSON
    rw [hsome]
    dsimp only
    simp [hgate]

theorem CHANNEL_LIST_REQUEST_toJSON_prefix_throw (F : List Nat) (hF : F.length < 2 ^ 56) (j : Nat)
    (hj : j < (prependMsgLen F).length) :
    CHANNEL_LIST_REQUEST.toJSON ((prependMsgLen F).take j) = .threw (.bufferExpected "remaining buf") := by
  rcases prefix_facts F hF j hj with hnone | ⟨k, hsome, hgate⟩
  · unfold CHANNEL_LIST_REQUEST.toJSON
    rw [hnone]
  · unfold CHANNEL_LIST_REQUEST.toJSON
    rw [hsome]
    dsimp only
    simp [hgate]

theorem CHANNEL_LIST_RESPONSE_toJSON_prefix_throw (F : List Nat) (hF : F.length < 2 ^ 56) (j : Nat)
    (hj : j < (prependMsgLen F).length) :
    CHANNEL_LIST_RESPONSE.toJSON ((prependMsgLen F).take j) = .threw (.bufferExpected "remaining buf") := by
  rcases prefix_facts F hF j hj with hnone | ⟨k, hsome, hgate⟩
  · unfold CHANNEL_LIST_RESPONSE.toJSON
    rw [hnone]
  · unfold CHANNEL_LIST_RESPONSE.toJSON
    rw [hsome]
    dsimp only
    simp [hgate]

theorem MODERATION_STATE_REQUEST_toJSON_prefix_throw (F : List Nat) (hF : F.length < 2 ^ 56) (j : Nat)
    (hj : j < (prependMsgLen F).length) :
    MODERATION_STATE_REQUEST.toJSON ((prependMsgLen F).take j) = .threw (.bufferExpected "remaining buf") := by
  rcases prefix_facts F hF j hj with hnone | ⟨k, hsome, hgate⟩
  · unfold MODERATION_STATE_REQUEST.toJSON
    rw [hnone]
  · unfold MODERATION_STATE_REQUEST.toJSON
    rw [hsome]
    dsimp only
    simp [hgate]

/-! ## Tampering with the payload region of a signed post -/

theorem set_signedPost (pk sig payload : List Nat) (i b : Nat)
    (hpk : pk.length = constants.PUBLICKEY_SIZE)
    (hsig : sig.length = constants.SIGNATURE_SIZE)
    (hi : constants.PUBLICKEY_SIZE + constants.SIGNATURE_SIZE ≤ i) :
    (pk ++ (sig ++ payload)).set i b = pk ++ (sig ++ payload.set
      (i - (constants.PUBLICKEY_SIZE + constants.SIGNATURE_SIZE)) b) := by
  have h32 : pk.length ≤ i := by
    rw [hpk]
    simp only [constants.PUBLICKEY_SIZE, constants.SIGNATURE_SIZE] at hi ⊢
    omega
  rw [List.set_append_right _ _ h32]
  have h64 : sig.length ≤ i - pk.length := by
    rw [hpk, hsig]
    simp only [constants.PUBLICKEY_SIZE, constants.SIGNATURE_SIZE] at hi ⊢
    omega
  rw [List.set_append_right _ _ h64]
  have : i - pk.length - sig.length =
      i - (constants.PUBLICKEY_SIZE + constants.SIGNATURE_SIZE) := by
    rw [hpk, hsig]
    simp only [constants.PUBLICKEY_SIZE, constants.SIGNATURE_SIZE]
    omega
  rw [this]

/-- If the scheme rejects the tampered payload, crypto.verify on the
tampered buffer (with the public key it slices out itself) rejects. -/
theorem tampered_verify_false (s : SigScheme) (pk sig payload : List Nat) (i b : Nat)
    (hpk : pk.length = constants.PUBLICKEY_SIZE)
    (hsig : sig.length = constants.SIGNATURE_SIZE)
    (hi : constants.PUBLICKEY_SIZE + constants.SIGNATURE_SIZE ≤ i)
    (hver : s.verifies pk sig (payload.set
      (i - (constants.PUBLICKEY_SIZE + constants.SIGNATURE_SIZE)) b) = false) :
    cryptoVerify s ((pk ++ (sig ++ payload)).set i b)
      (jsSlice ((pk ++ (sig ++ payload)).set i b) 0 constants.PUBLICKEY_SIZE) = false := by
  rw [set_signedPost pk sig payload i b hpk hsig hi]
  rw [signedPost_pk_slice pk _ hpk]
  unfold cryptoVerify
  rw [signedPost_sig_slice pk sig _ hpk hsig, signedPost_drop_payload pk sig _ hpk hsig]
  exact hver

theorem TEXT_POST_toJSON_badsig (s : SigScheme) (buf : List Nat)
    (h : cryptoVerify s buf (jsSlice buf 0 constants.PUBLICKEY_SIZE) = false) :
    TEXT_POST.toJSON s buf = .threw .badSignature := by
  have hc : checkSignature s buf (jsSlice buf 0 constants.PUBLICKEY_SIZE) =
      some .badSignature := by
    simp [checkSignature, h]
  unfold TEXT_POST.toJSON
  dsimp only
  rw [hc]

theorem DELETE_POST_toJSON_badsig (s : SigScheme) (buf : List Nat)
    (h : cryptoVerify s buf (jsSlice buf 0 constants.PUBLICKEY_SIZE) = false) :
    DELETE_POST.toJSON s buf = .threw .badSignature := by
  have hc : checkSignature s buf (jsSlice buf 0 constants.PUBLICKEY_SIZE) =
      some .badSignature := by
    simp [checkSignature, h]
  unfold DELETE_POST.toJSON
  dsimp only
  rw [hc]

theorem INFO_POST_toJSON_badsig (s : SigScheme) (buf : List Nat)
    (h : cryptoVerify s buf (jsSlice buf 0 constants.PUBLICKEY_SIZE) = false) :
    INFO_POST.toJSON s buf = .threw .badSignature := by
  have hc : checkSignature s buf (jsSlice buf 0 constants.PUBLICKEY_SIZE) =
      some .badSignature := by
    simp [checkSignature, h]
  unfold INFO_POST.toJSON
  dsimp only
  rw [hc]

theorem TOPIC_POST_toJSON_badsig (s : SigScheme) (buf : List Nat)
    (h : cryptoVerify s buf (jsSlice buf 0 constants.PUBLICKEY_SIZE) = false) :
    TOPIC_POST.toJSON s buf = .threw .badSignature := by
  have hc : checkSignature s buf (jsSlice buf 0 constants.PUBLICKEY_SIZE) =
      some .badSignature := by
    simp [checkSignature, h]
  unfold TOPIC_POST.toJSON
  dsimp only
  rw [hc]

theorem JOIN_POST_toJSON_badsig (s : SigScheme) (buf : List Nat)
    (h : cryptoVerify s buf (jsSlice buf 0 constants.PUBLICKEY_SIZE) = false) :
    JOIN_POST.toJSON s buf = .threw .badSignature := by
  have hc : checkSignature s buf (jsSlice buf 0 constants.PUBLICKEY_SIZE) =
      some .badSignature := by
    simp [checkSignature, h]
  unfold JOIN_POST.toJSON
  dsimp only
  rw [hc]

theorem LEAVE_POST_toJSON_badsig (s : SigScheme) (buf : List Nat)
    (h : cryptoVerify s buf (jsSlice buf 0 constants.PUBLICKEY_SIZE) = false) :
    LEAVE_POST.toJSON s buf = .threw .badSignature := by
  have hc : checkSignature s buf (jsSlice buf 0 constants.PUBLICKEY_SIZE) =
      some .badSignature := by
    simp [checkSignature, h]
  unfold LEAVE_POST.toJSON
  dsimp only
  rw [hc]

theorem ROLE_POST_toJSON_badsig (s : SigScheme) (buf : List Nat)
    (h : cryptoVerify s buf (jsSlice buf 0 constants.PUBLICKEY_SIZE) = false) :
    ROLE_POST.toJSON s buf = .threw .badSignature := by
  have hc : checkSignature s buf (jsSlice buf 0 constants.PUBLICKEY_SIZE) =
      some .badSignature := by
    simp [checkSignature, h]
  unfold ROLE_POST.toJSON
  dsimp only
  rw [hc]

theorem MODERATION_POST_toJSON_badsig (s : SigScheme) (buf : List Nat)
    (h : cryptoVerify s buf (jsSlice buf 0 constants.PUBLICKEY_SIZE) = false) :
    MODERATION_POST.toJSON s buf = .threw .badSignature := by
  have hc : checkSignature s buf (jsSlice buf 0 constants.PUBLICKEY_SIZE) =
      some .badSignature := by
    simp [checkSignature, h]
  unfold MODERATION_POST.toJSON
  dsimp only
  rw [hc]

theorem BLOCK_POST_toJSON_badsig (s : SigScheme) (buf : List Nat)
    (h : cryptoVerify s buf (jsSlice buf 0 constants.PUBLICKEY_SIZE) = false) :
    BLOCK_POST.toJSON s buf = .threw .badSignature := by
  have hc : checkSignature s buf (jsSlice buf 0 constants.PUBLICKEY_SIZE) =
      some .badSignature := by
    simp [checkSignature, h]
  unfold BLOCK_POST.toJSON
  dsimp only
  rw [hc]

theorem UNBLOCK_POST_toJSON_badsig (s : SigScheme) (buf : List Nat)
    (h : cryptoVerify s buf (jsSlice buf 0 constants.PUBLICKEY_SIZE) = false) :
    UNBLOCK_POST.toJSON s buf = .threw .badSignature := by
  have hc : checkSignature s buf (jsSlice buf 0 constants.PUBLICKEY_SIZE) =
      some .badSignature := by
    simp [checkSignature, h]
  unfold UNBLOCK_POST.toJSON
  dsimp only
  rw [hc]

/-! ## TTL decrement -/

theorem insertNewTTL_eval (tag ttl : Nat) (reqid post : List Nat)
    (htag : tag < 128) (h1 : reqid.length = constants.REQID_SIZE)
    (hF : (msgFrame tag reqid (varintEncode ttl ++ post)).length < 2 ^ 56)
    (httl : ttl < 2 ^ 56) (htpos : 0 < ttl) :
    insertNewTTL (prependMsgLen (msgFrame tag reqid (varintEncode ttl ++ post))) tag =
      .ok (prependMsgLen (msgFrame tag reqid (varintEncode (ttl - 1) ++ post))) := by
  set rest := varintEncode ttl ++ post with hrest
  set F := msgFrame tag reqid rest with hFdef
  set B := prependMsgLen F with hBdef
  set km := (varintEncode F.length).length with hkm
  have dvs0 : decodeVarintSlice B 0 = some (F.length, km) := msg_dvs0 _ _ _ hF
  have hd1 : B.drop km = F := msg_drop_mlen _ _ _
  have dvs1 : decodeVarintSlice B km = some (tag, 1) := msg_dvs_tag _ _ _ htag
  have hd1x : B.drop km = (varintEncode tag ++ (EMPTY_CIRCUIT_ID ++ reqid)) ++ rest := by
    rw [hd1, hFdef, msgFrame]
    simp [List.append_assoc]
  have hbefore : jsSlice B km (km + 1 + 4 + 4) =
      varintEncode tag ++ (EMPTY_CIRCUIT_ID ++ reqid) := by
    have := jsSlice_at B km (varintEncode tag ++ (EMPTY_CIRCUIT_ID ++ reqid)) rest hd1x
    have hhl : (varintEncode tag ++ (EMPTY_CIRCUIT_ID ++ reqid)).length = 9 := by
      simp [varintEncode_small tag htag, EMPTY_CIRCUIT_ID, h1, constants.REQID_SIZE]
    rw [hhl] at this
    rw [show km + 1 + 4 + 4 = km + 9 from by omega]
    exact this
  have hd4 : B.drop (km + 1 + 4 + 4) = varintEncode ttl ++ post := by
    have := msg_drop_hdr tag reqid rest htag h1
    rw [← hFdef, ← hBdef, ← hkm] at this
    rw [this, hrest]
  have dvsT : decodeVarintSlice B (km + 1 + 4 + 4) =
      some (ttl, (varintEncode ttl).length) :=
    decodeVarintSlice_at B _ ttl post hd4 httl
  have hafter : B.drop (km + 1 + 4 + 4 + (varintEncode ttl).length) = post :=
    drop_at B (km + 1 + 4 + 4) (varintEncode ttl) post hd4
  unfold insertNewTTL
  dsimp only
  rw [dvs0]
  simp only [vbytes, vval, ← hkm]
  rw [dvs1]
  simp only [vbytes, vval, ne_eq, Option.some.injEq, not_true_eq_false, if_false,
    ite_false, constants.CIRCUITID_SIZE, constants.REQID_SIZE]
  rw [hbefore]
  rw [dvsT]
  dsimp only
  have hne : ¬ (ttl = 0) := by omega
  rw [if_neg hne]
  rw [hafter]
  simp [msgFrame, List.append_assoc]

theorem insertNewTTL_zero (tag : Nat) (reqid post : List Nat)
    (htag : tag < 128) (h1 : reqid.length = constants.REQID_SIZE)
    (hF : (msgFrame tag reqid (varintEncode 0 ++ post)).length < 2 ^ 56) :
    insertNewTTL (prependMsgLen (msgFrame tag reqid (varintEncode 0 ++ post))) tag =
      .threw .ttlNegative := by
  set rest := varintEncode 0 ++ post with hrest
  set F := msgFrame tag reqid rest with hFdef
  set B := prependMsgLen F with hBdef
  set km := (varintEncode F.length).length with hkm
  have dvs0 : decodeVarintSlice B 0 = some (F.length, km) := msg_dvs0 _ _ _ hF
  have dvs1 : decodeVarintSlice B km = some (tag, 1) := msg_dvs_tag _ _ _ htag
  have hd4 : B.drop (km + 1 + 4 + 4) = varintEncode 0 ++ post := by
    have := msg_drop_hdr tag reqid rest htag h1
    rw [← hFdef, ← hBdef, ← hkm] at this
    rw [this, hrest]
  have dvsT : decodeVarintSlice B (km + 1 + 4 + 4) =
      some (0, (varintEncode 0).length) :=
    decodeVarintSlice_at B _ 0 post hd4 (by norm_num)
  unfold insertNewTTL
  dsimp only
  rw [dvs0]
  simp only [vbytes, vval, ← hkm]
  rw [dvs1]
  simp only [vbytes, vval, ne_eq, Option.some.injEq, not_true_eq_false, if_false,
    ite_false, constants.CIRCUITID_SIZE, constants.REQID_SIZE]
  rw [dvsT]
  simp

/-! ## peekPost on a canonical signed post -/

theorem peekPost_eval (s : SigScheme) (sk pk : List Nat) (tag : Nat)
    (links : List (List Nat)) (timestamp : Nat) (rest : List Nat)
    (hpk : pk.length = constants.PUBLICKEY_SIZE)
    (hl : ∀ x ∈ links, x.length = constants.HASH_SIZE)
    (hlc : links.length < 2 ^ 32) (htag : tag < 128) :
    peekPost (pk ++ (s.sigbytes sk (postPayload tag links timestamp rest) ++
        postPayload tag links timestamp rest)) = some tag := by
  set payload := postPayload tag links timestamp rest with hpay
  set sig := s.sigbytes sk payload with hsig
  set B := pk ++ (sig ++ payload) with hBdef
  have hsiglen : sig.length = constants.SIGNATURE_SIZE := s.siglen sk payload
  have hd96 : B.drop (32 + 64) = varintEncode links.length ++ (links.flatten ++
      (varintEncode tag ++ (varintEncode timestamp ++ rest))) := by
    have := signedPost_drop_payload pk sig payload hpk hsiglen
    simp only [constants.PUBLICKEY_SIZE, constants.SIGNATURE_SIZE] at this
    rw [this, hpay, postPayload]
  have dvsL : decodeVarintSlice B (32 + 64) =
      some (links.length, (varintEncode links.length).length) :=
    decodeVarintSlice_at B _ links.length _ hd96 (by norm_num at hlc ⊢; omega)
  set kc := (varintEncode links.length).length with hkc
  have hd97 : B.drop (32 + 64 + kc) = links.flatten ++
      (varintEncode tag ++ (varintEncode timestamp ++ rest)) :=
    drop_at B (32 + 64) _ _ hd96
  have hflatlen : links.flatten.length = links.length * 32 := by
    have := flatten_length_const links _ hl
    simpa [constants.HASH_SIZE] using this
  have hd98 : B.drop (32 + 64 + kc + links.length * 32) =
      varintEncode tag ++ (varintEncode timestamp ++ rest) := by
    have := drop_at B (32 + 64 + kc) links.flatten _ hd97
    rwa [hflatlen] at this
  have dvsTag : decodeVarintSlice B (32 + 64 + kc + links.length * 32) =
      some (tag, 1) := by
    have := decodeVarintSlice_at B _ tag _ hd98 (by omega)
    rwa [varintEncode_small tag htag] at this
  unfold peekPost
  dsimp only
  simp only [constants.PUBLICKEY_SIZE, constants.SIGNATURE_SIZE, constants.HASH_SIZE]
  rw [dvsL]
  simp only [← hkc]
  rw [dvsTag]
  simp [vval]

theorem ROLE_POST_never_ok (s : SigScheme) (buf : List Nat) :
    (ROLE_POST.toJSON s buf).isOk = false := by
  unfold ROLE_POST.toJSON
  dsimp only
  repeat' split
  all_goals rfl

theorem MODERATION_POST_never_ok (s : SigScheme) (buf : List Nat) :
    (MODERATION_POST.toJSON s buf).isOk = false := by
  unfold MODERATION_POST.toJSON
  dsimp only
  repeat' split
  all_goals rfl

theorem BLOCK_POST_never_ok (s : SigScheme) (buf : List Nat) :
    (BLOCK_POST.toJSON s buf).isOk = false := by
  unfold BLOCK_POST.toJSON
  dsimp only
  repeat' split
  all_goals rfl

theorem UNBLOCK_POST_never_ok (s : SigScheme) (buf : List Nat) :
    (UNBLOCK_POST.toJSON s buf).isOk = false := by
  unfold UNBLOCK_POST.toJSON
  dsimp only
  repeat' split
  all_goals rfl

/-! ## The claims -/

/-- C2: msgLen correctness — for every buffer returned by any message-type
create on valid arguments, the varint decoded at offset 0 equals the total
byte length of the buffer minus the bytes occupied by the msgLen varint
itself. -/
theorem claim_C2 (B : List Nat) (h : messageCreateOutput B) :
    ∃ v k, decodeVarintSlice B 0 = some (v, k) ∧ v + k = B.length := by
  obtain ⟨F, rfl, hF⟩ := messageCreateOutput_shape B h
  refine ⟨F.length, (varintEncode F.length).length, ?_, ?_⟩
  · exact decodeVarintSlice_at _ 0 F.length F (by simp [prependMsgLen]) hF
  · rw [prependMsgLen_length]
    omega

theorem claim_C2_witness :
    messageCreateOutput [10, 0, 0, 0, 0, 0, 1, 2, 3, 4, 0] ∧
    (∃ v k, decodeVarintSlice [10, 0, 0, 0, 0, 0, 1, 2, 3, 4, 0] 0 = some (v, k) ∧
      v + k = ([10, 0, 0, 0, 0, 0, 1, 2, 3, 4, 0] : List Nat).length) := by
  have hm : messageCreateOutput [10, 0, 0, 0, 0, 0, 1, 2, 3, 4, 0] :=
    Or.inl ⟨[1, 2, 3, 4], [], by decide, by decide, by decide, by decide⟩
  exact ⟨hm, claim_C2 _ hm⟩

/-- C6: cross-implementation fixture — CANCEL_REQUEST.toJSON on the 15-byte
buffer 0e030000000004baaffb0131b5c9e1 returns msgLen 14, msgType 3, reqid
04baaffb, ttl 1, cancelid 31b5c9e1, without raising. -/
theorem claim_C6 :
    CANCEL_REQUEST.toJSON
      [14, 3, 0, 0, 0, 0, 4, 186, 175, 251, 1, 49, 181, 201, 225] =
      .ok ⟨14, constants.CANCEL_REQUEST, [4, 186, 175, 251], 1,
           [49, 181, 201, 225]⟩ := by
  decide

/-- C8: truncated-buffer safety — every message decoder applied to any
proper prefix of a valid create output raises the remaining-buffer
malformed-wire error.  The model is total, so the decoders cannot read
outside the supplied list or abort in any other way. -/
theorem claim_C8 (B : List Nat) (h : messageCreateOutput B) (j : Nat)
    (hj : j < B.length) :
    HASH_RESPONSE.toJSON (B.take j) = .threw (.bufferExpected "remaining buf") ∧
    POST_RESPONSE.toJSON (B.take j) = .threw (.bufferExpected "remaining buf") ∧
    POST_REQUEST.toJSON (B.take j) = .threw (.bufferExpected "remaining buf") ∧
    CANCEL_REQUEST.toJSON (B.take j) = .threw (.bufferExpected "remaining buf") ∧
    TIME_RANGE_REQUEST.toJSON (B.take j) = .threw (.bufferExpected "remaining buf") ∧
    CHANNEL_STATE_REQUEST.toJSON (B.take j) = .threw (.bufferExpected "remaining buf") ∧
    CHANNEL_LIST_REQUEST.toJSON (B.take j) = .threw (.bufferExpected "remaining buf") ∧
    CHANNEL_LIST_RESPONSE.toJSON (B.take j) = .threw (.bufferExpected "remaining buf") ∧
    MODERATION_STATE_REQUEST.toJSON (B.take j) =
      .threw (.bufferExpected "remaining buf") := by
  obtain ⟨F, rfl, hF⟩ := messageCreateOutput_shape B h
  exact ⟨HASH_RESPONSE_toJSON_prefix_throw F hF j hj,
    POST_RESPONSE_toJSON_prefix_throw F hF j hj,
    POST_REQUEST_toJSON_prefix_throw F hF j hj,
    CANCEL_REQUEST_toJSON_prefix_throw F hF j hj,
    TIME_RANGE_REQUEST_toJSON_prefix_throw F hF j hj,
    CHANNEL_STATE_REQUEST_toJSON_prefix_throw F hF j hj,
    CHANNEL_LIST_REQUEST_toJSON_prefix_throw F hF j hj,
    CHANNEL_LIST_RESPONSE_toJSON_prefix_throw F hF j hj,
    MODERATION_STATE_REQUEST_toJSON_prefix_throw F hF j hj⟩

theorem claim_C8_witness :
    messageCreateOutput [10, 0, 0, 0, 0, 0, 1, 2, 3, 4, 0] ∧
    3 < ([10, 0, 0, 0, 0, 0, 1, 2, 3, 4, 0] : List Nat).length ∧
    (HASH_RESPONSE.toJSON (([10, 0, 0, 0, 0, 0, 1, 2, 3, 4, 0] : List Nat).take 3) =
        .threw (.bufferExpected "remaining buf") ∧
      POST_RESPONSE.toJSON (([10, 0, 0, 0, 0, 0, 1, 2, 3, 4, 0] : List Nat).take 3) =
        .threw (.bufferExpected "remaining buf") ∧
      POST_REQUEST.toJSON (([10, 0, 0, 0, 0, 0, 1, 2, 3, 4, 0] : List Nat).take 3) =
        .threw (.bufferExpected "remaining buf") ∧
      CANCEL_REQUEST.toJSON (([10, 0, 0, 0, 0, 0, 1, 2, 3, 4, 0] : List Nat).take 3) =
        .threw (.bufferExpected "remaining buf") ∧
      TIME_RANGE_REQUEST.toJSON
          (([10, 0, 0, 0, 0, 0, 1, 2, 3, 4, 0] : List Nat).take 3) =
        .threw (.bufferExpected "remaining buf") ∧
      CHANNEL_STATE_REQUEST.toJSON
          (([10, 0, 0, 0, 0, 0, 1, 2, 3, 4, 0] : List Nat).take 3) =
        .threw (.bufferExpected "remaining buf") ∧
      CHANNEL_LIST_REQUEST.toJSON
          (([10, 0, 0, 0, 0, 0, 1, 2, 3, 4, 0] : List Nat).take 3) =
        .threw (.bufferExpected "remaining buf") ∧
      CHANNEL_LIST_RESPONSE.toJSON
          (([10, 0, 0, 0, 0, 0, 1, 2, 3, 4, 0] : List Nat).take 3) =
        .threw (.bufferExpected "remaining buf") ∧
      MODERATION_STATE_REQUEST.toJSON
          (([10, 0, 0, 0, 0, 0, 1, 2, 3, 4, 0] : List Nat).take 3) =
        .threw (.bufferExpected "remaining buf")) := by
  have hm : messageCreateOutput [10, 0, 0, 0, 0, 0, 1, 2, 3, 4, 0] :=
    Or.inl ⟨[1, 2, 3, 4], [], by decide, by decide, by decide, by decide⟩
  exact ⟨hm, by decide, claim_C8 _ hm 3 (by decide)⟩

/-- C9: shared role tag on write — on every argument set the moderation
and role creates accept (32-byte recipient keys, an action that is not
drop-channel/undrop-channel, in-range strings), the postType varint in the
produced buffer decodes (via peekPost) to constants.ROLE_POST, for the
moderation create as well as the role create. -/
theorem claim_C9 :
    (∀ (s : SigScheme) (publicKey secretKey : List Nat) (links : List (List Nat))
        (channel : List Nat) (timestamp : Nat) (recipients : List (List Nat))
        (action : Nat) (reason : List Nat) (privacy : Nat) (B : List Nat),
      publicKey.length = constants.PUBLICKEY_SIZE →
      secretKey.length = constants.SECRETKEY_SIZE →
      (∀ x ∈ links, x.length = constants.HASH_SIZE) →
      links.length < 2 ^ 32 →
      (∀ x ∈ recipients, x.length = constants.PUBLICKEY_SIZE) →
      action ≠ constants.ACTION_DROP_CHANNEL →
      action ≠ constants.ACTION_UNDROP_CHANNEL →
      constants.CHANNEL_NAME_MIN_CODEPOINTS ≤ channel.length ∧
        channel.length ≤ constants.CHANNEL_NAME_MAX_CODEPOINTS →
      reason.length ≤ constants.REASON_MAX_CODEPOINTS →
      constants.RECIPIENT_COUNT_MIN ≤ recipients.length ∧
        recipients.length ≤ constants.RECIPIENT_COUNT_MAX →
      publicKey = s.pk secretKey →
      MODERATION_POST.create s publicKey secretKey links channel timestamp
        recipients action reason privacy = .ok B →
      peekPost B = some constants.ROLE_POST) ∧
    (∀ (s : SigScheme) (publicKey secretKey : List Nat) (links : List (List Nat))
        (channel : List Nat) (timestamp : Nat) (recipient : List Nat)
        (role : Nat) (reason : List Nat) (privacy : Nat) (B : List Nat),
      publicKey.length = constants.PUBLICKEY_SIZE →
      secretKey.length = constants.SECRETKEY_SIZE →
      recipient.length = constants.PUBLICKEY_SIZE →
      (∀ x ∈ links, x.length = constants.HASH_SIZE) →
      links.length < 2 ^ 32 →
      constants.CHANNEL_NAME_MIN_CODEPOINTS ≤ channel.length ∧
        channel.length ≤ constants.CHANNEL_NAME_MAX_CODEPOINTS →
      reason.length ≤ constants.REASON_MAX_CODEPOINTS →
      publicKey = s.pk secretKey →
      ROLE_POST.create s publicKey secretKey links channel timestamp recipient
        role reason privacy = .ok B →
      peekPost B = some constants.ROLE_POST) := by
  constructor
  · intro s publicKey secretKey links channel timestamp recipients action reason
      privacy B hpk hsk hl hlc hrcp ha1 ha2 hch hrs hrl hkey hcr
    rw [ MODERATION_POST_create_eq s publicKey secretKey links channel timestamp
      recipients action reason privacy hpk hsk hl hrcp ⟨ha1, ha2⟩ hch hrs hrl hkey] at hcr
    injection hcr with hB
    subst hB
    exact peekPost_eval s secretKey publicKey constants.ROLE_POST links timestamp _
      hpk hl hlc (by norm_num [constants.ROLE_POST])
  · intro s publicKey secretKey links channel timestamp recipient role reason
      privacy B hpk hsk hrcp hl hlc hch hrs hkey hcr
    rw [ROLE_POST_create_eq s publicKey secretKey links channel timestamp
      recipient role reason privacy hpk hsk hrcp hl hch hrs hkey] at hcr
    injection hcr with hB
    subst hB
    exact peekPost_eval s secretKey publicKey constants.ROLE_POST links timestamp _
      hpk hl hlc (by norm_num [constants.ROLE_POST])

theorem claim_C9_witness :
    peekPost (List.replicate 32 0 ++ ([0, 6, 0, 0, 0, 1, 99, 1] ++
        (List.replicate 32 1 ++ ([0] ++ (List.replicate 23 0 ++
        ([0, 6, 0, 0, 0, 1, 99, 1] ++ (List.replicate 32 1 ++ [0]))))))) =
      some constants.ROLE_POST ∧
    peekPost (List.replicate 32 0 ++ ([0, 6, 0, 0, 0, 1, 99] ++
        (List.replicate 32 1 ++ ([0] ++ (List.replicate 24 0 ++
        ([0, 6, 0, 0, 0, 1, 99] ++ (List.replicate 32 1 ++ [0]))))))) =
      some constants.ROLE_POST := by
  constructor
  · exact claim_C9.1 witScheme (List.replicate 32 0) (List.replicate 64 0) [] [99] 0
      [List.replicate 32 1] 0 [] 0 _ (by decide) (by decide) (by decide) (by decide)
      (by decide) (by decide) (by decide) (by decide) (by decide) (by decide)
      (by decide) (by decide)
  · exact claim_C9.2 witScheme (List.replicate 32 0) (List.replicate 64 0) [] [99] 0
      (List.replicate 32 1) 1 [] 0 _ (by decide) (by decide) (by decide) (by decide)
      (by decide) (by decide) (by decide) (by decide) (by decide)

/-- C10 (amended): none of the four moderation-family post decoders ever
returns a structured record — every outcome is a raised error or a returned
Error object; the original claim that every call raises is contradicted by
the returned-Error mismatch path (see the counterexample). -/
theorem claim_C10 (s : SigScheme) (buf : List Nat) :
    (ROLE_POST.toJSON s buf).isOk = false ∧
    (MODERATION_POST.toJSON s buf).isOk = false ∧
    (BLOCK_POST.toJSON s buf).isOk = false ∧
    (UNBLOCK_POST.toJSON s buf).isOk = false :=
  ⟨ROLE_POST_never_ok s buf, MODERATION_POST_never_ok s buf,
   BLOCK_POST_never_ok s buf, UNBLOCK_POST_never_ok s buf⟩

/-- C10 counterexample to the original wording: a ROLE_POST.toJSON call on
a validly signed text post neither raises a decode/validation error nor a
ReferenceError — it RETURNS the tag-mismatch Error object. -/
theorem claim_C10_counterexample :
    TEXT_POST.create witScheme (List.replicate 32 0) (List.replicate 64 0)
        [] [99] 0 [] =
      .ok (List.replicate 32 0 ++ ([0, 0, 0, 1, 99, 0] ++
        (List.replicate 58 0 ++ [0, 0, 0, 1, 99, 0]))) ∧
    ROLE_POST.toJSON witScheme (List.replicate 32 0 ++ ([0, 0, 0, 1, 99, 0] ++
        (List.replicate 58 0 ++ [0, 0, 0, 1, 99, 0]))) =
      .retErr .postTypeMismatch := by
  exact ⟨by decide, by decide⟩

/-- C4 (amended): a type-tag mismatch never hands the caller a structured
record, but only four of the nineteen decoders THROW the mismatch error:
the other five message decoders and all ten post decoders RETURN the Error
object to the caller.  Hypotheses state the gates each decoder passes
before its tag check (msgLen size gate for messages; signature and links
gates for posts). -/
theorem claim_C4 :
    (∀ (buf : List Nat) (msgLen k : Nat),
      decodeVarintSlice buf 0 = some (msgLen, k) →
      isBufferSizeJ (buf.drop k) (some msgLen) = true →
      vval (decodeVarintSlice buf k) ≠ some constants.HASH_RESPONSE →
      HASH_RESPONSE.toJSON buf = .threw .msgTypeMismatch) ∧
    (∀ (buf : List Nat) (msgLen k : Nat),
      decodeVarintSlice buf 0 = some (msgLen, k) →
      isBufferSizeJ (buf.drop k) (some msgLen) = true →
      vval (decodeVarintSlice buf k) ≠ some constants.POST_RESPONSE →
      POST_RESPONSE.toJSON buf = .threw .msgTypeMismatch) ∧
    (∀ (buf : List Nat) (msgLen k : Nat),
      decodeVarintSlice buf 0 = some (msgLen, k) →
      isBufferSizeJ (buf.drop k) (some msgLen) = true →
      vval (decodeVarintSlice buf k) ≠ some constants.POST_REQUEST →
      POST_REQUEST.toJSON buf = .threw .msgTypeMismatch) ∧
    (∀ (buf : List Nat) (msgLen k : Nat),
      decodeVarintSlice buf 0 = some (msgLen, k) →
      isBufferSizeJ (buf.drop k) (some msgLen) = true →
      vval (decodeVarintSlice buf k) ≠ some constants.CANCEL_REQUEST →
      CANCEL_REQUEST.toJSON buf = .threw .msgTypeMismatch) ∧
    (∀ (buf : List Nat) (msgLen k : Nat),
      decodeVarintSlice buf 0 = some (msgLen, k) →
      isBufferSizeJ (buf.drop k) (some msgLen) = true →
      vval (decodeVarintSlice buf k) ≠ some constants.TIME_RANGE_REQUEST →
      TIME_RANGE_REQUEST.toJSON buf = .retErr .msgTypeMismatch) ∧
    (∀ (buf : List Nat) (msgLen k : Nat),
      decodeVarintSlice buf 0 = some (msgLen, k) →
      isBufferSizeJ (buf.drop k) (some msgLen) = true →
      vval (decodeVarintSlice buf k) ≠ some constants.CHANNEL_STATE_REQUEST →
      CHANNEL_STATE_REQUEST.toJSON buf = .retErr .msgTypeMismatch) ∧
    (∀ (buf : List Nat) (msgLen k : Nat),
      decodeVarintSlice buf 0 = some (msgLen, k) →
      isBufferSizeJ (buf.drop k) (some msgLen) = true →
      vval (decodeVarintSlice buf k) ≠ some constants.CHANNEL_LIST_REQUEST →
      CHANNEL_LIST_REQUEST.toJSON buf = .retErr .msgTypeMismatch) ∧
    (∀ (buf : List Nat) (msgLen k : Nat),
      decodeVarintSlice buf 0 = some (msgLen, k) →
      isBufferSizeJ (buf.drop k) (some msgLen) = true →
      vval (decodeVarintSlice buf k) ≠ some constants.CHANNEL_LIST_RESPONSE →
      CHANNEL_LIST_RESPONSE.toJSON buf = .retErr .msgTypeMismatch) ∧
    (∀ (buf : List Nat) (msgLen k : Nat),
      decodeVarintSlice buf 0 = some (msgLen, k) →
      isBufferSizeJ (buf.drop k) (some msgLen) = true →
      vval (decodeVarintSlice buf k) ≠ some constants.MODERATION_STATE_REQUEST →
      MODERATION_STATE_REQUEST.toJSON buf = .retErr .msgTypeMismatch) ∧
    (∀ (s : SigScheme) (buf : List Nat) (numLinks k : Nat),
      checkSignature s buf (jsSlice buf 0 constants.PUBLICKEY_SIZE) = none →
      decodeVarintSlice buf (constants.PUBLICKEY_SIZE + constants.SIGNATURE_SIZE) =
        some (numLinks, k) →
      isArrayHashes (hashSlices buf
        (constants.PUBLICKEY_SIZE + constants.SIGNATURE_SIZE + k) numLinks) = true →
      vval (decodeVarintSlice buf (constants.PUBLICKEY_SIZE + constants.SIGNATURE_SIZE +
        k + numLinks * constants.HASH_SIZE)) ≠ some constants.TEXT_POST →
      TEXT_POST.toJSON s buf = .retErr .postTypeMismatch) ∧
    (∀ (s : SigScheme) (buf : List Nat) (numLinks k : Nat),
      checkSignature s buf (jsSlice buf 0 constants.PUBLICKEY_SIZE) = none →
      decodeVarintSlice buf (constants.PUBLICKEY_SIZE + constants.SIGNATURE_SIZE) =
        some (numLinks, k) →
      isArrayHashes (hashSlices buf
        (constants.PUBLICKEY_SIZE + constants.SIGNATURE_SIZE + k) numLinks) = true →
      vval (decodeVarintSlice buf (constants.PUBLICKEY_SIZE + constants.SIGNATURE_SIZE +
        k + numLinks * constants.HASH_SIZE)) ≠ some constants.DELETE_POST →
      DELETE_POST.toJSON s buf = .retErr .postTypeMismatch) ∧
    (∀ (s : SigScheme) (buf : List Nat) (numLinks k : Nat),
      checkSignature s buf (jsSlice buf 0 constants.PUBLICKEY_SIZE) = none →
      decodeVarintSlice buf (constants.PUBLICKEY_SIZE + constants.SIGNATURE_SIZE) =
        some (numLinks, k) →
      isArrayHashes (hashSlices buf
        (constants.PUBLICKEY_SIZE + constants.SIGNATURE_SIZE + k) numLinks) = true →
      vval (decodeVarintSlice buf (constants.PUBLICKEY_SIZE + constants.SIGNATURE_SIZE +
        k + numLinks * constants.HASH_SIZE)) ≠ some constants.INFO_POST →
      INFO_POST.toJSON s buf = .retErr .postTypeMismatch) ∧
    (∀ (s : SigScheme) (buf : List Nat) (numLinks k : Nat),
      checkSignature s buf (jsSlice buf 0 constants.PUBLICKEY_SIZE) = none →
      decodeVarintSlice buf (constants.PUBLICKEY_SIZE + constants.SIGNATURE_SIZE) =
        some (numLinks, k) →
      isArrayHashes (hashSlices buf
        (constants.PUBLICKEY_SIZE + constants.SIGNATURE_SIZE + k) numLinks) = true →
      vval (decodeVarintSlice buf (constants.PUBLICKEY_SIZE + constants.SIGNATURE_SIZE +
        k + numLinks * constants.HASH_SIZE)) ≠ some constants.TOPIC_POST →
      TOPIC_POST.toJSON s buf = .retErr .postTypeMismatch) ∧
    (∀ (s : SigScheme) (buf : List Nat) (numLinks k : Nat),
      checkSignature s buf (jsSlice buf 0 constants.PUBLICKEY_SIZE) = none →
      decodeVarintSlice buf (constants.PUBLICKEY_SIZE + constants.SIGNATURE_SIZE) =
        some (numLinks, k) →
      isArrayHashes (hashSlices buf
        (constants.PUBLICKEY_SIZE + constants.SIGNATURE_SIZE + k) numLinks) = true →
      vval (decodeVarintSlice buf (constants.PUBLICKEY_SIZE + constants.SIGNATURE_SIZE +
        k + numLinks * constants.HASH_SIZE)) ≠ some constants.JOIN_POST →
      JOIN_POST.toJSON s buf = .retErr .postTypeMismatch) ∧
    (∀ (s : SigScheme) (buf : List Nat) (numLinks k : Nat),
      checkSignature s buf (jsSlice buf 0 constants.PUBLICKEY_SIZE) = none →
      decodeVarintSlice buf (constants.PUBLICKEY_SIZE + constants.SIGNATURE_SIZE) =
        some (numLinks, k) →
      isArrayHashes (hashSlices buf
        (constants.PUBLICKEY_SIZE + constants.SIGNATURE_SIZE + k) numLinks) = true →
      vval (decodeVarintSlice buf (constants.PUBLICKEY_SIZE + constants.SIGNATURE_SIZE +
        k + numLinks * constants.HASH_SIZE)) ≠ some constants.LEAVE_POST →
      LEAVE_POST.toJSON s buf = .retErr .postTypeMismatch) ∧
    (∀ (s : SigScheme) (buf : List Nat) (numLinks k : Nat),
      checkSignature s buf (jsSlice buf 0 constants.PUBLICKEY_SIZE) = none →
      decodeVarintSlice buf (constants.PUBLICKEY_SIZE + constants.SIGNATURE_SIZE) =
        some (numLinks, k) →
      isArrayHashes (hashSlices buf
        (constants.PUBLICKEY_SIZE + constants.SIGNATURE_SIZE + k) numLinks) = true →
      vval (decodeVarintSlice buf (constants.PUBLICKEY_SIZE + constants.SIGNATURE_SIZE +
        k + numLinks * constants.HASH_SIZE)) ≠ some constants.ROLE_POST →
      ROLE_POST.toJSON s buf = .retErr .postTypeMismatch) ∧
    (∀ (s : SigScheme) (buf : List Nat) (numLinks k : Nat),
      checkSignature s buf (jsSlice buf 0 constants.PUBLICKEY_SIZE) = none →
      decodeVarintSlice buf (constants.PUBLICKEY_SIZE + constants.SIGNATURE_SIZE) =
        some (numLinks, k) →
      isArrayHashes (hashSlices buf
        (constants.PUBLICKEY_SIZE + constants.SIGNATURE_SIZE + k) numLinks) = true →
      vval (decodeVarintSlice buf (constants.PUBLICKEY_SIZE + constants.SIGNATURE_SIZE +
        k + numLinks * constants.HASH_SIZE)) ≠ some constants.ROLE_POST →
      MODERATION_POST.toJSON s buf = .retErr .postTypeMismatch) ∧
    (∀ (s : SigScheme) (buf : List Nat) (numLinks k : Nat),
      checkSignature s buf (jsSlice buf 0 constants.PUBLICKEY_SIZE) = none →
      decodeVarintSlice buf (constants.PUBLICKEY_SIZE + constants.SIGNATURE_SIZE) =
        some (numLinks, k) →
      isArrayHashes (hashSlices buf
        (constants.PUBLICKEY_SIZE + constants.SIGNATURE_SIZE + k) numLinks) = true →
      vval (decodeVarintSlice buf (constants.PUBLICKEY_SIZE + constants.SIGNATURE_SIZE +
        k + numLinks * constants.HASH_SIZE)) ≠ some constants.BLOCK_POST →
      BLOCK_POST.toJSON s buf = .retErr .postTypeMismatch) ∧
    (∀ (s : SigScheme) (buf : List Nat) (numLinks k : Nat),
      checkSignature s buf (jsSlice buf 0 constants.PUBLICKEY_SIZE) = none →
      decodeVarintSlice buf (constants.PUBLICKEY_SIZE + constants.SIGNATURE_SIZE) =
        some (numLinks, k) →
      isArrayHashes (hashSlices buf
        (constants.PUBLICKEY_SIZE + constants.SIGNATURE_SIZE + k) numLinks) = true →
      vval (decodeVarintSlice buf (constants.PUBLICKEY_SIZE + constants.SIGNATURE_SIZE +
        k + numLinks * constants.HASH_SIZE)) ≠ some constants.UNBLOCK_POST →
      UNBLOCK_POST.toJSON s buf = .retErr .postTypeMismatch) := by
  refine ⟨?_, ?_, ?_, ?_, ?_, ?_, ?_, ?_, ?_, ?_, ?_, ?_, ?_, ?_, ?_, ?_, ?_, ?_, ?_⟩
  · intro buf msgLen k h0 h1 hne
    unfold HASH_RESPONSE.toJSON
    rw [h0]
    dsimp only
    simp only [h1, not_true_eq_false, if_false, ite_false]
    rw [if_pos hne]
  · intro buf msgLen k h0 h1 hne
    unfold POST_RESPONSE.toJSON
    rw [h0]
    dsimp only
    simp only [h1, not_true_eq_false, if_false, ite_false]
    rw [if_pos hne]
  · intro buf msgLen k h0 h1 hne
    unfold POST_REQUEST.toJSON
    rw [h0]
    dsimp only
    simp only [h1, not_true_eq_false, if_false, ite_false]
    rw [if_pos hne]
  · intro buf msgLen k h0 h1 hne
    unfold CANCEL_REQUEST.toJSON
    rw [h0]
    dsimp only
    simp only [h1, not_true_eq_false, if_false, ite_false]
    rw [if_pos hne]
  · intro buf msgLen k h0 h1 hne
    unfold TIME_RANGE_REQUEST.toJSON
    rw [h0]
    dsimp only
    simp only [h1, not_true_eq_false, if_false, ite_false]
    rw [if_pos hne]
  · intro buf msgLen k h0 h1 hne
    unfold CHANNEL_STATE_REQUEST.toJSON
    rw [h0]
    dsimp only
    simp only [h1, not_true_eq_false, if_false, ite_false]
    rw [if_pos hne]
  · intro buf msgLen k h0 h1 hne
    unfold CHANNEL_LIST_REQUEST.toJSON
    rw [h0]
    dsimp only
    simp only [h1, not_true_eq_false, if_false, ite_false]
    rw [if_pos hne]
  · intro buf msgLen k h0 h1 hne
    unfold CHANNEL_LIST_RESPONSE.toJSON
    rw [h0]
    dsimp only
    simp only [h1, not_true_eq_false, if_false, ite_false]
    rw [if_pos hne]
  · intro buf msgLen k h0 h1 hne
    unfold MODERATION_STATE_REQUEST.toJSON
    rw [h0]
    dsimp only
    simp only [h1, not_true_eq_false, if_false, ite_false]
    rw [if_pos hne]
  · intro s buf numLinks k h0 h1 h2 hne
    unfold TEXT_POST.toJSON
    dsimp only
    rw [h0]
    dsimp only
    simp only [h1]
    simp only [h2, not_true_eq_false, if_false, ite_false]
    rw [if_pos hne]
  · intro s buf numLinks k h0 h1 h2 hne
    unfold DELETE_POST.toJSON
    dsimp only
    rw [h0]
    dsimp only
    simp only [h1]
    simp only [h2, not_true_eq_false, if_false, ite_false]
    rw [if_pos hne]
  · intro s buf numLinks k h0 h1 h2 hne
    unfold INFO_POST.toJSON
    dsimp only
    rw [h0]
    dsimp only
    simp only [h1]
    simp only [h2, not_true_eq_false, if_false, ite_false]
    rw [if_pos hne]
  · intro s buf numLinks k h0 h1 h2 hne
    unfold TOPIC_POST.toJSON
    dsimp only
    rw [h0]
    dsimp only
    simp only [h1]
    simp only [h2, not_true_eq_false, if_false, ite_false]
    rw [if_pos hne]
  · intro s buf numLinks k h0 h1 h2 hne
    unfold JOIN_POST.toJSON
    dsimp only
    rw [h0]
    dsimp only
    simp only [h1]
    simp only [h2, not_true_eq_false, if_false, ite_false]
    rw [if_pos hne]
  · intro s buf numLinks k h0 h1 h2 hne
    unfold LEAVE_POST.toJSON
    dsimp only
    rw [h0]
    dsimp only
    simp only [h1]
    simp only [h2, not_true_eq_false, if_false, ite_false]
    rw [if_pos hne]
  · intro s buf numLinks k h0 h1 h2 hne
    unfold ROLE_POST.toJSON
    dsimp only
    rw [h0]
    dsimp only
    simp only [h1]
    simp only [h2, not_true_eq_false, if_false, ite_false]
    rw [if_pos hne]
  · intro s buf numLinks k h0 h1 h2 hne
    unfold MODERATION_POST.toJSON
    dsimp only
    rw [h0]
    dsimp only
    simp only [h1]
    simp only [h2, not_true_eq_false, if_false, ite_false]
    rw [if_pos hne]
  · intro s buf numLinks k h0 h1 h2 hne
    unfold BLOCK_POST.toJSON
    dsimp only
    rw [h0]
    dsimp only
    simp only [h1]
    simp only [h2, not_true_eq_false, if_false, ite_false]
    rw [if_pos hne]
  · intro s buf numLinks k h0 h1 h2 hne
    unfold UNBLOCK_POST.toJSON
    dsimp only
    rw [h0]
    dsimp only
    simp only [h1]
    simp only [h2, not_true_eq_false, if_false, ite_false]
    rw [if_pos hne]

/-- C4 counterexample to the original wording: feeding a valid
CANCEL_REQUEST buffer to TIME_RANGE_REQUEST.toJSON RETURNS the mismatch
Error object instead of raising it. -/
theorem claim_C4_counterexample :
    CANCEL_REQUEST.create [0, 0, 0, 0] 1 [0, 0, 0, 0] =
      .ok [14, 3, 0, 0, 0, 0, 0, 0, 0, 0, 1, 0, 0, 0, 0] ∧
    TIME_RANGE_REQUEST.toJSON [14, 3, 0, 0, 0, 0, 0, 0, 0, 0, 1, 0, 0, 0, 0] =
      .retErr .msgTypeMismatch :=
  ⟨by decide, by decide⟩

/-- C5 (amended): validation.checkFuture does accept exactly the values 0
and 1, but no code path invokes it: CHANNEL_STATE_REQUEST.create and
CHANNEL_STATE_REQUEST.toJSON accept EVERY future value, round-tripping it
unchecked. -/
theorem claim_C5 :
    (∀ v, validation.checkFuture v = none ↔ (v = 0 ∨ v = 1)) ∧
    (∀ (reqid : List Nat) (ttl : Nat) (channel : List Nat) (future : Nat),
      reqid.length = constants.REQID_SIZE → ttl ≤ 16 →
      constants.CHANNEL_NAME_MIN_CODEPOINTS ≤ channel.length ∧
        channel.length ≤ constants.CHANNEL_NAME_MAX_CODEPOINTS →
      future < 2 ^ 53 →
      ∃ B m, CHANNEL_STATE_REQUEST.create reqid ttl channel future = .ok B ∧
        CHANNEL_STATE_REQUEST.toJSON B =
          .ok ⟨m, constants.CHANNEL_STATE_REQUEST, reqid, ttl, channel,
               some future⟩) := by
  constructor
  · intro v
    by_cases h : v = 0 ∨ v = 1 <;> simp [validation.checkFuture, h]
  · intro reqid ttl channel future h1 httl hch hf
    exact ⟨_, _, CHANNEL_STATE_REQUEST_create_eq reqid ttl channel future h1 httl hch,
      CHANNEL_STATE_REQUEST_toJSON_eval reqid ttl channel future h1 httl hch hf⟩

/-- C5 counterexample to the original claim: future = 2 raises on neither
path — create succeeds and toJSON returns the record with future 2. -/
theorem claim_C5_counterexample :
    validation.checkFuture 2 = some .futureValueExpected ∧
    CHANNEL_STATE_REQUEST.create [0, 0, 0, 0] 1 [99] 2 =
      .ok [13, 5, 0, 0, 0, 0, 0, 0, 0, 0, 1, 1, 99, 2] ∧
    CHANNEL_STATE_REQUEST.toJSON [13, 5, 0, 0, 0, 0, 0, 0, 0, 0, 1, 1, 99, 2] =
      .ok ⟨13, constants.CHANNEL_STATE_REQUEST, [0, 0, 0, 0], 1, [99], some 2⟩ :=
  ⟨by decide, by decide, by decide⟩

theorem claim_C5_witness :
    ∃ B m, CHANNEL_STATE_REQUEST.create [0, 0, 0, 0] 1 [99] 1 = .ok B ∧
      CHANNEL_STATE_REQUEST.toJSON B =
        .ok ⟨m, constants.CHANNEL_STATE_REQUEST, [0, 0, 0, 0], 1, [99], some 1⟩ :=
  claim_C5.2 [0, 0, 0, 0] 1 [99] 1 (by decide) (by decide) (by decide) (by decide)

/-- C3: TTL decrement — for each of the four TTL-bearing request types, on
every valid argument set with ttl ≥ 1 the decrement of the create output
succeeds and IS the create output for ttl - 1 (so no byte outside the TTL
field and the msgLen prefix changes), and its decode returns the same
fields with ttl - 1; on a ttl = 0 buffer the decrement throws the
negative-TTL error and returns no buffer. -/
theorem claim_C3 :
    (∀ (reqid : List Nat) (ttl : Nat) (hashes : List (List Nat)),
      reqid.length = constants.REQID_SIZE → 1 ≤ ttl → ttl ≤ 16 →
      (∀ x ∈ hashes, x.length = constants.HASH_SIZE) → hashes.length < 2 ^ 32 →
      ∃ B Bd m, POST_REQUEST.create reqid ttl hashes = .ok B ∧
        POST_REQUEST.decrementTTL B = .ok Bd ∧
        POST_REQUEST.create reqid (ttl - 1) hashes = .ok Bd ∧
        POST_REQUEST.toJSON Bd =
          .ok ⟨m, constants.POST_REQUEST, reqid, ttl - 1, hashes⟩) ∧
    (∀ (reqid : List Nat) (ttl : Nat) (channel : List Nat)
        (timeStart timeEnd limit : Nat),
      reqid.length = constants.REQID_SIZE → 1 ≤ ttl → ttl ≤ 16 →
      constants.CHANNEL_NAME_MIN_CODEPOINTS ≤ channel.length ∧
        channel.length ≤ constants.CHANNEL_NAME_MAX_CODEPOINTS →
      timeStart < 2 ^ 53 → timeEnd < 2 ^ 53 → limit < 2 ^ 53 →
      ∃ B Bd m, TIME_RANGE_REQUEST.create reqid ttl channel timeStart timeEnd limit =
          .ok B ∧
        TIME_RANGE_REQUEST.decrementTTL B = .ok Bd ∧
        TIME_RANGE_REQUEST.create reqid (ttl - 1) channel timeStart timeEnd limit =
          .ok Bd ∧
        TIME_RANGE_REQUEST.toJSON Bd =
          .ok ⟨m, constants.TIME_RANGE_REQUEST, reqid, ttl - 1, channel,
               some timeStart, some timeEnd, some limit⟩) ∧
    (∀ (reqid : List Nat) (ttl : Nat) (channel : List Nat) (future : Nat),
      reqid.length = constants.REQID_SIZE → 1 ≤ ttl → ttl ≤ 16 →
      constants.CHANNEL_NAME_MIN_CODEPOINTS ≤ channel.length ∧
        channel.length ≤ constants.CHANNEL_NAME_MAX_CODEPOINTS →
      future < 2 ^ 53 →
      ∃ B Bd m, CHANNEL_STATE_REQUEST.create reqid ttl channel future = .ok B ∧
        CHANNEL_STATE_REQUEST.decrementTTL B = .ok Bd ∧
        CHANNEL_STATE_REQUEST.create reqid (ttl - 1) channel future = .ok Bd ∧
        CHANNEL_STATE_REQUEST.toJSON Bd =
          .ok ⟨m, constants.CHANNEL_STATE_REQUEST, reqid, ttl - 1, channel,
               some future⟩) ∧
    (∀ (reqid : List Nat) (ttl argOffset limit : Nat),
      reqid.length = constants.REQID_SIZE → 1 ≤ ttl → ttl ≤ 16 →
      argOffset < 2 ^ 53 → limit < 2 ^ 53 →
      ∃ B Bd m, CHANNEL_LIST_REQUEST.create reqid ttl argOffset limit = .ok B ∧
        CHANNEL_LIST_REQUEST.decrementTTL B = .ok Bd ∧
        CHANNEL_LIST_REQUEST.create reqid (ttl - 1) argOffset limit = .ok Bd ∧
        CHANNEL_LIST_REQUEST.toJSON Bd =
          .ok ⟨m, constants.CHANNEL_LIST_REQUEST, reqid, ttl - 1,
               some argOffset, some limit⟩) ∧
    (∀ (reqid : List Nat) (hashes : List (List Nat)),
      reqid.length = constants.REQID_SIZE →
      (∀ x ∈ hashes, x.length = constants.HASH_SIZE) → hashes.length < 2 ^ 32 →
      ∃ B, POST_REQUEST.create reqid 0 hashes = .ok B ∧
        POST_REQUEST.decrementTTL B = .threw .ttlNegative) ∧
    (∀ (reqid : List Nat) (channel : List Nat) (timeStart timeEnd limit : Nat),
      reqid.length = constants.REQID_SIZE →
      constants.CHANNEL_NAME_MIN_CODEPOINTS ≤ channel.length ∧
        channel.length ≤ constants.CHANNEL_NAME_MAX_CODEPOINTS →
      timeStart < 2 ^ 53 → timeEnd < 2 ^ 53 → limit < 2 ^ 53 →
      ∃ B, TIME_RANGE_REQUEST.create reqid 0 channel timeStart timeEnd limit = .ok B ∧
        TIME_RANGE_REQUEST.decrementTTL B = .threw .ttlNegative) ∧
    (∀ (reqid : List Nat) (channel : List Nat) (future : Nat),
      reqid.length = constants.REQID_SIZE →
      constants.CHANNEL_NAME_MIN_CODEPOINTS ≤ channel.length ∧
        channel.length ≤ constants.CHANNEL_NAME_MAX_CODEPOINTS →
      future < 2 ^ 53 →
      ∃ B, CHANNEL_STATE_REQUEST.create reqid 0 channel future = .ok B ∧
        CHANNEL_STATE_REQUEST.decrementTTL B = .threw .ttlNegative) ∧
    (∀ (reqid : List Nat) (argOffset limit : Nat),
      reqid.length = constants.REQID_SIZE →
      argOffset < 2 ^ 53 → limit < 2 ^ 53 →
      ∃ B, CHANNEL_LIST_REQUEST.create reqid 0 argOffset limit = .ok B ∧
        CHANNEL_LIST_REQUEST.decrementTTL B = .threw .ttlNegative) := by
  have hp56 : (2 : Nat) ^ 56 = 72057594037927936 := by norm_num
  have hp53 : (2 : Nat) ^ 53 = 9007199254740992 := by norm_num
  have hp32 : (2 : Nat) ^ 32 = 4294967296 := by norm_num
  have hFpr : ∀ (reqid : List Nat) (hashes : List (List Nat)) (t : Nat),
      reqid.length = constants.REQID_SIZE →
      (∀ x ∈ hashes, x.length = constants.HASH_SIZE) → hashes.length < 2 ^ 32 →
      t ≤ 16 →
      (msgFrame constants.POST_REQUEST reqid (varintEncode t ++
        (varintEncode hashes.length ++ hashes.flatten))).length < 2 ^ 56 := by
    intro reqid hashes t h1 h2 hc ht
    rw [msgFrame_length _ _ _ (by norm_num [constants.POST_REQUEST]) h1]
    have hfl : hashes.flatten.length = hashes.length * 32 := by
      have := flatten_length_const hashes _ h2
      simpa [constants.HASH_SIZE] using this
    have he : (varintEncode hashes.length).length ≤ 8 :=
      varintEncode_length_le 7 hashes.length (by rw [hp32] at hc; norm_num; omega)
    have htl : (varintEncode t).length = 1 := by
      rw [varintEncode_small t (by omega)]
      rfl
    have hmul : hashes.length * 32 ≤ 4294967296 * 32 := by
      apply Nat.mul_le_mul_right
      rw [hp32] at hc
      omega
    rw [hp56]
    simp only [List.length_append, hfl, htl]
    omega
  have hFtr : ∀ (reqid channel : List Nat) (timeStart timeEnd limit t : Nat),
      reqid.length = constants.REQID_SIZE → channel.length ≤ 64 →
      timeStart < 2 ^ 53 → timeEnd < 2 ^ 53 → limit < 2 ^ 53 → t ≤ 16 →
      (msgFrame constants.TIME_RANGE_REQUEST reqid (varintEncode t ++
        (varintEncode channel.length ++ (channel ++ (varintEncode timeStart ++
         (varintEncode timeEnd ++ varintEncode limit)))))).length < 2 ^ 56 := by
    intro reqid channel timeStart timeEnd limit t h1 h64 ht1 ht2 hl ht
    rw [msgFrame_length _ _ _ (by norm_num [constants.TIME_RANGE_REQUEST]) h1]
    have htl : (varintEncode t).length = 1 := by
      rw [varintEncode_small t (by omega)]
      rfl
    have hcl : (varintEncode channel.length).length = 1 := by
      rw [varintEncode_small channel.length (by omega)]
      rfl
    have he1 : (varintEncode timeStart).length ≤ 8 :=
      varintEncode_length_le 7 timeStart (by rw [hp53] at ht1; norm_num; omega)
    have he2 : (varintEncode timeEnd).length ≤ 8 :=
      varintEncode_length_le 7 timeEnd (by rw [hp53] at ht2; norm_num; omega)
    have he3 : (varintEncode limit).length ≤ 8 :=
      varintEncode_length_le 7 limit (by rw [hp53] at hl; norm_num; omega)
    rw [hp56]
    simp only [List.length_append, htl, hcl]
    omega
  have hFcs : ∀ (reqid channel : List Nat) (future t : Nat),
      reqid.length = constants.REQID_SIZE → channel.length ≤ 64 →
      future < 2 ^ 53 → t ≤ 16 →
      (msgFrame constants.CHANNEL_STATE_REQUEST reqid (varintEncode t ++
        (varintEncode channel.length ++ (channel ++
         varintEncode future)))).length < 2 ^ 56 := by
    intro reqid channel future t h1 h64 hf ht
    rw [msgFrame_length _ _ _ (by norm_num [constants.CHANNEL_STATE_REQUEST]) h1]
    have htl : (varintEncode t).length = 1 := by
      rw [varintEncode_small t (by omega)]
      rfl
    have hcl : (varintEncode channel.length).length = 1 := by
      rw [varintEncode_small channel.length (by omega)]
      rfl
    have he1 : (varintEncode future).length ≤ 8 :=
      varintEncode_length_le 7 future (by rw [hp53] at hf; norm_num; omega)
    rw [hp56]
    simp only [List.length_append, htl, hcl]
    omega
  have hFcl : ∀ (reqid : List Nat) (argOffset limit t : Nat),
      reqid.length = constants.REQID_SIZE →
      argOffset < 2 ^ 53 → limit < 2 ^ 53 → t ≤ 16 →
      (msgFrame constants.CHANNEL_LIST_REQUEST reqid (varintEncode t ++
        (varintEncode argOffset ++ varintEncode limit))).length < 2 ^ 56 := by
    intro reqid argOffset limit t h1 ho hl ht
    rw [msgFrame_length _ _ _ (by norm_num [constants.CHANNEL_LIST_REQUEST]) h1]
    have htl : (varintEncode t).length = 1 := by
      rw [varintEncode_small t (by omega)]
      rfl
    have he1 : (varintEncode argOffset).length ≤ 8 :=
      varintEncode_length_le 7 argOffset (by rw [hp53] at ho; norm_num; omega)
    have he2 : (varintEncode limit).length ≤ 8 :=
      varintEncode_length_le 7 limit (by rw [hp53] at hl; norm_num; omega)
    rw [hp56]
    simp only [List.length_append, htl]
    omega
  refine ⟨?_, ?_, ?_, ?_, ?_, ?_, ?_, ?_⟩
  · intro reqid ttl hashes h1 htpos httl h2 hc
    refine ⟨_, _, _, POST_REQUEST_create_eq reqid ttl hashes h1 httl h2, ?_,
      POST_REQUEST_create_eq reqid (ttl - 1) hashes h1 (by omega) h2,
      POST_REQUEST_toJSON_eval reqid (ttl - 1) hashes h1 (by omega) h2 hc⟩
    unfold POST_REQUEST.decrementTTL
    exact insertNewTTL_eval constants.POST_REQUEST ttl reqid _
      (by norm_num [constants.POST_REQUEST]) h1
      (hFpr reqid hashes ttl h1 h2 hc httl) (by rw [hp56]; omega) htpos
  · intro reqid ttl channel timeStart timeEnd limit h1 htpos httl hch ht1 ht2 hl
    have h64 : channel.length ≤ 64 := by
      have := hch.2
      simpa [constants.CHANNEL_NAME_MAX_CODEPOINTS] using this
    refine ⟨_, _, _,
      TIME_RANGE_REQUEST_create_eq reqid ttl channel timeStart timeEnd limit
        h1 httl hch, ?_,
      TIME_RANGE_REQUEST_create_eq reqid (ttl - 1) channel timeStart timeEnd limit
        h1 (by omega) hch,
      TIME_RANGE_REQUEST_toJSON_eval reqid (ttl - 1) channel timeStart timeEnd limit
        h1 (by omega) hch ht1 ht2 hl⟩
    unfold TIME_RANGE_REQUEST.decrementTTL
    exact insertNewTTL_eval constants.TIME_RANGE_REQUEST ttl reqid _
      (by norm_num [constants.TIME_RANGE_REQUEST]) h1
      (hFtr reqid channel timeStart timeEnd limit ttl h1 h64 ht1 ht2 hl httl)
      (by rw [hp56]; omega) htpos
  · intro reqid ttl channel future h1 htpos httl hch hf
    have h64 : channel.length ≤ 64 := by
      have := hch.2
      simpa [constants.CHANNEL_NAME_MAX_CODEPOINTS] using this
    refine ⟨_, _, _,
      CHANNEL_STATE_REQUEST_create_eq reqid ttl channel future h1 httl hch, ?_,
      CHANNEL_STATE_REQUEST_create_eq reqid (ttl - 1) channel future h1 (by omega) hch,
      CHANNEL_STATE_REQUEST_toJSON_eval reqid (ttl - 1) channel future h1
        (by omega) hch hf⟩
    unfold CHANNEL_STATE_REQUEST.decrementTTL
    exact insertNewTTL_eval constants.CHANNEL_STATE_REQUEST ttl reqid _
      (by norm_num [constants.CHANNEL_STATE_REQUEST]) h1
      (hFcs reqid channel future ttl h1 h64 hf httl) (by rw [hp56]; omega) htpos
  · intro reqid ttl argOffset limit h1 htpos httl ho hl
    refine ⟨_, _, _,
      CHANNEL_LIST_REQUEST_create_eq reqid ttl argOffset limit h1 httl, ?_,
      CHANNEL_LIST_REQUEST_create_eq reqid (ttl - 1) argOffset limit h1 (by omega),
      CHANNEL_LIST_REQUEST_toJSON_eval reqid (ttl - 1) argOffset limit h1
        (by omega) ho hl⟩
    unfold CHANNEL_LIST_REQUEST.decrementTTL
    exact insertNewTTL_eval constants.CHANNEL_LIST_REQUEST ttl reqid _
      (by norm_num [constants.CHANNEL_LIST_REQUEST]) h1
      (hFcl reqid argOffset limit ttl h1 ho hl httl) (by rw [hp56]; omega) htpos
  · intro reqid hashes h1 h2 hc
    refine ⟨_, POST_REQUEST_create_eq reqid 0 hashes h1 (by norm_num) h2, ?_⟩
    unfold POST_REQUEST.decrementTTL
    exact insertNewTTL_zero constants.POST_REQUEST reqid _
      (by norm_num [constants.POST_REQUEST]) h1
      (hFpr reqid hashes 0 h1 h2 hc (by norm_num))
  · intro reqid channel timeStart timeEnd limit h1 hch ht1 ht2 hl
    have h64 : channel.length ≤ 64 := by
      have := hch.2
      simpa [constants.CHANNEL_NAME_MAX_CODEPOINTS] using this
    refine ⟨_, TIME_RANGE_REQUEST_create_eq reqid 0 channel timeStart timeEnd limit
      h1 (by norm_num) hch, ?_⟩
    unfold TIME_RANGE_REQUEST.decrementTTL
    exact insertNewTTL_zero constants.TIME_RANGE_REQUEST reqid _
      (by norm_num [constants.TIME_RANGE_REQUEST]) h1
      (hFtr reqid channel timeStart timeEnd limit 0 h1 h64 ht1 ht2 hl (by norm_num))
  · intro reqid channel future h1 hch hf
    have h64 : channel.length ≤ 64 := by
      have := hch.2
      simpa [constants.CHANNEL_NAME_MAX_CODEPOINTS] using this
    refine ⟨_, CHANNEL_STATE_REQUEST_create_eq reqid 0 channel future h1
      (by norm_num) hch, ?_⟩
    unfold CHANNEL_STATE_REQUEST.decrementTTL
    exact insertNewTTL_zero constants.CHANNEL_STATE_REQUEST reqid _
      (by norm_num [constants.CHANNEL_STATE_REQUEST]) h1
      (hFcs reqid channel future 0 h1 h64 hf (by norm_num))
  · intro reqid argOffset limit h1 ho hl
    refine ⟨_, CHANNEL_LIST_REQUEST_create_eq reqid 0 argOffset limit h1
      (by norm_num), ?_⟩
    unfold CHANNEL_LIST_REQUEST.decrementTTL
    exact insertNewTTL_zero constants.CHANNEL_LIST_REQUEST reqid _
      (by norm_num [constants.CHANNEL_LIST_REQUEST]) h1
      (hFcl reqid argOffset limit 0 h1 ho hl (by norm_num))

theorem claim_C3_witness :
    (∃ B Bd m, POST_REQUEST.create [0, 0, 0, 0] 1 [] = .ok B ∧
      POST_REQUEST.decrementTTL B = .ok Bd ∧
      POST_REQUEST.create [0, 0, 0, 0] 0 [] = .ok Bd ∧
      POST_REQUEST.toJSON Bd = .ok ⟨m, constants.POST_REQUEST, [0, 0, 0, 0], 0, []⟩) ∧
    (∃ B, POST_REQUEST.create [0, 0, 0, 0] 0 [] = .ok B ∧
      POST_REQUEST.decrementTTL B = .threw .ttlNegative) :=
  ⟨claim_C3.1 [0, 0, 0, 0] 1 [] (by decide) (by decide) (by decide) (by decide)
    (by decide),
   (claim_C3.2.2.2.2.1 : _) [0, 0, 0, 0] [] (by decide) (by decide) (by decide)⟩

/-- C1 (amended): round-trip identity — for every message and exposed post
type, decoding the create output returns a record carrying exactly the
created fields (plus the derived msgLen / signature).  The POST_RESPONSE
part additionally requires every post nonempty: the original unqualified
claim fails there, because an empty post buffer collides with the
zero-length sentinel (see the counterexample). -/
theorem claim_C1 :
    (∀ (reqid : List Nat) (hashes : List (List Nat)),
      reqid.length = constants.REQID_SIZE →
      (∀ x ∈ hashes, x.length = constants.HASH_SIZE) → hashes.length < 2 ^ 32 →
      ∃ B m, HASH_RESPONSE.create reqid hashes = .ok B ∧
        HASH_RESPONSE.toJSON B = .ok ⟨m, constants.HASH_RESPONSE, reqid, hashes⟩) ∧
    (∀ (reqid : List Nat) (posts : List (List Nat)),
      reqid.length = constants.REQID_SIZE →
      (∀ p ∈ posts, p ≠ []) → countPostsBytes posts < 2 ^ 50 →
      ∃ B m, POST_RESPONSE.create reqid posts = .ok B ∧
        POST_RESPONSE.toJSON B = .ok ⟨m, constants.POST_RESPONSE, reqid, posts⟩) ∧
    (∀ (reqid : List Nat) (ttl : Nat) (hashes : List (List Nat)),
      reqid.length = constants.REQID_SIZE → ttl ≤ 16 →
      (∀ x ∈ hashes, x.length = constants.HASH_SIZE) → hashes.length < 2 ^ 32 →
      ∃ B m, POST_REQUEST.create reqid ttl hashes = .ok B ∧
        POST_REQUEST.toJSON B = .ok ⟨m, constants.POST_REQUEST, reqid, ttl, hashes⟩) ∧
    (∀ (reqid : List Nat) (ttl : Nat) (cancelid : List Nat),
      reqid.length = constants.REQID_SIZE → ttl ≤ 16 →
      cancelid.length = constants.REQID_SIZE →
      ∃ B m, CANCEL_REQUEST.create reqid ttl cancelid = .ok B ∧
        CANCEL_REQUEST.toJSON B =
          .ok ⟨m, constants.CANCEL_REQUEST, reqid, ttl, cancelid⟩) ∧
    (∀ (reqid : List Nat) (ttl : Nat) (channel : List Nat)
        (timeStart timeEnd limit : Nat),
      reqid.length = constants.REQID_SIZE → ttl ≤ 16 →
      constants.CHANNEL_NAME_MIN_CODEPOINTS ≤ channel.length ∧
        channel.length ≤ constants.CHANNEL_NAME_MAX_CODEPOINTS →
      timeStart < 2 ^ 53 → timeEnd < 2 ^ 53 → limit < 2 ^ 53 →
      ∃ B m, TIME_RANGE_REQUEST.create reqid ttl channel timeStart timeEnd limit =
          .ok B ∧
        TIME_RANGE_REQUEST.toJSON B =
          .ok ⟨m, constants.TIME_RANGE_REQUEST, reqid, ttl, channel,
               some timeStart, some timeEnd, some limit⟩) ∧
    (∀ (reqid : List Nat) (ttl : Nat) (channel : List Nat) (future : Nat),
      reqid.length = constants.REQID_SIZE → ttl ≤ 16 →
      constants.CHANNEL_NAME_MIN_CODEPOINTS ≤ channel.length ∧
        channel.length ≤ constants.CHANNEL_NAME_MAX_CODEPOINTS →
      future < 2 ^ 53 →
      ∃ B m, CHANNEL_STATE_REQUEST.create reqid ttl channel future = .ok B ∧
        CHANNEL_STATE_REQUEST.toJSON B =
          .ok ⟨m, constants.CHANNEL_STATE_REQUEST, reqid, ttl, channel,
               some future⟩) ∧
    (∀ (reqid : List Nat) (ttl argOffset limit : Nat),
      reqid.length = constants.REQID_SIZE → ttl ≤ 16 →
      argOffset < 2 ^ 53 → limit < 2 ^ 53 →
      ∃ B m, CHANNEL_LIST_REQUEST.create reqid ttl argOffset limit = .ok B ∧
        CHANNEL_LIST_REQUEST.toJSON B =
          .ok ⟨m, constants.CHANNEL_LIST_REQUEST, reqid, ttl,
               some argOffset, some limit⟩) ∧
    (∀ (reqid : List Nat) (channels : List (List Nat)),
      reqid.length = constants.REQID_SIZE →
      (∀ c ∈ channels, constants.CHANNEL_NAME_MIN_CODEPOINTS ≤ c.length ∧
        c.length ≤ constants.CHANNEL_NAME_MAX_CODEPOINTS) →
      channels.length < 2 ^ 32 →
      ∃ B m, CHANNEL_LIST_RESPONSE.create reqid channels = .ok B ∧
        CHANNEL_LIST_RESPONSE.toJSON B =
          .ok ⟨m, constants.CHANNEL_LIST_RESPONSE, reqid, channels⟩) ∧
    (∀ (reqid : List Nat) (channels : List (List Nat)) (future oldest : Nat),
      reqid.length = constants.REQID_SIZE →
      (∀ c ∈ channels, constants.CHANNEL_NAME_MIN_CODEPOINTS ≤ c.length ∧
        c.length ≤ constants.CHANNEL_NAME_MAX_CODEPOINTS) →
      channels.length < 2 ^ 32 → future < 2 ^ 53 → oldest < 2 ^ 53 →
      ∃ B m, MODERATION_STATE_REQUEST.create reqid channels future oldest = .ok B ∧
        MODERATION_STATE_REQUEST.toJSON B =
          .ok ⟨m, constants.MODERATION_STATE_REQUEST, reqid, channels,
               some future, some oldest⟩) ∧
    (∀ (s : SigScheme) (publicKey secretKey : List Nat) (links : List (List Nat))
        (channel : List Nat) (timestamp : Nat) (text : List Nat),
      publicKey.length = constants.PUBLICKEY_SIZE →
      secretKey.length = constants.SECRETKEY_SIZE →
      (∀ x ∈ links, x.length = constants.HASH_SIZE) → links.length < 2 ^ 32 →
      constants.CHANNEL_NAME_MIN_CODEPOINTS ≤ channel.length ∧
        channel.length ≤ constants.CHANNEL_NAME_MAX_CODEPOINTS →
      text.length ≤ constants.POST_TEXT_MAX_BYTES → timestamp < 2 ^ 53 →
      publicKey = s.pk secretKey →
      ∃ B sg, TEXT_POST.create s publicKey secretKey links channel timestamp text =
          .ok B ∧
        TEXT_POST.toJSON s B =
          .ok ⟨publicKey, sg, links, constants.TEXT_POST, channel,
               some timestamp, text⟩) ∧
    (∀ (s : SigScheme) (publicKey secretKey : List Nat) (links : List (List Nat))
        (timestamp : Nat) (hashes : List (List Nat)),
      publicKey.length = constants.PUBLICKEY_SIZE →
      secretKey.length = constants.SECRETKEY_SIZE →
      (∀ x ∈ links, x.length = constants.HASH_SIZE) → links.length < 2 ^ 32 →
      (∀ x ∈ hashes, x.length = constants.HASH_SIZE) → hashes.length < 2 ^ 32 →
      timestamp < 2 ^ 53 → publicKey = s.pk secretKey →
      ∃ B sg, DELETE_POST.create s publicKey secretKey links timestamp hashes =
          .ok B ∧
        DELETE_POST.toJSON s B =
          .ok ⟨publicKey, sg, links, constants.DELETE_POST, some timestamp,
               hashes⟩) ∧
    (∀ (s : SigScheme) (publicKey secretKey : List Nat) (links : List (List Nat))
        (timestamp : Nat) (key value : List Nat),
      publicKey.length = constants.PUBLICKEY_SIZE →
      secretKey.length = constants.SECRETKEY_SIZE →
      (∀ x ∈ links, x.length = constants.HASH_SIZE) → links.length < 2 ^ 32 →
      constants.INFO_KEY_MIN_CODEPOINTS ≤ key.length ∧
        key.length ≤ constants.INFO_KEY_MAX_CODEPOINTS →
      value.length ≤ constants.INFO_VALUE_MAX_BYTES →
      (if key = nameKeyBytes then validation.checkUsername value else none) = none →
      timestamp < 2 ^ 53 → publicKey = s.pk secretKey →
      ∃ B sg, INFO_POST.create s publicKey secretKey links timestamp key value =
          .ok B ∧
        INFO_POST.toJSON s B =
          .ok ⟨publicKey, sg, links, constants.INFO_POST, some timestamp,
               key, value⟩) ∧
    (∀ (s : SigScheme) (publicKey secretKey : List Nat) (links : List (List Nat))
        (channel : List Nat) (timestamp : Nat) (topic : List Nat),
      publicKey.length = constants.PUBLICKEY_SIZE →
      secretKey.length = constants.SECRETKEY_SIZE →
      (∀ x ∈ links, x.length = constants.HASH_SIZE) → links.length < 2 ^ 32 →
      constants.CHANNEL_NAME_MIN_CODEPOINTS ≤ channel.length ∧
        channel.length ≤ constants.CHANNEL_NAME_MAX_CODEPOINTS →
      topic.length ≤ constants.TOPIC_MAX_CODEPOINTS → timestamp < 2 ^ 53 →
      publicKey = s.pk secretKey →
      ∃ B sg, TOPIC_POST.create s publicKey secretKey links channel timestamp topic =
          .ok B ∧
        TOPIC_POST.toJSON s B =
          .ok ⟨publicKey, sg, links, constants.TOPIC_POST, channel,
               some timestamp, topic⟩) ∧
    (∀ (s : SigScheme) (publicKey secretKey : List Nat) (links : List (List Nat))
        (channel : List Nat) (timestamp : Nat),
      publicKey.length = constants.PUBLICKEY_SIZE →
      secretKey.length = constants.SECRETKEY_SIZE →
      (∀ x ∈ links, x.length = constants.HASH_SIZE) → links.length < 2 ^ 32 →
      constants.CHANNEL_NAME_MIN_CODEPOINTS ≤ channel.length ∧
        channel.length ≤ constants.CHANNEL_NAME_MAX_CODEPOINTS →
      timestamp < 2 ^ 53 → publicKey = s.pk secretKey →
      ∃ B, JOIN_POST.create s publicKey secretKey links channel timestamp = .ok B ∧
        JOIN_POST.toJSON s B =
          .ok ⟨publicKey, s.sigbytes secretKey
                 (postPayload constants.JOIN_POST links timestamp
                   (varintEncode channel.length ++ channel)),
               links, constants.JOIN_POST, channel, some timestamp⟩) ∧
    (∀ (s : SigScheme) (publicKey secretKey : List Nat) (links : List (List Nat))
        (channel : List Nat) (timestamp : Nat),
      publicKey.length = constants.PUBLICKEY_SIZE →
      secretKey.length = constants.SECRETKEY_SIZE →
      (∀ x ∈ links, x.length = constants.HASH_SIZE) → links.length < 2 ^ 32 →
      constants.CHANNEL_NAME_MIN_CODEPOINTS ≤ channel.length ∧
        channel.length ≤ constants.CHANNEL_NAME_MAX_CODEPOINTS →
      timestamp < 2 ^ 53 → publicKey = s.pk secretKey →
      ∃ B, LEAVE_POST.create s publicKey secretKey links channel timestamp = .ok B ∧
        LEAVE_POST.toJSON s B =
          .ok ⟨publicKey, s.sigbytes secretKey
                 (postPayload constants.LEAVE_POST links timestamp
                   (varintEncode channel.length ++ channel)),
               links, constants.LEAVE_POST, channel, some timestamp⟩) := by
  refine ⟨?_, ?_, ?_, ?_, ?_, ?_, ?_, ?_, ?_, ?_, ?_, ?_, ?_, ?_, ?_⟩
  · intro reqid hashes h1 h2 hc
    exact ⟨_, _, HASH_RESPONSE_create_eq reqid hashes h1 h2,
      HASH_RESPONSE_toJSON_eval reqid hashes h1 h2 hc⟩
  · intro reqid posts h1 hp hb
    exact ⟨_, _, POST_RESPONSE_create_eq reqid posts h1,
      POST_RESPONSE_toJSON_eval reqid posts h1 hp hb⟩
  · intro reqid ttl hashes h1 httl h2 hc
    exact ⟨_, _, POST_REQUEST_create_eq reqid ttl hashes h1 httl h2,
      POST_REQUEST_toJSON_eval reqid ttl hashes h1 httl h2 hc⟩
  · intro reqid ttl cancelid h1 httl h2
    exact ⟨_, _, CANCEL_REQUEST_create_eq reqid ttl cancelid h1 httl h2,
      CANCEL_REQUEST_toJSON_eval reqid ttl cancelid h1 httl h2⟩
  · intro reqid ttl channel timeStart timeEnd limit h1 httl hch ht1 ht2 hl
    exact ⟨_, _,
      TIME_RANGE_REQUEST_create_eq reqid ttl channel timeStart timeEnd limit
        h1 httl hch,
      TIME_RANGE_REQUEST_toJSON_eval reqid ttl channel timeStart timeEnd limit
        h1 httl hch ht1 ht2 hl⟩
  · intro reqid ttl channel future h1 httl hch hf
    exact ⟨_, _, CHANNEL_STATE_REQUEST_create_eq reqid ttl channel future h1 httl hch,
      CHANNEL_STATE_REQUEST_toJSON_eval reqid ttl channel future h1 httl hch hf⟩
  · intro reqid ttl argOffset limit h1 httl ho hl
    exact ⟨_, _, CHANNEL_LIST_REQUEST_create_eq reqid ttl argOffset limit h1 httl,
      CHANNEL_LIST_REQUEST_toJSON_eval reqid ttl argOffset limit h1 httl ho hl⟩
  · intro reqid channels h1 hch hcount
    exact ⟨_, _, CHANNEL_LIST_RESPONSE_create_eq reqid channels h1 hch,
      CHANNEL_LIST_RESPONSE_toJSON_eval reqid channels h1 hch hcount⟩
  · intro reqid channels future oldest h1 hch hcount hf ho
    exact ⟨_, _, MODERATION_STATE_REQUEST_create_eq reqid channels future oldest h1 hch,
      MODERATION_STATE_REQUEST_toJSON_eval reqid channels future oldest h1 hch
        hcount hf ho⟩
  · intro s publicKey secretKey links channel timestamp text hpk hsk hl hlc hch htx
      hts hkey
    exact ⟨_, _, TEXT_POST_create_eq s publicKey secretKey links channel timestamp
      text hpk hsk hl hch htx hkey,
      TEXT_POST_toJSON_eval s publicKey secretKey links channel timestamp text
        hpk hl hlc hch htx hts hkey⟩
  · intro s publicKey secretKey links timestamp hashes hpk hsk hl hlc hh hhc hts hkey
    exact ⟨_, _, DELETE_POST_create_eq s publicKey secretKey links timestamp hashes
      hpk hsk hl hh hkey,
      DELETE_POST_toJSON_eval s publicKey secretKey links timestamp hashes
        hpk hl hlc hh hhc hts hkey⟩
  · intro s publicKey secretKey links timestamp key value hpk hsk hl hlc hk hv
      hname hts hkey
    exact ⟨_, _, INFO_POST_create_eq s publicKey secretKey links timestamp key value
      hpk hsk hl hk hv hname hkey,
      INFO_POST_toJSON_eval s publicKey secretKey links timestamp key value
        hpk hl hlc hk hv hname hts hkey⟩
  · intro s publicKey secretKey links channel timestamp topic hpk hsk hl hlc hch
      htp hts hkey
    exact ⟨_, _, TOPIC_POST_create_eq s publicKey secretKey links channel timestamp
      topic hpk hsk hl hch htp hkey,
      TOPIC_POST_toJSON_eval s publicKey secretKey links channel timestamp topic
        hpk hl hlc hch htp hts hkey⟩
  · intro s publicKey secretKey links channel timestamp hpk hsk hl hlc hch hts hkey
    exact ⟨_, JOIN_POST_create_eq s publicKey secretKey links channel timestamp
      hpk hsk hl hch hkey,
      JOIN_POST_toJSON_eval s publicKey secretKey links channel timestamp
        hpk hl hlc hch hts hkey⟩
  · intro s publicKey secretKey links channel timestamp hpk hsk hl hlc hch hts hkey
    exact ⟨_, LEAVE_POST_create_eq s publicKey secretKey links channel timestamp
      hpk hsk hl hch hkey,
      LEAVE_POST_toJSON_eval s publicKey secretKey links channel timestamp
        hpk hl hlc hch hts hkey⟩

/-- C1 counterexample to the original unqualified claim: POST_RESPONSE
accepts the post list [[]] but its decode stops at the empty post, which is
indistinguishable from the length-0 sentinel: the round trip returns posts
[] ≠ [[]]. -/
theorem claim_C1_counterexample :
    POST_RESPONSE.create [0, 0, 0, 0] [[]] =
      .ok [11, 1, 0, 0, 0, 0, 0, 0, 0, 0, 0, 0] ∧
    POST_RESPONSE.toJSON [11, 1, 0, 0, 0, 0, 0, 0, 0, 0, 0, 0] =
      .ok ⟨11, constants.POST_RESPONSE, [0, 0, 0, 0], []⟩ ∧
    ([] : List (List Nat)) ≠ [[]] :=
  ⟨by decide, by decide, by decide⟩

theorem claim_C1_witness :
    (∃ B m, HASH_RESPONSE.create [1, 2, 3, 4] [] = .ok B ∧
      HASH_RESPONSE.toJSON B = .ok ⟨m, constants.HASH_RESPONSE, [1, 2, 3, 4], []⟩) ∧
    (∃ B sg, TEXT_POST.create witScheme (List.replicate 32 0) (List.replicate 64 0)
        [] [99] 0 [] = .ok B ∧
      TEXT_POST.toJSON witScheme B =
        .ok ⟨List.replicate 32 0, sg, [], constants.TEXT_POST, [99], some 0, []⟩) :=
  ⟨claim_C1.1 [1, 2, 3, 4] [] (by decide) (by decide) (by decide),
   claim_C1.2.2.2.2.2.2.2.2.2.1 witScheme (List.replicate 32 0) (List.replicate 64 0)
     [] [99] 0 [] (by decide) (by decide) (by decide) (by decide) (by decide)
     (by decide) (by decide) (by decide)⟩

/-- C7: signature tamper detection — for every post type, replacing a byte
in the payload region (index ≥ 96) of a create output yields a buffer on
which toJSON throws the bad-signature error.  The spec places the signature
primitive out of scope, so "a changed payload fails verification" enters as
the per-instance hypothesis on s.verifies (for any real scheme that is its
security property; the concrete witScheme below satisfies it at the witness
input).  UNBLOCK_POST never produces a buffer at all: its create always
throws, which the last part records. -/
theorem claim_C7 :
    (∀ (s : SigScheme) (publicKey secretKey : List Nat) (links : List (List Nat))
        (channel : List Nat) (timestamp : Nat) (text : List Nat) (i b : Nat)
        (B : List Nat),
      publicKey.length = constants.PUBLICKEY_SIZE →
      secretKey.length = constants.SECRETKEY_SIZE →
      (∀ x ∈ links, x.length = constants.HASH_SIZE) →
      constants.CHANNEL_NAME_MIN_CODEPOINTS ≤ channel.length ∧
        channel.length ≤ constants.CHANNEL_NAME_MAX_CODEPOINTS →
      text.length ≤ constants.POST_TEXT_MAX_BYTES →
      publicKey = s.pk secretKey →
      TEXT_POST.create s publicKey secretKey links channel timestamp text = .ok B →
      constants.PUBLICKEY_SIZE + constants.SIGNATURE_SIZE ≤ i → i < B.length →
      s.verifies publicKey (s.sigbytes secretKey (B.drop (constants.PUBLICKEY_SIZE + constants.SIGNATURE_SIZE)))
        ((B.drop (constants.PUBLICKEY_SIZE + constants.SIGNATURE_SIZE)).set (i - (constants.PUBLICKEY_SIZE + constants.SIGNATURE_SIZE)) b) = false →
      TEXT_POST.toJSON s (B.set i b) = .threw .badSignature) ∧
    (∀ (s : SigScheme) (publicKey secretKey : List Nat) (links : List (List Nat))
        (timestamp : Nat) (hashes : List (List Nat)) (i b : Nat)
        (B : List Nat),
      publicKey.length = constants.PUBLICKEY_SIZE →
      secretKey.length = constants.SECRETKEY_SIZE →
      (∀ x ∈ links, x.length = constants.HASH_SIZE) →
      (∀ x ∈ hashes, x.length = constants.HASH_SIZE) →
      publicKey = s.pk secretKey →
      DELETE_POST.create s publicKey secretKey links timestamp hashes = .ok B →
      constants.PUBLICKEY_SIZE + constants.SIGNATURE_SIZE ≤ i → i < B.length →
      s.verifies publicKey (s.sigbytes secretKey (B.drop (constants.PUBLICKEY_SIZE + constants.SIGNATURE_SIZE)))
        ((B.drop (constants.PUBLICKEY_SIZE + constants.SIGNATURE_SIZE)).set (i - (constants.PUBLICKEY_SIZE + constants.SIGNATURE_SIZE)) b) = false →
      DELETE_POST.toJSON s (B.set i b) = .threw .badSignature) ∧
    (∀ (s : SigScheme) (publicKey secretKey : List Nat) (links : List (List Nat))
        (timestamp : Nat) (key value : List Nat) (i b : Nat)
        (B : List Nat),
      publicKey.length = constants.PUBLICKEY_SIZE →
      secretKey.length = constants.SECRETKEY_SIZE →
      (∀ x ∈ links, x.length = constants.HASH_SIZE) →
      constants.INFO_KEY_MIN_CODEPOINTS ≤ key.length ∧
        key.length ≤ constants.INFO_KEY_MAX_CODEPOINTS →
      value.length ≤ constants.INFO_VALUE_MAX_BYTES →
      (if key = nameKeyBytes then validation.checkUsername value else none) = none →
      publicKey = s.pk secretKey →
      INFO_POST.create s publicKey secretKey links timestamp key value = .ok B →
      constants.PUBLICKEY_SIZE + constants.SIGNATURE_SIZE ≤ i → i < B.length →
      s.verifies publicKey (s.sigbytes secretKey (B.drop (constants.PUBLICKEY_SIZE + constants.SIGNATURE_SIZE)))
        ((B.drop (constants.PUBLICKEY_SIZE + constants.SIGNATURE_SIZE)).set (i - (constants.PUBLICKEY_SIZE + constants.SIGNATURE_SIZE)) b) = false →
      INFO_POST.toJSON s (B.set i b) = .threw .badSignature) ∧
    (∀ (s : SigScheme) (publicKey secretKey : List Nat) (links : List (List Nat))
        (channel : List Nat) (timestamp : Nat) (topic : List Nat) (i b : Nat)
        (B : List Nat),
      publicKey.length = constants.PUBLICKEY_SIZE →
      secretKey.length = constants.SECRETKEY_SIZE →
      (∀ x ∈ links, x.length = constants.HASH_SIZE) →
      constants.CHANNEL_NAME_MIN_CODEPOINTS ≤ channel.length ∧
        channel.length ≤ constants.CHANNEL_NAME_MAX_CODEPOINTS →
      topic.length ≤ constants.TOPIC_MAX_CODEPOINTS →
      publicKey = s.pk secretKey →
      TOPIC_POST.create s publicKey secretKey links channel timestamp topic = .ok B →
      constants.PUBLICKEY_SIZE + constants.SIGNATURE_SIZE ≤ i → i < B.length →
      s.verifies publicKey (s.sigbytes secretKey (B.drop (constants.PUBLICKEY_SIZE + constants.SIGNATURE_SIZE)))
        ((B.drop (constants.PUBLICKEY_SIZE + constants.SIGNATURE_SIZE)).set (i - (constants.PUBLICKEY_SIZE + constants.SIGNATURE_SIZE)) b) = false →
      TOPIC_POST.toJSON s (B.set i b) = .threw .badSignature) ∧
    (∀ (s : SigScheme) (publicKey secretKey : List Nat) (links : List (List Nat))
        (channel : List Nat) (timestamp : Nat) (i b : Nat)
        (B : List Nat),
      publicKey.length = constants.PUBLICKEY_SIZE →
      secretKey.length = constants.SECRETKEY_SIZE →
      (∀ x ∈ links, x.length = constants.HASH_SIZE) →
      constants.CHANNEL_NAME_MIN_CODEPOINTS ≤ channel.length ∧
        channel.length ≤ constants.CHANNEL_NAME_MAX_CODEPOINTS →
      publicKey = s.pk secretKey →
      JOIN_POST.create s publicKey secretKey links channel timestamp = .ok B →
      constants.PUBLICKEY_SIZE + constants.SIGNATURE_SIZE ≤ i → i < B.length →
      s.verifies publicKey (s.sigbytes secretKey (B.drop (constants.PUBLICKEY_SIZE + constants.SIGNATURE_SIZE)))
        ((B.drop (constants.PUBLICKEY_SIZE + constants.SIGNATURE_SIZE)).set (i - (constants.PUBLICKEY_SIZE + constants.SIGNATURE_SIZE)) b) = false →
      JOIN_POST.toJSON s (B.set i b) = .threw .badSignature) ∧
    (∀ (s : SigScheme) (publicKey secretKey : List Nat) (links : List (List Nat))
        (channel : List Nat) (timestamp : Nat) (i b : Nat)
        (B : List Nat),
      publicKey.length = constants.PUBLICKEY_SIZE →
      secretKey.length = constants.SECRETKEY_SIZE →
      (∀ x ∈ links, x.length = constants.HASH_SIZE) →
      constants.CHANNEL_NAME_MIN_CODEPOINTS ≤ channel.length ∧
        channel.length ≤ constants.CHANNEL_NAME_MAX_CODEPOINTS →
      publicKey = s.pk secretKey →
      LEAVE_POST.create s publicKey secretKey links channel timestamp = .ok B →
      constants.PUBLICKEY_SIZE + constants.SIGNATURE_SIZE ≤ i → i < B.length →
      s.verifies publicKey (s.sigbytes secretKey (B.drop (constants.PUBLICKEY_SIZE + constants.SIGNATURE_SIZE)))
        ((B.drop (constants.PUBLICKEY_SIZE + constants.SIGNATURE_SIZE)).set (i - (constants.PUBLICKEY_SIZE + constants.SIGNATURE_SIZE)) b) = false →
      LEAVE_POST.toJSON s (B.set i b) = .threw .badSignature) ∧
    (∀ (s : SigScheme) (publicKey secretKey : List Nat) (links : List (List Nat))
        (channel : List Nat) (timestamp : Nat) (recipient : List Nat)
        (role : Nat) (reason : List Nat) (privacy : Nat) (i b : Nat)
        (B : List Nat),
      publicKey.length = constants.PUBLICKEY_SIZE →
      secretKey.length = constants.SECRETKEY_SIZE →
      recipient.length = constants.PUBLICKEY_SIZE →
      (∀ x ∈ links, x.length = constants.HASH_SIZE) →
      constants.CHANNEL_NAME_MIN_CODEPOINTS ≤ channel.length ∧
        channel.length ≤ constants.CHANNEL_NAME_MAX_CODEPOINTS →
      reason.length ≤ constants.REASON_MAX_CODEPOINTS →
      publicKey = s.pk secretKey →
      ROLE_POST.create s publicKey secretKey links channel timestamp
        recipient role reason privacy = .ok B →
      constants.PUBLICKEY_SIZE + constants.SIGNATURE_SIZE ≤ i → i < B.length →
      s.verifies publicKey (s.sigbytes secretKey (B.drop (constants.PUBLICKEY_SIZE + constants.SIGNATURE_SIZE)))
        ((B.drop (constants.PUBLICKEY_SIZE + constants.SIGNATURE_SIZE)).set (i - (constants.PUBLICKEY_SIZE + constants.SIGNATURE_SIZE)) b) = false →
      ROLE_POST.toJSON s (B.set i b) = .threw .badSignature) ∧
    (∀ (s : SigScheme) (publicKey secretKey : List Nat) (links : List (List Nat))
        (channel : List Nat) (timestamp : Nat) (recipients : List (List Nat))
        (action : Nat) (reason : List Nat) (privacy : Nat) (i b : Nat)
        (B : List Nat),
      publicKey.length = constants.PUBLICKEY_SIZE →
      secretKey.length = constants.SECRETKEY_SIZE →
      (∀ x ∈ links, x.length = constants.HASH_SIZE) →
      (∀ x ∈ recipients, x.length = constants.PUBLICKEY_SIZE) →
      action ≠ constants.ACTION_DROP_CHANNEL →
      action ≠ constants.ACTION_UNDROP_CHANNEL →
      constants.CHANNEL_NAME_MIN_CODEPOINTS ≤ channel.length ∧
        channel.length ≤ constants.CHANNEL_NAME_MAX_CODEPOINTS →
      reason.length ≤ constants.REASON_MAX_CODEPOINTS →
      constants.RECIPIENT_COUNT_MIN ≤ recipients.length ∧
        recipients.length ≤ constants.RECIPIENT_COUNT_MAX →
      publicKey = s.pk secretKey →
      MODERATION_POST.create s publicKey secretKey links channel timestamp
        recipients action reason privacy = .ok B →
      constants.PUBLICKEY_SIZE + constants.SIGNATURE_SIZE ≤ i → i < B.length →
      s.verifies publicKey (s.sigbytes secretKey (B.drop (constants.PUBLICKEY_SIZE + constants.SIGNATURE_SIZE)))
        ((B.drop (constants.PUBLICKEY_SIZE + constants.SIGNATURE_SIZE)).set (i - (constants.PUBLICKEY_SIZE + constants.SIGNATURE_SIZE)) b) = false →
      MODERATION_POST.toJSON s (B.set i b) = .threw .badSignature) ∧
    (∀ (s : SigScheme) (publicKey secretKey : List Nat) (links : List (List Nat))
        (timestamp : Nat) (recipients : List (List Nat))
        (drop notify : Nat) (reason : List Nat) (privacy : Nat) (i b : Nat)
        (B : List Nat),
      publicKey.length = constants.PUBLICKEY_SIZE →
      secretKey.length = constants.SECRETKEY_SIZE →
      (∀ x ∈ links, x.length = constants.HASH_SIZE) →
      (∀ x ∈ recipients, x.length = constants.PUBLICKEY_SIZE) →
      reason.length ≤ constants.REASON_MAX_CODEPOINTS →
      constants.RECIPIENT_COUNT_MIN ≤ recipients.length ∧
        recipients.length ≤ constants.RECIPIENT_COUNT_MAX →
      publicKey = s.pk secretKey →
      BLOCK_POST.create s publicKey secretKey links timestamp recipients
        drop notify reason privacy = .ok B →
      constants.PUBLICKEY_SIZE + constants.SIGNATURE_SIZE ≤ i → i < B.length →
      s.verifies publicKey (s.sigbytes secretKey (B.drop (constants.PUBLICKEY_SIZE + constants.SIGNATURE_SIZE)))
        ((B.drop (constants.PUBLICKEY_SIZE + constants.SIGNATURE_SIZE)).set (i - (constants.PUBLICKEY_SIZE + constants.SIGNATURE_SIZE)) b) = false →
      BLOCK_POST.toJSON s (B.set i b) = .threw .badSignature) ∧
    (∀ (publicKey secretKey : List Nat) (links recipients : List (List Nat)),
      publicKey.length = constants.PUBLICKEY_SIZE →
      secretKey.length = constants.SECRETKEY_SIZE →
      (∀ x ∈ links, x.length = constants.HASH_SIZE) →
      (∀ x ∈ recipients, x.length = constants.PUBLICKEY_SIZE) →
      UNBLOCK_POST.create publicKey secretKey links recipients =
        .threw (.referenceError "notify")) := by
  refine ⟨?_, ?_, ?_, ?_, ?_, ?_, ?_, ?_, ?_, ?_⟩
  · intro s publicKey secretKey links channel timestamp text i b B hpk hsk hl hch htx hkey hcr hi hiB hver
    rw [TEXT_POST_create_eq s publicKey secretKey links channel timestamp text
      hpk hsk hl hch htx hkey] at hcr
    injection hcr with hB
    subst hB
    rw [signedPost_drop_payload _ _ _ hpk (s.siglen _ _)] at hver
    exact TEXT_POST_toJSON_badsig s _ (tampered_verify_false s publicKey _ _ i b hpk
      (s.siglen _ _) hi hver)
  · intro s publicKey secretKey links timestamp hashes i b B hpk hsk hl hh hkey hcr hi hiB hver
    rw [DELETE_POST_create_eq s publicKey secretKey links timestamp hashes
      hpk hsk hl hh hkey] at hcr
    injection hcr with hB
    subst hB
    rw [signedPost_drop_payload _ _ _ hpk (s.siglen _ _)] at hver
    exact DELETE_POST_toJSON_badsig s _ (tampered_verify_false s publicKey _ _ i b hpk
      (s.siglen _ _) hi hver)
  · intro s publicKey secretKey links timestamp key value i b B hpk hsk hl hk hv hname hkey hcr hi hiB hver
    rw [INFO_POST_create_eq s publicKey secretKey links timestamp key value
      hpk hsk hl hk hv hname hkey] at hcr
    injection hcr with hB
    subst hB
    rw [signedPost_drop_payload _ _ _ hpk (s.siglen _ _)] at hver
    exact INFO_POST_toJSON_badsig s _ (tampered_verify_false s publicKey _ _ i b hpk
      (s.siglen _ _) hi hver)
  · intro s publicKey secretKey links channel timestamp topic i b B hpk hsk hl hch htp hkey hcr hi hiB hver
    rw [TOPIC_POST_create_eq s publicKey secretKey links channel timestamp topic
      hpk hsk hl hch htp hkey] at hcr
    injection hcr with hB
    subst hB
    rw [signedPost_drop_payload _ _ _ hpk (s.siglen _ _)] at hver
    exact TOPIC_POST_toJSON_badsig s _ (tampered_verify_false s publicKey _ _ i b hpk
      (s.siglen _ _) hi hver)
  · intro s publicKey secretKey links channel timestamp i b B hpk hsk hl hch hkey hcr hi hiB hver
    rw [JOIN_POST_create_eq s publicKey secretKey links channel timestamp
      hpk hsk hl hch hkey] at hcr
    injection hcr with hB
    subst hB
    rw [signedPost_drop_payload _ _ _ hpk (s.siglen _ _)] at hver
    exact JOIN_POST_toJSON_badsig s _ (tampered_verify_false s publicKey _ _ i b hpk
      (s.siglen _ _) hi hver)
  · intro s publicKey secretKey links channel timestamp i b B hpk hsk hl hch hkey hcr hi hiB hver
    rw [LEAVE_POST_create_eq s publicKey secretKey links channel timestamp
      hpk hsk hl hch hkey] at hcr
    injection hcr with hB
    subst hB
    rw [signedPost_drop_payload _ _ _ hpk (s.siglen _ _)] at hver
    exact LEAVE_POST_toJSON_badsig s _ (tampered_verify_false s publicKey _ _ i b hpk
      (s.siglen _ _) hi hver)
  · intro s publicKey secretKey links channel timestamp recipient role reason privacy i b B hpk hsk hrcp hl hch hrs hkey hcr hi hiB hver
    rw [ROLE_POST_create_eq s publicKey secretKey links channel timestamp
      recipient role reason privacy hpk hsk hrcp hl hch hrs hkey] at hcr
    injection hcr with hB
    subst hB
    rw [signedPost_drop_payload _ _ _ hpk (s.siglen _ _)] at hver
    exact ROLE_POST_toJSON_badsig s _ (tampered_verify_false s publicKey _ _ i b hpk
      (s.siglen _ _) hi hver)
  · intro s publicKey secretKey links channel timestamp recipients action reason privacy i b B hpk hsk hl hrcp ha1 ha2 hch hrs hrl hkey hcr hi hiB hver
    rw [ MODERATION_POST_create_eq s publicKey secretKey links channel timestamp
      recipients action reason privacy hpk hsk hl hrcp ⟨ha1, ha2⟩ hch hrs hrl hkey] at hcr
    injection hcr with hB
    subst hB
    rw [signedPost_drop_payload _ _ _ hpk (s.siglen _ _)] at hver
    exact MODERATION_POST_toJSON_badsig s _ (tampered_verify_false s publicKey _ _ i b hpk
      (s.siglen _ _) hi hver)
  · intro s publicKey secretKey links timestamp recipients drop notify reason privacy i b B hpk hsk hl hrcp hrs hrl hkey hcr hi hiB hver
    rw [BLOCK_POST_create_eq s publicKey secretKey links timestamp recipients
      drop notify reason privacy hpk hsk hl hrcp hrs hrl hkey] at hcr
    injection hcr with hB
    subst hB
    rw [signedPost_drop_payload _ _ _ hpk (s.siglen _ _)] at hver
    exact BLOCK_POST_toJSON_badsig s _ (tampered_verify_false s publicKey _ _ i b hpk
      (s.siglen _ _) hi hver)
  · intro publicKey secretKey links recipients hpk hsk hl hrcp
    have hbs1 : isBufferSize publicKey constants.PUBLICKEY_SIZE = true := by
      simp [isBufferSize, hpk]
    have hbs2 : isBufferSize secretKey constants.SECRETKEY_SIZE = true := by
      simp [isBufferSize, hsk]
    have hah : isArrayHashes links = true := by
      simp only [isArrayHashes, List.all_eq_true]
      intro x hx
      simp [isBufferSize, hl x hx]
    have hapk : isArrayPublicKeys recipients = true := by
      simp only [isArrayPublicKeys, List.all_eq_true]
      intro x hx
      simp [isBufferSize, hrcp x hx]
    unfold UNBLOCK_POST.create
    rw [hbs1, hbs2, hah, hapk]
    simp

theorem claim_C7_witness :
    TEXT_POST.toJSON witScheme ((List.replicate 32 0 ++ ([0, 0, 0, 1, 99, 0] ++
        (List.replicate 58 0 ++ [0, 0, 0, 1, 99, 0]))).set 96 1) =
      .threw .badSignature ∧
    UNBLOCK_POST.create (List.replicate 32 0) (List.replicate 64 0) []
        [List.replicate 32 1] = .threw (.referenceError "notify") :=
  ⟨claim_C7.1 witScheme (List.replicate 32 0) (List.replicate 64 0) [] [99] 0 []
     96 1 (List.replicate 32 0 ++ ([0, 0, 0, 1, 99, 0] ++
       (List.replicate 58 0 ++ [0, 0, 0, 1, 99, 0])))
     (by decide) (by decide) (by decide) (by decide) (by decide) (by decide)
     (by decide) (by decide) (by decide) (by decide),
   claim_C7.2.2.2.2.2.2.2.2.2 (List.replicate 32 0) (List.replicate 64 0) []
     [List.replicate 32 1] (by decide) (by decide) (by decide) (by decide)⟩

end Cable
